import Mathlib

/-!
# Body-ball simulation of the avatar (interface/src/avatar/Avatar.cpp)

A shallow embedding of the body-ball spring simulation, the arm IK, the
sphere collision and the rescale handler of Avatar.cpp.

Numbers: the C++ float is embedded as an element of a linearly ordered
field K, whose four operations are exact.  The square root behind
glm::length is a parameter and need not be exact: what is proved for every
Ext holds whatever the computed length is, a length that rounds or
underflows included; what needs an exact square root says so (ExactSqrt).
Functions of libraries and of files that are not part of the sources at hand
(the square root behind glm::length, the Euler-angle quaternion constructor,
rotationBetween, the Skeleton methods, constants of absent headers) are
fields of the structure Ext.  Arrays indexed by a C++ int are total functions
on Int: the cells 0 .. NUM - 1 are the array, and an index outside that range
addresses a cell outside the array.
-/

set_option linter.unusedSectionVars false
set_option linter.unusedVariables false

namespace Hifi

/-! ## glm vectors and quaternions -/

/-- The type glm::vec3. -/
@[ext]
structure Vec3 (K : Type) where
  x : K
  y : K
  z : K
deriving DecidableEq

/-- The type glm::quat, components w, x, y, z. -/
@[ext]
structure Quat (K : Type) where
  w : K
  x : K
  y : K
  z : K
deriving DecidableEq

section VecOps

variable {K : Type} [LinearOrderedField K]

instance : Zero (Vec3 K) := ⟨⟨0, 0, 0⟩⟩

instance : Add (Vec3 K) := ⟨fun a b => ⟨a.x + b.x, a.y + b.y, a.z + b.z⟩⟩

instance : Sub (Vec3 K) := ⟨fun a b => ⟨a.x - b.x, a.y - b.y, a.z - b.z⟩⟩

/-- The glm operator vec3 * float. -/
instance : HMul (Vec3 K) K (Vec3 K) := ⟨fun a k => ⟨a.x * k, a.y * k, a.z * k⟩⟩

/-- The glm operator vec3 / float. -/
instance : HDiv (Vec3 K) K (Vec3 K) := ⟨fun a k => ⟨a.x / k, a.y / k, a.z / k⟩⟩

/-- The function glm::dot. -/
def dot (a b : Vec3 K) : K := a.x * b.x + a.y * b.y + a.z * b.z

/-- The function glm::cross. -/
def cross (a b : Vec3 K) : Vec3 K :=
  ⟨a.y * b.z - b.y * a.z, a.z * b.x - b.z * a.x, a.x * b.y - b.x * a.y⟩

/-- The glm operator quat * vec3 (rotation of a vector by a quaternion). -/
def Quat.rotate (q : Quat K) (v : Vec3 K) : Vec3 K :=
  let quatVector : Vec3 K := ⟨q.x, q.y, q.z⟩
  let uv := cross quatVector v
  let uuv := cross quatVector uv
  v + uv * (2 * q.w) + uuv * (2 : K)

instance : HMul (Quat K) (Vec3 K) (Vec3 K) := ⟨Quat.rotate⟩

/-- The glm operator quat * quat (Hamilton product). -/
instance : Mul (Quat K) := ⟨fun p q =>
  ⟨p.w * q.w - p.x * q.x - p.y * q.y - p.z * q.z,
   p.w * q.x + p.x * q.w + p.y * q.z - p.z * q.y,
   p.w * q.y + p.y * q.w + p.z * q.x - p.x * q.z,
   p.w * q.z + p.z * q.w + p.x * q.y - p.y * q.x⟩⟩

end VecOps

/-! ## Data model -/

/-- One joint of the skeleton (the fields of AvatarJoint that the body-ball code reads). -/
structure AvatarJoint (K : Type) where
  parent : Int
  position : Vec3 K
  rotation : Quat K
  length : K
  bindPosePosition : Vec3 K
  absoluteBindPoseRotation : Quat K

/-- The skeleton: its joint array. -/
structure Skeleton (K : Type) where
  joint : Int → AvatarJoint K

/-- One body ball (struct BodyBall of Avatar.h, as used by Avatar.cpp). -/
structure BodyBall (K : Type) where
  parentJoint : Int
  parentBall : Int
  parentOffset : Vec3 K
  position : Vec3 K
  velocity : Vec3 K
  rotation : Quat K
  radius : K
  springLength : K
  jointTightness : K
  touchForce : K
  isCollidable : Bool

/-- The part of Head that Head::getOrientation reads. -/
structure Head (K : Type) where
  _bodyRotation : Vec3 K
  _pitch : K
  _yaw : K
  _roll : K

/-- The avatar state read and written by the body-ball code. -/
structure Avatar (K : Type) where
  _position : Vec3 K
  _velocity : Vec3 K
  _bodyPitch : K
  _bodyYaw : K
  _bodyRoll : K
  _scale : K
  _newScale : K
  _head : Head K
  _skeleton : Skeleton K
  _bodyBall : Int → BodyBall K
  _ballSpringsInitialized : Bool
  _height : K
  _maxArmLength : K
  _pelvisStandingHeight : K
  _pelvisFloatingHeight : K
  _pelvisToHeadLength : K
  _reachableRadius : K

/-- What Avatar.cpp takes from libraries and from files that are absent here:
the square root of glm::length, the quaternion constructor
glm::quat(glm::radians(v)), rotationBetween of Util.cpp, the Skeleton methods
called by setScale, and constants declared in absent headers. -/
structure Ext (K : Type) where
  sqrt : K → K
  quatOfEulerDegrees : Vec3 K → Quat K
  rotationBetween : Vec3 K → Vec3 K → Quat K
  skeletonSetScale : Skeleton K → K → Skeleton K
  getHeight : Skeleton K → K
  getArmLength : Skeleton K → K
  getPelvisStandingHeight : Skeleton K → K
  getPelvisFloatingHeight : Skeleton K → K
  getPelvisToHeadLength : Skeleton K → K
  RESCALING_TOLERANCE : K
  JOINT_DIRECTION : Vec3 K
  IDENTITY_RIGHT : Vec3 K
  BODY_BALL_RADIUS_PELVIS : K
  BODY_BALL_RADIUS_TORSO : K
  BODY_BALL_RADIUS_CHEST : K
  BODY_BALL_RADIUS_NECK_BASE : K
  BODY_BALL_RADIUS_HEAD_BASE : K
  BODY_BALL_RADIUS_LEFT_COLLAR : K
  BODY_BALL_RADIUS_LEFT_SHOULDER : K
  BODY_BALL_RADIUS_LEFT_ELBOW : K
  BODY_BALL_RADIUS_LEFT_WRIST : K
  BODY_BALL_RADIUS_LEFT_FINGERTIPS : K
  BODY_BALL_RADIUS_RIGHT_COLLAR : K
  BODY_BALL_RADIUS_RIGHT_SHOULDER : K
  BODY_BALL_RADIUS_RIGHT_ELBOW : K
  BODY_BALL_RADIUS_RIGHT_WRIST : K
  BODY_BALL_RADIUS_RIGHT_FINGERTIPS : K
  BODY_BALL_RADIUS_LEFT_HIP : K
  BODY_BALL_RADIUS_LEFT_KNEE : K
  BODY_BALL_RADIUS_LEFT_HEEL : K
  BODY_BALL_RADIUS_LEFT_TOES : K
  BODY_BALL_RADIUS_RIGHT_HIP : K
  BODY_BALL_RADIUS_RIGHT_KNEE : K
  BODY_BALL_RADIUS_RIGHT_HEEL : K
  BODY_BALL_RADIUS_RIGHT_TOES : K

/-! ## Enumerations and constants -/

/-- Modelled from the spec: the enum AvatarBodyBallID is declared in the absent
header Avatar.h; the spec fixes the ball set at initialization as a flat
indexed array with none as the parent of the root.  BODY_BALL_NULL is the value
before the first ball. -/
def BODY_BALL_NULL : Int := -1

/-- Modelled from the spec: ball ids are numbered from zero in the order in
which initializeBodyBalls lists them (the enum itself is in the absent
header), the pelvis, root of the tree, first. -/
def BODY_BALL_PELVIS : Int := 0
def BODY_BALL_TORSO : Int := 1
def BODY_BALL_CHEST : Int := 2
def BODY_BALL_NECK_BASE : Int := 3
def BODY_BALL_HEAD_BASE : Int := 4
def BODY_BALL_HEAD_TOP : Int := 5
def BODY_BALL_LEFT_COLLAR : Int := 6
def BODY_BALL_LEFT_SHOULDER : Int := 7
def BODY_BALL_LEFT_ELBOW : Int := 8
def BODY_BALL_LEFT_WRIST : Int := 9
def BODY_BALL_LEFT_FINGERTIPS : Int := 10
def BODY_BALL_RIGHT_COLLAR : Int := 11
def BODY_BALL_RIGHT_SHOULDER : Int := 12
def BODY_BALL_RIGHT_ELBOW : Int := 13
def BODY_BALL_RIGHT_WRIST : Int := 14
def BODY_BALL_RIGHT_FINGERTIPS : Int := 15
def BODY_BALL_LEFT_HIP : Int := 16
def BODY_BALL_LEFT_KNEE : Int := 17
def BODY_BALL_LEFT_HEEL : Int := 18
def BODY_BALL_LEFT_TOES : Int := 19
def BODY_BALL_RIGHT_HIP : Int := 20
def BODY_BALL_RIGHT_KNEE : Int := 21
def BODY_BALL_RIGHT_HEEL : Int := 22
def BODY_BALL_RIGHT_TOES : Int := 23

/-- Modelled from the spec: the number of body balls, the count of the ids
that initializeBodyBalls names (the enum is in the absent header). -/
def NUM_AVATAR_BODY_BALLS : Nat := 24

/-- Modelled from the spec: the enum AvatarJointID is declared in the absent
header Skeleton.h; AVATAR_JOINT_NULL is the value for no joint. -/
def AVATAR_JOINT_NULL : Int := -1

/-- Modelled from the spec: joint ids follow the same order as the ball ids
they drive (the enum is in the absent header). -/
def AVATAR_JOINT_PELVIS : Int := 0
def AVATAR_JOINT_TORSO : Int := 1
def AVATAR_JOINT_CHEST : Int := 2
def AVATAR_JOINT_NECK_BASE : Int := 3
def AVATAR_JOINT_HEAD_BASE : Int := 4
def AVATAR_JOINT_HEAD_TOP : Int := 5
def AVATAR_JOINT_LEFT_COLLAR : Int := 6
def AVATAR_JOINT_LEFT_SHOULDER : Int := 7
def AVATAR_JOINT_LEFT_ELBOW : Int := 8
def AVATAR_JOINT_LEFT_WRIST : Int := 9
def AVATAR_JOINT_LEFT_FINGERTIPS : Int := 10
def AVATAR_JOINT_RIGHT_COLLAR : Int := 11
def AVATAR_JOINT_RIGHT_SHOULDER : Int := 12
def AVATAR_JOINT_RIGHT_ELBOW : Int := 13
def AVATAR_JOINT_RIGHT_WRIST : Int := 14
def AVATAR_JOINT_RIGHT_FINGERTIPS : Int := 15
def AVATAR_JOINT_LEFT_HIP : Int := 16
def AVATAR_JOINT_LEFT_KNEE : Int := 17
def AVATAR_JOINT_LEFT_HEEL : Int := 18
def AVATAR_JOINT_LEFT_TOES : Int := 19
def AVATAR_JOINT_RIGHT_HIP : Int := 20
def AVATAR_JOINT_RIGHT_KNEE : Int := 21
def AVATAR_JOINT_RIGHT_HEEL : Int := 22
def AVATAR_JOINT_RIGHT_TOES : Int := 23

section Code

variable {K : Type} [LinearOrderedField K]

def BODY_SPRING_DEFAULT_TIGHTNESS : K := 1000
def BODY_SPRING_FORCE : K := 300
def BODY_SPRING_DECAY : K := 16
def PERIPERSONAL_RADIUS : K := 1

/-- Modelled from the spec: ONE_HALF is declared in an absent header; the spec
(4.5) halves the arm vector and the pole offset. -/
def ONE_HALF : K := 1 / 2

/-- The function glm::length: the square root of the dot product of v with itself. -/
def Ext.length (E : Ext K) (v : Vec3 K) : K := E.sqrt (dot v v)

/-- The square root of E is exact: nonnegative, and squaring to its argument
on nonnegative arguments (what sqrt is over the reals). -/
def ExactSqrt (E : Ext K) : Prop :=
  ∀ x : K, 0 ≤ x → 0 ≤ E.sqrt x ∧ E.sqrt x * E.sqrt x = x

/-- Avatar::getOrientation. -/
def Avatar.getOrientation (E : Ext K) (a : Avatar K) : Quat K :=
  E.quatOfEulerDegrees ⟨a._bodyPitch, a._bodyYaw, a._bodyRoll⟩

/-- Head::getOrientation (Head.cpp). -/
def Head.getOrientation (E : Ext K) (h : Head K) : Quat K :=
  E.quatOfEulerDegrees h._bodyRotation * E.quatOfEulerDegrees ⟨h._pitch, h._yaw, h._roll⟩

/-- Modelled from the spec: getBodyRightDirection is defined in the absent
header Avatar.h; it is the right direction of the body, the avatar orientation
applied to IDENTITY_RIGHT, as Avatar.cpp computes its local vector right. -/
def Avatar.getBodyRightDirection (E : Ext K) (a : Avatar K) : Vec3 K :=
  a.getOrientation E * E.IDENTITY_RIGHT

/-- Assignment to a field of _bodyBall[i]: the ball at i is replaced by f of it. -/
def Avatar.modifyBall (a : Avatar K) (i : Int) (f : BodyBall K → BodyBall K) : Avatar K :=
  { a with _bodyBall := Function.update a._bodyBall i (f (a._bodyBall i)) }

/-- Assignment to a field of _skeleton.joint[i]. -/
def Avatar.modifyJoint (a : Avatar K) (i : Int) (f : AvatarJoint K → AvatarJoint K) : Avatar K :=
  { a with _skeleton := { a._skeleton with
      joint := Function.update a._skeleton.joint i (f (a._skeleton.joint i)) } }

/-- The loop for (int b = 0; b < NUM_AVATAR_BODY_BALLS; b++) with body f. -/
def forEachBall (f : Avatar K → Int → Avatar K) (a : Avatar K) : Avatar K :=
  (List.range NUM_AVATAR_BODY_BALLS).foldl (fun s b => f s (b : Int)) a

/-- The ball loop run over the first n balls only. -/
def forFirstBalls (n : Nat) (f : Avatar K → Int → Avatar K) (a : Avatar K) : Avatar K :=
  (List.range n).foldl (fun s b => f s (b : Int)) a

/-- The target position of ball b: the position of its parent joint plus the
rotation of that joint applied to the parent offset of the ball. -/
def Avatar.targetPosition (a : Avatar K) (b : Int) : Vec3 K :=
  (a._skeleton.joint (a._bodyBall b).parentJoint).position
    + (a._skeleton.joint (a._bodyBall b).parentJoint).rotation * (a._bodyBall b).parentOffset


/-- The first loop of initializeBodyBalls: the per-ball defaults. -/
def initializeBodyBallsDefaults (a : Avatar K) : Avatar K :=
  forEachBall (fun s b => s.modifyBall b (fun B =>
    { B with
      parentJoint := AVATAR_JOINT_NULL
      parentOffset := ⟨0, 0, 0⟩
      position := ⟨0, 0, 0⟩
      velocity := ⟨0, 0, 0⟩
      radius := 0
      touchForce := 0
      isCollidable := true
      jointTightness := BODY_SPRING_DEFAULT_TIGHTNESS })) a

/-- Assignment _bodyBall[i].radius = r. -/
def Avatar.setRadius (a : Avatar K) (i : Int) (r : K) : Avatar K :=
  a.modifyBall i (fun B => { B with radius := r })

/-- Assignment _bodyBall[i].parentJoint = j. -/
def Avatar.setParentJoint (a : Avatar K) (i : Int) (j : Int) : Avatar K :=
  a.modifyBall i (fun B => { B with parentJoint := j })

/-- Assignment _bodyBall[i].parentOffset = v. -/
def Avatar.setParentOffset (a : Avatar K) (i : Int) (v : Vec3 K) : Avatar K :=
  a.modifyBall i (fun B => { B with parentOffset := v })

/-- Assignment _bodyBall[i].parentBall = p. -/
def Avatar.setParentBall (a : Avatar K) (i : Int) (p : Int) : Avatar K :=
  a.modifyBall i (fun B => { B with parentBall := p })

/-- Avatar::initializeBodyBalls, the block that specifies the radius of each
ball (the head-top ball is not among them). -/
def initializeBodyBallsRadii (E : Ext K) (a : Avatar K) : Avatar K :=
  a
  |>.setRadius BODY_BALL_PELVIS E.BODY_BALL_RADIUS_PELVIS
  |>.setRadius BODY_BALL_TORSO E.BODY_BALL_RADIUS_TORSO
  |>.setRadius BODY_BALL_CHEST E.BODY_BALL_RADIUS_CHEST
  |>.setRadius BODY_BALL_NECK_BASE E.BODY_BALL_RADIUS_NECK_BASE
  |>.setRadius BODY_BALL_HEAD_BASE E.BODY_BALL_RADIUS_HEAD_BASE
  |>.setRadius BODY_BALL_LEFT_COLLAR E.BODY_BALL_RADIUS_LEFT_COLLAR
  |>.setRadius BODY_BALL_LEFT_SHOULDER E.BODY_BALL_RADIUS_LEFT_SHOULDER
  |>.setRadius BODY_BALL_LEFT_ELBOW E.BODY_BALL_RADIUS_LEFT_ELBOW
  |>.setRadius BODY_BALL_LEFT_WRIST E.BODY_BALL_RADIUS_LEFT_WRIST
  |>.setRadius BODY_BALL_LEFT_FINGERTIPS E.BODY_BALL_RADIUS_LEFT_FINGERTIPS
  |>.setRadius BODY_BALL_RIGHT_COLLAR E.BODY_BALL_RADIUS_RIGHT_COLLAR
  |>.setRadius BODY_BALL_RIGHT_SHOULDER E.BODY_BALL_RADIUS_RIGHT_SHOULDER
  |>.setRadius BODY_BALL_RIGHT_ELBOW E.BODY_BALL_RADIUS_RIGHT_ELBOW
  |>.setRadius BODY_BALL_RIGHT_WRIST E.BODY_BALL_RADIUS_RIGHT_WRIST
  |>.setRadius BODY_BALL_RIGHT_FINGERTIPS E.BODY_BALL_RADIUS_RIGHT_FINGERTIPS
  |>.setRadius BODY_BALL_LEFT_HIP E.BODY_BALL_RADIUS_LEFT_HIP
  |>.setRadius BODY_BALL_LEFT_KNEE E.BODY_BALL_RADIUS_LEFT_KNEE
  |>.setRadius BODY_BALL_LEFT_HEEL E.BODY_BALL_RADIUS_LEFT_HEEL
  |>.setRadius BODY_BALL_LEFT_TOES E.BODY_BALL_RADIUS_LEFT_TOES
  |>.setRadius BODY_BALL_RIGHT_HIP E.BODY_BALL_RADIUS_RIGHT_HIP
  |>.setRadius BODY_BALL_RIGHT_KNEE E.BODY_BALL_RADIUS_RIGHT_KNEE
  |>.setRadius BODY_BALL_RIGHT_HEEL E.BODY_BALL_RADIUS_RIGHT_HEEL
  |>.setRadius BODY_BALL_RIGHT_TOES E.BODY_BALL_RADIUS_RIGHT_TOES

/-- Avatar::initializeBodyBalls, the block that specifies the parent joint of each ball. -/
def initializeBodyBallsParentJoints (a : Avatar K) : Avatar K :=
  a
  |>.setParentJoint BODY_BALL_PELVIS AVATAR_JOINT_PELVIS
  |>.setParentJoint BODY_BALL_TORSO AVATAR_JOINT_TORSO
  |>.setParentJoint BODY_BALL_CHEST AVATAR_JOINT_CHEST
  |>.setParentJoint BODY_BALL_NECK_BASE AVATAR_JOINT_NECK_BASE
  |>.setParentJoint BODY_BALL_HEAD_BASE AVATAR_JOINT_HEAD_BASE
  |>.setParentJoint BODY_BALL_HEAD_TOP AVATAR_JOINT_HEAD_TOP
  |>.setParentJoint BODY_BALL_LEFT_COLLAR AVATAR_JOINT_LEFT_COLLAR
  |>.setParentJoint BODY_BALL_LEFT_SHOULDER AVATAR_JOINT_LEFT_SHOULDER
  |>.setParentJoint BODY_BALL_LEFT_ELBOW AVATAR_JOINT_LEFT_ELBOW
  |>.setParentJoint BODY_BALL_LEFT_WRIST AVATAR_JOINT_LEFT_WRIST
  |>.setParentJoint BODY_BALL_LEFT_FINGERTIPS AVATAR_JOINT_LEFT_FINGERTIPS
  |>.setParentJoint BODY_BALL_RIGHT_COLLAR AVATAR_JOINT_RIGHT_COLLAR
  |>.setParentJoint BODY_BALL_RIGHT_SHOULDER AVATAR_JOINT_RIGHT_SHOULDER
  |>.setParentJoint BODY_BALL_RIGHT_ELBOW AVATAR_JOINT_RIGHT_ELBOW
  |>.setParentJoint BODY_BALL_RIGHT_WRIST AVATAR_JOINT_RIGHT_WRIST
  |>.setParentJoint BODY_BALL_RIGHT_FINGERTIPS AVATAR_JOINT_RIGHT_FINGERTIPS
  |>.setParentJoint BODY_BALL_LEFT_HIP AVATAR_JOINT_LEFT_HIP
  |>.setParentJoint BODY_BALL_LEFT_KNEE AVATAR_JOINT_LEFT_KNEE
  |>.setParentJoint BODY_BALL_LEFT_HEEL AVATAR_JOINT_LEFT_HEEL
  |>.setParentJoint BODY_BALL_LEFT_TOES AVATAR_JOINT_LEFT_TOES
  |>.setParentJoint BODY_BALL_RIGHT_HIP AVATAR_JOINT_RIGHT_HIP
  |>.setParentJoint BODY_BALL_RIGHT_KNEE AVATAR_JOINT_RIGHT_KNEE
  |>.setParentJoint BODY_BALL_RIGHT_HEEL AVATAR_JOINT_RIGHT_HEEL
  |>.setParentJoint BODY_BALL_RIGHT_TOES AVATAR_JOINT_RIGHT_TOES

/-- Avatar::initializeBodyBalls, the block that specifies the parent offset of each ball. -/
def initializeBodyBallsParentOffsets (a : Avatar K) : Avatar K :=
  a
  |>.setParentOffset BODY_BALL_PELVIS ⟨0, 0, 0⟩
  |>.setParentOffset BODY_BALL_TORSO ⟨0, 0, 0⟩
  |>.setParentOffset BODY_BALL_CHEST ⟨0, 0, 0⟩
  |>.setParentOffset BODY_BALL_NECK_BASE ⟨0, 0, 0⟩
  |>.setParentOffset BODY_BALL_HEAD_BASE ⟨0, 0, 0⟩
  |>.setParentOffset BODY_BALL_HEAD_TOP ⟨0, 0, 0⟩
  |>.setParentOffset BODY_BALL_LEFT_COLLAR ⟨0, 0, 0⟩
  |>.setParentOffset BODY_BALL_LEFT_SHOULDER ⟨0, 0, 0⟩
  |>.setParentOffset BODY_BALL_LEFT_ELBOW ⟨0, 0, 0⟩
  |>.setParentOffset BODY_BALL_LEFT_WRIST ⟨0, 0, 0⟩
  |>.setParentOffset BODY_BALL_LEFT_FINGERTIPS ⟨0, 0, 0⟩
  |>.setParentOffset BODY_BALL_RIGHT_COLLAR ⟨0, 0, 0⟩
  |>.setParentOffset BODY_BALL_RIGHT_SHOULDER ⟨0, 0, 0⟩
  |>.setParentOffset BODY_BALL_RIGHT_ELBOW ⟨0, 0, 0⟩
  |>.setParentOffset BODY_BALL_RIGHT_WRIST ⟨0, 0, 0⟩
  |>.setParentOffset BODY_BALL_RIGHT_FINGERTIPS ⟨0, 0, 0⟩
  |>.setParentOffset BODY_BALL_LEFT_HIP ⟨0, 0, 0⟩
  |>.setParentOffset BODY_BALL_LEFT_KNEE ⟨0, 0, 0⟩
  |>.setParentOffset BODY_BALL_LEFT_HEEL ⟨0, 0, 0⟩
  |>.setParentOffset BODY_BALL_LEFT_TOES ⟨0, 0, 0⟩
  |>.setParentOffset BODY_BALL_RIGHT_HIP ⟨0, 0, 0⟩
  |>.setParentOffset BODY_BALL_RIGHT_KNEE ⟨0, 0, 0⟩
  |>.setParentOffset BODY_BALL_RIGHT_HEEL ⟨0, 0, 0⟩
  |>.setParentOffset BODY_BALL_RIGHT_TOES ⟨0, 0, 0⟩

/-- Avatar::initializeBodyBalls, the block that specifies the parent ball of each ball. -/
def initializeBodyBallsParentBalls (a : Avatar K) : Avatar K :=
  a
  |>.setParentBall BODY_BALL_PELVIS BODY_BALL_NULL
  |>.setParentBall BODY_BALL_TORSO BODY_BALL_PELVIS
  |>.setParentBall BODY_BALL_CHEST BODY_BALL_TORSO
  |>.setParentBall BODY_BALL_NECK_BASE BODY_BALL_CHEST
  |>.setParentBall BODY_BALL_HEAD_BASE BODY_BALL_NECK_BASE
  |>.setParentBall BODY_BALL_HEAD_TOP BODY_BALL_HEAD_BASE
  |>.setParentBall BODY_BALL_LEFT_COLLAR BODY_BALL_CHEST
  |>.setParentBall BODY_BALL_LEFT_SHOULDER BODY_BALL_LEFT_COLLAR
  |>.setParentBall BODY_BALL_LEFT_ELBOW BODY_BALL_LEFT_SHOULDER
  |>.setParentBall BODY_BALL_LEFT_WRIST BODY_BALL_LEFT_ELBOW
  |>.setParentBall BODY_BALL_LEFT_FINGERTIPS BODY_BALL_LEFT_WRIST
  |>.setParentBall BODY_BALL_RIGHT_COLLAR BODY_BALL_CHEST
  |>.setParentBall BODY_BALL_RIGHT_SHOULDER BODY_BALL_RIGHT_COLLAR
  |>.setParentBall BODY_BALL_RIGHT_ELBOW BODY_BALL_RIGHT_SHOULDER
  |>.setParentBall BODY_BALL_RIGHT_WRIST BODY_BALL_RIGHT_ELBOW
  |>.setParentBall BODY_BALL_RIGHT_FINGERTIPS BODY_BALL_RIGHT_WRIST
  |>.setParentBall BODY_BALL_LEFT_HIP BODY_BALL_PELVIS
  |>.setParentBall BODY_BALL_LEFT_KNEE BODY_BALL_LEFT_HIP
  |>.setParentBall BODY_BALL_LEFT_HEEL BODY_BALL_LEFT_KNEE
  |>.setParentBall BODY_BALL_LEFT_TOES BODY_BALL_LEFT_HEEL
  |>.setParentBall BODY_BALL_RIGHT_HIP BODY_BALL_PELVIS
  |>.setParentBall BODY_BALL_RIGHT_KNEE BODY_BALL_RIGHT_HIP
  |>.setParentBall BODY_BALL_RIGHT_HEEL BODY_BALL_RIGHT_KNEE
  |>.setParentBall BODY_BALL_RIGHT_TOES BODY_BALL_RIGHT_HEEL

/-- Avatar::initializeBodyBalls. -/
def initializeBodyBalls (E : Ext K) (a : Avatar K) : Avatar K :=
  let a := { a with _ballSpringsInitialized := false }
  let a := initializeBodyBallsDefaults a
  let a := initializeBodyBallsRadii E a
  let a := initializeBodyBallsParentJoints a
  let a := initializeBodyBallsParentOffsets a
  initializeBodyBallsParentBalls a

/-- The constructor Avatar::Avatar, as far as the body balls, the scale and the
cached extents go: _scale is 1, the balls are initialized, the extents are
read from the skeleton. -/
def constructAvatar (E : Ext K) (a : Avatar K) : Avatar K :=
  let a := { a with
    _ballSpringsInitialized := false
    _velocity := ⟨0, 0, 0⟩
    _pelvisFloatingHeight := 0
    _scale := 1
    _maxArmLength := 0
    _pelvisStandingHeight := 0 }
  let a := initializeBodyBalls E a
  let a := { a with _height := E.getHeight a._skeleton
    + (a._bodyBall BODY_BALL_LEFT_HEEL).radius + (a._bodyBall BODY_BALL_HEAD_BASE).radius }
  let a := { a with _maxArmLength := E.getArmLength a._skeleton }
  let a := { a with _pelvisStandingHeight :=
    E.getPelvisStandingHeight a._skeleton + (a._bodyBall BODY_BALL_LEFT_HEEL).radius }
  let a := { a with _pelvisFloatingHeight :=
    E.getPelvisFloatingHeight a._skeleton + (a._bodyBall BODY_BALL_LEFT_HEEL).radius }
  let a := { a with _pelvisToHeadLength := E.getPelvisToHeadLength a._skeleton }
  { a with _reachableRadius := PERIPERSONAL_RADIUS }

/-- Assignment _bodyBall[i].radius = _scale * base. -/
def Avatar.scaleRadius (a : Avatar K) (i : Int) (base : K) : Avatar K :=
  a.setRadius i (a._scale * base)

/-- Avatar::setScale, the block that specifies the new radius of each ball (the
head-top ball is not among them). -/
def setScaleRadii (E : Ext K) (a : Avatar K) : Avatar K :=
  a
  |>.scaleRadius BODY_BALL_PELVIS E.BODY_BALL_RADIUS_PELVIS
  |>.scaleRadius BODY_BALL_TORSO E.BODY_BALL_RADIUS_TORSO
  |>.scaleRadius BODY_BALL_CHEST E.BODY_BALL_RADIUS_CHEST
  |>.scaleRadius BODY_BALL_NECK_BASE E.BODY_BALL_RADIUS_NECK_BASE
  |>.scaleRadius BODY_BALL_HEAD_BASE E.BODY_BALL_RADIUS_HEAD_BASE
  |>.scaleRadius BODY_BALL_LEFT_COLLAR E.BODY_BALL_RADIUS_LEFT_COLLAR
  |>.scaleRadius BODY_BALL_LEFT_SHOULDER E.BODY_BALL_RADIUS_LEFT_SHOULDER
  |>.scaleRadius BODY_BALL_LEFT_ELBOW E.BODY_BALL_RADIUS_LEFT_ELBOW
  |>.scaleRadius BODY_BALL_LEFT_WRIST E.BODY_BALL_RADIUS_LEFT_WRIST
  |>.scaleRadius BODY_BALL_LEFT_FINGERTIPS E.BODY_BALL_RADIUS_LEFT_FINGERTIPS
  |>.scaleRadius BODY_BALL_RIGHT_COLLAR E.BODY_BALL_RADIUS_RIGHT_COLLAR
  |>.scaleRadius BODY_BALL_RIGHT_SHOULDER E.BODY_BALL_RADIUS_RIGHT_SHOULDER
  |>.scaleRadius BODY_BALL_RIGHT_ELBOW E.BODY_BALL_RADIUS_RIGHT_ELBOW
  |>.scaleRadius BODY_BALL_RIGHT_WRIST E.BODY_BALL_RADIUS_RIGHT_WRIST
  |>.scaleRadius BODY_BALL_RIGHT_FINGERTIPS E.BODY_BALL_RADIUS_RIGHT_FINGERTIPS
  |>.scaleRadius BODY_BALL_LEFT_HIP E.BODY_BALL_RADIUS_LEFT_HIP
  |>.scaleRadius BODY_BALL_LEFT_KNEE E.BODY_BALL_RADIUS_LEFT_KNEE
  |>.scaleRadius BODY_BALL_LEFT_HEEL E.BODY_BALL_RADIUS_LEFT_HEEL
  |>.scaleRadius BODY_BALL_LEFT_TOES E.BODY_BALL_RADIUS_LEFT_TOES
  |>.scaleRadius BODY_BALL_RIGHT_HIP E.BODY_BALL_RADIUS_RIGHT_HIP
  |>.scaleRadius BODY_BALL_RIGHT_KNEE E.BODY_BALL_RADIUS_RIGHT_KNEE
  |>.scaleRadius BODY_BALL_RIGHT_HEEL E.BODY_BALL_RADIUS_RIGHT_HEEL
  |>.scaleRadius BODY_BALL_RIGHT_TOES E.BODY_BALL_RADIUS_RIGHT_TOES

/-- Avatar::setScale. -/
def setScale (E : Ext K) (a : Avatar K) (scale : K) : Avatar K :=
  let a := { a with _scale := scale }
  let a := if a._newScale * (1 - E.RESCALING_TOLERANCE) < a._scale ∧
      a._scale < a._newScale * (1 + E.RESCALING_TOLERANCE)
    then { a with _scale := a._newScale } else a
  let a := { a with _skeleton := E.skeletonSetScale a._skeleton a._scale }
  let a := setScaleRadii E a
  let a := { a with _height := E.getHeight a._skeleton
    + (a._bodyBall BODY_BALL_LEFT_HEEL).radius + (a._bodyBall BODY_BALL_HEAD_BASE).radius }
  let a := { a with _maxArmLength := E.getArmLength a._skeleton }
  let a := { a with _pelvisStandingHeight :=
    E.getPelvisStandingHeight a._skeleton + (a._bodyBall BODY_BALL_LEFT_HEEL).radius }
  let a := { a with _pelvisFloatingHeight :=
    E.getPelvisFloatingHeight a._skeleton + (a._bodyBall BODY_BALL_LEFT_HEEL).radius }
  let a := { a with _pelvisToHeadLength := E.getPelvisToHeadLength a._skeleton }
  { a with _reachableRadius := a._scale * PERIPERSONAL_RADIUS }

/-- Avatar::resetBodyBalls. -/
def resetBodyBalls (a : Avatar K) : Avatar K :=
  forEachBall (fun s b =>
    let targetPosition := s.targetPosition b
    s.modifyBall b (fun B => { B with position := targetPosition, velocity := ⟨0, 0, 0⟩ })) a

/-- The spring part of the loop body of updateBodyBalls for ball b: the state
after the spring forces, with the locals springVector and length. -/
def applySpringForces (E : Ext K) (deltaTime : K) (a : Avatar K) (b : Int) :
    Avatar K × Vec3 K × K :=
  if a._ballSpringsInitialized then
    let springVector := (a._bodyBall b).position
    let springVector :=
      if b = BODY_BALL_PELVIS then springVector - a._position
      else springVector - (a._bodyBall (a._bodyBall b).parentBall).position
    let length := E.length springVector
    if length > 0 then
      let springDirection := springVector / length
      let force := (length - (a._skeleton.joint b).length) * BODY_SPRING_FORCE * deltaTime
      let a := a.modifyBall b (fun B => { B with velocity := B.velocity - springDirection * force })
      let a :=
        if (a._bodyBall b).parentBall ≠ BODY_BALL_NULL then
          a.modifyBall (a._bodyBall b).parentBall
            (fun B => { B with velocity := B.velocity + springDirection * force })
        else a
      (a, springVector, length)
    else (a, springVector, length)
  else (a, 0, 0)

/-- The loop body of updateBodyBalls for ball b. -/
def updateBodyBall (E : Ext K) (deltaTime : K) (orientation : Quat K) (a : Avatar K) (b : Int) :
    Avatar K :=
  let (a, springVector, length) := applySpringForces E deltaTime a b
  -- apply tightness force
  let targetPosition := a.targetPosition b
  let a := a.modifyBall b (fun B =>
    { B with velocity := B.velocity + (targetPosition - B.position) * B.jointTightness * deltaTime })
  -- apply decay
  let decay : K := 1 - BODY_SPRING_DECAY * deltaTime
  let a :=
    if decay > 0 then a.modifyBall b (fun B => { B with velocity := B.velocity * decay })
    else a.modifyBall b (fun B => { B with velocity := ⟨0, 0, 0⟩ })
  -- update position by velocity
  let a := a.modifyBall b (fun B => { B with position := B.position + B.velocity * deltaTime })
  -- update rotation
  let SMALL_SPRING_LENGTH : K := 1 / 1000
  if (a._skeleton.joint b).parent = AVATAR_JOINT_NULL ∨ length < SMALL_SPRING_LENGTH then
    let newRotation :=
      orientation * (a._skeleton.joint (a._bodyBall b).parentJoint).absoluteBindPoseRotation
    a.modifyBall b (fun B => { B with rotation := newRotation })
  else
    let parentDirection := (a._bodyBall (a._bodyBall b).parentBall).rotation * E.JOINT_DIRECTION
    let newRotation := E.rotationBetween parentDirection springVector
      * (a._bodyBall (a._bodyBall b).parentBall).rotation
    a.modifyBall b (fun B => { B with rotation := newRotation })

/-- The end of updateBodyBalls: the two head balls take the rotation of the
head and are placed from the neck ball. -/
def copyHeadRotation (E : Ext K) (a : Avatar K) : Avatar K :=
  let headOrientation := a._head.getOrientation E
  let a := a.modifyBall BODY_BALL_HEAD_TOP (fun B => { B with rotation := headOrientation })
  let a := a.modifyBall BODY_BALL_HEAD_BASE (fun B =>
    { B with rotation := (a._bodyBall BODY_BALL_HEAD_TOP).rotation })
  let a := a.modifyBall BODY_BALL_HEAD_BASE (fun B => { B with position :=
    (a._bodyBall BODY_BALL_NECK_BASE).position
      + (a._bodyBall BODY_BALL_HEAD_BASE).rotation
        * (a._skeleton.joint BODY_BALL_HEAD_BASE).bindPosePosition })
  a.modifyBall BODY_BALL_HEAD_TOP (fun B => { B with position :=
    (a._bodyBall BODY_BALL_HEAD_BASE).position
      + (a._bodyBall BODY_BALL_HEAD_TOP).rotation
        * (a._skeleton.joint BODY_BALL_HEAD_TOP).bindPosePosition })

/-- The part of updateBodyBalls after the teleport check: the per-ball loop and
the head balls. -/
def integrateBodyBalls (E : Ext K) (a : Avatar K) (deltaTime : K) : Avatar K :=
  let orientation := a.getOrientation E
  let a := forEachBall (updateBodyBall E deltaTime orientation) a
  copyHeadRotation E a

/-- The teleport check of updateBodyBalls: the avatar is further from the
pelvis ball than BEYOND_BODY_SPRING_RANGE. -/
def beyondBodySpringRange (E : Ext K) (a : Avatar K) : Prop :=
  E.length (a._position - (a._bodyBall BODY_BALL_PELVIS).position) > a._scale * 2

instance (E : Ext K) (a : Avatar K) : Decidable (beyondBodySpringRange E a) := by
  unfold beyondBodySpringRange; infer_instance

/-- Avatar::updateBodyBalls. -/
def updateBodyBalls (E : Ext K) (a : Avatar K) (deltaTime : K) : Avatar K :=
  let a := if beyondBodySpringRange E a then resetBodyBalls a else a
  integrateBodyBalls E a deltaTime

/-- Avatar::updateArmIKAndConstraints (deltaTime is not used by the body). -/
def updateArmIKAndConstraints (E : Ext K) (a : Avatar K) : Avatar K :=
  -- determine the arm vector
  let armVector := (a._skeleton.joint AVATAR_JOINT_RIGHT_FINGERTIPS).position
  let armVector := armVector - (a._skeleton.joint AVATAR_JOINT_RIGHT_SHOULDER).position
  let distance := E.length armVector
  let (a, armVector, distance) :=
    if distance > a._maxArmLength then
      let a := a.modifyJoint AVATAR_JOINT_RIGHT_FINGERTIPS (fun J =>
        { J with position := (a._skeleton.joint AVATAR_JOINT_RIGHT_SHOULDER).position })
      let armNormal := armVector / distance
      let armVector := armNormal * a._maxArmLength
      let distance := a._maxArmLength
      let constrainedPosition := (a._skeleton.joint AVATAR_JOINT_RIGHT_SHOULDER).position
      let constrainedPosition := constrainedPosition + armVector
      let a := a.modifyJoint AVATAR_JOINT_RIGHT_FINGERTIPS (fun J =>
        { J with position := constrainedPosition })
      (a, armVector, distance)
    else (a, armVector, distance)
  -- set elbow position
  let newElbowPosition :=
    (a._skeleton.joint AVATAR_JOINT_RIGHT_SHOULDER).position + armVector * (ONE_HALF : K)
  let perpendicular := cross (a.getBodyRightDirection E) armVector
  let newElbowPosition :=
    newElbowPosition + perpendicular * (1 - a._maxArmLength / distance) * (ONE_HALF : K)
  let a := a.modifyJoint AVATAR_JOINT_RIGHT_ELBOW (fun J => { J with position := newElbowPosition })
  -- set wrist position
  let vv := (a._skeleton.joint AVATAR_JOINT_RIGHT_FINGERTIPS).position
  let vv := vv - (a._skeleton.joint AVATAR_JOINT_RIGHT_ELBOW).position
  let newWristPosition := (a._skeleton.joint AVATAR_JOINT_RIGHT_ELBOW).position + vv * (7 / 10 : K)
  a.modifyJoint AVATAR_JOINT_RIGHT_WRIST (fun J => { J with position := newWristPosition })

/-- The loop body of updateCollisionWithSphere for ball b. -/
def collideBallWithSphere (E : Ext K) (position : Vec3 K) (radius deltaTime : K)
    (a : Avatar K) (b : Int) : Avatar K :=
  let vectorFromBallToBigSphereCenter := (a._bodyBall b).position - position
  let distanceToBigSphereCenter := E.length vectorFromBallToBigSphereCenter
  let combinedRadius := (a._bodyBall b).radius + radius
  if distanceToBigSphereCenter < combinedRadius then
    if distanceToBigSphereCenter > 0 then
      let directionVector := vectorFromBallToBigSphereCenter / distanceToBigSphereCenter
      let penetration := 1 - distanceToBigSphereCenter / combinedRadius
      let collisionForce := vectorFromBallToBigSphereCenter * penetration
      let a := { a with _velocity := a._velocity + collisionForce * (40 : K) * deltaTime }
      a.modifyBall b (fun B => { B with position := position + directionVector * combinedRadius })
    else a
  else a

/-- Avatar::updateCollisionWithSphere. -/
def updateCollisionWithSphere (E : Ext K) (a : Avatar K) (position : Vec3 K)
    (radius deltaTime : K) : Avatar K :=
  let myBodyApproximateBoundingRadius : K := 1
  let vectorFromMyBodyToBigSphere := a._position - position
  let distanceToBigSphere := E.length vectorFromMyBodyToBigSphere
  if distanceToBigSphere < myBodyApproximateBoundingRadius + radius then
    forEachBall (collideBallWithSphere E position radius deltaTime) a
  else a

/-! ## Auxiliary definitions for the statements -/

/-- The base radius of ball b: the BODY_BALL_RADIUS constant that
initializeBodyBalls and setScale use for it.  The head-top ball has none:
its radius is the 0.0 of the first loop of initializeBodyBalls. -/
def Ext.baseRadius (E : Ext K) (b : Int) : K :=
  if b = BODY_BALL_PELVIS then E.BODY_BALL_RADIUS_PELVIS
  else if b = BODY_BALL_TORSO then E.BODY_BALL_RADIUS_TORSO
  else if b = BODY_BALL_CHEST then E.BODY_BALL_RADIUS_CHEST
  else if b = BODY_BALL_NECK_BASE then E.BODY_BALL_RADIUS_NECK_BASE
  else if b = BODY_BALL_HEAD_BASE then E.BODY_BALL_RADIUS_HEAD_BASE
  else if b = BODY_BALL_LEFT_COLLAR then E.BODY_BALL_RADIUS_LEFT_COLLAR
  else if b = BODY_BALL_LEFT_SHOULDER then E.BODY_BALL_RADIUS_LEFT_SHOULDER
  else if b = BODY_BALL_LEFT_ELBOW then E.BODY_BALL_RADIUS_LEFT_ELBOW
  else if b = BODY_BALL_LEFT_WRIST then E.BODY_BALL_RADIUS_LEFT_WRIST
  else if b = BODY_BALL_LEFT_FINGERTIPS then E.BODY_BALL_RADIUS_LEFT_FINGERTIPS
  else if b = BODY_BALL_RIGHT_COLLAR then E.BODY_BALL_RADIUS_RIGHT_COLLAR
  else if b = BODY_BALL_RIGHT_SHOULDER then E.BODY_BALL_RADIUS_RIGHT_SHOULDER
  else if b = BODY_BALL_RIGHT_ELBOW then E.BODY_BALL_RADIUS_RIGHT_ELBOW
  else if b = BODY_BALL_RIGHT_WRIST then E.BODY_BALL_RADIUS_RIGHT_WRIST
  else if b = BODY_BALL_RIGHT_FINGERTIPS then E.BODY_BALL_RADIUS_RIGHT_FINGERTIPS
  else if b = BODY_BALL_LEFT_HIP then E.BODY_BALL_RADIUS_LEFT_HIP
  else if b = BODY_BALL_LEFT_KNEE then E.BODY_BALL_RADIUS_LEFT_KNEE
  else if b = BODY_BALL_LEFT_HEEL then E.BODY_BALL_RADIUS_LEFT_HEEL
  else if b = BODY_BALL_LEFT_TOES then E.BODY_BALL_RADIUS_LEFT_TOES
  else if b = BODY_BALL_RIGHT_HIP then E.BODY_BALL_RADIUS_RIGHT_HIP
  else if b = BODY_BALL_RIGHT_KNEE then E.BODY_BALL_RADIUS_RIGHT_KNEE
  else if b = BODY_BALL_RIGHT_HEEL then E.BODY_BALL_RADIUS_RIGHT_HEEL
  else if b = BODY_BALL_RIGHT_TOES then E.BODY_BALL_RADIUS_RIGHT_TOES
  else 0

/-- The test of setScale for snapping the stored scale to _newScale. -/
def withinRescalingTolerance (E : Ext K) (newScale scale : K) : Prop :=
  newScale * (1 - E.RESCALING_TOLERANCE) < scale ∧ scale < newScale * (1 + E.RESCALING_TOLERANCE)

instance (E : Ext K) (n s : K) : Decidable (withinRescalingTolerance E n s) := by
  unfold withinRescalingTolerance; infer_instance

/-- The fields of a ball that the simulation never writes after initialization
are the same in B and in B2. -/
def BodyBall.SameStatics (B B2 : BodyBall K) : Prop :=
  B2.parentJoint = B.parentJoint ∧ B2.parentBall = B.parentBall
    ∧ B2.parentOffset = B.parentOffset ∧ B2.radius = B.radius
    ∧ B2.springLength = B.springLength ∧ B2.jointTightness = B.jointTightness
    ∧ B2.touchForce = B.touchForce ∧ B2.isCollidable = B.isCollidable

/-- The state t differs from s at most in the avatar velocity and in the
position, velocity and rotation of balls. -/
def Avatar.Frame (s t : Avatar K) : Prop :=
  t._position = s._position ∧ t._bodyPitch = s._bodyPitch ∧ t._bodyYaw = s._bodyYaw
    ∧ t._bodyRoll = s._bodyRoll ∧ t._scale = s._scale ∧ t._newScale = s._newScale
    ∧ t._head = s._head ∧ t._skeleton = s._skeleton
    ∧ t._ballSpringsInitialized = s._ballSpringsInitialized
    ∧ ∀ c : Int, (s._bodyBall c).SameStatics (t._bodyBall c)

/-- The radius invariant: every ball has its base radius times the stored scale. -/
def RadiusInvariant (E : Ext K) (a : Avatar K) : Prop :=
  ∀ b : Int, 0 ≤ b ∧ b < (NUM_AVATAR_BODY_BALLS : Int) →
    (a._bodyBall b).radius = E.baseRadius b * a._scale

/-! ## Concrete inputs -/

/-- The identity quaternion. -/
def Quat.identity : Quat K := ⟨1, 0, 0, 0⟩

/-- A joint at v with identity rotation, no parent and zero length. -/
def jointAt (v : Vec3 K) : AvatarJoint K :=
  { parent := AVATAR_JOINT_NULL
    position := v
    rotation := Quat.identity
    length := 0
    bindPosePosition := ⟨0, 0, 0⟩
    absoluteBindPoseRotation := Quat.identity }

/-- A ball at v of radius r, at rest, driven by joint j, with parent ball p. -/
def ballAt (v : Vec3 K) (r : K) (j p : Int) : BodyBall K :=
  { parentJoint := j
    parentBall := p
    parentOffset := ⟨0, 0, 0⟩
    position := v
    velocity := ⟨0, 0, 0⟩
    rotation := Quat.identity
    radius := r
    springLength := 0
    jointTightness := BODY_SPRING_DEFAULT_TIGHTNESS
    touchForce := 0
    isCollidable := true }

/-- An externals record with the given square root: identity rotations, a
skeleton whose setScale and extents are trivial, and for the constants of the
absent headers the tolerance 0.02, the unit axes and radii in metres. -/
def sampleExt (sqrt : K → K) : Ext K :=
  { sqrt := sqrt
    quatOfEulerDegrees := fun _ => Quat.identity
    rotationBetween := fun _ _ => Quat.identity
    skeletonSetScale := fun sk _ => sk
    getHeight := fun _ => 0
    getArmLength := fun _ => 0
    getPelvisStandingHeight := fun _ => 0
    getPelvisFloatingHeight := fun _ => 0
    getPelvisToHeadLength := fun _ => 0
    RESCALING_TOLERANCE := 1 / 50
    JOINT_DIRECTION := ⟨0, 1, 0⟩
    IDENTITY_RIGHT := ⟨1, 0, 0⟩
    BODY_BALL_RADIUS_PELVIS := 7 / 100
    BODY_BALL_RADIUS_TORSO := 13 / 200
    BODY_BALL_RADIUS_CHEST := 8 / 100
    BODY_BALL_RADIUS_NECK_BASE := 3 / 100
    BODY_BALL_RADIUS_HEAD_BASE := 7 / 100
    BODY_BALL_RADIUS_LEFT_COLLAR := 4 / 100
    BODY_BALL_RADIUS_LEFT_SHOULDER := 3 / 100
    BODY_BALL_RADIUS_LEFT_ELBOW := 2 / 100
    BODY_BALL_RADIUS_LEFT_WRIST := 2 / 100
    BODY_BALL_RADIUS_LEFT_FINGERTIPS := 1 / 100
    BODY_BALL_RADIUS_RIGHT_COLLAR := 4 / 100
    BODY_BALL_RADIUS_RIGHT_SHOULDER := 3 / 100
    BODY_BALL_RADIUS_RIGHT_ELBOW := 2 / 100
    BODY_BALL_RADIUS_RIGHT_WRIST := 2 / 100
    BODY_BALL_RADIUS_RIGHT_FINGERTIPS := 1 / 100
    BODY_BALL_RADIUS_LEFT_HIP := 4 / 100
    BODY_BALL_RADIUS_LEFT_KNEE := 1 / 40
    BODY_BALL_RADIUS_LEFT_HEEL := 1 / 40
    BODY_BALL_RADIUS_LEFT_TOES := 1 / 40
    BODY_BALL_RADIUS_RIGHT_HIP := 4 / 100
    BODY_BALL_RADIUS_RIGHT_KNEE := 1 / 40
    BODY_BALL_RADIUS_RIGHT_HEEL := 1 / 40
    BODY_BALL_RADIUS_RIGHT_TOES := 1 / 40 }

/-- An avatar at the origin with scale 1: every joint is at jointPos, every
ball is at ballPos with radius ballRadius, at rest, ball b driven by joint b,
with parent ball given by parentOf; the springs are calibrated or not. -/
def sampleAvatar (jointPos ballPos : Vec3 K) (ballRadius : K) (parentOf : Int → Int)
    (calibrated : Bool) : Avatar K :=
  { _position := ⟨0, 0, 0⟩
    _velocity := ⟨0, 0, 0⟩
    _bodyPitch := 0
    _bodyYaw := 0
    _bodyRoll := 0
    _scale := 1
    _newScale := 1
    _head := ⟨⟨0, 0, 0⟩, 0, 0, 0⟩
    _skeleton := ⟨fun _ => jointAt jointPos⟩
    _bodyBall := fun b => ballAt ballPos ballRadius b (parentOf b)
    _ballSpringsInitialized := calibrated
    _height := 0
    _maxArmLength := 0
    _pelvisStandingHeight := 0
    _pelvisFloatingHeight := 0
    _pelvisToHeadLength := 0
    _reachableRadius := 1 }

/-- The parent ball of each ball as initializeBodyBalls sets it: the previous
ball, but the chest for the collars and the pelvis for the hips. -/
def sampleParentBall (b : Int) : Int :=
  if b = BODY_BALL_LEFT_COLLAR ∨ b = BODY_BALL_RIGHT_COLLAR then BODY_BALL_CHEST
  else if b = BODY_BALL_LEFT_HIP ∨ b = BODY_BALL_RIGHT_HIP then BODY_BALL_PELVIS
  else b - 1

/-- The impulse that the loop body of updateCollisionWithSphere adds to the
avatar velocity for a ball B: collisionForce * 40 * deltaTime when the ball
penetrates the sphere at a positive distance, nothing otherwise. -/
def sphereImpulse (E : Ext K) (position : Vec3 K) (radius deltaTime : K) (B : BodyBall K) :
    Vec3 K :=
  if E.length (B.position - position) < B.radius + radius ∧ E.length (B.position - position) > 0
  then (B.position - position) * (1 - E.length (B.position - position) / (B.radius + radius))
    * (40 : K) * deltaTime
  else ⟨0, 0, 0⟩

/-- The ball that the loop body of updateCollisionWithSphere leaves in place of
ball B: snapped onto the sphere when it penetrates at a positive distance. -/
def sphereSnap (E : Ext K) (position : Vec3 K) (radius : K) (B : BodyBall K) : BodyBall K :=
  if E.length (B.position - position) < B.radius + radius ∧ E.length (B.position - position) > 0
  then { B with position := position
    + (B.position - position) / E.length (B.position - position) * (B.radius + radius) }
  else B

/-- The velocity that the loop body of updateBodyBalls gives a ball with
velocity v, position p, target t and tightness k when no spring force acts:
tightness force, then decay. -/
def tightnessDecay (deltaTime : K) (v p t : Vec3 K) (k : K) : Vec3 K :=
  if 1 - BODY_SPRING_DECAY * deltaTime > 0
  then (v + (t - p) * k * deltaTime) * (1 - BODY_SPRING_DECAY * deltaTime)
  else ⟨0, 0, 0⟩

/-- The ball that the loop body of updateBodyBalls leaves in place of ball B
while the springs are not calibrated (no spring force, spring length 0). -/
def freeBallTick (deltaTime : K) (orientation : Quat K) (s : Avatar K) (B : BodyBall K) :
    BodyBall K :=
  { B with
    velocity := tightnessDecay deltaTime B.velocity B.position
      ((s._skeleton.joint B.parentJoint).position
        + (s._skeleton.joint B.parentJoint).rotation * B.parentOffset) B.jointTightness
    position := B.position + tightnessDecay deltaTime B.velocity B.position
      ((s._skeleton.joint B.parentJoint).position
        + (s._skeleton.joint B.parentJoint).rotation * B.parentOffset) B.jointTightness
      * deltaTime
    rotation := orientation * (s._skeleton.joint B.parentJoint).absoluteBindPoseRotation }

/-- The state after n successive calls of updateBodyBalls with the same deltaTime. -/
def ticks (E : Ext K) (deltaTime : K) : Nat → Avatar K → Avatar K
  | 0, a => a
  | n + 1, a => updateBodyBalls E (ticks E deltaTime n a) deltaTime

/-- A sample avatar with the right shoulder at the origin, the right fingertip
target at fingertip and the given maximum arm length. -/
def armAvatar (fingertip : Vec3 K) (maxArmLength : K) : Avatar K :=
  { (sampleAvatar ⟨0, 0, 0⟩ ⟨0, 0, 0⟩ 0 sampleParentBall false).modifyJoint
      AVATAR_JOINT_RIGHT_FINGERTIPS (fun J => { J with position := fingertip }) with
    _maxArmLength := maxArmLength }

/-! ## A Lyapunov function for the tick without spring forces

With e the offset of one coordinate of a ball from its target and w its
velocity times deltaTime, one tick without spring force maps (e, w) to
(e + c (w - a e), c (w - a e)), c the decay factor and a = tightness *
deltaTime^2.  In the coordinates x1 = e, x2 = e + c (w - a e) this is the
companion map (x1, x2) -> (x2, tr * x2 - c * x1). -/

/-- The decay factor 1 - BODY_SPRING_DECAY * deltaTime of one tick. -/
def decayFactor (deltaTime : K) : K := 1 - BODY_SPRING_DECAY * deltaTime

/-- The default tightness times deltaTime squared. -/
def tightnessGain (deltaTime : K) : K := BODY_SPRING_DEFAULT_TIGHTNESS * deltaTime * deltaTime

/-- The trace of the one-coordinate tick map. -/
def tickTrace (deltaTime : K) : K :=
  1 + decayFactor deltaTime - decayFactor deltaTime * tightnessGain deltaTime

/-- The rate by which the quadratic form tickQuad loses on its argument per tick. -/
def tickLoss (deltaTime : K) : K :=
  (1 - decayFactor deltaTime) * (1 + decayFactor deltaTime)
    * ((1 + decayFactor deltaTime) * (1 + decayFactor deltaTime)
        - tickTrace deltaTime * tickTrace deltaTime)

/-- Coefficient of x1^2 in tickQuad. -/
def tickP (deltaTime : K) : K :=
  tickLoss deltaTime + 2 * (1 + decayFactor deltaTime) * (1 + decayFactor deltaTime)
    * (decayFactor deltaTime * decayFactor deltaTime)

/-- Half the coefficient of x1 * x2 in tickQuad. -/
def tickQ (deltaTime : K) : K :=
  - (2 * (1 + decayFactor deltaTime) * decayFactor deltaTime * tickTrace deltaTime)

/-- Coefficient of x2^2 in tickQuad. -/
def tickR (deltaTime : K) : K := 2 * (1 + decayFactor deltaTime) * (1 + decayFactor deltaTime)

/-- The quadratic form that solves the discrete Lyapunov equation of the
companion map: tickQuad (M x) = tickQuad x - tickLoss * |x|^2. -/
def tickQuad (deltaTime x1 x2 : K) : K :=
  tickP deltaTime * (x1 * x1) + 2 * tickQ deltaTime * (x1 * x2) + tickR deltaTime * (x2 * x2)

/-- The Lyapunov value of one coordinate with offset e from the target and
velocity times deltaTime w. -/
def tickEnergy1 (deltaTime e w : K) : K :=
  tickQuad deltaTime e (e + decayFactor deltaTime * (w - tightnessGain deltaTime * e))

/-- The Lyapunov value of a ball at p with velocity v and target t. -/
def tickEnergy (deltaTime : K) (p v t : Vec3 K) : K :=
  tickEnergy1 deltaTime (p.x - t.x) (v.x * deltaTime)
    + tickEnergy1 deltaTime (p.y - t.y) (v.y * deltaTime)
    + tickEnergy1 deltaTime (p.z - t.z) (v.z * deltaTime)

/-- The factor by which tickEnergy shrinks per tick. -/
def tickRate (deltaTime : K) : K :=
  1 - tickLoss deltaTime / (tickP deltaTime + tickR deltaTime)

/-- The point the spring of ball b is attached to when every ball is at its
target: the avatar position for the pelvis, the target of the parent ball for
the others. -/
def Avatar.springAnchorTarget (a : Avatar K) (b : Int) : Vec3 K :=
  if b = BODY_BALL_PELVIS then a._position else a.targetPosition (a._bodyBall b).parentBall

/-- In the target pose no spring exerts a force: every ball of the array but
the pelvis has its parent ball in the array, and every spring of positive
length has the rest length _skeleton.joint[b].length that updateBodyBalls
compares it with. -/
def SpringsAtRest (E : Ext K) (a : Avatar K) : Prop :=
  ∀ b : Int, 0 ≤ b ∧ b < (NUM_AVATAR_BODY_BALLS : Int) →
    (b ≠ BODY_BALL_PELVIS →
      0 ≤ (a._bodyBall b).parentBall ∧ (a._bodyBall b).parentBall < (NUM_AVATAR_BODY_BALLS : Int))
    ∧ (E.length (a.targetPosition b - a.springAnchorTarget b) > 0 →
      E.length (a.targetPosition b - a.springAnchorTarget b) = (a._skeleton.joint b).length)

/-- The state s differs from a at most in ball positions, velocities and
rotations, and every ball of the array is at its target with zero velocity. -/
def OnTarget (a s : Avatar K) : Prop :=
  a.Frame s
    ∧ ∀ c : Int, 0 ≤ c ∧ c < (NUM_AVATAR_BODY_BALLS : Int) →
      (s._bodyBall c).position = a.targetPosition c ∧ (s._bodyBall c).velocity = ⟨0, 0, 0⟩

/-- A sample avatar with uncalibrated springs, every joint at (3, 0, 0), every
ball at rest at (0, 0, 10), whose head-base joint has the bind pose position
(0, 1, 0). -/
def headOffsetAvatar : Avatar K :=
  (sampleAvatar ⟨3, 0, 0⟩ ⟨0, 0, 10⟩ 0 sampleParentBall false).modifyJoint
    AVATAR_JOINT_HEAD_BASE (fun J => { J with bindPosePosition := ⟨0, 1, 0⟩ })

/-- A sample avatar with uncalibrated springs, every joint at (3, 0, 0), every
ball at rest on its target (3, 0, 0), whose head-base joint has the bind pose
position (0, 1, 0). -/
def headOffsetRestAvatar : Avatar K :=
  (sampleAvatar ⟨3, 0, 0⟩ ⟨3, 0, 0⟩ 0 sampleParentBall false).modifyJoint
    AVATAR_JOINT_HEAD_BASE (fun J => { J with bindPosePosition := ⟨0, 1, 0⟩ })

/-! ## The spring term of updateBodyBalls -/

/-- The local springVector of the loop body of updateBodyBalls for ball b: the
ball position minus the avatar position for the pelvis, minus the position of
the parent ball for the other balls. -/
def Avatar.springVector (a : Avatar K) (b : Int) : Vec3 K :=
  if b = BODY_BALL_PELVIS then (a._bodyBall b).position - a._position
  else (a._bodyBall b).position - (a._bodyBall (a._bodyBall b).parentBall).position

/-- The point that springVector is measured from: the avatar position for the
pelvis, the position of the parent ball for the other balls. -/
def Avatar.springAnchor (a : Avatar K) (b : Int) : Vec3 K :=
  if b = BODY_BALL_PELVIS then a._position
  else (a._bodyBall (a._bodyBall b).parentBall).position

/-- The local springDirection of the loop body of updateBodyBalls for ball b. -/
def springDirection (E : Ext K) (a : Avatar K) (b : Int) : Vec3 K :=
  a.springVector b / E.length (a.springVector b)

/-- The local force of the loop body of updateBodyBalls for ball b. -/
def springForce (E : Ext K) (deltaTime : K) (a : Avatar K) (b : Int) : K :=
  (E.length (a.springVector b) - (a._skeleton.joint b).length) * BODY_SPRING_FORCE * deltaTime

/-- The divisors of the divisions that the spring part of the loop body of
updateBodyBalls executes for ball b, in the order of execution: the one
division springVector / length, inside the tests of _ballSpringsInitialized
and of length > 0. -/
def springDivisors (E : Ext K) (a : Avatar K) (b : Int) : List K :=
  if a._ballSpringsInitialized then
    let springVector := (a._bodyBall b).position
    let springVector :=
      if b = BODY_BALL_PELVIS then springVector - a._position
      else springVector - (a._bodyBall (a._bodyBall b).parentBall).position
    let length := E.length springVector
    if length > 0 then [length] else []
  else []

/-- The divisors of the divisions that updateArmIKAndConstraints executes, in
the order of execution: armVector / distance inside the test of
distance > _maxArmLength, after which distance is _maxArmLength, and then
_maxArmLength / distance, which no test precedes. -/
def updateArmIKAndConstraintsDivisors (E : Ext K) (a : Avatar K) : List K :=
  let armVector := (a._skeleton.joint AVATAR_JOINT_RIGHT_FINGERTIPS).position
  let armVector := armVector - (a._skeleton.joint AVATAR_JOINT_RIGHT_SHOULDER).position
  let distance := E.length armVector
  if distance > a._maxArmLength then
    let divisors := [distance]
    let distance := a._maxArmLength
    divisors ++ [distance]
  else [distance]

/-- The ball reached from ball b by following parentBall n times. -/
def Avatar.ancestorBall (a : Avatar K) : Nat → Int → Int
  | 0, b => b
  | n + 1, b => Avatar.ancestorBall a n (a._bodyBall b).parentBall

/-- The fields of a ball that fix the topology and the touch state are the same
in B and in B2. -/
def BodyBall.SameTopology (B B2 : BodyBall K) : Prop :=
  B2.parentJoint = B.parentJoint ∧ B2.parentBall = B.parentBall
    ∧ B2.parentOffset = B.parentOffset ∧ B2.touchForce = B.touchForce
    ∧ B2.isCollidable = B.isCollidable ∧ B2.jointTightness = B.jointTightness

/-- Ball B2 differs from ball B at most in its radius. -/
def BodyBall.SameButRadius (B B2 : BodyBall K) : Prop :=
  B2.parentJoint = B.parentJoint ∧ B2.parentBall = B.parentBall
    ∧ B2.parentOffset = B.parentOffset ∧ B2.position = B.position
    ∧ B2.velocity = B.velocity ∧ B2.rotation = B.rotation
    ∧ B2.springLength = B.springLength ∧ B2.jointTightness = B.jointTightness
    ∧ B2.touchForce = B.touchForce ∧ B2.isCollidable = B.isCollidable

/-- The state t has the calibration flag and every spring length of s. -/
def Avatar.SameSprings (s t : Avatar K) : Prop :=
  t._ballSpringsInitialized = s._ballSpringsInitialized
    ∧ ∀ c : Int, (t._bodyBall c).springLength = (s._bodyBall c).springLength

/-! ## Avatar::simulate -/

/-- The loop body of the calibration pass of simulate for ball b. -/
def calibrateBallSpring (E : Ext K) (a : Avatar K) (b : Int) : Avatar K :=
  let targetPosition := (a._skeleton.joint (a._bodyBall b).parentJoint).position
    + (a._skeleton.joint (a._bodyBall b).parentJoint).rotation * (a._bodyBall b).parentOffset
  let parentTargetPosition := (a._skeleton.joint (a._bodyBall b).parentJoint).position
    + (a._skeleton.joint (a._bodyBall b).parentJoint).rotation * (a._bodyBall b).parentOffset
  a.modifyBall b (fun B =>
    { B with springLength := E.length (targetPosition - parentTargetPosition) })

/-- The calibration pass of simulate: while the springs are not initialized,
the spring length of every ball is determined and the flag is set. -/
def calibrateBallSprings (E : Ext K) (a : Avatar K) : Avatar K :=
  if ¬ (a._ballSpringsInitialized = true) then
    let a := forEachBall (calibrateBallSpring E) a
    { a with _ballSpringsInitialized := true }
  else a

/-- One element of _joints (struct JointData of AvatarData.h, as used by
Avatar.cpp): a joint id and the rotation received for it. -/
structure JointData (K : Type) where
  jointID : Int
  rotation : Quat K

/-- What simulate reads besides the state of the body-ball code: members of the
avatar and values of its head that the body-ball code does not use, the method
Skeleton::update of an absent file, and constants of absent headers. -/
structure SimulateEnv (K : Type) where
  getLeanForward : K
  getLeanSideways : K
  _joints : List (JointData K)
  skeletonUpdate : Skeleton K → K → Quat K → Vec3 K → Skeleton K
  _handPosition : Vec3 K
  _movedHandOffset : Vec3 K
  _isCollisionsOn : Bool
  _TEST_bigSpherePosition : Vec3 K
  _TEST_bigSphereRadius : K
  IDENTITY_FRONT : Vec3 K
  IDENTITY_UP : Vec3 K

def USING_HEAD_LEAN : Bool := false
def usingBigSphereCollisionTest : Bool := true

/-- The loop of simulate that applies the joint data to the skeleton; the
second component is enableHandMovement. -/
def applyJointData (joints : List (JointData K)) (a : Avatar K) : Avatar K × Bool :=
  joints.foldl (fun (s : Avatar K × Bool) (it : JointData K) =>
    (s.1.modifyJoint it.jointID (fun J => { J with rotation := it.rotation }),
      s.2 && decide (it.jointID ≠ AVATAR_JOINT_RIGHT_WRIST))) (a, true)

/-- Avatar::updateHandMovementAndTouching. -/
def updateHandMovementAndTouching (E : Ext K) (X : SimulateEnv K) (a : Avatar K)
    (enableHandMovement : Bool) : Avatar K :=
  let orientation := a.getOrientation E
  let right := orientation * E.IDENTITY_RIGHT
  let up := orientation * X.IDENTITY_UP
  let front := orientation * X.IDENTITY_FRONT
  let a :=
    if enableHandMovement then
      let transformedHandMovement := right * X._movedHandOffset.x * (2 : K)
        + up * (- X._movedHandOffset.y) * (2 : K)
        + front * (- X._movedHandOffset.y) * (2 : K)
      a.modifyJoint AVATAR_JOINT_RIGHT_FINGERTIPS (fun J =>
        { J with position := J.position + transformedHandMovement })
    else a
  if enableHandMovement then updateArmIKAndConstraints E a else a

/-- Assignment _bodyBall[i].position += v. -/
def Avatar.addToBallPosition (a : Avatar K) (i : Int) (v : Vec3 K) : Avatar K :=
  a.modifyBall i (fun B => { B with position := B.position + v })

/-- The block of simulate that applies the head lean to the ball positions. -/
def applyHeadLean (a : Avatar K) ( headLean : Vec3 K) : Avatar K :=
  a
  |>.addToBallPosition BODY_BALL_TORSO ( headLean * (1 / 10 : K))
  |>.addToBallPosition BODY_BALL_CHEST ( headLean * (4 / 10 : K))
  |>.addToBallPosition BODY_BALL_NECK_BASE ( headLean * (7 / 10 : K))
  |>.addToBallPosition BODY_BALL_HEAD_BASE ( headLean * (1 : K))
  |>.addToBallPosition BODY_BALL_LEFT_COLLAR ( headLean * (6 / 10 : K))
  |>.addToBallPosition BODY_BALL_LEFT_SHOULDER ( headLean * (6 / 10 : K))
  |>.addToBallPosition BODY_BALL_LEFT_ELBOW ( headLean * (2 / 10 : K))
  |>.addToBallPosition BODY_BALL_LEFT_WRIST ( headLean * (1 / 10 : K))
  |>.addToBallPosition BODY_BALL_LEFT_FINGERTIPS ( headLean * (0 : K))
  |>.addToBallPosition BODY_BALL_RIGHT_COLLAR ( headLean * (6 / 10 : K))
  |>.addToBallPosition BODY_BALL_RIGHT_SHOULDER ( headLean * (6 / 10 : K))
  |>.addToBallPosition BODY_BALL_RIGHT_ELBOW ( headLean * (2 / 10 : K))
  |>.addToBallPosition BODY_BALL_RIGHT_WRIST ( headLean * (1 / 10 : K))
  |>.addToBallPosition BODY_BALL_RIGHT_FINGERTIPS ( headLean * (0 : K))

/-- The part of simulate between the rescale test and the calibration pass:
the torso rotation, the joint data and the skeleton update.  The second
component is the local enableHandMovement. -/
def simulateSkeleton (E : Ext K) (X : SimulateEnv K) (a : Avatar K) (deltaTime : K) :
    Avatar K × Bool :=
  -- update torso rotation based on head lean
  let a := a.modifyJoint AVATAR_JOINT_TORSO (fun J =>
    { J with rotation := E.quatOfEulerDegrees ⟨X.getLeanForward, 0, X.getLeanSideways⟩ })
  -- apply joint data (if any) to skeleton
  let (a, enableHandMovement) := applyJointData X._joints a
  -- update avatar skeleton
  let a := { a with
    _skeleton := X.skeletonUpdate a._skeleton deltaTime (a.getOrientation E) a._position }
  (a, enableHandMovement)

/-- The part of simulate after the calibration pass, with the locals front,
right and enableHandMovement of simulate. -/
def simulateBodyBalls (E : Ext K) (X : SimulateEnv K) (front right : Vec3 K) (a : Avatar K)
    (enableHandMovement : Bool) (deltaTime : K) : Avatar K :=
  let a := a.modifyJoint AVATAR_JOINT_RIGHT_FINGERTIPS (fun J =>
    { J with position := X._handPosition })
  let a := updateHandMovementAndTouching E X a enableHandMovement
  -- update body balls
  let a := updateBodyBalls E a deltaTime
  -- test for avatar collision response with the big sphere
  let a :=
    if usingBigSphereCollisionTest && X._isCollisionsOn then
      updateCollisionWithSphere E a X._TEST_bigSpherePosition X._TEST_bigSphereRadius deltaTime
    else a
  -- apply the head lean values to the ball positions
  let a :=
    if USING_HEAD_LEAN then
      if |X.getLeanSideways + X.getLeanForward| > 0 then
        applyHeadLean a (right * X.getLeanSideways + front * X.getLeanForward)
      else a
    else a
  let a := { a with
    _head := { a._head with _bodyRotation := ⟨a._bodyPitch, a._bodyYaw, a._bodyRoll⟩ } }
  -- update position by velocity
  { a with _position := a._position + a._velocity * deltaTime }

/-- Avatar::simulate, as far as it reads and writes the state of the body-ball
code.  What it writes besides (the leading avatar, the balls of _balls, the
avatar touch, the hand, position, scale and skin colour of the head, _mode and
_thrust) is state of other objects or members that this code does not read. -/
def simulate (E : Ext K) (X : SimulateEnv K) (a : Avatar K) (deltaTime : K) : Avatar K :=
  let orientation := a.getOrientation E
  let front := orientation * X.IDENTITY_FRONT
  let right := orientation * E.IDENTITY_RIGHT
  let a := if a._scale ≠ a._newScale then setScale E a a._newScale else a
  let (a, enableHandMovement) := simulateSkeleton E X a deltaTime
  -- determine the lengths of the body springs
  let a := calibrateBallSprings E a
  simulateBodyBalls E X front right a enableHandMovement deltaTime

/-- Successive calls of simulate, one for each element of the list, which gives
the environment and the deltaTime of the call. -/
def simulateRun (E : Ext K) : List (SimulateEnv K × K) → Avatar K → Avatar K
  | [], a => a
  | (X, deltaTime) :: later, a => simulateRun E later (simulate E X a deltaTime)

/-- A sample environment of simulate: no lean, no joint data, a skeleton
update that leaves the skeleton as it is, the hand at the origin, collisions
on, and the test sphere of the constructor. -/
def sampleEnv : SimulateEnv K :=
  { getLeanForward := 0
    getLeanSideways := 0
    _joints := []
    skeletonUpdate := fun sk _ _ _ => sk
    _handPosition := ⟨0, 0, 0⟩
    _movedHandOffset := ⟨0, 0, 0⟩
    _isCollisionsOn := true
    _TEST_bigSpherePosition := ⟨5, 1 / 2, 5⟩
    _TEST_bigSphereRadius := 1 / 2
    IDENTITY_FRONT := ⟨0, 0, -1⟩
    IDENTITY_UP := ⟨0, 1, 0⟩ }

/-- A sample avatar at the origin with every joint at the origin: the torso
ball is at (0, 2, 0), the other balls are at the origin, all at rest; the torso
joint has length 1/2 and every ball has spring length 0. -/
def springAvatar (calibrated : Bool) : Avatar K :=
  ((sampleAvatar (⟨0, 0, 0⟩ : Vec3 K) ⟨0, 0, 0⟩ 0 sampleParentBall calibrated).modifyBall
      BODY_BALL_TORSO (fun B => { B with position := ⟨0, 2, 0⟩ })).modifyJoint
    AVATAR_JOINT_TORSO (fun J => { J with length := 1 / 2 })

/-! ## The order of the per-ball pass, parent-ball accesses, the arm and the ray test -/

/-- The ball ids in the order in which the loop of updateBodyBalls takes them. -/
def ballOrder : List Int := (List.range NUM_AVATAR_BODY_BALLS).map (fun b => (b : Int))

/-- The order of ballOrder with the pelvis and the torso exchanged. -/
def torsoFirstOrder : List Int :=
  BODY_BALL_TORSO :: BODY_BALL_PELVIS :: ballOrder.drop 2

/-- Avatar::updateBodyBalls with its loop body run over the balls in the given
order; the loop of the source takes them in the order ballOrder. -/
def updateBodyBallsInOrder (E : Ext K) (order : List Int) (a : Avatar K) (deltaTime : K) :
    Avatar K :=
  let a := if beyondBodySpringRange E a then resetBodyBalls a else a
  let orientation := a.getOrientation E
  let a := order.foldl (updateBodyBall E deltaTime orientation) a
  copyHeadRotation E a

/-- The indices i of the accesses _bodyBall[i] with i = _bodyBall[b].parentBall
that the loop body of updateBodyBalls executes for ball b, in the order of
execution: the read of the parent position for the spring vector (not for the
pelvis), the write of the reaction to the parent velocity (inside the tests of
length > 0 and of parentBall != BODY_BALL_NULL), and the two reads of the
parent rotation in the second branch of the rotation update. -/
def parentBallIndices (E : Ext K) (deltaTime : K) (a : Avatar K) (b : Int) : List Int :=
  let springReads :=
    if a._ballSpringsInitialized then
      let positionRead := if b = BODY_BALL_PELVIS then [] else [(a._bodyBall b).parentBall]
      let springVector := (a._bodyBall b).position
      let springVector :=
        if b = BODY_BALL_PELVIS then springVector - a._position
        else springVector - (a._bodyBall (a._bodyBall b).parentBall).position
      let length := E.length springVector
      if length > 0 then
        if (a._bodyBall b).parentBall ≠ BODY_BALL_NULL then
          positionRead ++ [(a._bodyBall b).parentBall]
        else positionRead
      else positionRead
    else []
  let length := (applySpringForces E deltaTime a b).2.2
  let SMALL_SPRING_LENGTH : K := 1 / 1000
  if (a._skeleton.joint b).parent = AVATAR_JOINT_NULL ∨ length < SMALL_SPRING_LENGTH then
    springReads
  else springReads ++ [(a._bodyBall b).parentBall, (a._bodyBall b).parentBall]

/-- The local armVector of updateArmIKAndConstraints before the test of the
maximum arm length. -/
def Avatar.armVector (a : Avatar K) : Vec3 K :=
  (a._skeleton.joint AVATAR_JOINT_RIGHT_FINGERTIPS).position
    - (a._skeleton.joint AVATAR_JOINT_RIGHT_SHOULDER).position

/-- The local armVector of updateArmIKAndConstraints after the test of the
maximum arm length. -/
def clampedArmVector (E : Ext K) (a : Avatar K) : Vec3 K :=
  if E.length a.armVector > a._maxArmLength
  then a.armVector / E.length a.armVector * a._maxArmLength
  else a.armVector

/-- The local distance of updateArmIKAndConstraints after the test of the
maximum arm length. -/
def clampedArmDistance (E : Ext K) (a : Avatar K) : K :=
  if E.length a.armVector > a._maxArmLength then a._maxArmLength else E.length a.armVector

/-- The loop of findRayIntersection over the first n balls: the local
minDistance after it.  The function rayIntersectsSphere of an absent file is a
parameter; it gives its result and the value it leaves in its last argument. -/
def findRayIntersectionLoop (rayIntersectsSphere : Vec3 K → Vec3 K → Vec3 K → K → Bool × K)
    (FLT_MAX : K) (a : Avatar K) (origin direction : Vec3 K) (n : Nat) : K :=
  (List.range n).foldl (fun (minDistance : K) (i : Nat) =>
    let r := rayIntersectsSphere origin direction (a._bodyBall (i : Int)).position
      (a._bodyBall (i : Int)).radius
    if r.1 then min minDistance r.2 else minDistance) FLT_MAX

/-- Avatar::findRayIntersection: the result and the value of the reference
argument distance after the call.  The function rayIntersectsSphere and the
constant FLT_MAX of absent files are parameters. -/
def findRayIntersection (rayIntersectsSphere : Vec3 K → Vec3 K → Vec3 K → K → Bool × K)
    (FLT_MAX : K) (a : Avatar K) (origin direction : Vec3 K) (distance : K) : Bool × K :=
  let minDistance := findRayIntersectionLoop rayIntersectsSphere FLT_MAX a origin direction
    NUM_AVATAR_BODY_BALLS
  if minDistance = FLT_MAX then (false, distance)
  else (true, minDistance)

/-- A sample ray test: a sphere is hit when its centre is on the side of the
origin to which the x axis points and within the radius of that axis; the
distance is the distance of the centre along the axis. -/
def sampleRayIntersectsSphere (origin direction center : Vec3 K) (radius : K) : Bool × K :=
  (decide (origin.x ≤ center.x ∧ |center.y - origin.y| ≤ radius
    ∧ |center.z - origin.z| ≤ radius), center.x - origin.x)

/-! ## The states of a run, a float length and a rest state off the target -/

/-- The state t has the stored scale and every ball radius of s. -/
def Avatar.SameRadii (s t : Avatar K) : Prop :=
  t._scale = s._scale ∧ ∀ c : Int, (t._bodyBall c).radius = (s._bodyBall c).radius

/-- The avatar states reached from construction by calls of setScale,
updateBodyBalls, resetBodyBalls, updateCollisionWithSphere and simulate (which
calibrates the springs before its own calls of updateBodyBalls and
updateCollisionWithSphere), and by assignments of other code to members other
than _scale and the radius of a ball: in Avatar.cpp only initializeBodyBalls
and setScale assign to these two. -/
inductive Reachable (E : Ext K) : Avatar K → Prop
  | construct (a : Avatar K) : Reachable E (constructAvatar E a)
  | setScale (a : Avatar K) (scale : K) : Reachable E a → Reachable E (setScale E a scale)
  | updateBodyBalls (a : Avatar K) (deltaTime : K) :
      Reachable E a → Reachable E (updateBodyBalls E a deltaTime)
  | resetBodyBalls (a : Avatar K) : Reachable E a → Reachable E (resetBodyBalls a)
  | updateCollisionWithSphere (a : Avatar K) (position : Vec3 K) (radius deltaTime : K) :
      Reachable E a → Reachable E (updateCollisionWithSphere E a position radius deltaTime)
  | simulate (X : SimulateEnv K) (a : Avatar K) (deltaTime : K) :
      Reachable E a → Reachable E (simulate E X a deltaTime)
  | assign (a b : Avatar K) : Reachable E a → a.SameRadii b → Reachable E b

/-- The head placement at the end of updateBodyBalls agrees with the target
pose: the target of the head-base ball is the target of the neck-base ball plus
the head orientation applied to the bind pose position of the head-base joint,
and the target of the head-top ball is that of the head-base ball plus the head
orientation applied to the bind pose position of the head-top joint. -/
def HeadOnTarget (E : Ext K) (a : Avatar K) : Prop :=
  a.targetPosition BODY_BALL_HEAD_BASE
      = a.targetPosition BODY_BALL_NECK_BASE
        + a._head.getOrientation E * (a._skeleton.joint BODY_BALL_HEAD_BASE).bindPosePosition
    ∧ a.targetPosition BODY_BALL_HEAD_TOP
      = a.targetPosition BODY_BALL_HEAD_BASE
        + a._head.getOrientation E * (a._skeleton.joint BODY_BALL_HEAD_TOP).bindPosePosition

/-- The float that a nonnegative rational below 2^-126, the least normal
float, rounds to: the multiple of 2^-149 nearest to x, the even multiple at a
tie (gradual underflow). -/
def roundSubnormal (x : ℚ) : ℚ :=
  if x * 2 ^ 149 - (⌊x * 2 ^ 149⌋ : ℚ) < 1 / 2
      ∨ (x * 2 ^ 149 - (⌊x * 2 ^ 149⌋ : ℚ) = 1 / 2 ∧ ⌊x * 2 ^ 149⌋ % 2 = 0)
  then (⌊x * 2 ^ 149⌋ : ℚ) / 2 ^ 149
  else ((⌊x * 2 ^ 149⌋ : ℚ) + 1) / 2 ^ 149

/-- A sample square root for glm::length in float arithmetic, applied to the
square x * x + y * y + z * z of a vector along one axis: a square below 2^-126
is rounded to a subnormal float by the float multiplication before the root is
taken, so that the square of a vector shorter than 2^-75 gives the length 0;
the root itself is Rat.sqrt, which is exact on the squares of rationals. -/
def underflowSqrt (x : ℚ) : ℚ :=
  if x < 1 / 2 ^ 126 then Rat.sqrt (roundSubnormal x) else Rat.sqrt x

/-- A sample avatar at the origin with calibrated springs whose balls are all
at rest at (5/4, 0, 0): every joint is at (5/4, 0, 0) and has length 0, but the
pelvis joint is at (13/8, 0, 0), so that the pelvis ball is 3/8 away from its
target. -/
def offTargetAvatar : Avatar K :=
  (sampleAvatar (⟨5 / 4, 0, 0⟩ : Vec3 K) ⟨5 / 4, 0, 0⟩ 0 sampleParentBall true).modifyJoint
    AVATAR_JOINT_PELVIS (fun J => { J with position := ⟨13 / 8, 0, 0⟩ })

/-- A sample avatar at the origin whose balls, of radius 1/2, are all at rest
at (15 * 2^-78, 0, 0): the square 225 * 2^-156 of their distance from the
origin lies between the subnormal floats 2^-149 and 2^-148. -/
def subnormalAvatar : Avatar ℚ :=
  sampleAvatar (⟨0, 0, 0⟩ : Vec3 ℚ) ⟨15 / 2 ^ 78, 0, 0⟩ (1 / 2) sampleParentBall true

end Code

/-! ## Basic facts about vectors, assignments and the ball loop -/

section Lemmas

variable {K : Type} [LinearOrderedField K]

@[simp] theorem Vec3.zero_x : (0 : Vec3 K).x = 0 := rfl
@[simp] theorem Vec3.zero_y : (0 : Vec3 K).y = 0 := rfl
@[simp] theorem Vec3.zero_z : (0 : Vec3 K).z = 0 := rfl
@[simp] theorem Vec3.add_x (a b : Vec3 K) : (a + b).x = a.x + b.x := rfl
@[simp] theorem Vec3.add_y (a b : Vec3 K) : (a + b).y = a.y + b.y := rfl
@[simp] theorem Vec3.add_z (a b : Vec3 K) : (a + b).z = a.z + b.z := rfl
@[simp] theorem Vec3.sub_x (a b : Vec3 K) : (a - b).x = a.x - b.x := rfl
@[simp] theorem Vec3.sub_y (a b : Vec3 K) : (a - b).y = a.y - b.y := rfl
@[simp] theorem Vec3.sub_z (a b : Vec3 K) : (a - b).z = a.z - b.z := rfl
@[simp] theorem Vec3.mul_x (a : Vec3 K) (k : K) : (a * k).x = a.x * k := rfl
@[simp] theorem Vec3.mul_y (a : Vec3 K) (k : K) : (a * k).y = a.y * k := rfl
@[simp] theorem Vec3.mul_z (a : Vec3 K) (k : K) : (a * k).z = a.z * k := rfl
@[simp] theorem Vec3.div_x (a : Vec3 K) (k : K) : (a / k).x = a.x / k := rfl
@[simp] theorem Vec3.div_y (a : Vec3 K) (k : K) : (a / k).y = a.y / k := rfl
@[simp] theorem Vec3.div_z (a : Vec3 K) (k : K) : (a / k).z = a.z / k := rfl

theorem Quat.rotate_zero (q : Quat K) : q * (⟨0, 0, 0⟩ : Vec3 K) = ⟨0, 0, 0⟩ := by
  show Quat.rotate q ⟨0, 0, 0⟩ = _
  ext <;> simp [Quat.rotate, cross]

theorem Quat.mul_vec_def (q : Quat K) (v : Vec3 K) : q * v = Quat.rotate q v := rfl

theorem Quat.mul_def (p q : Quat K) :
    p * q = ⟨p.w * q.w - p.x * q.x - p.y * q.y - p.z * q.z,
      p.w * q.x + p.x * q.w + p.y * q.z - p.z * q.y,
      p.w * q.y + p.y * q.w + p.z * q.x - p.x * q.z,
      p.w * q.z + p.z * q.w + p.x * q.y - p.y * q.x⟩ := rfl

@[simp] theorem Avatar.modifyBall_bodyBall (a : Avatar K) (i j : Int)
    (f : BodyBall K → BodyBall K) :
    (a.modifyBall i f)._bodyBall j = if j = i then f (a._bodyBall i) else a._bodyBall j := by
  unfold Avatar.modifyBall
  by_cases h : j = i
  · subst h; simp
  · simp [h]

@[simp] theorem Avatar.modifyBall_skeleton (a : Avatar K) (i : Int) (f : BodyBall K → BodyBall K) :
    (a.modifyBall i f)._skeleton = a._skeleton := rfl
@[simp] theorem Avatar.modifyBall_position (a : Avatar K) (i : Int) (f : BodyBall K → BodyBall K) :
    (a.modifyBall i f)._position = a._position := rfl
@[simp] theorem Avatar.modifyBall_velocity (a : Avatar K) (i : Int) (f : BodyBall K → BodyBall K) :
    (a.modifyBall i f)._velocity = a._velocity := rfl
@[simp] theorem Avatar.modifyBall_scale (a : Avatar K) (i : Int) (f : BodyBall K → BodyBall K) :
    (a.modifyBall i f)._scale = a._scale := rfl
@[simp] theorem Avatar.modifyBall_newScale (a : Avatar K) (i : Int) (f : BodyBall K → BodyBall K) :
    (a.modifyBall i f)._newScale = a._newScale := rfl
@[simp] theorem Avatar.modifyBall_initialized (a : Avatar K) (i : Int)
    (f : BodyBall K → BodyBall K) :
    (a.modifyBall i f)._ballSpringsInitialized = a._ballSpringsInitialized := rfl
@[simp] theorem Avatar.modifyBall_head (a : Avatar K) (i : Int) (f : BodyBall K → BodyBall K) :
    (a.modifyBall i f)._head = a._head := rfl
@[simp] theorem Avatar.modifyBall_bodyPitch (a : Avatar K) (i : Int)
    (f : BodyBall K → BodyBall K) : (a.modifyBall i f)._bodyPitch = a._bodyPitch := rfl
@[simp] theorem Avatar.modifyBall_bodyYaw (a : Avatar K) (i : Int)
    (f : BodyBall K → BodyBall K) : (a.modifyBall i f)._bodyYaw = a._bodyYaw := rfl
@[simp] theorem Avatar.modifyBall_bodyRoll (a : Avatar K) (i : Int)
    (f : BodyBall K → BodyBall K) : (a.modifyBall i f)._bodyRoll = a._bodyRoll := rfl

theorem forFirstBalls_zero (f : Avatar K → Int → Avatar K) (a : Avatar K) :
    forFirstBalls 0 f a = a := rfl

theorem forFirstBalls_succ (n : Nat) (f : Avatar K → Int → Avatar K) (a : Avatar K) :
    forFirstBalls (n + 1) f a = f (forFirstBalls n f a) (n : Int) := by
  simp [forFirstBalls, List.range_succ, List.foldl_append]

theorem forEachBall_eq (f : Avatar K → Int → Avatar K) (a : Avatar K) :
    forEachBall f a = forFirstBalls NUM_AVATAR_BODY_BALLS f a := rfl

/-- Loop invariant rule: a property that holds before the loop and is kept by
the body at every ball index holds after the loop. -/
theorem forFirstBalls_invariant (P : Avatar K → Prop) (f : Avatar K → Int → Avatar K)
    (n : Nat) (hstep : ∀ s (b : Nat), b < n → P s → P (f s (b : Int)))
    (a : Avatar K) (h0 : P a) : P (forFirstBalls n f a) := by
  induction n with
  | zero => simpa [forFirstBalls_zero] using h0
  | succ n ih =>
    rw [forFirstBalls_succ]
    exact hstep _ n (Nat.lt_succ_self n)
      (ih (fun s b hb hs => hstep s b (Nat.lt_succ_of_lt hb) hs))

/-- A loop whose body replaces ball b by g of it, g reading nothing of the
ball array but that ball, replaces every ball of the array by g of it. -/
theorem forFirstBalls_modifyBall (g : Avatar K → BodyBall K → BodyBall K)
    (hg : ∀ (s : Avatar K) (balls : Int → BodyBall K), g { s with _bodyBall := balls } = g s)
    (n : Nat) (a : Avatar K) :
    forFirstBalls n (fun s b => s.modifyBall b (g s)) a
      = { a with _bodyBall := fun c =>
            if 0 ≤ c ∧ c < (n : Int) then g a (a._bodyBall c) else a._bodyBall c } := by
  induction n with
  | zero =>
    rw [forFirstBalls_zero]
    have : (fun c : Int => if 0 ≤ c ∧ c < ((0 : Nat) : Int) then g a (a._bodyBall c)
        else a._bodyBall c) = a._bodyBall := by
      funext c
      have : ¬ (0 ≤ c ∧ c < ((0 : Nat) : Int)) := by
        simp only [Nat.cast_zero]; omega
      simp [this]
    rw [this]
  | succ n ih =>
    rw [forFirstBalls_succ, ih]
    unfold Avatar.modifyBall
    simp only [hg]
    congr 1
    funext c
    by_cases hc : c = (n : Int)
    · subst hc
      have h1 : ¬ ((n : Int) < (n : Int)) := lt_irrefl _
      simp [h1]
    · have h2 : (0 ≤ c ∧ c < (n : Int) + 1) ↔ (0 ≤ c ∧ c < (n : Int)) := by
        omega
      simp [Function.update, hc, h2]

/-- The ball that resetBodyBalls writes in place of ball B. -/
theorem resetBodyBalls_eq (a : Avatar K) :
    resetBodyBalls a = { a with _bodyBall := (fun c =>
      if 0 ≤ c ∧ c < (NUM_AVATAR_BODY_BALLS : Int)
      then { (a._bodyBall c) with position := a.targetPosition c, velocity := ⟨0, 0, 0⟩ }
      else a._bodyBall c) } := by
  have h := forFirstBalls_modifyBall
    (fun (s : Avatar K) (B : BodyBall K) => { B with
      position := ((s._skeleton.joint B.parentJoint).position
        + (s._skeleton.joint B.parentJoint).rotation * B.parentOffset)
      velocity := (⟨0, 0, 0⟩ : Vec3 K) })
    (fun s balls => rfl) NUM_AVATAR_BODY_BALLS a
  exact h

/-! ## Frame facts -/

theorem BodyBall.SameStatics.unchanged (B : BodyBall K) : B.SameStatics B :=
  ⟨rfl, rfl, rfl, rfl, rfl, rfl, rfl, rfl⟩

theorem BodyBall.SameStatics.chain {B1 B2 B3 : BodyBall K}
    (h12 : B1.SameStatics B2) (h23 : B2.SameStatics B3) : B1.SameStatics B3 := by
  obtain ⟨a1, a2, a3, a4, a5, a6, a7, a8⟩ := h12
  obtain ⟨b1, b2, b3, b4, b5, b6, b7, b8⟩ := h23
  exact ⟨b1.trans a1, b2.trans a2, b3.trans a3, b4.trans a4, b5.trans a5, b6.trans a6,
    b7.trans a7, b8.trans a8⟩

theorem Avatar.Frame.same (s : Avatar K) : s.Frame s :=
  ⟨rfl, rfl, rfl, rfl, rfl, rfl, rfl, rfl, rfl, fun c => BodyBall.SameStatics.unchanged _⟩

theorem Avatar.Frame.andThen {s t u : Avatar K} (h1 : s.Frame t) (h2 : t.Frame u) : s.Frame u := by
  obtain ⟨a1, a2, a3, a4, a5, a6, a7, a8, a9, a10⟩ := h1
  obtain ⟨b1, b2, b3, b4, b5, b6, b7, b8, b9, b10⟩ := h2
  exact ⟨b1.trans a1, b2.trans a2, b3.trans a3, b4.trans a4, b5.trans a5, b6.trans a6,
    b7.trans a7, b8.trans a8, b9.trans a9, fun c => (a10 c).chain (b10 c)⟩

theorem Avatar.Frame.ofModifyBall (a : Avatar K) (i : Int) (f : BodyBall K → BodyBall K)
    (hf : ∀ B : BodyBall K, B.SameStatics (f B)) : a.Frame (a.modifyBall i f) := by
  refine ⟨rfl, rfl, rfl, rfl, rfl, rfl, rfl, rfl, rfl, fun c => ?_⟩
  rw [Avatar.modifyBall_bodyBall]
  by_cases h : c = i
  · subst h; simpa using hf _
  · simpa [h] using BodyBall.SameStatics.unchanged _

theorem Avatar.Frame.ofSetVelocity (a : Avatar K) (v : Vec3 K) :
    a.Frame { a with _velocity := v } :=
  ⟨rfl, rfl, rfl, rfl, rfl, rfl, rfl, rfl, rfl, fun c => BodyBall.SameStatics.unchanged _⟩

theorem forFirstBalls_frame (f : Avatar K → Int → Avatar K)
    (hf : ∀ (s : Avatar K) (b : Int), s.Frame (f s b)) (n : Nat) (a : Avatar K) :
    a.Frame (forFirstBalls n f a) :=
  forFirstBalls_invariant (fun s => a.Frame s) f n
    (fun s b _ hs => hs.andThen (hf s b)) a (Avatar.Frame.same a)

theorem forEachBall_frame (f : Avatar K → Int → Avatar K)
    (hf : ∀ (s : Avatar K) (b : Int), s.Frame (f s b)) (a : Avatar K) :
    a.Frame (forEachBall f a) := by
  rw [forEachBall_eq]
  exact forFirstBalls_frame f hf _ a

theorem Avatar.Frame.step {s X : Avatar K} {i : Int} {f : BodyBall K → BodyBall K}
    (h : s.Frame X) (hf : ∀ B : BodyBall K, B.SameStatics (f B)) :
    s.Frame (X.modifyBall i f) :=
  h.andThen (Avatar.Frame.ofModifyBall X i f hf)

theorem Avatar.Frame.stepVelocity {s X : Avatar K} {v : Vec3 K}
    (h : s.Frame X) : s.Frame { X with _velocity := v } :=
  h.andThen (Avatar.Frame.ofSetVelocity X v)

theorem resetBodyBalls_frame (a : Avatar K) : a.Frame (resetBodyBalls a) := by
  unfold resetBodyBalls
  apply forEachBall_frame
  intro s b
  dsimp only
  exact Avatar.Frame.step (Avatar.Frame.same s) (fun B => ⟨rfl, rfl, rfl, rfl, rfl, rfl, rfl, rfl⟩)

theorem applySpringForces_frame (E : Ext K) (deltaTime : K) (a : Avatar K) (b : Int) :
    a.Frame (applySpringForces E deltaTime a b).1 := by
  unfold applySpringForces
  dsimp only
  split_ifs <;>
    repeat (first
      | exact Avatar.Frame.same a
      | refine Avatar.Frame.step ?_ (fun B => ⟨rfl, rfl, rfl, rfl, rfl, rfl, rfl, rfl⟩))

theorem updateBodyBall_frame (E : Ext K) (deltaTime : K) (orientation : Quat K)
    (a : Avatar K) (b : Int) : a.Frame (updateBodyBall E deltaTime orientation a b) := by
  have h0 := applySpringForces_frame E deltaTime a b
  unfold updateBodyBall
  generalize applySpringForces E deltaTime a b = r at h0
  obtain ⟨a1, springVector, length⟩ := r
  dsimp only at h0 ⊢
  have st : ∀ (X : Avatar K) (i : Int) (f : BodyBall K → BodyBall K), a.Frame X →
      (∀ B : BodyBall K, B.SameStatics (f B)) → a.Frame (X.modifyBall i f) :=
    fun X i f h hf => Avatar.Frame.step h hf
  split_ifs
  all_goals
    apply st
    · apply st
      · apply st
        · apply st
          · exact h0
          · exact fun B => ⟨rfl, rfl, rfl, rfl, rfl, rfl, rfl, rfl⟩
        · exact fun B => ⟨rfl, rfl, rfl, rfl, rfl, rfl, rfl, rfl⟩
      · exact fun B => ⟨rfl, rfl, rfl, rfl, rfl, rfl, rfl, rfl⟩
    · exact fun B => ⟨rfl, rfl, rfl, rfl, rfl, rfl, rfl, rfl⟩

theorem copyHeadRotation_frame (E : Ext K) (a : Avatar K) : a.Frame (copyHeadRotation E a) := by
  unfold copyHeadRotation
  dsimp only
  repeat (first
      | exact Avatar.Frame.same a
      | refine Avatar.Frame.step ?_ (fun B => ⟨rfl, rfl, rfl, rfl, rfl, rfl, rfl, rfl⟩))

theorem integrateBodyBalls_frame (E : Ext K) (a : Avatar K) (deltaTime : K) :
    a.Frame (integrateBodyBalls E a deltaTime) := by
  unfold integrateBodyBalls
  dsimp only
  exact (forEachBall_frame _ (fun s b => updateBodyBall_frame E deltaTime _ s b) a).andThen
    (copyHeadRotation_frame E _)

theorem updateBodyBalls_frame (E : Ext K) (a : Avatar K) (deltaTime : K) :
    a.Frame (updateBodyBalls E a deltaTime) := by
  unfold updateBodyBalls
  dsimp only
  split_ifs
  · exact (resetBodyBalls_frame a).andThen (integrateBodyBalls_frame E _ deltaTime)
  · exact integrateBodyBalls_frame E a deltaTime

theorem collideBallWithSphere_frame (E : Ext K) (position : Vec3 K) (radius deltaTime : K)
    (a : Avatar K) (b : Int) : a.Frame (collideBallWithSphere E position radius deltaTime a b) := by
  unfold collideBallWithSphere
  dsimp only
  split_ifs
  · exact Avatar.Frame.step (Avatar.Frame.stepVelocity (Avatar.Frame.same a))
      (fun B => ⟨rfl, rfl, rfl, rfl, rfl, rfl, rfl, rfl⟩)
  · exact Avatar.Frame.same a
  · exact Avatar.Frame.same a

theorem updateCollisionWithSphere_frame (E : Ext K) (a : Avatar K) (position : Vec3 K)
    (radius deltaTime : K) : a.Frame (updateCollisionWithSphere E a position radius deltaTime) := by
  unfold updateCollisionWithSphere
  dsimp only
  split_ifs
  · exact forEachBall_frame _ (fun s b => collideBallWithSphere_frame E position radius
      deltaTime s b) a
  · exact Avatar.Frame.same a

/-! ## Rescaling -/

@[simp] theorem Avatar.setRadius_scale (a : Avatar K) (i : Int) (r : K) :
    (a.setRadius i r)._scale = a._scale := rfl
@[simp] theorem Avatar.setRadius_newScale (a : Avatar K) (i : Int) (r : K) :
    (a.setRadius i r)._newScale = a._newScale := rfl
@[simp] theorem Avatar.scaleRadius_scale (a : Avatar K) (i : Int) (r : K) :
    (a.scaleRadius i r)._scale = a._scale := rfl
@[simp] theorem Avatar.scaleRadius_newScale (a : Avatar K) (i : Int) (r : K) :
    (a.scaleRadius i r)._newScale = a._newScale := rfl

theorem setScaleRadii_scale (E : Ext K) (a : Avatar K) :
    (setScaleRadii E a)._scale = a._scale := by
  unfold setScaleRadii
  simp only [Avatar.scaleRadius_scale]

theorem setScaleRadii_newScale (E : Ext K) (a : Avatar K) :
    (setScaleRadii E a)._newScale = a._newScale := by
  unfold setScaleRadii
  simp only [Avatar.scaleRadius_newScale]

/-- The radius block of setScale, ball by ball. -/
theorem setScaleRadii_radius (E : Ext K) (a : Avatar K) (b : Int) :
    ((setScaleRadii E a)._bodyBall b).radius =
      if 0 ≤ b ∧ b < (NUM_AVATAR_BODY_BALLS : Int) ∧ b ≠ BODY_BALL_HEAD_TOP
      then a._scale * E.baseRadius b else (a._bodyBall b).radius := by
  unfold setScaleRadii Avatar.scaleRadius Avatar.setRadius
  simp only [Avatar.modifyBall_bodyBall, Avatar.modifyBall_scale, NUM_AVATAR_BODY_BALLS, BODY_BALL_PELVIS, BODY_BALL_TORSO, BODY_BALL_CHEST, BODY_BALL_NECK_BASE, BODY_BALL_HEAD_BASE, BODY_BALL_HEAD_TOP, BODY_BALL_LEFT_COLLAR, BODY_BALL_LEFT_SHOULDER, BODY_BALL_LEFT_ELBOW, BODY_BALL_LEFT_WRIST, BODY_BALL_LEFT_FINGERTIPS, BODY_BALL_RIGHT_COLLAR, BODY_BALL_RIGHT_SHOULDER, BODY_BALL_RIGHT_ELBOW, BODY_BALL_RIGHT_WRIST, BODY_BALL_RIGHT_FINGERTIPS, BODY_BALL_LEFT_HIP, BODY_BALL_LEFT_KNEE, BODY_BALL_LEFT_HEEL, BODY_BALL_LEFT_TOES, BODY_BALL_RIGHT_HIP, BODY_BALL_RIGHT_KNEE, BODY_BALL_RIGHT_HEEL, BODY_BALL_RIGHT_TOES]
  by_cases hb : 0 ≤ b ∧ b < 24
  · obtain ⟨h0, h1⟩ := hb
    interval_cases b <;> simp [Ext.baseRadius, BODY_BALL_PELVIS, BODY_BALL_TORSO, BODY_BALL_CHEST, BODY_BALL_NECK_BASE, BODY_BALL_HEAD_BASE, BODY_BALL_HEAD_TOP, BODY_BALL_LEFT_COLLAR, BODY_BALL_LEFT_SHOULDER, BODY_BALL_LEFT_ELBOW, BODY_BALL_LEFT_WRIST, BODY_BALL_LEFT_FINGERTIPS, BODY_BALL_RIGHT_COLLAR, BODY_BALL_RIGHT_SHOULDER, BODY_BALL_RIGHT_ELBOW, BODY_BALL_RIGHT_WRIST, BODY_BALL_RIGHT_FINGERTIPS, BODY_BALL_LEFT_HIP, BODY_BALL_LEFT_KNEE, BODY_BALL_LEFT_HEEL, BODY_BALL_LEFT_TOES, BODY_BALL_RIGHT_HIP, BODY_BALL_RIGHT_KNEE, BODY_BALL_RIGHT_HEEL, BODY_BALL_RIGHT_TOES]
  · have hne : ∀ k : Int, 0 ≤ k → k < 24 → b ≠ k := by
      intro k hk0 hk1 hbk; exact hb (hbk ▸ ⟨hk0, hk1⟩)
    have hcond : ¬ (0 ≤ b ∧ b < 24 ∧ ¬ b = 5) := by
      intro h; exact hb ⟨h.1, h.2.1⟩
    simp [hcond, hne 0, hne 1, hne 2, hne 3, hne 4, hne 6, hne 7, hne 8, hne 9, hne 10, hne 11,
      hne 12, hne 13, hne 14, hne 15, hne 16, hne 17, hne 18, hne 19, hne 20, hne 21, hne 22,
      hne 23]

theorem setScale_scale (E : Ext K) (a : Avatar K) (scale : K) :
    (setScale E a scale)._scale =
      if withinRescalingTolerance E a._newScale scale then a._newScale else scale := by
  unfold setScale withinRescalingTolerance
  dsimp only
  split_ifs <;> simp only [setScaleRadii_scale]

theorem setScale_newScale (E : Ext K) (a : Avatar K) (scale : K) :
    (setScale E a scale)._newScale = a._newScale := by
  unfold setScale
  dsimp only
  split_ifs <;> simp only [setScaleRadii_newScale]

theorem setScale_radius (E : Ext K) (a : Avatar K) (scale : K) (b : Int) :
    ((setScale E a scale)._bodyBall b).radius =
      if 0 ≤ b ∧ b < (NUM_AVATAR_BODY_BALLS : Int) ∧ b ≠ BODY_BALL_HEAD_TOP
      then (setScale E a scale)._scale * E.baseRadius b else (a._bodyBall b).radius := by
  rw [setScale_scale]
  unfold setScale withinRescalingTolerance
  dsimp only
  split_ifs with h1 h2 h2 <;> simp only [setScaleRadii_radius] <;>
    first | rw [if_pos h2] | rw [if_neg h2]

/-! ## Initialization -/

@[simp] theorem Avatar.setParentJoint_radius (a : Avatar K) (i j b : Int) :
    ((a.setParentJoint i j)._bodyBall b).radius = (a._bodyBall b).radius := by
  unfold Avatar.setParentJoint
  rw [Avatar.modifyBall_bodyBall]
  split_ifs with h
  · subst h; rfl
  · rfl

@[simp] theorem Avatar.setParentOffset_radius (a : Avatar K) (i b : Int) (v : Vec3 K) :
    ((a.setParentOffset i v)._bodyBall b).radius = (a._bodyBall b).radius := by
  unfold Avatar.setParentOffset
  rw [Avatar.modifyBall_bodyBall]
  split_ifs with h
  · subst h; rfl
  · rfl

@[simp] theorem Avatar.setParentBall_radius (a : Avatar K) (i j b : Int) :
    ((a.setParentBall i j)._bodyBall b).radius = (a._bodyBall b).radius := by
  unfold Avatar.setParentBall
  rw [Avatar.modifyBall_bodyBall]
  split_ifs with h
  · subst h; rfl
  · rfl

theorem initializeBodyBallsDefaults_eq (a : Avatar K) :
    initializeBodyBallsDefaults a = { a with _bodyBall := (fun c =>
      if 0 ≤ c ∧ c < (NUM_AVATAR_BODY_BALLS : Int)
      then { (a._bodyBall c) with
        parentJoint := AVATAR_JOINT_NULL
        parentOffset := ⟨0, 0, 0⟩
        position := ⟨0, 0, 0⟩
        velocity := ⟨0, 0, 0⟩
        radius := 0
        touchForce := 0
        isCollidable := true
        jointTightness := BODY_SPRING_DEFAULT_TIGHTNESS }
      else a._bodyBall c) } :=
  forFirstBalls_modifyBall
    (fun (_ : Avatar K) (B : BodyBall K) => { B with
        parentJoint := AVATAR_JOINT_NULL
        parentOffset := ⟨0, 0, 0⟩
        position := ⟨0, 0, 0⟩
        velocity := ⟨0, 0, 0⟩
        radius := 0
        touchForce := 0
        isCollidable := true
        jointTightness := BODY_SPRING_DEFAULT_TIGHTNESS })
    (fun s balls => rfl) NUM_AVATAR_BODY_BALLS a

/-- The radius of every ball after initializeBodyBalls is its base radius. -/
theorem initializeBodyBalls_radius (E : Ext K) (a : Avatar K) (b : Int)
    (hb : 0 ≤ b ∧ b < (NUM_AVATAR_BODY_BALLS : Int)) :
    ((initializeBodyBalls E a)._bodyBall b).radius = E.baseRadius b := by
  unfold initializeBodyBalls
  dsimp only
  unfold initializeBodyBallsParentBalls initializeBodyBallsParentOffsets
    initializeBodyBallsParentJoints
  simp only [Avatar.setParentBall_radius, Avatar.setParentOffset_radius,
    Avatar.setParentJoint_radius]
  unfold initializeBodyBallsRadii Avatar.setRadius
  rw [initializeBodyBallsDefaults_eq]
  simp only [Avatar.modifyBall_bodyBall, NUM_AVATAR_BODY_BALLS, BODY_BALL_PELVIS, BODY_BALL_TORSO, BODY_BALL_CHEST, BODY_BALL_NECK_BASE, BODY_BALL_HEAD_BASE, BODY_BALL_HEAD_TOP, BODY_BALL_LEFT_COLLAR, BODY_BALL_LEFT_SHOULDER, BODY_BALL_LEFT_ELBOW, BODY_BALL_LEFT_WRIST, BODY_BALL_LEFT_FINGERTIPS, BODY_BALL_RIGHT_COLLAR, BODY_BALL_RIGHT_SHOULDER, BODY_BALL_RIGHT_ELBOW, BODY_BALL_RIGHT_WRIST, BODY_BALL_RIGHT_FINGERTIPS, BODY_BALL_LEFT_HIP, BODY_BALL_LEFT_KNEE, BODY_BALL_LEFT_HEEL, BODY_BALL_LEFT_TOES, BODY_BALL_RIGHT_HIP, BODY_BALL_RIGHT_KNEE, BODY_BALL_RIGHT_HEEL, BODY_BALL_RIGHT_TOES]
  obtain ⟨h0, h1⟩ := hb
  simp only [NUM_AVATAR_BODY_BALLS] at h1
  interval_cases b <;> simp [Ext.baseRadius, BODY_BALL_PELVIS, BODY_BALL_TORSO, BODY_BALL_CHEST, BODY_BALL_NECK_BASE, BODY_BALL_HEAD_BASE, BODY_BALL_HEAD_TOP, BODY_BALL_LEFT_COLLAR, BODY_BALL_LEFT_SHOULDER, BODY_BALL_LEFT_ELBOW, BODY_BALL_LEFT_WRIST, BODY_BALL_LEFT_FINGERTIPS, BODY_BALL_RIGHT_COLLAR, BODY_BALL_RIGHT_SHOULDER, BODY_BALL_RIGHT_ELBOW, BODY_BALL_RIGHT_WRIST, BODY_BALL_RIGHT_FINGERTIPS, BODY_BALL_LEFT_HIP, BODY_BALL_LEFT_KNEE, BODY_BALL_LEFT_HEEL, BODY_BALL_LEFT_TOES, BODY_BALL_RIGHT_HIP, BODY_BALL_RIGHT_KNEE, BODY_BALL_RIGHT_HEEL, BODY_BALL_RIGHT_TOES]

@[simp] theorem Avatar.setParentJoint_scale (a : Avatar K) (i j : Int) :
    (a.setParentJoint i j)._scale = a._scale := rfl
@[simp] theorem Avatar.setParentOffset_scale (a : Avatar K) (i : Int) (v : Vec3 K) :
    (a.setParentOffset i v)._scale = a._scale := rfl
@[simp] theorem Avatar.setParentBall_scale (a : Avatar K) (i j : Int) :
    (a.setParentBall i j)._scale = a._scale := rfl

theorem initializeBodyBalls_scale (E : Ext K) (a : Avatar K) :
    (initializeBodyBalls E a)._scale = a._scale := by
  unfold initializeBodyBalls
  dsimp only
  unfold initializeBodyBallsParentBalls initializeBodyBallsParentOffsets
    initializeBodyBallsParentJoints initializeBodyBallsRadii
  simp only [Avatar.setParentBall_scale, Avatar.setParentOffset_scale,
    Avatar.setParentJoint_scale, Avatar.setRadius_scale]
  rw [initializeBodyBallsDefaults_eq]

theorem constructAvatar_scale (E : Ext K) (a : Avatar K) :
    (constructAvatar E a)._scale = 1 := by
  unfold constructAvatar
  dsimp only
  rw [initializeBodyBalls_scale]

theorem constructAvatar_radius (E : Ext K) (a : Avatar K) (b : Int)
    (hb : 0 ≤ b ∧ b < (NUM_AVATAR_BODY_BALLS : Int)) :
    ((constructAvatar E a)._bodyBall b).radius = E.baseRadius b := by
  unfold constructAvatar
  dsimp only
  exact initializeBodyBalls_radius E _ b hb

theorem RadiusInvariant.of_frame {E : Ext K} {s t : Avatar K} (h : s.Frame t)
    (hs : RadiusInvariant E s) : RadiusInvariant E t := by
  intro b hb
  obtain ⟨_, _, _, _, hscale, _, _, _, _, hballs⟩ := h
  rw [(hballs b).2.2.2.1, hscale]
  exact hs b hb

theorem RadiusInvariant.afterSetScale (E : Ext K) (a : Avatar K) (scale : K)
    (hs : RadiusInvariant E a) : RadiusInvariant E (setScale E a scale) := by
  intro b hb
  rw [setScale_radius]
  by_cases h5 : b = BODY_BALL_HEAD_TOP
  · have hcond : ¬ (0 ≤ b ∧ b < (NUM_AVATAR_BODY_BALLS : Int) ∧ b ≠ BODY_BALL_HEAD_TOP) :=
      fun h => h.2.2 h5
    rw [if_neg hcond, hs b hb]
    subst h5
    simp [Ext.baseRadius, BODY_BALL_HEAD_TOP, BODY_BALL_PELVIS, BODY_BALL_TORSO, BODY_BALL_CHEST,
      BODY_BALL_NECK_BASE, BODY_BALL_HEAD_BASE, BODY_BALL_LEFT_COLLAR, BODY_BALL_LEFT_SHOULDER,
      BODY_BALL_LEFT_ELBOW, BODY_BALL_LEFT_WRIST, BODY_BALL_LEFT_FINGERTIPS,
      BODY_BALL_RIGHT_COLLAR, BODY_BALL_RIGHT_SHOULDER, BODY_BALL_RIGHT_ELBOW,
      BODY_BALL_RIGHT_WRIST, BODY_BALL_RIGHT_FINGERTIPS, BODY_BALL_LEFT_HIP, BODY_BALL_LEFT_KNEE,
      BODY_BALL_LEFT_HEEL, BODY_BALL_LEFT_TOES, BODY_BALL_RIGHT_HIP, BODY_BALL_RIGHT_KNEE,
      BODY_BALL_RIGHT_HEEL, BODY_BALL_RIGHT_TOES]
  · rw [if_pos ⟨hb.1, hb.2, h5⟩, mul_comm]

/-! ## Lengths under an exact square root -/

theorem ExactSqrt.sqrt_nonneg {E : Ext K} (h : ExactSqrt E) {x : K} (hx : 0 ≤ x) :
    0 ≤ E.sqrt x := (h x hx).1

theorem ExactSqrt.sqrt_mul_sqrt {E : Ext K} (h : ExactSqrt E) {x : K} (hx : 0 ≤ x) :
    E.sqrt x * E.sqrt x = x := (h x hx).2

theorem ExactSqrt.sqrt_mul_self {E : Ext K} (h : ExactSqrt E) (y : K) :
    E.sqrt (y * y) = |y| := by
  have hy : 0 ≤ y * y := mul_self_nonneg y
  have h1 := h.sqrt_nonneg hy
  have h2 := h.sqrt_mul_sqrt hy
  have h3 : |y| * |y| = y * y := abs_mul_abs_self y
  exact (mul_self_inj h1 (abs_nonneg y)).1 (h2.trans h3.symm)

theorem dot_self_nonneg (v : Vec3 K) : 0 ≤ dot v v := by
  unfold dot
  have h1 := mul_self_nonneg v.x
  have h2 := mul_self_nonneg v.y
  have h3 := mul_self_nonneg v.z
  linarith

theorem ExactSqrt.length_nonneg {E : Ext K} (h : ExactSqrt E) (v : Vec3 K) : 0 ≤ E.length v :=
  h.sqrt_nonneg (dot_self_nonneg v)

theorem ExactSqrt.length_mul_length {E : Ext K} (h : ExactSqrt E) (v : Vec3 K) :
    E.length v * E.length v = dot v v :=
  h.sqrt_mul_sqrt (dot_self_nonneg v)

/-- The length of a vector is determined by its square. -/
theorem ExactSqrt.length_eq_of_sq {E : Ext K} (h : ExactSqrt E) (v : Vec3 K) (r : K)
    (hr : 0 ≤ r) (hsq : dot v v = r * r) : E.length v = r := by
  have h1 := h.length_nonneg v
  have h2 := h.length_mul_length v
  exact (mul_self_inj h1 hr).1 (h2.trans hsq)

theorem ExactSqrt.length_scaled_direction {E : Ext K} (h : ExactSqrt E) (v : Vec3 K) (r : K)
    (hr : 0 ≤ r) (hpos : 0 < E.length v) : E.length (v / E.length v * r) = r := by
  apply h.length_eq_of_sq _ r hr
  have h2 := h.length_mul_length v
  have hne : E.length v ≠ 0 := ne_of_gt hpos
  unfold dot at h2 ⊢
  simp only [Vec3.mul_x, Vec3.mul_y, Vec3.mul_z, Vec3.div_x, Vec3.div_y, Vec3.div_z]
  field_simp
  rw [h2]
  ring

theorem Vec3.add_sub_cancel_left (a b : Vec3 K) : a + b - a = b := by
  ext <;> simp

theorem Vec3.add_zero_vec (a : Vec3 K) : a + (⟨0, 0, 0⟩ : Vec3 K) = a := by
  ext <;> simp

/-! ## Joint assignments -/

@[simp] theorem Avatar.modifyJoint_joint (a : Avatar K) (i j : Int)
    (f : AvatarJoint K → AvatarJoint K) :
    (a.modifyJoint i f)._skeleton.joint j
      = if j = i then f (a._skeleton.joint i) else a._skeleton.joint j := by
  unfold Avatar.modifyJoint
  by_cases h : j = i
  · subst h; simp
  · simp [h]

@[simp] theorem Avatar.modifyJoint_maxArmLength (a : Avatar K) (i : Int)
    (f : AvatarJoint K → AvatarJoint K) : (a.modifyJoint i f)._maxArmLength = a._maxArmLength :=
  rfl

@[simp] theorem Avatar.modifyJoint_getBodyRightDirection (E : Ext K) (a : Avatar K) (i : Int)
    (f : AvatarJoint K → AvatarJoint K) :
    (a.modifyJoint i f).getBodyRightDirection E = a.getBodyRightDirection E := rfl

/-- The fingertip and shoulder joints after updateArmIKAndConstraints. -/
theorem updateArmIKAndConstraints_fingertips (E : Ext K) (a : Avatar K) :
    ((updateArmIKAndConstraints E a)._skeleton.joint AVATAR_JOINT_RIGHT_FINGERTIPS).position
      = (if E.length ((a._skeleton.joint AVATAR_JOINT_RIGHT_FINGERTIPS).position
            - (a._skeleton.joint AVATAR_JOINT_RIGHT_SHOULDER).position) > a._maxArmLength
        then (a._skeleton.joint AVATAR_JOINT_RIGHT_SHOULDER).position
          + ((a._skeleton.joint AVATAR_JOINT_RIGHT_FINGERTIPS).position
              - (a._skeleton.joint AVATAR_JOINT_RIGHT_SHOULDER).position)
            / E.length ((a._skeleton.joint AVATAR_JOINT_RIGHT_FINGERTIPS).position
              - (a._skeleton.joint AVATAR_JOINT_RIGHT_SHOULDER).position)
            * a._maxArmLength
        else (a._skeleton.joint AVATAR_JOINT_RIGHT_FINGERTIPS).position)
    ∧ ((updateArmIKAndConstraints E a)._skeleton.joint AVATAR_JOINT_RIGHT_SHOULDER).position
      = (a._skeleton.joint AVATAR_JOINT_RIGHT_SHOULDER).position := by
  unfold updateArmIKAndConstraints
  dsimp only
  split_ifs with h <;>
    simp [AVATAR_JOINT_RIGHT_FINGERTIPS, AVATAR_JOINT_RIGHT_SHOULDER, AVATAR_JOINT_RIGHT_ELBOW,
      AVATAR_JOINT_RIGHT_WRIST]

/-- The square root of the reals is exact. -/
theorem exactSqrt_real : ExactSqrt (sampleExt Real.sqrt) :=
  fun x hx => ⟨Real.sqrt_nonneg x, Real.mul_self_sqrt hx⟩

/-! ## The collision loop -/

/-- A loop whose body adds h of ball b to the avatar velocity and replaces
ball b by g of it adds up the h of the balls as they were before the loop and
replaces every ball of the array by g of it. -/
theorem forFirstBalls_accumulate (g : BodyBall K → BodyBall K) (h : BodyBall K → Vec3 K)
    (n : Nat) (a : Avatar K) :
    forFirstBalls n (fun s b =>
        ({ s with _velocity := s._velocity + h (s._bodyBall b) } : Avatar K).modifyBall b g) a
      = { a with
          _velocity := ((List.range n).foldl
            (fun (v : Vec3 K) (b : Nat) => v + h (a._bodyBall (b : Int))) a._velocity)
          _bodyBall := (fun c =>
            if 0 ≤ c ∧ c < (n : Int) then g (a._bodyBall c) else a._bodyBall c) } := by
  induction n with
  | zero =>
    rw [forFirstBalls_zero]
    have : (fun c : Int => if 0 ≤ c ∧ c < ((0 : Nat) : Int) then g (a._bodyBall c)
        else a._bodyBall c) = a._bodyBall := by
      funext c
      have : ¬ (0 ≤ c ∧ c < ((0 : Nat) : Int)) := by
        simp only [Nat.cast_zero]; omega
      simp [this]
    rw [this]
    rfl
  | succ n ih =>
    rw [forFirstBalls_succ, ih]
    unfold Avatar.modifyBall
    have h1 : ¬ ((n : Int) < (n : Int)) := lt_irrefl _
    simp only [h1, and_false, if_false, List.range_succ, List.foldl_append, List.foldl_cons,
      List.foldl_nil]
    congr 1
    funext c
    by_cases hc : c = (n : Int)
    · subst hc
      simp
    · have h2 : (0 ≤ c ∧ c < (n : Int) + 1) ↔ (0 ≤ c ∧ c < (n : Int)) := by
        omega
      simp [Function.update, hc, h2]

/-- The loop body of updateCollisionWithSphere in terms of sphereImpulse and sphereSnap. -/
theorem collideBallWithSphere_eq (E : Ext K) (position : Vec3 K) (radius deltaTime : K)
    (s : Avatar K) (b : Int) :
    collideBallWithSphere E position radius deltaTime s b
      = ({ s with _velocity := (s._velocity
            + sphereImpulse E position radius deltaTime (s._bodyBall b)) } : Avatar K).modifyBall b
          (sphereSnap E position radius) := by
  unfold collideBallWithSphere sphereImpulse sphereSnap Avatar.modifyBall
  dsimp only
  by_cases h1 : E.length ((s._bodyBall b).position - position) < (s._bodyBall b).radius + radius
  · by_cases h2 : E.length ((s._bodyBall b).position - position) > 0
    · rw [if_pos h1, if_pos h2, if_pos ⟨h1, h2⟩, if_pos ⟨h1, h2⟩]
    · rw [if_pos h1, if_neg h2, if_neg (fun h => h2 h.2), if_neg (fun h => h2 h.2)]
      simp [Vec3.add_zero_vec]
  · rw [if_neg h1, if_neg (fun h => h1 h.1), if_neg (fun h => h1 h.1)]
    simp [Vec3.add_zero_vec]

/-- The state after updateCollisionWithSphere when the avatar is within the
broad-phase range of the sphere. -/
theorem updateCollisionWithSphere_eq (E : Ext K) (a : Avatar K) (position : Vec3 K)
    (radius deltaTime : K) (hnear : E.length (a._position - position) < 1 + radius) :
    updateCollisionWithSphere E a position radius deltaTime
      = { a with
          _velocity := ((List.range NUM_AVATAR_BODY_BALLS).foldl
            (fun (v : Vec3 K) (b : Nat) =>
              v + sphereImpulse E position radius deltaTime (a._bodyBall (b : Int)))
            a._velocity)
          _bodyBall := (fun c =>
            if 0 ≤ c ∧ c < (NUM_AVATAR_BODY_BALLS : Int)
            then sphereSnap E position radius (a._bodyBall c) else a._bodyBall c) } := by
  unfold updateCollisionWithSphere
  dsimp only
  rw [if_pos hnear, forEachBall_eq]
  have hbody : collideBallWithSphere E position radius deltaTime
      = fun s b => ({ s with _velocity := (s._velocity
            + sphereImpulse E position radius deltaTime (s._bodyBall b)) } : Avatar K).modifyBall b
          (sphereSnap E position radius) := by
    funext s b
    exact collideBallWithSphere_eq E position radius deltaTime s b
  rw [hbody]
  exact forFirstBalls_accumulate _ _ _ a

/-- The state after updateCollisionWithSphere when the avatar is outside the
broad-phase range of the sphere. -/
theorem updateCollisionWithSphere_far (E : Ext K) (a : Avatar K) (position : Vec3 K)
    (radius deltaTime : K) (hfar : ¬ E.length (a._position - position) < 1 + radius) :
    updateCollisionWithSphere E a position radius deltaTime = a := by
  unfold updateCollisionWithSphere
  dsimp only
  rw [if_neg hfar]

/-- The length of a rational vector whose square is the square of r, computed
with the rational square root. -/
theorem ratLength_eq (v : Vec3 ℚ) (r : ℚ) (hr : 0 ≤ r) (h : dot v v = r * r) :
    (sampleExt Rat.sqrt).length v = r := by
  show Rat.sqrt (dot v v) = r
  rw [h, Rat.sqrt_eq, abs_of_nonneg hr]

theorem sphereSnap_velocity (E : Ext K) (position : Vec3 K) (radius : K) (B : BodyBall K) :
    (sphereSnap E position radius B).velocity = B.velocity := by
  unfold sphereSnap
  split_ifs <;> rfl

theorem sphereSnap_radius (E : Ext K) (position : Vec3 K) (radius : K) (B : BodyBall K) :
    (sphereSnap E position radius B).radius = B.radius := by
  unfold sphereSnap
  split_ifs <;> rfl

/-- updateCollisionWithSphere writes no ball velocity. -/
theorem updateCollisionWithSphere_ball_velocity (E : Ext K) (a : Avatar K) (position : Vec3 K)
    (radius deltaTime : K) (c : Int) :
    ((updateCollisionWithSphere E a position radius deltaTime)._bodyBall c).velocity
      = (a._bodyBall c).velocity := by
  by_cases hnear : E.length (a._position - position) < 1 + radius
  · rw [updateCollisionWithSphere_eq E a position radius deltaTime hnear]
    dsimp only
    split_ifs
    · exact sphereSnap_velocity E position radius _
    · rfl
  · rw [updateCollisionWithSphere_far E a position radius deltaTime hnear]

/-- The ball b after updateCollisionWithSphere within the broad-phase range. -/
theorem updateCollisionWithSphere_ball (E : Ext K) (a : Avatar K) (position : Vec3 K)
    (radius deltaTime : K) (b : Int) (hb : 0 ≤ b ∧ b < (NUM_AVATAR_BODY_BALLS : Int))
    (hnear : E.length (a._position - position) < 1 + radius) :
    (updateCollisionWithSphere E a position radius deltaTime)._bodyBall b
      = sphereSnap E position radius (a._bodyBall b) := by
  rw [updateCollisionWithSphere_eq E a position radius deltaTime hnear]
  dsimp only
  rw [if_pos hb]

theorem ExactSqrt.dot_self_pos {E : Ext K} (h : ExactSqrt E) (v : Vec3 K)
    (hpos : 0 < E.length v) : 0 < dot v v := by
  have h2 := h.length_mul_length v
  rw [← h2]
  exact mul_pos hpos hpos

theorem dot_smul_left (v w : Vec3 K) (k : K) : dot (v * k) w = k * dot v w := by
  unfold dot
  simp only [Vec3.mul_x, Vec3.mul_y, Vec3.mul_z]
  ring

theorem dot_div_right (v w : Vec3 K) (k : K) : dot v (w / k) = dot v w / k := by
  unfold dot
  simp only [Vec3.div_x, Vec3.div_y, Vec3.div_z]
  ring

/-- The avatar velocity after updateCollisionWithSphere within the broad-phase
range: the sum of the impulses of the balls is added. -/
theorem updateCollisionWithSphere_velocity (E : Ext K) (a : Avatar K) (position : Vec3 K)
    (radius deltaTime : K) (hnear : E.length (a._position - position) < 1 + radius) :
    (updateCollisionWithSphere E a position radius deltaTime)._velocity
      = (List.range NUM_AVATAR_BODY_BALLS).foldl
          (fun (v : Vec3 K) (b : Nat) =>
            v + sphereImpulse E position radius deltaTime (a._bodyBall (b : Int)))
          a._velocity := by
  rw [updateCollisionWithSphere_eq E a position radius deltaTime hnear]

/-! ## Positions in the integration loop -/

theorem Avatar.modifyBall_bodyBall_ne (a : Avatar K) {i c : Int} (f : BodyBall K → BodyBall K)
    (h : c ≠ i) : (a.modifyBall i f)._bodyBall c = a._bodyBall c := by
  rw [Avatar.modifyBall_bodyBall, if_neg h]

theorem Avatar.modifyBall_bodyBall_self (a : Avatar K) (i : Int) (f : BodyBall K → BodyBall K) :
    (a.modifyBall i f)._bodyBall i = f (a._bodyBall i) := by
  rw [Avatar.modifyBall_bodyBall, if_pos rfl]

/-- A ball assignment that keeps positions keeps the position of every ball. -/
theorem Avatar.modifyBall_position_of_keeps (a : Avatar K) (i c : Int)
    (f : BodyBall K → BodyBall K) (hf : ∀ B : BodyBall K, (f B).position = B.position) :
    ((a.modifyBall i f)._bodyBall c).position = (a._bodyBall c).position := by
  rw [Avatar.modifyBall_bodyBall]
  split_ifs with h
  · rw [hf, h]
  · rfl

/-- The spring forces write velocities only. -/
theorem applySpringForces_position (E : Ext K) (deltaTime : K) (a : Avatar K) (b c : Int) :
    (((applySpringForces E deltaTime a b).1)._bodyBall c).position = (a._bodyBall c).position := by
  have st : ∀ (X : Avatar K) (i : Int) (f : BodyBall K → BodyBall K),
      (X._bodyBall c).position = (a._bodyBall c).position →
      (∀ B : BodyBall K, (f B).position = B.position) →
      ((X.modifyBall i f)._bodyBall c).position = (a._bodyBall c).position :=
    fun X i f hX hf => (Avatar.modifyBall_position_of_keeps X i c f hf).trans hX
  unfold applySpringForces
  dsimp only
  split_ifs <;> dsimp only <;>
    first
      | exact st _ _ _ (st _ _ _ rfl (fun _ => rfl)) (fun _ => rfl)
      | exact st _ _ _ rfl (fun _ => rfl)

/-- The loop body of updateBodyBalls for ball b writes the position of no other ball. -/
theorem updateBodyBall_position_of_ne (E : Ext K) (deltaTime : K) (orientation : Quat K)
    (a : Avatar K) (b c : Int) (hc : c ≠ b) :
    ((updateBodyBall E deltaTime orientation a b)._bodyBall c).position
      = (a._bodyBall c).position := by
  have h0 := applySpringForces_position E deltaTime a b c
  unfold updateBodyBall
  generalize applySpringForces E deltaTime a b = r at h0
  obtain ⟨a1, springVector, length⟩ := r
  dsimp only at h0 ⊢
  split_ifs <;> simp only [Avatar.modifyBall_bodyBall_ne _ _ hc] <;> exact h0

/-- With deltaTime so large that the decay factor is not positive, the loop body
of updateBodyBalls zeroes the velocity of ball b before it integrates: no ball
position changes. -/
theorem updateBodyBall_position_of_no_decay (E : Ext K) (deltaTime : K) (orientation : Quat K)
    (a : Avatar K) (b c : Int) (hdecay : ¬ (1 - BODY_SPRING_DECAY * deltaTime > 0)) :
    ((updateBodyBall E deltaTime orientation a b)._bodyBall c).position
      = (a._bodyBall c).position := by
  by_cases hc : c = b
  · subst hc
    have h0 := applySpringForces_position E deltaTime a c c
    unfold updateBodyBall
    generalize applySpringForces E deltaTime a c = r at h0
    obtain ⟨a1, springVector, length⟩ := r
    dsimp only at h0 ⊢
    rw [if_neg hdecay]
    split_ifs <;> simp only [Avatar.modifyBall_bodyBall_self] <;> rw [← h0] <;>
      ext <;> simp
  · exact updateBodyBall_position_of_ne E deltaTime orientation a b c hc

/-- The head placement writes the head-base and head-top balls only. -/
theorem copyHeadRotation_bodyBall_of_ne (E : Ext K) (a : Avatar K) (c : Int)
    (h4 : c ≠ BODY_BALL_HEAD_BASE) (h5 : c ≠ BODY_BALL_HEAD_TOP) :
    (copyHeadRotation E a)._bodyBall c = a._bodyBall c := by
  unfold copyHeadRotation
  dsimp only
  simp only [Avatar.modifyBall_bodyBall_ne _ _ h4, Avatar.modifyBall_bodyBall_ne _ _ h5]

/-- A ball assignment that keeps velocities keeps the velocity of every ball. -/
theorem Avatar.modifyBall_velocity_of_keeps (a : Avatar K) (i c : Int)
    (f : BodyBall K → BodyBall K) (hf : ∀ B : BodyBall K, (f B).velocity = B.velocity) :
    ((a.modifyBall i f)._bodyBall c).velocity = (a._bodyBall c).velocity := by
  rw [Avatar.modifyBall_bodyBall]
  split_ifs with h
  · rw [hf, h]
  · rfl

theorem copyHeadRotation_velocity (E : Ext K) (a : Avatar K) (c : Int) :
    ((copyHeadRotation E a)._bodyBall c).velocity = (a._bodyBall c).velocity := by
  have st : ∀ (X : Avatar K) (i : Int) (f : BodyBall K → BodyBall K),
      (X._bodyBall c).velocity = (a._bodyBall c).velocity →
      (∀ B : BodyBall K, (f B).velocity = B.velocity) →
      ((X.modifyBall i f)._bodyBall c).velocity = (a._bodyBall c).velocity :=
    fun X i f hX hf => (Avatar.modifyBall_velocity_of_keeps X i c f hf).trans hX
  unfold copyHeadRotation
  dsimp only
  exact st _ _ _ (st _ _ _ (st _ _ _ (st _ _ _ rfl (fun _ => rfl)) (fun _ => rfl))
    (fun _ => rfl)) (fun _ => rfl)

/-- The pelvis ball is integrated by the first loop step and its position is
not written by the later ones. -/
theorem forFirstBalls_updateBodyBall_pelvis_position (E : Ext K) (deltaTime : K)
    (orientation : Quat K) (a : Avatar K) (n : Nat) :
    ((forFirstBalls (n + 1) (updateBodyBall E deltaTime orientation) a)._bodyBall
        BODY_BALL_PELVIS).position
      = ((updateBodyBall E deltaTime orientation a BODY_BALL_PELVIS)._bodyBall
          BODY_BALL_PELVIS).position := by
  induction n with
  | zero =>
    rw [forFirstBalls_succ, forFirstBalls_zero]
    rfl
  | succ n ih =>
    rw [forFirstBalls_succ, updateBodyBall_position_of_ne _ _ _ _ _ _ (by
      unfold BODY_BALL_PELVIS; push_cast; omega), ih]

/-! ## The integration loop without spring forces -/

theorem Avatar.modifyBall_modifyBall (a : Avatar K) (i : Int) (f g : BodyBall K → BodyBall K) :
    (a.modifyBall i f).modifyBall i g = a.modifyBall i (fun B => g (f B)) := by
  unfold Avatar.modifyBall
  simp

/-- While the springs are not calibrated the loop body of updateBodyBalls
replaces ball b by freeBallTick of it. -/
theorem updateBodyBall_of_uncalibrated (E : Ext K) (deltaTime : K) (orientation : Quat K)
    (s : Avatar K) (b : Int) (h : s._ballSpringsInitialized = false) :
    updateBodyBall E deltaTime orientation s b
      = s.modifyBall b (freeBallTick deltaTime orientation s) := by
  have hlen : (0 : K) < 1 / 1000 := by norm_num
  unfold updateBodyBall applySpringForces
  simp only [h, Bool.false_eq_true, if_false]
  rw [if_pos (Or.inr hlen)]
  by_cases hd : 1 - BODY_SPRING_DECAY * deltaTime > 0
  · rw [if_pos hd]
    simp only [Avatar.modifyBall_modifyBall]
    unfold freeBallTick tightnessDecay Avatar.targetPosition
    simp only [if_pos hd, Avatar.modifyBall_skeleton, Avatar.modifyBall_bodyBall_self]
    unfold Avatar.modifyBall
    rfl
  · rw [if_neg hd]
    simp only [Avatar.modifyBall_modifyBall]
    simp only [Avatar.modifyBall_skeleton, Avatar.modifyBall_bodyBall_self]
    unfold Avatar.modifyBall
    simp only [freeBallTick, tightnessDecay, if_neg hd]

/-- Two loop bodies that agree on the states satisfying an invariant of the
first give the same loop from a state satisfying it. -/
theorem forFirstBalls_congr (P : Avatar K → Prop) (f g : Avatar K → Int → Avatar K)
    (hfg : ∀ (s : Avatar K) (b : Int), P s → f s b = g s b)
    (hP : ∀ (s : Avatar K) (b : Int), P s → P (f s b)) (n : Nat) (a : Avatar K) (h0 : P a) :
    forFirstBalls n f a = forFirstBalls n g a ∧ P (forFirstBalls n f a) := by
  induction n with
  | zero => exact ⟨rfl, h0⟩
  | succ n ih =>
    rw [forFirstBalls_succ, forFirstBalls_succ, ← ih.1]
    exact ⟨hfg _ _ ih.2, hP _ _ ih.2⟩

/-- The ball loop of updateBodyBalls while the springs are not calibrated:
every ball of the array is replaced by freeBallTick of it. -/
theorem forEachBall_updateBodyBall_of_uncalibrated (E : Ext K) (deltaTime : K)
    (orientation : Quat K) (a : Avatar K) (h : a._ballSpringsInitialized = false) :
    forEachBall (updateBodyBall E deltaTime orientation) a
      = { a with _bodyBall := (fun c =>
          if 0 ≤ c ∧ c < (NUM_AVATAR_BODY_BALLS : Int)
          then freeBallTick deltaTime orientation a (a._bodyBall c) else a._bodyBall c) } := by
  rw [forEachBall_eq]
  have hc := forFirstBalls_congr (fun s => s._ballSpringsInitialized = false)
    (updateBodyBall E deltaTime orientation)
    (fun s b => s.modifyBall b (freeBallTick deltaTime orientation s))
    (fun s b hs => updateBodyBall_of_uncalibrated E deltaTime orientation s b hs)
    (fun s b hs => by
      have hf := (updateBodyBall_frame E deltaTime orientation s b).2.2.2.2.2.2.2.2.1
      exact hf.trans hs)
    NUM_AVATAR_BODY_BALLS a h
  rw [hc.1]
  exact forFirstBalls_modifyBall (fun s => freeBallTick deltaTime orientation s)
    (fun s balls => rfl) NUM_AVATAR_BODY_BALLS a

theorem tightnessDecay_at_target (deltaTime k : K) (t : Vec3 K) :
    tightnessDecay deltaTime ⟨0, 0, 0⟩ t t k = ⟨0, 0, 0⟩ := by
  unfold tightnessDecay
  split_ifs
  · ext <;> simp
  · rfl

/-- The pelvis step of the loop of updateBodyBalls with calibrated springs, a
spring of positive length and no parent ball: the new pelvis position. -/
theorem updateBodyBall_pelvis_position (E : Ext K) (deltaTime : K) (orientation : Quat K)
    (s : Avatar K) (hcal : s._ballSpringsInitialized = true)
    (hlen : E.length ((s._bodyBall BODY_BALL_PELVIS).position - s._position) > 0)
    (hroot : (s._bodyBall BODY_BALL_PELVIS).parentBall = BODY_BALL_NULL) :
    ((updateBodyBall E deltaTime orientation s BODY_BALL_PELVIS)._bodyBall
        BODY_BALL_PELVIS).position
      = (s._bodyBall BODY_BALL_PELVIS).position
        + tightnessDecay deltaTime
            ((s._bodyBall BODY_BALL_PELVIS).velocity
              - ((s._bodyBall BODY_BALL_PELVIS).position - s._position)
                / E.length ((s._bodyBall BODY_BALL_PELVIS).position - s._position)
                * ((E.length ((s._bodyBall BODY_BALL_PELVIS).position - s._position)
                    - (s._skeleton.joint BODY_BALL_PELVIS).length)
                  * BODY_SPRING_FORCE * deltaTime))
            (s._bodyBall BODY_BALL_PELVIS).position
            (s.targetPosition BODY_BALL_PELVIS)
            (s._bodyBall BODY_BALL_PELVIS).jointTightness
          * deltaTime := by
  unfold updateBodyBall applySpringForces
  simp only [hcal, if_true, hlen, Avatar.modifyBall_bodyBall_self, hroot, ne_eq,
    not_true_eq_false, if_false]
  unfold tightnessDecay Avatar.targetPosition
  split_ifs <;>
    simp only [Avatar.modifyBall_bodyBall_self, Avatar.modifyBall_skeleton]

theorem forEachBall_updateBodyBall_pelvis_position (E : Ext K) (deltaTime : K)
    (orientation : Quat K) (a : Avatar K) :
    ((forEachBall (updateBodyBall E deltaTime orientation) a)._bodyBall
        BODY_BALL_PELVIS).position
      = ((updateBodyBall E deltaTime orientation a BODY_BALL_PELVIS)._bodyBall
          BODY_BALL_PELVIS).position := by
  have hn : NUM_AVATAR_BODY_BALLS = 23 + 1 := rfl
  rw [forEachBall_eq, hn]
  exact forFirstBalls_updateBodyBall_pelvis_position E deltaTime orientation a 23

/-! ## Many ticks -/

theorem ticks_frame (E : Ext K) (deltaTime : K) (n : Nat) (a : Avatar K) :
    a.Frame (ticks E deltaTime n a) := by
  induction n with
  | zero => exact Avatar.Frame.same a
  | succ n ih => exact ih.andThen (updateBodyBalls_frame E _ deltaTime)

theorem Avatar.Frame.targetPosition_eq {s t : Avatar K} (h : s.Frame t) (b : Int) :
    t.targetPosition b = s.targetPosition b := by
  obtain ⟨_, _, _, _, _, _, _, hsk, _, hballs⟩ := h
  obtain ⟨hj, _, ho, _⟩ := hballs b
  unfold Avatar.targetPosition
  rw [hsk, hj, ho]

/-- With a decay factor that is not positive the integration moves no ball but
the two head balls. -/
theorem integrateBodyBalls_position_of_no_decay (E : Ext K) (a : Avatar K) (deltaTime : K)
    (hdecay : ¬ (1 - BODY_SPRING_DECAY * deltaTime > 0)) (c : Int)
    (h4 : c ≠ BODY_BALL_HEAD_BASE) (h5 : c ≠ BODY_BALL_HEAD_TOP) :
    ((integrateBodyBalls E a deltaTime)._bodyBall c).position = (a._bodyBall c).position := by
  unfold integrateBodyBalls
  dsimp only
  rw [copyHeadRotation_bodyBall_of_ne E _ c h4 h5, forEachBall_eq]
  have hinv := forFirstBalls_invariant
    (fun s => (s._bodyBall c).position = (a._bodyBall c).position)
    (updateBodyBall E deltaTime (a.getOrientation E)) NUM_AVATAR_BODY_BALLS
    (fun s b _ hs =>
      (updateBodyBall_position_of_no_decay E deltaTime _ s b c hdecay).trans hs) a rfl
  exact hinv

/-- With a decay factor that is not positive and the pelvis ball within the
spring range of the avatar, no number of ticks moves the pelvis ball. -/
theorem ticks_pelvis_position_of_no_decay (E : Ext K) (a : Avatar K) (deltaTime : K)
    (hdecay : ¬ (1 - BODY_SPRING_DECAY * deltaTime > 0)) (hnear : ¬ beyondBodySpringRange E a)
    (n : Nat) :
    ((ticks E deltaTime n a)._bodyBall BODY_BALL_PELVIS).position
      = (a._bodyBall BODY_BALL_PELVIS).position := by
  induction n with
  | zero => rfl
  | succ n ih =>
    have hfr := ticks_frame E deltaTime n a
    have hnear2 : ¬ beyondBodySpringRange E (ticks E deltaTime n a) := by
      unfold beyondBodySpringRange at hnear ⊢
      rw [ih, hfr.1, hfr.2.2.2.2.1]
      exact hnear
    show ((updateBodyBalls E (ticks E deltaTime n a) deltaTime)._bodyBall
      BODY_BALL_PELVIS).position = _
    unfold updateBodyBalls
    dsimp only
    rw [if_neg hnear2, integrateBodyBalls_position_of_no_decay E _ deltaTime hdecay _
      (by decide) (by decide), ih]

/-! ## The Lyapunov function decreases -/

theorem tickQuad_step (dt x1 x2 : K) :
    tickQuad dt x2 (tickTrace dt * x2 - decayFactor dt * x1)
      = tickQuad dt x1 x2 - tickLoss dt * (x1 * x1 + x2 * x2) := by
  unfold tickQuad tickP tickQ tickR tickLoss
  ring

theorem decayFactor_bounds (dt : K) (h0 : 0 < dt) (h1 : dt < 1 / 16) :
    0 < decayFactor dt ∧ decayFactor dt < 1 := by
  unfold decayFactor BODY_SPRING_DECAY
  constructor <;> linarith

theorem tickGap_pos (dt : K) (h0 : 0 < dt) (h1 : dt < 1 / 16) :
    0 < (1 + decayFactor dt) * (1 + decayFactor dt) - tickTrace dt * tickTrace dt := by
  obtain ⟨hc0, hc1⟩ := decayFactor_bounds dt h0 h1
  have ha : 0 < tightnessGain dt := by
    unfold tightnessGain BODY_SPRING_DEFAULT_TIGHTNESS; positivity
  have ha4 : tightnessGain dt < 4 := by
    unfold tightnessGain BODY_SPRING_DEFAULT_TIGHTNESS; nlinarith
  have hca : 0 < decayFactor dt * tightnessGain dt := mul_pos hc0 ha
  have hca2 : decayFactor dt * tightnessGain dt < 2 + 2 * decayFactor dt := by nlinarith
  have hfac : (1 + decayFactor dt) * (1 + decayFactor dt) - tickTrace dt * tickTrace dt
      = (decayFactor dt * tightnessGain dt)
        * (2 + 2 * decayFactor dt - decayFactor dt * tightnessGain dt) := by
    unfold tickTrace; ring
  rw [hfac]
  exact mul_pos hca (by linarith)

theorem tickLoss_pos (dt : K) (h0 : 0 < dt) (h1 : dt < 1 / 16) : 0 < tickLoss dt := by
  obtain ⟨hc0, hc1⟩ := decayFactor_bounds dt h0 h1
  have hg := tickGap_pos dt h0 h1
  unfold tickLoss
  exact mul_pos (mul_pos (by linarith) (by linarith)) hg

theorem tickR_pos (dt : K) (h0 : 0 < dt) (h1 : dt < 1 / 16) : 0 < tickR dt := by
  obtain ⟨hc0, hc1⟩ := decayFactor_bounds dt h0 h1
  unfold tickR
  have : 0 < 1 + decayFactor dt := by linarith
  positivity

theorem tickP_pos (dt : K) (h0 : 0 < dt) (h1 : dt < 1 / 16) : 0 < tickP dt := by
  obtain ⟨hc0, hc1⟩ := decayFactor_bounds dt h0 h1
  have hD := tickLoss_pos dt h0 h1
  unfold tickP
  have : 0 < 1 + decayFactor dt := by linarith
  positivity

theorem tickDet_pos (dt : K) (h0 : 0 < dt) (h1 : dt < 1 / 16) :
    0 < tickP dt * tickR dt - tickQ dt * tickQ dt := by
  obtain ⟨hc0, hc1⟩ := decayFactor_bounds dt h0 h1
  have hD := tickLoss_pos dt h0 h1
  have hr := tickR_pos dt h0 h1
  have hg := tickGap_pos dt h0 h1
  have key : tickP dt * tickR dt - tickQ dt * tickQ dt
      = tickLoss dt * tickR dt + 4 * (1 + decayFactor dt) * (1 + decayFactor dt)
          * (decayFactor dt * decayFactor dt)
          * ((1 + decayFactor dt) * (1 + decayFactor dt) - tickTrace dt * tickTrace dt) := by
    unfold tickP tickQ tickR; ring
  rw [key]
  have h1c : 0 < 1 + decayFactor dt := by linarith
  have h3 : 0 < 4 * (1 + decayFactor dt) * (1 + decayFactor dt)
      * (decayFactor dt * decayFactor dt) := by positivity
  have := mul_pos hD hr
  have := mul_pos h3 hg
  linarith

theorem tickQuad_nonneg (dt x1 x2 : K) (h0 : 0 < dt) (h1 : dt < 1 / 16) :
    0 ≤ tickQuad dt x1 x2 := by
  have hp := tickP_pos dt h0 h1
  have hdet := tickDet_pos dt h0 h1
  have hsq : tickP dt * tickQuad dt x1 x2
      = (tickP dt * x1 + tickQ dt * x2) * (tickP dt * x1 + tickQ dt * x2)
        + (tickP dt * tickR dt - tickQ dt * tickQ dt) * (x2 * x2) := by
    unfold tickQuad; ring
  have hnn : 0 ≤ tickP dt * tickQuad dt x1 x2 := by
    rw [hsq]
    exact add_nonneg (mul_self_nonneg _) (mul_nonneg hdet.le (mul_self_nonneg _))
  exact nonneg_of_mul_nonneg_right hnn hp

theorem tickQuad_lower (dt x1 x2 : K) (h0 : 0 < dt) (h1 : dt < 1 / 16) :
    tickLoss dt * (x1 * x1 + x2 * x2) ≤ tickQuad dt x1 x2 := by
  have hstep := tickQuad_step dt x1 x2
  have hnn := tickQuad_nonneg dt x2 (tickTrace dt * x2 - decayFactor dt * x1) h0 h1
  linarith

theorem tickQuad_upper (dt x1 x2 : K) (h0 : 0 < dt) (h1 : dt < 1 / 16) :
    tickQuad dt x1 x2 ≤ (tickP dt + tickR dt) * (x1 * x1 + x2 * x2) := by
  have hr := tickR_pos dt h0 h1
  have hdet := tickDet_pos dt h0 h1
  have hsq : tickR dt * ((tickP dt + tickR dt) * (x1 * x1 + x2 * x2) - tickQuad dt x1 x2)
      = (tickR dt * x1 - tickQ dt * x2) * (tickR dt * x1 - tickQ dt * x2)
        + (tickP dt * tickR dt - tickQ dt * tickQ dt) * (x2 * x2) := by
    unfold tickQuad; ring
  have hnn : 0 ≤ tickR dt
      * ((tickP dt + tickR dt) * (x1 * x1 + x2 * x2) - tickQuad dt x1 x2) := by
    rw [hsq]
    exact add_nonneg (mul_self_nonneg _) (mul_nonneg hdet.le (mul_self_nonneg _))
  have := nonneg_of_mul_nonneg_right hnn hr
  linarith

theorem tickRate_bounds (dt : K) (h0 : 0 < dt) (h1 : dt < 1 / 16) :
    0 ≤ tickRate dt ∧ tickRate dt < 1 := by
  have hD := tickLoss_pos dt h0 h1
  have hp := tickP_pos dt h0 h1
  have hr := tickR_pos dt h0 h1
  obtain ⟨hc0, hc1⟩ := decayFactor_bounds dt h0 h1
  have hpr : 0 < tickP dt + tickR dt := by linarith
  have hle : tickLoss dt ≤ tickP dt + tickR dt := by
    have : 0 < 1 + decayFactor dt := by linarith
    have : 0 ≤ 2 * (1 + decayFactor dt) * (1 + decayFactor dt)
        * (decayFactor dt * decayFactor dt) := by positivity
    unfold tickP
    linarith
  unfold tickRate
  constructor
  · rw [sub_nonneg, div_le_one hpr]
    exact hle
  · have := div_pos hD hpr
    linarith

/-- One tick of one coordinate shrinks the Lyapunov value by tickRate. -/
theorem tickEnergy1_step (dt e w : K) (h0 : 0 < dt) (h1 : dt < 1 / 16) :
    tickEnergy1 dt (e + decayFactor dt * (w - tightnessGain dt * e))
        (decayFactor dt * (w - tightnessGain dt * e))
      ≤ tickRate dt * tickEnergy1 dt e w := by
  have hD := tickLoss_pos dt h0 h1
  have hp := tickP_pos dt h0 h1
  have hr := tickR_pos dt h0 h1
  have hpr : 0 < tickP dt + tickR dt := by linarith
  unfold tickEnergy1
  have harg : e + decayFactor dt * (w - tightnessGain dt * e)
      + decayFactor dt * (decayFactor dt * (w - tightnessGain dt * e)
        - tightnessGain dt * (e + decayFactor dt * (w - tightnessGain dt * e)))
      = tickTrace dt * (e + decayFactor dt * (w - tightnessGain dt * e))
        - decayFactor dt * e := by
    unfold tickTrace; ring
  rw [harg, tickQuad_step]
  have hup := tickQuad_upper dt e (e + decayFactor dt * (w - tightnessGain dt * e)) h0 h1
  have hq : tickLoss dt / (tickP dt + tickR dt)
      * tickQuad dt e (e + decayFactor dt * (w - tightnessGain dt * e))
      ≤ tickLoss dt * (e * e + (e + decayFactor dt * (w - tightnessGain dt * e))
        * (e + decayFactor dt * (w - tightnessGain dt * e))) := by
    rw [div_mul_eq_mul_div, div_le_iff₀ hpr, mul_assoc]
    exact mul_le_mul_of_nonneg_left (by linarith) hD.le
  unfold tickRate
  linarith

theorem tickEnergy1_nonneg (dt e w : K) (h0 : 0 < dt) (h1 : dt < 1 / 16) :
    0 ≤ tickEnergy1 dt e w := tickQuad_nonneg dt _ _ h0 h1

theorem tickEnergy1_zero (dt : K) : tickEnergy1 dt 0 0 = 0 := by
  unfold tickEnergy1 tickQuad
  ring

/-- The squared offset is bounded by the Lyapunov value. -/
theorem tickEnergy1_bound (dt e w : K) (h0 : 0 < dt) (h1 : dt < 1 / 16) :
    tickLoss dt * (e * e) ≤ tickEnergy1 dt e w := by
  have hD := tickLoss_pos dt h0 h1
  have hl := tickQuad_lower dt e (e + decayFactor dt * (w - tightnessGain dt * e)) h0 h1
  unfold tickEnergy1
  have : 0 ≤ tickLoss dt * ((e + decayFactor dt * (w - tightnessGain dt * e))
      * (e + decayFactor dt * (w - tightnessGain dt * e))) :=
    mul_nonneg hD.le (mul_self_nonneg _)
  linarith

/-! ## One tick of a ball without spring forces -/

/-- The integration of a ball other than the head balls while the springs are
not calibrated. -/
theorem integrateBodyBalls_ball_of_uncalibrated (E : Ext K) (s : Avatar K) (deltaTime : K)
    (hcal : s._ballSpringsInitialized = false) (b : Int)
    (hb : 0 ≤ b ∧ b < (NUM_AVATAR_BODY_BALLS : Int))
    (h4 : b ≠ BODY_BALL_HEAD_BASE) (h5 : b ≠ BODY_BALL_HEAD_TOP) :
    (integrateBodyBalls E s deltaTime)._bodyBall b
      = freeBallTick deltaTime (s.getOrientation E) s (s._bodyBall b) := by
  unfold integrateBodyBalls
  dsimp only
  rw [copyHeadRotation_bodyBall_of_ne E _ b h4 h5,
    forEachBall_updateBodyBall_of_uncalibrated E deltaTime _ s hcal]
  dsimp only
  rw [if_pos hb]

/-- One call of updateBodyBalls on a ball other than the head balls while the
springs are not calibrated: either the tightness force and the decay act on
the velocity and the position is integrated with the new velocity, or (after a
teleport reset) the ball is at its target with zero velocity. -/
theorem updateBodyBalls_ball_of_uncalibrated (E : Ext K) (s : Avatar K) (deltaTime : K)
    (hcal : s._ballSpringsInitialized = false) (b : Int)
    (hb : 0 ≤ b ∧ b < (NUM_AVATAR_BODY_BALLS : Int))
    (h4 : b ≠ BODY_BALL_HEAD_BASE) (h5 : b ≠ BODY_BALL_HEAD_TOP) :
    (((updateBodyBalls E s deltaTime)._bodyBall b).velocity
          = tightnessDecay deltaTime (s._bodyBall b).velocity (s._bodyBall b).position
              (s.targetPosition b) (s._bodyBall b).jointTightness
        ∧ ((updateBodyBalls E s deltaTime)._bodyBall b).position
          = (s._bodyBall b).position
            + tightnessDecay deltaTime (s._bodyBall b).velocity (s._bodyBall b).position
              (s.targetPosition b) (s._bodyBall b).jointTightness * deltaTime)
      ∨ (((updateBodyBalls E s deltaTime)._bodyBall b).velocity = ⟨0, 0, 0⟩
        ∧ ((updateBodyBalls E s deltaTime)._bodyBall b).position = s.targetPosition b) := by
  unfold updateBodyBalls
  dsimp only
  split_ifs with hfar
  · right
    have hcal2 : (resetBodyBalls s)._ballSpringsInitialized = false := by
      rw [resetBodyBalls_eq]; exact hcal
    have hskr : (resetBodyBalls s)._skeleton = s._skeleton := by
      rw [resetBodyBalls_eq]
    have hreset : (resetBodyBalls s)._bodyBall b
        = { (s._bodyBall b) with position := s.targetPosition b, velocity := ⟨0, 0, 0⟩ } := by
      rw [resetBodyBalls_eq]
      dsimp only
      rw [if_pos hb]
    rw [integrateBodyBalls_ball_of_uncalibrated E _ deltaTime hcal2 b hb h4 h5, hreset]
    unfold freeBallTick
    dsimp only
    rw [hskr]
    have ht := tightnessDecay_at_target deltaTime (s._bodyBall b).jointTightness
      (s.targetPosition b)
    unfold Avatar.targetPosition at ht ⊢
    rw [ht]
    refine ⟨rfl, ?_⟩
    ext <;> simp
  · left
    rw [integrateBodyBalls_ball_of_uncalibrated E _ deltaTime hcal b hb h4 h5]
    exact ⟨rfl, rfl⟩

/-- The tightness force and decay step shrinks the Lyapunov value of a ball
with the default tightness. -/
theorem tickEnergy_step (dt : K) (p v t : Vec3 K) (h0 : 0 < dt) (h1 : dt < 1 / 16) :
    tickEnergy dt
        (p + tightnessDecay dt v p t BODY_SPRING_DEFAULT_TIGHTNESS * dt)
        (tightnessDecay dt v p t BODY_SPRING_DEFAULT_TIGHTNESS) t
      ≤ tickRate dt * tickEnergy dt p v t := by
  have hdecay : 1 - BODY_SPRING_DECAY * dt > 0 := (decayFactor_bounds dt h0 h1).1
  unfold tightnessDecay tickEnergy
  rw [if_pos hdecay]
  have hx := tickEnergy1_step dt (p.x - t.x) (v.x * dt) h0 h1
  have hy := tickEnergy1_step dt (p.y - t.y) (v.y * dt) h0 h1
  have hz := tickEnergy1_step dt (p.z - t.z) (v.z * dt) h0 h1
  have ex : ∀ (pc x tc : K), pc + x - tc = pc - tc + x := by
    intro pc x tc
    ring
  have ew : ∀ (pc vc tc : K),
      (vc + (tc - pc) * BODY_SPRING_DEFAULT_TIGHTNESS * dt) * (1 - BODY_SPRING_DECAY * dt) * dt
        = decayFactor dt * (vc * dt - tightnessGain dt * (pc - tc)) := by
    intro pc vc tc
    unfold decayFactor tightnessGain
    ring
  simp only [Vec3.add_x, Vec3.add_y, Vec3.add_z, Vec3.sub_x, Vec3.sub_y, Vec3.sub_z,
    Vec3.mul_x, Vec3.mul_y, Vec3.mul_z, ew, ex]
  linarith

theorem tickEnergy_nonneg (dt : K) (p v t : Vec3 K) (h0 : 0 < dt) (h1 : dt < 1 / 16) :
    0 ≤ tickEnergy dt p v t := by
  unfold tickEnergy
  have hx := tickEnergy1_nonneg dt (p.x - t.x) (v.x * dt) h0 h1
  have hy := tickEnergy1_nonneg dt (p.y - t.y) (v.y * dt) h0 h1
  have hz := tickEnergy1_nonneg dt (p.z - t.z) (v.z * dt) h0 h1
  linarith

theorem tickEnergy_at_target (dt : K) (t : Vec3 K) : tickEnergy dt t ⟨0, 0, 0⟩ t = 0 := by
  unfold tickEnergy
  simp [tickEnergy1_zero]

theorem tickEnergy_bound (dt : K) (p v t : Vec3 K) (h0 : 0 < dt) (h1 : dt < 1 / 16) :
    tickLoss dt * dot (p - t) (p - t) ≤ tickEnergy dt p v t := by
  unfold tickEnergy dot
  have hx := tickEnergy1_bound dt (p.x - t.x) (v.x * dt) h0 h1
  have hy := tickEnergy1_bound dt (p.y - t.y) (v.y * dt) h0 h1
  have hz := tickEnergy1_bound dt (p.z - t.z) (v.z * dt) h0 h1
  simp only [Vec3.sub_x, Vec3.sub_y, Vec3.sub_z]
  linarith

/-- The Lyapunov value of a ball other than the head balls after n ticks
without spring forces is at most tickRate^n times its initial value. -/
theorem ticks_energy_le (E : Ext K) (a : Avatar K) (dt : K) (h0 : 0 < dt) (h1 : dt < 1 / 16)
    (hcal : a._ballSpringsInitialized = false) (b : Int)
    (hb : 0 ≤ b ∧ b < (NUM_AVATAR_BODY_BALLS : Int))
    (h4 : b ≠ BODY_BALL_HEAD_BASE) (h5 : b ≠ BODY_BALL_HEAD_TOP)
    (htight : (a._bodyBall b).jointTightness = BODY_SPRING_DEFAULT_TIGHTNESS) (n : Nat) :
    tickEnergy dt ((ticks E dt n a)._bodyBall b).position ((ticks E dt n a)._bodyBall b).velocity
        (a.targetPosition b)
      ≤ tickRate dt ^ n
        * tickEnergy dt (a._bodyBall b).position (a._bodyBall b).velocity (a.targetPosition b) := by
  induction n with
  | zero => simp [ticks]
  | succ n ih =>
    have hfr := ticks_frame E dt n a
    have hcaln : (ticks E dt n a)._ballSpringsInitialized = false :=
      hfr.2.2.2.2.2.2.2.2.1.trans hcal
    have htn : (ticks E dt n a).targetPosition b = a.targetPosition b :=
      hfr.targetPosition_eq b
    have hkn : ((ticks E dt n a)._bodyBall b).jointTightness = BODY_SPRING_DEFAULT_TIGHTNESS :=
      ((hfr.2.2.2.2.2.2.2.2.2 b).2.2.2.2.2.1).trans htight
    obtain ⟨hr0, hr1⟩ := tickRate_bounds dt h0 h1
    have hstep : tickEnergy dt ((ticks E dt (n + 1) a)._bodyBall b).position
        ((ticks E dt (n + 1) a)._bodyBall b).velocity (a.targetPosition b)
        ≤ tickRate dt * tickEnergy dt ((ticks E dt n a)._bodyBall b).position
          ((ticks E dt n a)._bodyBall b).velocity (a.targetPosition b) := by
      show tickEnergy dt ((updateBodyBalls E (ticks E dt n a) dt)._bodyBall b).position
        ((updateBodyBalls E (ticks E dt n a) dt)._bodyBall b).velocity (a.targetPosition b) ≤ _
      rcases updateBodyBalls_ball_of_uncalibrated E (ticks E dt n a) dt hcaln b hb h4 h5 with
        ⟨hv, hp⟩ | ⟨hv, hp⟩
      · rw [hp, hv, htn, hkn]
        exact tickEnergy_step dt _ _ _ h0 h1
      · rw [hp, hv, htn, tickEnergy_at_target]
        exact mul_nonneg hr0 (tickEnergy_nonneg dt _ _ _ h0 h1)
    calc tickEnergy dt ((ticks E dt (n + 1) a)._bodyBall b).position
          ((ticks E dt (n + 1) a)._bodyBall b).velocity (a.targetPosition b)
        ≤ tickRate dt * tickEnergy dt ((ticks E dt n a)._bodyBall b).position
          ((ticks E dt n a)._bodyBall b).velocity (a.targetPosition b) := hstep
      _ ≤ tickRate dt * (tickRate dt ^ n
          * tickEnergy dt (a._bodyBall b).position (a._bodyBall b).velocity
            (a.targetPosition b)) := mul_le_mul_of_nonneg_left ih hr0
      _ = tickRate dt ^ (n + 1)
          * tickEnergy dt (a._bodyBall b).position (a._bodyBall b).velocity
            (a.targetPosition b) := by ring

/-- With an exact square root, a vector whose squared length is below eps^2 is
shorter than eps. -/
theorem ExactSqrt.length_lt_of_dot_lt {E : Ext K} (h : ExactSqrt E) (v : Vec3 K) (eps : K)
    (heps : 0 < eps) (hlt : dot v v < eps * eps) : E.length v < eps := by
  by_contra hge
  push_neg at hge
  have h2 := h.length_mul_length v
  have : eps * eps ≤ E.length v * E.length v := mul_le_mul hge hge heps.le (le_trans heps.le hge)
  linarith

/-- Without spring forces, a ball other than the head balls comes and stays
within eps of its target. -/
theorem ticks_ball_converges [Archimedean K] (E : Ext K) (hE : ExactSqrt E) (a : Avatar K)
    (dt : K) (h0 : 0 < dt) (h1 : dt < 1 / 16) (hcal : a._ballSpringsInitialized = false)
    (b : Int) (hb : 0 ≤ b ∧ b < (NUM_AVATAR_BODY_BALLS : Int))
    (h4 : b ≠ BODY_BALL_HEAD_BASE) (h5 : b ≠ BODY_BALL_HEAD_TOP)
    (htight : (a._bodyBall b).jointTightness = BODY_SPRING_DEFAULT_TIGHTNESS)
    (eps : K) (heps : 0 < eps) :
    ∃ N : Nat, ∀ n : Nat, N ≤ n →
      E.length (((ticks E dt n a)._bodyBall b).position - (ticks E dt n a).targetPosition b)
        < eps := by
  obtain ⟨hr0, hr1⟩ := tickRate_bounds dt h0 h1
  have hD := tickLoss_pos dt h0 h1
  have he0 := tickEnergy_nonneg dt (a._bodyBall b).position (a._bodyBall b).velocity
    (a.targetPosition b) h0 h1
  have hx : 0 < eps * eps * tickLoss dt
      / (tickEnergy dt (a._bodyBall b).position (a._bodyBall b).velocity (a.targetPosition b)
        + 1) := div_pos (mul_pos (mul_pos heps heps) hD) (by linarith)
  obtain ⟨N, hN⟩ := exists_pow_lt_of_lt_one hx hr1
  refine ⟨N, fun n hn => ?_⟩
  rw [(ticks_frame E dt n a).targetPosition_eq b]
  apply hE.length_lt_of_dot_lt _ eps heps
  have hen := ticks_energy_le E a dt h0 h1 hcal b hb h4 h5 htight n
  have hbound := tickEnergy_bound dt ((ticks E dt n a)._bodyBall b).position
    ((ticks E dt n a)._bodyBall b).velocity (a.targetPosition b) h0 h1
  have hpow : tickRate dt ^ n ≤ tickRate dt ^ N := pow_le_pow_of_le_one hr0 hr1.le hn
  have hlt : tickRate dt ^ N
      * tickEnergy dt (a._bodyBall b).position (a._bodyBall b).velocity (a.targetPosition b)
      < eps * eps * tickLoss dt := by
    have hmul := mul_le_mul_of_nonneg_right hN.le he0
    have hdiv : eps * eps * tickLoss dt
        / (tickEnergy dt (a._bodyBall b).position (a._bodyBall b).velocity
          (a.targetPosition b) + 1)
        * tickEnergy dt (a._bodyBall b).position (a._bodyBall b).velocity
          (a.targetPosition b)
        < eps * eps * tickLoss dt := by
      rw [div_mul_eq_mul_div, div_lt_iff₀ (by linarith)]
      have := mul_pos (mul_pos heps heps) hD
      nlinarith
    linarith
  have hchain : tickLoss dt * dot (((ticks E dt n a)._bodyBall b).position - a.targetPosition b)
      (((ticks E dt n a)._bodyBall b).position - a.targetPosition b)
      < tickLoss dt * (eps * eps) := by
    have hmul := mul_le_mul_of_nonneg_right hpow he0
    linarith
  exact lt_of_mul_lt_mul_left hchain hD.le

/-! ## The integration loop on a pose without spring forces -/

theorem Avatar.modifyBall_eq_self (a : Avatar K) (i : Int) (f : BodyBall K → BodyBall K)
    (h : f (a._bodyBall i) = a._bodyBall i) : a.modifyBall i f = a := by
  unfold Avatar.modifyBall
  rw [h, Function.update_eq_self]

theorem Avatar.modifyBall_velocity_sub_zero (X : Avatar K) (i : Int) (d : Vec3 K) :
    X.modifyBall i (fun B => { B with velocity := B.velocity - d * (0 : K) }) = X := by
  apply Avatar.modifyBall_eq_self
  have h : (X._bodyBall i).velocity - d * (0 : K) = (X._bodyBall i).velocity := by
    ext <;> simp
  rw [h]

theorem Avatar.modifyBall_velocity_add_zero (X : Avatar K) (i : Int) (d : Vec3 K) :
    X.modifyBall i (fun B => { B with velocity := B.velocity + d * (0 : K) }) = X := by
  apply Avatar.modifyBall_eq_self
  have h : (X._bodyBall i).velocity + d * (0 : K) = (X._bodyBall i).velocity := by
    ext <;> simp
  rw [h]

/-- With every ball on its target and no spring force in the target pose, the
spring part of the loop body changes nothing. -/
theorem applySpringForces_idle (E : Ext K) (deltaTime : K) (a s : Avatar K) (b : Int)
    (hs : OnTarget a s) (hrest : a._ballSpringsInitialized = false ∨ SpringsAtRest E a)
    (hb : 0 ≤ b ∧ b < (NUM_AVATAR_BODY_BALLS : Int)) :
    (applySpringForces E deltaTime s b).1 = s := by
  obtain ⟨hframe, hballs⟩ := hs
  obtain ⟨hpos, _, _, _, _, _, _, hsk, hcal, hstat⟩ := hframe
  unfold applySpringForces
  rcases hrest with hunc | hrest
  · have hc : ¬ (s._ballSpringsInitialized = true) := by
      rw [hcal, hunc]; simp
    rw [if_neg hc]
  · by_cases hc : s._ballSpringsInitialized = true
    · rw [if_pos hc]
      dsimp only
      obtain ⟨hparent, hlen⟩ := hrest b hb
      have hanchor : (if b = BODY_BALL_PELVIS then (s._bodyBall b).position - s._position
            else (s._bodyBall b).position - (s._bodyBall (s._bodyBall b).parentBall).position)
          = a.targetPosition b - a.springAnchorTarget b := by
        unfold Avatar.springAnchorTarget
        split_ifs with hp
        · rw [(hballs b hb).1, hpos]
        · rw [(hballs b hb).1, (hstat b).2.1, (hballs _ (hparent hp)).1]
      rw [hanchor]
      generalize a.targetPosition b - a.springAnchorTarget b = sv at hlen
      by_cases hl : E.length sv > 0
      · rw [if_pos hl]
        dsimp only
        have hforce : (E.length sv - (s._skeleton.joint b).length) * BODY_SPRING_FORCE
            * deltaTime = 0 := by
          rw [hsk, hlen hl]
          ring
        rw [hforce]
        simp only [Avatar.modifyBall_velocity_sub_zero, Avatar.modifyBall_velocity_add_zero,
          ite_self]
      · rw [if_neg hl]
    · rw [if_neg hc]

/-- The loop body of updateBodyBalls when the spring part changes nothing:
ball b gets the tightness force and the decay and is integrated, the other
balls keep position and velocity. -/
theorem updateBodyBall_of_spring_idle (E : Ext K) (deltaTime : K) (orientation : Quat K)
    (s : Avatar K) (b : Int) (hidle : (applySpringForces E deltaTime s b).1 = s) (c : Int) :
    ((updateBodyBall E deltaTime orientation s b)._bodyBall c).velocity
        = (if c = b then tightnessDecay deltaTime (s._bodyBall b).velocity
            (s._bodyBall b).position (s.targetPosition b) (s._bodyBall b).jointTightness
          else (s._bodyBall c).velocity)
      ∧ ((updateBodyBall E deltaTime orientation s b)._bodyBall c).position
        = (if c = b then (s._bodyBall b).position
            + tightnessDecay deltaTime (s._bodyBall b).velocity
              (s._bodyBall b).position (s.targetPosition b) (s._bodyBall b).jointTightness
              * deltaTime
          else (s._bodyBall c).position) := by
  unfold updateBodyBall
  generalize applySpringForces E deltaTime s b = r at hidle
  obtain ⟨a1, springVector, length⟩ := r
  dsimp only at hidle ⊢
  subst hidle
  unfold tightnessDecay Avatar.targetPosition
  by_cases hc : c = b
  · subst hc
    simp only [if_true]
    split_ifs <;>
      simp only [Avatar.modifyBall_bodyBall_self, Avatar.modifyBall_skeleton, and_self]
  · simp only [if_neg hc]
    split_ifs <;>
      simp only [Avatar.modifyBall_bodyBall_ne _ _ hc, and_self]

/-- The loop body of updateBodyBalls keeps every ball on its target when the
target pose has no spring force. -/
theorem updateBodyBall_onTarget (E : Ext K) (deltaTime : K) (orientation : Quat K)
    (a s : Avatar K) (b : Int) (hs : OnTarget a s)
    (hrest : a._ballSpringsInitialized = false ∨ SpringsAtRest E a)
    (hb : 0 ≤ b ∧ b < (NUM_AVATAR_BODY_BALLS : Int)) :
    OnTarget a (updateBodyBall E deltaTime orientation s b) := by
  have hidle := applySpringForces_idle E deltaTime a s b hs hrest hb
  obtain ⟨hframe, hballs⟩ := hs
  refine ⟨hframe.andThen (updateBodyBall_frame E deltaTime orientation s b), fun c hc => ?_⟩
  obtain ⟨hv, hp⟩ := updateBodyBall_of_spring_idle E deltaTime orientation s b hidle c
  rw [hv, hp]
  split_ifs with hcb
  · subst hcb
    rw [(hballs c hc).1, (hballs c hc).2, hframe.targetPosition_eq c,
      tightnessDecay_at_target]
    refine ⟨?_, rfl⟩
    ext <;> simp
  · exact hballs c hc

/-- The state after resetBodyBalls has every ball on its target. -/
theorem resetBodyBalls_onTarget (a : Avatar K) : OnTarget a (resetBodyBalls a) := by
  refine ⟨resetBodyBalls_frame a, fun c hc => ?_⟩
  rw [resetBodyBalls_eq]
  dsimp only
  rw [if_pos hc]
  exact ⟨rfl, rfl⟩

/-- The integration from a state with every ball on its target, in a target
pose without spring forces: every ball keeps zero velocity and every ball but
the two head balls stays on its target. -/
theorem integrateBodyBalls_onTarget (E : Ext K) (a s : Avatar K) (deltaTime : K)
    (hs : OnTarget a s) (hrest : a._ballSpringsInitialized = false ∨ SpringsAtRest E a)
    (c : Int) (hc : 0 ≤ c ∧ c < (NUM_AVATAR_BODY_BALLS : Int)) :
    ((integrateBodyBalls E s deltaTime)._bodyBall c).velocity = ⟨0, 0, 0⟩
      ∧ (c ≠ BODY_BALL_HEAD_BASE → c ≠ BODY_BALL_HEAD_TOP →
        ((integrateBodyBalls E s deltaTime)._bodyBall c).position = a.targetPosition c)
      ∧ OnTarget a (forEachBall (updateBodyBall E deltaTime (s.getOrientation E)) s) := by
  have hloop : OnTarget a (forEachBall (updateBodyBall E deltaTime (s.getOrientation E)) s) := by
    rw [forEachBall_eq]
    have hinv := forFirstBalls_invariant (fun t => OnTarget a t)
      (updateBodyBall E deltaTime (s.getOrientation E)) NUM_AVATAR_BODY_BALLS
      (fun t b hb ht => updateBodyBall_onTarget E deltaTime _ a t (b : Int) ht hrest
        ⟨Int.natCast_nonneg b, by exact_mod_cast hb⟩) s hs
    exact hinv
  unfold integrateBodyBalls
  dsimp only
  refine ⟨?_, fun h4 h5 => ?_, hloop⟩
  · rw [copyHeadRotation_velocity]
    exact (hloop.2 c hc).2
  · rw [copyHeadRotation_bodyBall_of_ne E _ c h4 h5]
    exact (hloop.2 c hc).1

/-- The head-base ball after the head placement. -/
theorem copyHeadRotation_head_base_position (E : Ext K) (s : Avatar K) :
    ((copyHeadRotation E s)._bodyBall BODY_BALL_HEAD_BASE).position
      = (s._bodyBall BODY_BALL_NECK_BASE).position
        + s._head.getOrientation E * (s._skeleton.joint BODY_BALL_HEAD_BASE).bindPosePosition := by
  unfold copyHeadRotation
  dsimp only
  simp [BODY_BALL_HEAD_BASE, BODY_BALL_HEAD_TOP, BODY_BALL_NECK_BASE]

/-! ## The head-base ball is placed from the neck ball -/

theorem integrateBodyBalls_head_base_position (E : Ext K) (s : Avatar K) (deltaTime : K) :
    ((integrateBodyBalls E s deltaTime)._bodyBall BODY_BALL_HEAD_BASE).position
      = ((integrateBodyBalls E s deltaTime)._bodyBall BODY_BALL_NECK_BASE).position
        + s._head.getOrientation E * (s._skeleton.joint BODY_BALL_HEAD_BASE).bindPosePosition := by
  have hfr := forEachBall_frame (updateBodyBall E deltaTime (s.getOrientation E))
    (fun t b => updateBodyBall_frame E deltaTime _ t b) s
  unfold integrateBodyBalls
  dsimp only
  rw [copyHeadRotation_head_base_position,
    copyHeadRotation_bodyBall_of_ne E _ BODY_BALL_NECK_BASE (by decide) (by decide),
    hfr.2.2.2.2.2.2.1, hfr.2.2.2.2.2.2.2.1]

/-- After every call of updateBodyBalls the head-base ball sits at the neck
ball plus the head orientation applied to the bind pose position of the
head-base joint. -/
theorem updateBodyBalls_head_base_position (E : Ext K) (s : Avatar K) (deltaTime : K) :
    ((updateBodyBalls E s deltaTime)._bodyBall BODY_BALL_HEAD_BASE).position
      = ((updateBodyBalls E s deltaTime)._bodyBall BODY_BALL_NECK_BASE).position
        + s._head.getOrientation E * (s._skeleton.joint BODY_BALL_HEAD_BASE).bindPosePosition := by
  have hfr := resetBodyBalls_frame s
  unfold updateBodyBalls
  dsimp only
  split_ifs
  · rw [integrateBodyBalls_head_base_position, hfr.2.2.2.2.2.2.1, hfr.2.2.2.2.2.2.2.1]
  · rw [integrateBodyBalls_head_base_position]

/-- Without spring forces a ball other than the head balls that is on its
target with zero velocity stays there. -/
theorem updateBodyBalls_ball_stays_on_target (E : Ext K) (s : Avatar K) (deltaTime : K)
    (hcal : s._ballSpringsInitialized = false) (b : Int)
    (hb : 0 ≤ b ∧ b < (NUM_AVATAR_BODY_BALLS : Int))
    (h4 : b ≠ BODY_BALL_HEAD_BASE) (h5 : b ≠ BODY_BALL_HEAD_TOP)
    (hp : (s._bodyBall b).position = s.targetPosition b)
    (hv : (s._bodyBall b).velocity = ⟨0, 0, 0⟩) :
    ((updateBodyBalls E s deltaTime)._bodyBall b).position = s.targetPosition b
      ∧ ((updateBodyBalls E s deltaTime)._bodyBall b).velocity = ⟨0, 0, 0⟩ := by
  rcases updateBodyBalls_ball_of_uncalibrated E s deltaTime hcal b hb h4 h5 with
    ⟨hv2, hp2⟩ | ⟨hv2, hp2⟩
  · rw [hp2, hv2, hp, hv, tightnessDecay_at_target]
    refine ⟨?_, rfl⟩
    ext <;> simp
  · exact ⟨hp2, hv2⟩

/-- Without spring forces, from a state in which the balls are all on their
targets at rest, the neck ball is on its target after any number of ticks. -/
theorem ticks_neck_on_target (E : Ext K) (a : Avatar K) (deltaTime : K)
    (hcal : a._ballSpringsInitialized = false)
    (hp : (a._bodyBall BODY_BALL_NECK_BASE).position = a.targetPosition BODY_BALL_NECK_BASE)
    (hv : (a._bodyBall BODY_BALL_NECK_BASE).velocity = ⟨0, 0, 0⟩) (n : Nat) :
    ((ticks E deltaTime n a)._bodyBall BODY_BALL_NECK_BASE).position
        = a.targetPosition BODY_BALL_NECK_BASE
      ∧ ((ticks E deltaTime n a)._bodyBall BODY_BALL_NECK_BASE).velocity = ⟨0, 0, 0⟩ := by
  induction n with
  | zero => exact ⟨hp, hv⟩
  | succ n ih =>
    have hfr := ticks_frame E deltaTime n a
    have hcaln : (ticks E deltaTime n a)._ballSpringsInitialized = false :=
      hfr.2.2.2.2.2.2.2.2.1.trans hcal
    have htn := hfr.targetPosition_eq BODY_BALL_NECK_BASE
    have hstay := updateBodyBalls_ball_stays_on_target E (ticks E deltaTime n a) deltaTime
      hcaln BODY_BALL_NECK_BASE (by decide) (by decide) (by decide)
      (by rw [htn]; exact ih.1) ih.2
    rw [htn] at hstay
    exact hstay

/-! ## The spring term -/

theorem ExactSqrt.sqrt_zero {E : Ext K} (h : ExactSqrt E) : E.sqrt 0 = 0 :=
  mul_self_eq_zero.1 (h.sqrt_mul_sqrt (le_refl (0 : K)))

theorem Vec3.sub_self_vec (v : Vec3 K) : v - v = ⟨0, 0, 0⟩ := by
  ext <;> simp

theorem Ext.length_zero_vec (E : Ext K) (hsqrt : E.sqrt 0 = 0) :
    E.length (⟨0, 0, 0⟩ : Vec3 K) = 0 := by
  unfold Ext.length dot
  simpa using hsqrt

theorem Avatar.springVector_eq_sub_anchor (a : Avatar K) (b : Int) :
    a.springVector b = (a._bodyBall b).position - a.springAnchor b := by
  unfold Avatar.springVector Avatar.springAnchor
  split_ifs <;> rfl

/-- The spring part of the loop body when both of its tests succeed: the ball
loses springDirection * force, and its parent ball, when it has one, gains it. -/
theorem applySpringForces_of_stretched (E : Ext K) (deltaTime : K) (a : Avatar K) (b : Int)
    (hcal : a._ballSpringsInitialized = true) (hlen : E.length (a.springVector b) > 0) :
    (applySpringForces E deltaTime a b).1
      = if (a._bodyBall b).parentBall ≠ BODY_BALL_NULL then
          (a.modifyBall b (fun B => { B with
            velocity := B.velocity - springDirection E a b * springForce E deltaTime a b })).modifyBall
            (a._bodyBall b).parentBall (fun B => { B with
              velocity := B.velocity + springDirection E a b * springForce E deltaTime a b })
        else a.modifyBall b (fun B => { B with
            velocity := B.velocity - springDirection E a b * springForce E deltaTime a b }) := by
  unfold Avatar.springVector at hlen
  unfold applySpringForces springDirection springForce Avatar.springVector
  rw [if_pos hcal]
  dsimp only
  rw [if_pos hlen]
  dsimp only
  simp only [Avatar.modifyBall_bodyBall_self]

/-- The spring part of the loop body when one of its tests fails: nothing is
written. -/
theorem applySpringForces_of_slack (E : Ext K) (deltaTime : K) (a : Avatar K) (b : Int)
    (h : a._ballSpringsInitialized = false ∨ ¬ (E.length (a.springVector b) > 0)) :
    (applySpringForces E deltaTime a b).1 = a := by
  unfold Avatar.springVector at h
  unfold applySpringForces
  by_cases hcal : a._ballSpringsInitialized = true
  · rw [if_pos hcal]
    dsimp only
    rcases h with h | h
    · rw [hcal] at h; exact absurd h (by simp)
    · rw [if_neg h]
  · rw [if_neg hcal]

theorem springDivisors_pos (E : Ext K) (a : Avatar K) (b : Int) :
    ∀ d ∈ springDivisors E a b, d > 0 := by
  intro d hd
  unfold springDivisors at hd
  dsimp only at hd
  by_cases h1 : a._ballSpringsInitialized = true
  · rw [if_pos h1] at hd
    by_cases h2 : E.length (if b = BODY_BALL_PELVIS then (a._bodyBall b).position - a._position
        else (a._bodyBall b).position - (a._bodyBall (a._bodyBall b).parentBall).position) > 0
    · rw [if_pos h2, List.mem_singleton] at hd
      rw [hd]; exact h2
    · rw [if_neg h2] at hd
      exact absurd hd (List.not_mem_nil d)
  · rw [if_neg h1] at hd
    exact absurd hd (List.not_mem_nil d)

theorem springDivisors_of_slack (E : Ext K) (a : Avatar K) (b : Int)
    (h : ¬ (E.length (a.springVector b) > 0)) : springDivisors E a b = [] := by
  unfold Avatar.springVector at h
  unfold springDivisors
  dsimp only
  rw [if_neg h]
  simp

/-- The local length of the loop body of updateBodyBalls for ball b after the
spring part: the length of springVector with calibrated springs, the initial
0.0 otherwise. -/
theorem applySpringForces_length (E : Ext K) (deltaTime : K) (a : Avatar K) (b : Int) :
    (applySpringForces E deltaTime a b).2.2
      = if a._ballSpringsInitialized = true then E.length (a.springVector b) else 0 := by
  unfold applySpringForces Avatar.springVector
  by_cases hcal : a._ballSpringsInitialized = true
  · rw [if_pos hcal, if_pos hcal]
    dsimp only
    split_ifs <;> rfl
  · rw [if_neg hcal, if_neg hcal]

/-- A positive local length after the spring part: the springs are calibrated
and springVector has positive length. -/
theorem applySpringForces_length_pos (E : Ext K) (deltaTime : K) (a : Avatar K) (b : Int)
    (h : (applySpringForces E deltaTime a b).2.2 > 0) :
    a._ballSpringsInitialized = true ∧ E.length (a.springVector b) > 0 := by
  rw [applySpringForces_length] at h
  by_cases hcal : a._ballSpringsInitialized = true
  · rw [if_pos hcal] at h
    exact ⟨hcal, h⟩
  · rw [if_neg hcal] at h
    exact absurd h (lt_irrefl 0)

/-! ## The calibration pass and simulate -/

/-- The calibration pass on uncalibrated springs: every ball of the array gets
the length of the difference of its target position with itself as spring
length, and the flag is set. -/
theorem calibrateBallSprings_eq (E : Ext K) (a : Avatar K)
    (h : a._ballSpringsInitialized = false) :
    calibrateBallSprings E a = { a with
      _bodyBall := (fun c =>
        if 0 ≤ c ∧ c < (NUM_AVATAR_BODY_BALLS : Int)
        then { (a._bodyBall c) with
          springLength := E.length (a.targetPosition c - a.targetPosition c) }
        else a._bodyBall c)
      _ballSpringsInitialized := true } := by
  have hloop : forEachBall (calibrateBallSpring E) a = { a with
      _bodyBall := (fun c =>
        if 0 ≤ c ∧ c < (NUM_AVATAR_BODY_BALLS : Int)
        then { (a._bodyBall c) with
          springLength := E.length (a.targetPosition c - a.targetPosition c) }
        else a._bodyBall c) } :=
    forFirstBalls_modifyBall
      (fun (s : Avatar K) (B : BodyBall K) => { B with
        springLength := E.length
          (((s._skeleton.joint B.parentJoint).position
              + (s._skeleton.joint B.parentJoint).rotation * B.parentOffset)
            - ((s._skeleton.joint B.parentJoint).position
              + (s._skeleton.joint B.parentJoint).rotation * B.parentOffset)) })
      (fun s balls => rfl) NUM_AVATAR_BODY_BALLS a
  unfold calibrateBallSprings
  have hc : ¬ (a._ballSpringsInitialized = true) := by rw [h]; simp
  rw [if_pos hc]
  dsimp only
  rw [hloop]

theorem calibrateBallSprings_of_calibrated (E : Ext K) (a : Avatar K)
    (h : a._ballSpringsInitialized = true) : calibrateBallSprings E a = a := by
  unfold calibrateBallSprings
  rw [if_neg (not_not.2 h)]

theorem calibrateBallSprings_initialized (E : Ext K) (a : Avatar K) :
    (calibrateBallSprings E a)._ballSpringsInitialized = true := by
  unfold calibrateBallSprings
  by_cases h : a._ballSpringsInitialized = true
  · rw [if_neg (not_not.2 h)]
    exact h
  · rw [if_pos h]

theorem sameSprings_refl (s : Avatar K) : s.SameSprings s := ⟨rfl, fun _ => rfl⟩

theorem sameSprings_trans {s t u : Avatar K} (h1 : s.SameSprings t) (h2 : t.SameSprings u) :
    s.SameSprings u :=
  ⟨h2.1.trans h1.1, fun c => (h2.2 c).trans (h1.2 c)⟩

theorem sameSprings_of_frame {s t : Avatar K} (h : s.Frame t) : s.SameSprings t :=
  ⟨h.2.2.2.2.2.2.2.2.1, fun c => (h.2.2.2.2.2.2.2.2.2 c).2.2.2.2.1⟩

/-- A state with the same ball array and the same flag has the same springs. -/
theorem sameSprings_of_balls {s t : Avatar K} (hb : t._bodyBall = s._bodyBall)
    (hf : t._ballSpringsInitialized = s._ballSpringsInitialized) : s.SameSprings t :=
  ⟨hf, fun c => by rw [hb]⟩

theorem BodyBall.SameButRadius.of_eq (B : BodyBall K) : B.SameButRadius B :=
  ⟨rfl, rfl, rfl, rfl, rfl, rfl, rfl, rfl, rfl, rfl⟩

theorem Avatar.scaleRadius_sameButRadius {B : BodyBall K} (Y : Avatar K) (i c : Int) (base : K)
    (h : B.SameButRadius (Y._bodyBall c)) :
    B.SameButRadius ((Y.scaleRadius i base)._bodyBall c) := by
  unfold Avatar.scaleRadius Avatar.setRadius
  rw [Avatar.modifyBall_bodyBall]
  by_cases hc : c = i
  · rw [if_pos hc]
    subst hc
    exact h
  · rw [if_neg hc]
    exact h

@[simp] theorem Avatar.scaleRadius_initialized (a : Avatar K) (i : Int) (r : K) :
    (a.scaleRadius i r)._ballSpringsInitialized = a._ballSpringsInitialized := rfl

theorem setScaleRadii_initialized (E : Ext K) (a : Avatar K) :
    (setScaleRadii E a)._ballSpringsInitialized = a._ballSpringsInitialized := by
  unfold setScaleRadii
  simp only [Avatar.scaleRadius_initialized]

/-- The radius block of setScale writes radii only. -/
theorem setScaleRadii_sameButRadius (E : Ext K) (a : Avatar K) (c : Int) (B : BodyBall K)
    (h : B.SameButRadius (a._bodyBall c)) :
    B.SameButRadius ((setScaleRadii E a)._bodyBall c) := by
  unfold setScaleRadii
  repeat refine Avatar.scaleRadius_sameButRadius _ _ _ _ ?_
  exact h

/-- Avatar::setScale writes, of the balls, radii only. -/
theorem setScale_sameButRadius (E : Ext K) (a : Avatar K) (scale : K) (c : Int) :
    (a._bodyBall c).SameButRadius ((setScale E a scale)._bodyBall c) := by
  unfold setScale
  dsimp only
  split_ifs
  · refine setScaleRadii_sameButRadius E _ c _ ?_
    exact BodyBall.SameButRadius.of_eq _
  · refine setScaleRadii_sameButRadius E _ c _ ?_
    exact BodyBall.SameButRadius.of_eq _

theorem setScale_initialized (E : Ext K) (a : Avatar K) (scale : K) :
    (setScale E a scale)._ballSpringsInitialized = a._ballSpringsInitialized := by
  unfold setScale
  dsimp only
  split_ifs <;> simp only [setScaleRadii_initialized]

theorem setScale_sameSprings (E : Ext K) (a : Avatar K) (scale : K) :
    a.SameSprings (setScale E a scale) :=
  ⟨setScale_initialized E a scale, fun c => (setScale_sameButRadius E a scale c).2.2.2.2.2.2.1⟩

/-- The joint data loop of simulate writes joints only. -/
theorem applyJointData_balls (joints : List (JointData K)) (a : Avatar K) :
    (applyJointData joints a).1._bodyBall = a._bodyBall
      ∧ (applyJointData joints a).1._ballSpringsInitialized = a._ballSpringsInitialized := by
  have key : ∀ (l : List (JointData K)) (s : Avatar K × Bool),
      (l.foldl (fun (s : Avatar K × Bool) (it : JointData K) =>
        (s.1.modifyJoint it.jointID (fun J => { J with rotation := it.rotation }),
          s.2 && decide (it.jointID ≠ AVATAR_JOINT_RIGHT_WRIST))) s).1._bodyBall = s.1._bodyBall
      ∧ (l.foldl (fun (s : Avatar K × Bool) (it : JointData K) =>
        (s.1.modifyJoint it.jointID (fun J => { J with rotation := it.rotation }),
          s.2 && decide (it.jointID ≠ AVATAR_JOINT_RIGHT_WRIST))) s).1._ballSpringsInitialized
        = s.1._ballSpringsInitialized := by
    intro l
    induction l with
    | nil => intro s; exact ⟨rfl, rfl⟩
    | cons it l ih =>
      intro s
      rw [List.foldl_cons]
      exact ih _
  exact key joints (a, true)

theorem simulateSkeleton_sameSprings (E : Ext K) (X : SimulateEnv K) (a : Avatar K)
    (deltaTime : K) : a.SameSprings (simulateSkeleton E X a deltaTime).1 := by
  unfold simulateSkeleton
  dsimp only
  have h := applyJointData_balls X._joints (a.modifyJoint AVATAR_JOINT_TORSO (fun J =>
    { J with rotation := E.quatOfEulerDegrees ⟨X.getLeanForward, 0, X.getLeanSideways⟩ }))
  generalize applyJointData X._joints (a.modifyJoint AVATAR_JOINT_TORSO (fun J =>
    { J with rotation := E.quatOfEulerDegrees ⟨X.getLeanForward, 0, X.getLeanSideways⟩ })) = r at h
  obtain ⟨a1, en⟩ := r
  dsimp only at h ⊢
  exact sameSprings_of_balls h.1 h.2

theorem updateArmIKAndConstraints_balls (E : Ext K) (a : Avatar K) :
    (updateArmIKAndConstraints E a)._bodyBall = a._bodyBall
      ∧ (updateArmIKAndConstraints E a)._ballSpringsInitialized = a._ballSpringsInitialized := by
  unfold updateArmIKAndConstraints
  dsimp only
  split_ifs <;> exact ⟨rfl, rfl⟩

theorem updateHandMovementAndTouching_balls (E : Ext K) (X : SimulateEnv K) (a : Avatar K)
    (enableHandMovement : Bool) :
    (updateHandMovementAndTouching E X a enableHandMovement)._bodyBall = a._bodyBall
      ∧ (updateHandMovementAndTouching E X a enableHandMovement)._ballSpringsInitialized
        = a._ballSpringsInitialized := by
  unfold updateHandMovementAndTouching
  dsimp only
  split_ifs
  · exact updateArmIKAndConstraints_balls E _
  · exact ⟨rfl, rfl⟩

theorem simulateBodyBalls_sameSprings (E : Ext K) (X : SimulateEnv K) (front right : Vec3 K)
    (a : Avatar K) (enableHandMovement : Bool) (deltaTime : K) :
    a.SameSprings (simulateBodyBalls E X front right a enableHandMovement deltaTime) := by
  have h1 := updateHandMovementAndTouching_balls E X
    (a.modifyJoint AVATAR_JOINT_RIGHT_FINGERTIPS (fun J => { J with position := X._handPosition }))
    enableHandMovement
  unfold simulateBodyBalls
  dsimp only
  generalize updateHandMovementAndTouching E X
    (a.modifyJoint AVATAR_JOINT_RIGHT_FINGERTIPS (fun J => { J with position := X._handPosition }))
    enableHandMovement = a1 at h1
  have h2 : a.SameSprings a1 := sameSprings_of_balls h1.1 h1.2
  have h3 : a1.SameSprings (updateBodyBalls E a1 deltaTime) :=
    sameSprings_of_frame (updateBodyBalls_frame E a1 deltaTime)
  generalize updateBodyBalls E a1 deltaTime = a2 at h3
  have h4 : a2.SameSprings (if (usingBigSphereCollisionTest && X._isCollisionsOn) = true then
      updateCollisionWithSphere E a2 X._TEST_bigSpherePosition X._TEST_bigSphereRadius deltaTime
      else a2) := by
    split_ifs
    · exact sameSprings_of_frame (updateCollisionWithSphere_frame E a2 _ _ _)
    · exact sameSprings_refl a2
  generalize (if (usingBigSphereCollisionTest && X._isCollisionsOn) = true then
      updateCollisionWithSphere E a2 X._TEST_bigSpherePosition X._TEST_bigSphereRadius deltaTime
      else a2) = a3 at h4
  simp only [USING_HEAD_LEAN, Bool.false_eq_true, if_false]
  exact sameSprings_trans (sameSprings_trans h2 (sameSprings_trans h3 h4))
    (sameSprings_of_balls rfl rfl)

theorem simulate_initialized (E : Ext K) (X : SimulateEnv K) (a : Avatar K) (deltaTime : K) :
    (simulate E X a deltaTime)._ballSpringsInitialized = true := by
  unfold simulate
  dsimp only
  generalize simulateSkeleton E X _ deltaTime = r
  obtain ⟨a1, en⟩ := r
  dsimp only
  rw [(simulateBodyBalls_sameSprings E X _ _ _ en deltaTime).1]
  exact calibrateBallSprings_initialized E a1

/-- A call of simulate on calibrated springs keeps every spring length. -/
theorem simulate_sameSprings (E : Ext K) (X : SimulateEnv K) (a : Avatar K) (deltaTime : K)
    (h : a._ballSpringsInitialized = true) : a.SameSprings (simulate E X a deltaTime) := by
  have h1 : a.SameSprings (if a._scale ≠ a._newScale then setScale E a a._newScale else a) := by
    split_ifs
    · exact setScale_sameSprings E a _
    · exact sameSprings_refl a
  unfold simulate
  dsimp only
  generalize (if a._scale ≠ a._newScale then setScale E a a._newScale else a) = a0 at h1
  have h2 := simulateSkeleton_sameSprings E X a0 deltaTime
  generalize simulateSkeleton E X a0 deltaTime = r at h2
  obtain ⟨a1, en⟩ := r
  dsimp only at h2 ⊢
  have h12 := sameSprings_trans h1 h2
  have hcal : calibrateBallSprings E a1 = a1 :=
    calibrateBallSprings_of_calibrated E a1 (h12.1.trans h)
  rw [hcal]
  exact sameSprings_trans h12 (simulateBodyBalls_sameSprings E X _ _ a1 en deltaTime)

theorem simulateRun_sameSprings (E : Ext K) (later : List (SimulateEnv K × K)) (a : Avatar K)
    (h : a._ballSpringsInitialized = true) : a.SameSprings (simulateRun E later a) := by
  induction later generalizing a with
  | nil => exact sameSprings_refl a
  | cons x later ih =>
    obtain ⟨X, deltaTime⟩ := x
    unfold simulateRun
    have h1 := simulate_sameSprings E X a deltaTime h
    exact sameSprings_trans h1 (ih _ (h1.1.trans h))

/-! ## The balls after initializeBodyBalls -/

/-- The parent-ball block of initializeBodyBalls, ball by ball. -/
theorem initializeBodyBallsParentBalls_ball (a : Avatar K) (b : Int)
    (hb : 0 ≤ b ∧ b < (NUM_AVATAR_BODY_BALLS : Int)) :
    (initializeBodyBallsParentBalls a)._bodyBall b
      = { (a._bodyBall b) with parentBall := sampleParentBall b } := by
  unfold initializeBodyBallsParentBalls Avatar.setParentBall
  obtain ⟨h0, h1⟩ := hb
  simp only [NUM_AVATAR_BODY_BALLS] at h1
  interval_cases b <;> simp [Avatar.modifyBall_bodyBall, sampleParentBall, BODY_BALL_NULL, BODY_BALL_PELVIS, BODY_BALL_TORSO, BODY_BALL_CHEST, BODY_BALL_NECK_BASE, BODY_BALL_HEAD_BASE, BODY_BALL_HEAD_TOP, BODY_BALL_LEFT_COLLAR, BODY_BALL_LEFT_SHOULDER, BODY_BALL_LEFT_ELBOW, BODY_BALL_LEFT_WRIST, BODY_BALL_LEFT_FINGERTIPS, BODY_BALL_RIGHT_COLLAR, BODY_BALL_RIGHT_SHOULDER, BODY_BALL_RIGHT_ELBOW, BODY_BALL_RIGHT_WRIST, BODY_BALL_RIGHT_FINGERTIPS, BODY_BALL_LEFT_HIP, BODY_BALL_LEFT_KNEE, BODY_BALL_LEFT_HEEL, BODY_BALL_LEFT_TOES, BODY_BALL_RIGHT_HIP, BODY_BALL_RIGHT_KNEE, BODY_BALL_RIGHT_HEEL, BODY_BALL_RIGHT_TOES]

/-- The parent-offset block of initializeBodyBalls, ball by ball. -/
theorem initializeBodyBallsParentOffsets_ball (a : Avatar K) (b : Int)
    (hb : 0 ≤ b ∧ b < (NUM_AVATAR_BODY_BALLS : Int)) :
    (initializeBodyBallsParentOffsets a)._bodyBall b
      = { (a._bodyBall b) with parentOffset := ⟨0, 0, 0⟩ } := by
  unfold initializeBodyBallsParentOffsets Avatar.setParentOffset
  obtain ⟨h0, h1⟩ := hb
  simp only [NUM_AVATAR_BODY_BALLS] at h1
  interval_cases b <;> simp [Avatar.modifyBall_bodyBall, BODY_BALL_PELVIS, BODY_BALL_TORSO, BODY_BALL_CHEST, BODY_BALL_NECK_BASE, BODY_BALL_HEAD_BASE, BODY_BALL_HEAD_TOP, BODY_BALL_LEFT_COLLAR, BODY_BALL_LEFT_SHOULDER, BODY_BALL_LEFT_ELBOW, BODY_BALL_LEFT_WRIST, BODY_BALL_LEFT_FINGERTIPS, BODY_BALL_RIGHT_COLLAR, BODY_BALL_RIGHT_SHOULDER, BODY_BALL_RIGHT_ELBOW, BODY_BALL_RIGHT_WRIST, BODY_BALL_RIGHT_FINGERTIPS, BODY_BALL_LEFT_HIP, BODY_BALL_LEFT_KNEE, BODY_BALL_LEFT_HEEL, BODY_BALL_LEFT_TOES, BODY_BALL_RIGHT_HIP, BODY_BALL_RIGHT_KNEE, BODY_BALL_RIGHT_HEEL, BODY_BALL_RIGHT_TOES]

/-- The parent-joint block of initializeBodyBalls, ball by ball: ball b is
driven by the joint of the same name, whose id is b. -/
theorem initializeBodyBallsParentJoints_ball (a : Avatar K) (b : Int)
    (hb : 0 ≤ b ∧ b < (NUM_AVATAR_BODY_BALLS : Int)) :
    (initializeBodyBallsParentJoints a)._bodyBall b
      = { (a._bodyBall b) with parentJoint := b } := by
  unfold initializeBodyBallsParentJoints Avatar.setParentJoint
  obtain ⟨h0, h1⟩ := hb
  simp only [NUM_AVATAR_BODY_BALLS] at h1
  interval_cases b <;> simp [Avatar.modifyBall_bodyBall, BODY_BALL_PELVIS, BODY_BALL_TORSO, BODY_BALL_CHEST, BODY_BALL_NECK_BASE, BODY_BALL_HEAD_BASE, BODY_BALL_HEAD_TOP, BODY_BALL_LEFT_COLLAR, BODY_BALL_LEFT_SHOULDER, BODY_BALL_LEFT_ELBOW, BODY_BALL_LEFT_WRIST, BODY_BALL_LEFT_FINGERTIPS, BODY_BALL_RIGHT_COLLAR, BODY_BALL_RIGHT_SHOULDER, BODY_BALL_RIGHT_ELBOW, BODY_BALL_RIGHT_WRIST, BODY_BALL_RIGHT_FINGERTIPS, BODY_BALL_LEFT_HIP, BODY_BALL_LEFT_KNEE, BODY_BALL_LEFT_HEEL, BODY_BALL_LEFT_TOES, BODY_BALL_RIGHT_HIP, BODY_BALL_RIGHT_KNEE, BODY_BALL_RIGHT_HEEL, BODY_BALL_RIGHT_TOES, AVATAR_JOINT_PELVIS, AVATAR_JOINT_TORSO, AVATAR_JOINT_CHEST, AVATAR_JOINT_NECK_BASE, AVATAR_JOINT_HEAD_BASE, AVATAR_JOINT_HEAD_TOP, AVATAR_JOINT_LEFT_COLLAR, AVATAR_JOINT_LEFT_SHOULDER, AVATAR_JOINT_LEFT_ELBOW, AVATAR_JOINT_LEFT_WRIST, AVATAR_JOINT_LEFT_FINGERTIPS, AVATAR_JOINT_RIGHT_COLLAR, AVATAR_JOINT_RIGHT_SHOULDER, AVATAR_JOINT_RIGHT_ELBOW, AVATAR_JOINT_RIGHT_WRIST, AVATAR_JOINT_RIGHT_FINGERTIPS, AVATAR_JOINT_LEFT_HIP, AVATAR_JOINT_LEFT_KNEE, AVATAR_JOINT_LEFT_HEEL, AVATAR_JOINT_LEFT_TOES, AVATAR_JOINT_RIGHT_HIP, AVATAR_JOINT_RIGHT_KNEE, AVATAR_JOINT_RIGHT_HEEL, AVATAR_JOINT_RIGHT_TOES]

theorem Avatar.setRadius_sameButRadius {B : BodyBall K} (Y : Avatar K) (i c : Int) (r : K)
    (h : B.SameButRadius (Y._bodyBall c)) :
    B.SameButRadius ((Y.setRadius i r)._bodyBall c) := by
  unfold Avatar.setRadius
  rw [Avatar.modifyBall_bodyBall]
  by_cases hc : c = i
  · rw [if_pos hc]
    subst hc
    exact h
  · rw [if_neg hc]
    exact h

/-- The radius block of initializeBodyBalls writes radii only. -/
theorem initializeBodyBallsRadii_sameButRadius (E : Ext K) (a : Avatar K) (c : Int) :
    (a._bodyBall c).SameButRadius ((initializeBodyBallsRadii E a)._bodyBall c) := by
  unfold initializeBodyBallsRadii
  repeat refine Avatar.setRadius_sameButRadius _ _ _ _ ?_
  exact BodyBall.SameButRadius.of_eq _

@[simp] theorem Avatar.setRadius_initialized (a : Avatar K) (i : Int) (r : K) :
    (a.setRadius i r)._ballSpringsInitialized = a._ballSpringsInitialized := rfl
@[simp] theorem Avatar.setParentJoint_initialized (a : Avatar K) (i j : Int) :
    (a.setParentJoint i j)._ballSpringsInitialized = a._ballSpringsInitialized := rfl
@[simp] theorem Avatar.setParentOffset_initialized (a : Avatar K) (i : Int) (v : Vec3 K) :
    (a.setParentOffset i v)._ballSpringsInitialized = a._ballSpringsInitialized := rfl
@[simp] theorem Avatar.setParentBall_initialized (a : Avatar K) (i j : Int) :
    (a.setParentBall i j)._ballSpringsInitialized = a._ballSpringsInitialized := rfl

theorem initializeBodyBalls_initialized (E : Ext K) (a : Avatar K) :
    (initializeBodyBalls E a)._ballSpringsInitialized = false := by
  unfold initializeBodyBalls
  dsimp only
  unfold initializeBodyBallsParentBalls initializeBodyBallsParentOffsets
    initializeBodyBallsParentJoints initializeBodyBallsRadii
  simp only [Avatar.setParentBall_initialized, Avatar.setParentOffset_initialized,
    Avatar.setParentJoint_initialized, Avatar.setRadius_initialized]
  rw [initializeBodyBallsDefaults_eq]

/-- The fields of every ball of the array after initializeBodyBalls, the radius
apart. -/
theorem initializeBodyBalls_fields (E : Ext K) (a : Avatar K) (b : Int)
    (hb : 0 ≤ b ∧ b < (NUM_AVATAR_BODY_BALLS : Int)) :
    ((initializeBodyBalls E a)._bodyBall b).parentJoint = b
      ∧ ((initializeBodyBalls E a)._bodyBall b).parentBall = sampleParentBall b
      ∧ ((initializeBodyBalls E a)._bodyBall b).parentOffset = ⟨0, 0, 0⟩
      ∧ ((initializeBodyBalls E a)._bodyBall b).position = ⟨0, 0, 0⟩
      ∧ ((initializeBodyBalls E a)._bodyBall b).velocity = ⟨0, 0, 0⟩
      ∧ ((initializeBodyBalls E a)._bodyBall b).jointTightness = BODY_SPRING_DEFAULT_TIGHTNESS
      ∧ ((initializeBodyBalls E a)._bodyBall b).touchForce = 0
      ∧ ((initializeBodyBalls E a)._bodyBall b).isCollidable = true := by
  unfold initializeBodyBalls
  dsimp only
  rw [initializeBodyBallsParentBalls_ball _ b hb, initializeBodyBallsParentOffsets_ball _ b hb,
    initializeBodyBallsParentJoints_ball _ b hb]
  dsimp only
  obtain ⟨_, _, _, h4, h5, _, _, h8, h9, h10⟩ := initializeBodyBallsRadii_sameButRadius E
    (initializeBodyBallsDefaults { a with _ballSpringsInitialized := false }) b
  rw [h4, h5, h8, h9, h10, initializeBodyBallsDefaults_eq]
  dsimp only
  rw [if_pos hb]
  exact ⟨rfl, rfl, rfl, rfl, rfl, rfl, rfl, rfl⟩

/-- In a ball array in which every ball but ball 0 has a parent ball of smaller
index, following parentBall from any ball of the array reaches ball 0. -/
theorem Avatar.ancestorBall_reaches_first (s : Avatar K)
    (h : ∀ c : Int, 0 < c ∧ c < (NUM_AVATAR_BODY_BALLS : Int) →
      0 ≤ (s._bodyBall c).parentBall ∧ (s._bodyBall c).parentBall < c)
    (b : Int) (hb : 0 ≤ b ∧ b < (NUM_AVATAR_BODY_BALLS : Int)) :
    ∃ n : Nat, (n : Int) ≤ b ∧ s.ancestorBall n b = 0 := by
  have key : ∀ (m : Nat) (b : Int), 0 ≤ b → b < (NUM_AVATAR_BODY_BALLS : Int) → b ≤ (m : Int) →
      ∃ n : Nat, (n : Int) ≤ b ∧ s.ancestorBall n b = 0 := by
    intro m
    induction m with
    | zero =>
      intro b h0 h1 hm
      have hz : b = 0 := by
        have : b ≤ 0 := by simpa using hm
        omega
      subst hz
      exact ⟨0, le_refl _, rfl⟩
    | succ m ih =>
      intro b h0 h1 hm
      by_cases hz : b = 0
      · subst hz
        exact ⟨0, le_refl _, rfl⟩
      · obtain ⟨hp0, hp1⟩ := h b ⟨by omega, h1⟩
        have hm2 : (s._bodyBall b).parentBall ≤ (m : Int) := by
          push_cast at hm
          omega
        obtain ⟨n, hn, hanc⟩ := ih (s._bodyBall b).parentBall hp0 (by omega) hm2
        refine ⟨n + 1, ?_, hanc⟩
        push_cast
        omega
  exact key b.toNat b hb.1 hb.2 (by omega)

theorem sampleParentBall_lt (b : Int) (hb : 0 ≤ b ∧ b < (NUM_AVATAR_BODY_BALLS : Int)) :
    sampleParentBall b < b ∧ (b ≠ 0 → 0 ≤ sampleParentBall b) ∧ (sampleParentBall b = -1 ↔ b = 0) := by
  obtain ⟨h0, h1⟩ := hb
  simp only [NUM_AVATAR_BODY_BALLS] at h1
  interval_cases b <;> decide

theorem sameTopology_of_sameStatics {B B2 : BodyBall K} (h : B.SameStatics B2) :
    B.SameTopology B2 :=
  ⟨h.1, h.2.1, h.2.2.1, h.2.2.2.2.2.2.1, h.2.2.2.2.2.2.2, h.2.2.2.2.2.1⟩

theorem sameTopology_of_sameButRadius {B B2 : BodyBall K} (h : B.SameButRadius B2) :
    B.SameTopology B2 :=
  ⟨h.1, h.2.1, h.2.2.1, h.2.2.2.2.2.2.2.2.1, h.2.2.2.2.2.2.2.2.2, h.2.2.2.2.2.2.2.1⟩

theorem Vec3.mul_zero_vec (v : Vec3 K) : v * (0 : K) = ⟨0, 0, 0⟩ := by
  ext <;> simp

@[simp] theorem Avatar.modifyJoint_bodyBall (a : Avatar K) (i : Int)
    (f : AvatarJoint K → AvatarJoint K) : (a.modifyJoint i f)._bodyBall = a._bodyBall := rfl
@[simp] theorem Avatar.modifyJoint_position (a : Avatar K) (i : Int)
    (f : AvatarJoint K → AvatarJoint K) : (a.modifyJoint i f)._position = a._position := rfl
@[simp] theorem Avatar.modifyJoint_initialized (a : Avatar K) (i : Int)
    (f : AvatarJoint K → AvatarJoint K) :
    (a.modifyJoint i f)._ballSpringsInitialized = a._ballSpringsInitialized := rfl

/-- The velocity of ball b after the spring part of the loop body when both of
its tests succeed and the ball is not its own parent ball. -/
theorem applySpringForces_velocity_of_stretched (E : Ext K) (deltaTime : K) (a : Avatar K)
    (b : Int) (hcal : a._ballSpringsInitialized = true)
    (hlen : E.length (a.springVector b) > 0) (hself : (a._bodyBall b).parentBall ≠ b) :
    (((applySpringForces E deltaTime a b).1)._bodyBall b).velocity
      = (a._bodyBall b).velocity - springDirection E a b * springForce E deltaTime a b := by
  rw [applySpringForces_of_stretched E deltaTime a b hcal hlen]
  split_ifs
  · rw [Avatar.modifyBall_bodyBall_ne _ _ (Ne.symm hself), Avatar.modifyBall_bodyBall_self]
  · rw [Avatar.modifyBall_bodyBall_self]

/-- The calibration pass on uncalibrated springs whose lengths are all zero
only sets the flag. -/
theorem calibrateBallSprings_of_zero_lengths (E : Ext K) (a : Avatar K)
    (hsqrt : E.sqrt 0 = 0) (h : a._ballSpringsInitialized = false)
    (hz : ∀ c : Int, (a._bodyBall c).springLength = 0) :
    calibrateBallSprings E a = { a with _ballSpringsInitialized := true } := by
  rw [calibrateBallSprings_eq E a h]
  congr 1
  funext c
  split_ifs
  · rw [Vec3.sub_self_vec, Ext.length_zero_vec E hsqrt, ← hz c]
  · rfl

theorem springAvatar_calibrated :
    calibrateBallSprings (sampleExt Rat.sqrt) (springAvatar false : Avatar ℚ)
      = springAvatar true := by
  rw [calibrateBallSprings_of_zero_lengths _ _ (by simp [sampleExt]) rfl]
  · rfl
  · intro c
    unfold springAvatar
    rw [Avatar.modifyJoint_bodyBall, Avatar.modifyBall_bodyBall]
    split_ifs <;> rfl

theorem springAvatar_springVector_torso :
    (springAvatar true : Avatar ℚ).springVector BODY_BALL_TORSO = ⟨0, 2, 0⟩ := by
  unfold Avatar.springVector springAvatar
  simp [sampleAvatar, ballAt, sampleParentBall, BODY_BALL_TORSO, BODY_BALL_PELVIS,
    BODY_BALL_LEFT_COLLAR, BODY_BALL_RIGHT_COLLAR, BODY_BALL_LEFT_HIP, BODY_BALL_RIGHT_HIP]
  ext <;> simp

theorem springAvatar_length_torso :
    (sampleExt Rat.sqrt).length ((springAvatar true : Avatar ℚ).springVector BODY_BALL_TORSO)
      = 2 := by
  rw [springAvatar_springVector_torso]
  exact ratLength_eq _ 2 (by norm_num) (by simp [dot])

theorem springAvatar_local_length_torso :
    (applySpringForces (sampleExt Rat.sqrt) (1 / 100) (springAvatar true : Avatar ℚ)
      BODY_BALL_TORSO).2.2 = 2 := by
  have hcal : (springAvatar true : Avatar ℚ)._ballSpringsInitialized = true := rfl
  rw [applySpringForces_length, if_pos hcal, springAvatar_length_torso]

theorem springAvatar_torso_velocity :
    (((applySpringForces (sampleExt Rat.sqrt) (1 / 100) (springAvatar true : Avatar ℚ)
        BODY_BALL_TORSO).1)._bodyBall BODY_BALL_TORSO).velocity = ⟨0, -(9 / 2), 0⟩ := by
  rw [applySpringForces_velocity_of_stretched _ _ _ _ rfl
    (by rw [springAvatar_length_torso]; norm_num) (by decide)]
  unfold springDirection springForce
  rw [springAvatar_length_torso, springAvatar_springVector_torso]
  simp [springAvatar, sampleAvatar, ballAt, jointAt, BODY_BALL_TORSO, AVATAR_JOINT_TORSO,
    BODY_SPRING_FORCE]
  ext <;> norm_num

/-- The spring length of every ball of the array after a call of simulate on
uncalibrated springs is the length of the zero vector. -/
theorem simulate_springLength_of_uncalibrated (E : Ext K) (X : SimulateEnv K) (a : Avatar K)
    (deltaTime : K) (b : Int) (hb : 0 ≤ b ∧ b < (NUM_AVATAR_BODY_BALLS : Int))
    (hcal : a._ballSpringsInitialized = false) :
    ((simulate E X a deltaTime)._bodyBall b).springLength = E.length (⟨0, 0, 0⟩ : Vec3 K) := by
  have h1 : a.SameSprings (if a._scale ≠ a._newScale then setScale E a a._newScale else a) := by
    split_ifs
    · exact setScale_sameSprings E a _
    · exact sameSprings_refl a
  unfold simulate
  dsimp only
  generalize (if a._scale ≠ a._newScale then setScale E a a._newScale else a) = a0 at h1
  have h2 := simulateSkeleton_sameSprings E X a0 deltaTime
  generalize simulateSkeleton E X a0 deltaTime = r at h2
  obtain ⟨a1, en⟩ := r
  dsimp only at h2 ⊢
  have h12 := sameSprings_trans h1 h2
  rw [(simulateBodyBalls_sameSprings E X _ _ _ en deltaTime).2 b,
    calibrateBallSprings_eq E a1 (h12.1.trans hcal)]
  dsimp only
  rw [if_pos hb, Vec3.sub_self_vec]

/-! ## The head balls and the arm after their placement -/

/-- The head balls after the head placement that ends updateBodyBalls. -/
theorem copyHeadRotation_head_balls (E : Ext K) (s : Avatar K) :
    ((copyHeadRotation E s)._bodyBall BODY_BALL_HEAD_BASE).rotation = s._head.getOrientation E
      ∧ ((copyHeadRotation E s)._bodyBall BODY_BALL_HEAD_TOP).rotation = s._head.getOrientation E
      ∧ ((copyHeadRotation E s)._bodyBall BODY_BALL_HEAD_BASE).position
        = (s._bodyBall BODY_BALL_NECK_BASE).position
          + s._head.getOrientation E * (s._skeleton.joint BODY_BALL_HEAD_BASE).bindPosePosition
      ∧ ((copyHeadRotation E s)._bodyBall BODY_BALL_HEAD_TOP).position
        = ((copyHeadRotation E s)._bodyBall BODY_BALL_HEAD_BASE).position
          + s._head.getOrientation E * (s._skeleton.joint BODY_BALL_HEAD_TOP).bindPosePosition := by
  unfold copyHeadRotation
  dsimp only
  simp [BODY_BALL_HEAD_BASE, BODY_BALL_HEAD_TOP, BODY_BALL_NECK_BASE]

/-- The state after updateBodyBalls is the head placement applied to a state
that has the head, the skeleton and the neck-base ball position of the
result. -/
theorem updateBodyBalls_eq_copyHeadRotation (E : Ext K) (a : Avatar K) (deltaTime : K) :
    ∃ s : Avatar K, updateBodyBalls E a deltaTime = copyHeadRotation E s
      ∧ s._head = (updateBodyBalls E a deltaTime)._head
      ∧ s._skeleton = (updateBodyBalls E a deltaTime)._skeleton
      ∧ (s._bodyBall BODY_BALL_NECK_BASE).position
        = ((updateBodyBalls E a deltaTime)._bodyBall BODY_BALL_NECK_BASE).position := by
  have key : ∀ x : Avatar K, ∃ s : Avatar K, integrateBodyBalls E x deltaTime = copyHeadRotation E s
      ∧ s._head = (integrateBodyBalls E x deltaTime)._head
      ∧ s._skeleton = (integrateBodyBalls E x deltaTime)._skeleton
      ∧ (s._bodyBall BODY_BALL_NECK_BASE).position
        = ((integrateBodyBalls E x deltaTime)._bodyBall BODY_BALL_NECK_BASE).position := by
    intro x
    unfold integrateBodyBalls
    dsimp only
    refine ⟨_, rfl, ?_, ?_, ?_⟩
    · exact ((copyHeadRotation_frame E _).2.2.2.2.2.2.1).symm
    · exact ((copyHeadRotation_frame E _).2.2.2.2.2.2.2.1).symm
    · rw [copyHeadRotation_bodyBall_of_ne E _ BODY_BALL_NECK_BASE (by decide) (by decide)]
  unfold updateBodyBalls
  dsimp only
  exact key _

/-- The joints after updateArmIKAndConstraints in terms of the locals armVector
and distance after the test of the maximum arm length. -/
theorem updateArmIKAndConstraints_joints (E : Ext K) (a : Avatar K) :
    ((updateArmIKAndConstraints E a)._skeleton.joint AVATAR_JOINT_RIGHT_FINGERTIPS).position
        = (a._skeleton.joint AVATAR_JOINT_RIGHT_SHOULDER).position + clampedArmVector E a
      ∧ ((updateArmIKAndConstraints E a)._skeleton.joint AVATAR_JOINT_RIGHT_SHOULDER).position
        = (a._skeleton.joint AVATAR_JOINT_RIGHT_SHOULDER).position
      ∧ ((updateArmIKAndConstraints E a)._skeleton.joint AVATAR_JOINT_RIGHT_ELBOW).position
        = (a._skeleton.joint AVATAR_JOINT_RIGHT_SHOULDER).position
          + clampedArmVector E a * (ONE_HALF : K)
          + cross (a.getBodyRightDirection E) (clampedArmVector E a)
            * (1 - a._maxArmLength / clampedArmDistance E a) * (ONE_HALF : K)
      ∧ ((updateArmIKAndConstraints E a)._skeleton.joint AVATAR_JOINT_RIGHT_WRIST).position
        = ((updateArmIKAndConstraints E a)._skeleton.joint AVATAR_JOINT_RIGHT_ELBOW).position
          + (((updateArmIKAndConstraints E a)._skeleton.joint
                AVATAR_JOINT_RIGHT_FINGERTIPS).position
              - ((updateArmIKAndConstraints E a)._skeleton.joint
                AVATAR_JOINT_RIGHT_ELBOW).position) * (7 / 10 : K) := by
  unfold updateArmIKAndConstraints clampedArmVector clampedArmDistance Avatar.armVector
  dsimp only
  split_ifs with h
  · simp [AVATAR_JOINT_RIGHT_FINGERTIPS, AVATAR_JOINT_RIGHT_SHOULDER, AVATAR_JOINT_RIGHT_ELBOW,
      AVATAR_JOINT_RIGHT_WRIST]
  · simp [AVATAR_JOINT_RIGHT_FINGERTIPS, AVATAR_JOINT_RIGHT_SHOULDER, AVATAR_JOINT_RIGHT_ELBOW,
      AVATAR_JOINT_RIGHT_WRIST]
    ext <;> simp

/-- The joints that updateArmIKAndConstraints leaves as they are when the
fingertip target is within reach. -/
theorem updateArmIKAndConstraints_joint_of_reachable (E : Ext K) (a : Avatar K)
    (h : ¬ (E.length a.armVector > a._maxArmLength)) (j : Int)
    (he : j ≠ AVATAR_JOINT_RIGHT_ELBOW) (hw : j ≠ AVATAR_JOINT_RIGHT_WRIST) :
    (updateArmIKAndConstraints E a)._skeleton.joint j = a._skeleton.joint j := by
  unfold Avatar.armVector at h
  unfold updateArmIKAndConstraints
  dsimp only
  rw [if_neg h]
  dsimp only
  rw [Avatar.modifyJoint_joint, if_neg hw, Avatar.modifyJoint_joint, if_neg he]

theorem Vec3.mul_one_half (v : Vec3 K) : v * (ONE_HALF : K) = v / (2 : K) := by
  unfold ONE_HALF
  ext <;> simp <;> ring

/-! ## The rotation update and the parent-ball accesses -/

/-- A ball assignment that keeps rotations keeps the rotation of every ball. -/
theorem Avatar.modifyBall_rotation_of_keeps (a : Avatar K) (i c : Int)
    (f : BodyBall K → BodyBall K) (hf : ∀ B : BodyBall K, (f B).rotation = B.rotation) :
    ((a.modifyBall i f)._bodyBall c).rotation = (a._bodyBall c).rotation := by
  rw [Avatar.modifyBall_bodyBall]
  split_ifs with h
  · rw [hf, h]
  · rfl

/-- The spring forces write no rotation. -/
theorem applySpringForces_rotation (E : Ext K) (deltaTime : K) (a : Avatar K) (b c : Int) :
    (((applySpringForces E deltaTime a b).1)._bodyBall c).rotation = (a._bodyBall c).rotation := by
  have st : ∀ (X : Avatar K) (i : Int) (f : BodyBall K → BodyBall K),
      (X._bodyBall c).rotation = (a._bodyBall c).rotation →
      (∀ B : BodyBall K, (f B).rotation = B.rotation) →
      ((X.modifyBall i f)._bodyBall c).rotation = (a._bodyBall c).rotation :=
    fun X i f hX hf => (Avatar.modifyBall_rotation_of_keeps X i c f hf).trans hX
  unfold applySpringForces
  dsimp only
  split_ifs <;> dsimp only <;>
    first
      | exact st _ _ _ (st _ _ _ rfl (fun _ => rfl)) (fun _ => rfl)
      | exact st _ _ _ rfl (fun _ => rfl)

/-- The local springVector after the spring part, with calibrated springs. -/
theorem applySpringForces_springVector (E : Ext K) (deltaTime : K) (a : Avatar K) (b : Int)
    (hcal : a._ballSpringsInitialized = true) :
    (applySpringForces E deltaTime a b).2.1 = a.springVector b := by
  unfold applySpringForces Avatar.springVector
  rw [if_pos hcal]
  dsimp only
  split_ifs <;> rfl

/-- The rotation that the loop body of updateBodyBalls gives ball b. -/
theorem updateBodyBall_rotation (E : Ext K) (deltaTime : K) (orientation : Quat K)
    (a : Avatar K) (b : Int) :
    ((updateBodyBall E deltaTime orientation a b)._bodyBall b).rotation
      = if (a._skeleton.joint b).parent = AVATAR_JOINT_NULL
          ∨ (applySpringForces E deltaTime a b).2.2 < 1 / 1000
        then orientation * (a._skeleton.joint (a._bodyBall b).parentJoint).absoluteBindPoseRotation
        else E.rotationBetween
            ((a._bodyBall (a._bodyBall b).parentBall).rotation * E.JOINT_DIRECTION)
            (applySpringForces E deltaTime a b).2.1
          * (a._bodyBall (a._bodyBall b).parentBall).rotation := by
  have hframe := applySpringForces_frame E deltaTime a b
  have hrot := applySpringForces_rotation E deltaTime a b (a._bodyBall b).parentBall
  have hsk := hframe.2.2.2.2.2.2.2.1
  have hpj := (hframe.2.2.2.2.2.2.2.2.2 b).1
  have hpb := (hframe.2.2.2.2.2.2.2.2.2 b).2.1
  unfold updateBodyBall
  generalize applySpringForces E deltaTime a b = r at hframe hrot hsk hpj hpb
  obtain ⟨a1, springVector, length⟩ := r
  dsimp only at hframe hrot hsk hpj hpb ⊢
  by_cases hd : 1 - BODY_SPRING_DECAY * deltaTime > 0
  · rw [if_pos hd]
    simp only [Avatar.modifyBall_skeleton, hsk]
    split_ifs with hc
    · simp only [Avatar.modifyBall_bodyBall_self, hpj]
    · simp only [Avatar.modifyBall_bodyBall_self, hpb]
      by_cases hp : (a._bodyBall b).parentBall = b
      · rw [hp] at hrot ⊢
        simp only [Avatar.modifyBall_bodyBall_self]
        rw [hrot]
      · simp only [Avatar.modifyBall_bodyBall_ne _ _ hp]
        rw [hrot]
  · rw [if_neg hd]
    simp only [Avatar.modifyBall_skeleton, hsk]
    split_ifs with hc
    · simp only [Avatar.modifyBall_bodyBall_self, hpj]
    · simp only [Avatar.modifyBall_bodyBall_self, hpb]
      by_cases hp : (a._bodyBall b).parentBall = b
      · rw [hp] at hrot ⊢
        simp only [Avatar.modifyBall_bodyBall_self]
        rw [hrot]
      · simp only [Avatar.modifyBall_bodyBall_ne _ _ hp]
        rw [hrot]

/-- Every index that the loop body of updateBodyBalls uses to access the parent
ball of ball b is parentBall of ball b, and each access has passed a test:
that b is not the pelvis, that parentBall is not BODY_BALL_NULL, or that the
joint of index b has a parent joint. -/
theorem parentBallIndices_guarded (E : Ext K) (deltaTime : K) (a : Avatar K) (b : Int)
    (i : Int) (hi : i ∈ parentBallIndices E deltaTime a b) :
    i = (a._bodyBall b).parentBall
      ∧ (b ≠ BODY_BALL_PELVIS ∨ (a._bodyBall b).parentBall ≠ BODY_BALL_NULL
          ∨ (a._skeleton.joint b).parent ≠ AVATAR_JOINT_NULL) := by
  unfold parentBallIndices at hi
  dsimp only at hi
  have hspring : ∀ j : Int, j ∈ (if a._ballSpringsInitialized = true then
        if E.length (if b = BODY_BALL_PELVIS then (a._bodyBall b).position - a._position
            else (a._bodyBall b).position - (a._bodyBall (a._bodyBall b).parentBall).position)
            > 0 then
          if (a._bodyBall b).parentBall ≠ BODY_BALL_NULL then
            (if b = BODY_BALL_PELVIS then [] else [(a._bodyBall b).parentBall])
              ++ [(a._bodyBall b).parentBall]
          else (if b = BODY_BALL_PELVIS then [] else [(a._bodyBall b).parentBall])
        else (if b = BODY_BALL_PELVIS then [] else [(a._bodyBall b).parentBall])
      else ([] : List Int)) →
      j = (a._bodyBall b).parentBall
        ∧ (b ≠ BODY_BALL_PELVIS ∨ (a._bodyBall b).parentBall ≠ BODY_BALL_NULL) := by
    intro j hj
    have hread : ∀ k : Int, k ∈ (if b = BODY_BALL_PELVIS then ([] : List Int)
        else [(a._bodyBall b).parentBall]) →
        k = (a._bodyBall b).parentBall ∧ b ≠ BODY_BALL_PELVIS := by
      intro k hk
      by_cases hb : b = BODY_BALL_PELVIS
      · rw [if_pos hb] at hk
        exact absurd hk (List.not_mem_nil k)
      · rw [if_neg hb, List.mem_singleton] at hk
        exact ⟨hk, hb⟩
    by_cases h1 : a._ballSpringsInitialized = true
    · rw [if_pos h1] at hj
      by_cases h2 : E.length (if b = BODY_BALL_PELVIS then (a._bodyBall b).position - a._position
            else (a._bodyBall b).position - (a._bodyBall (a._bodyBall b).parentBall).position)
            > 0
      · rw [if_pos h2] at hj
        by_cases h3 : (a._bodyBall b).parentBall ≠ BODY_BALL_NULL
        · rw [if_pos h3, List.mem_append] at hj
          rcases hj with hj | hj
          · exact ⟨(hread j hj).1, Or.inl (hread j hj).2⟩
          · rw [List.mem_singleton] at hj
            exact ⟨hj, Or.inr h3⟩
        · rw [if_neg h3] at hj
          exact ⟨(hread j hj).1, Or.inl (hread j hj).2⟩
      · rw [if_neg h2] at hj
        exact ⟨(hread j hj).1, Or.inl (hread j hj).2⟩
    · rw [if_neg h1] at hj
      exact absurd hj (List.not_mem_nil j)
  by_cases hr : (a._skeleton.joint b).parent = AVATAR_JOINT_NULL
      ∨ (applySpringForces E deltaTime a b).2.2 < 1 / 1000
  · rw [if_pos hr] at hi
    obtain ⟨h1, h2⟩ := hspring i hi
    exact ⟨h1, h2.elim Or.inl (fun h => Or.inr (Or.inl h))⟩
  · rw [if_neg hr, List.mem_append] at hi
    rcases hi with hi | hi
    · obtain ⟨h1, h2⟩ := hspring i hi
      exact ⟨h1, h2.elim Or.inl (fun h => Or.inr (Or.inl h))⟩
    · refine ⟨?_, Or.inr (Or.inr (fun h => hr (Or.inl h)))⟩
      simp only [List.mem_cons, List.mem_singleton, List.not_mem_nil, or_false, or_self] at hi
      exact hi

/-! ## A second collision pass -/

/-- A sum of impulses over balls that give none leaves the velocity as it is. -/
theorem foldl_add_zero_impulse (g : Int → Vec3 K) (n : Nat)
    (hg : ∀ b : Nat, b < n → g (b : Int) = ⟨0, 0, 0⟩) (v : Vec3 K) :
    (List.range n).foldl (fun (w : Vec3 K) (b : Nat) => w + g (b : Int)) v = v := by
  induction n with
  | zero => rfl
  | succ n ih =>
    rw [List.range_succ, List.foldl_append, ih (fun b hb => hg b (Nat.lt_succ_of_lt hb))]
    simp only [List.foldl_cons, List.foldl_nil]
    rw [hg n (Nat.lt_succ_self n), Vec3.add_zero_vec]

/-! ## The ray test -/

theorem findRayIntersectionLoop_succ
    (rayIntersectsSphere : Vec3 K → Vec3 K → Vec3 K → K → Bool × K) (FLT_MAX : K)
    (a : Avatar K) (origin direction : Vec3 K) (n : Nat) :
    findRayIntersectionLoop rayIntersectsSphere FLT_MAX a origin direction (n + 1)
      = if (rayIntersectsSphere origin direction (a._bodyBall (n : Int)).position
            (a._bodyBall (n : Int)).radius).1 = true
        then min (findRayIntersectionLoop rayIntersectsSphere FLT_MAX a origin direction n)
          (rayIntersectsSphere origin direction (a._bodyBall (n : Int)).position
            (a._bodyBall (n : Int)).radius).2
        else findRayIntersectionLoop rayIntersectsSphere FLT_MAX a origin direction n := by
  unfold findRayIntersectionLoop
  rw [List.range_succ, List.foldl_append]
  rfl

/-- The local minDistance after the loop of findRayIntersection over the first
n balls: it is at most FLT_MAX and at most the distance of every ball hit, and
it is FLT_MAX or the distance of a ball hit. -/
theorem findRayIntersectionLoop_spec
    (rayIntersectsSphere : Vec3 K → Vec3 K → Vec3 K → K → Bool × K) (FLT_MAX : K)
    (a : Avatar K) (origin direction : Vec3 K) (n : Nat) :
    findRayIntersectionLoop rayIntersectsSphere FLT_MAX a origin direction n ≤ FLT_MAX
      ∧ (∀ i : Nat, i < n →
          (rayIntersectsSphere origin direction (a._bodyBall (i : Int)).position
            (a._bodyBall (i : Int)).radius).1 = true →
          findRayIntersectionLoop rayIntersectsSphere FLT_MAX a origin direction n
            ≤ (rayIntersectsSphere origin direction (a._bodyBall (i : Int)).position
              (a._bodyBall (i : Int)).radius).2)
      ∧ (findRayIntersectionLoop rayIntersectsSphere FLT_MAX a origin direction n = FLT_MAX
          ∨ ∃ i : Nat, i < n
            ∧ (rayIntersectsSphere origin direction (a._bodyBall (i : Int)).position
              (a._bodyBall (i : Int)).radius).1 = true
            ∧ (rayIntersectsSphere origin direction (a._bodyBall (i : Int)).position
              (a._bodyBall (i : Int)).radius).2
              = findRayIntersectionLoop rayIntersectsSphere FLT_MAX a origin direction n) := by
  induction n with
  | zero =>
    exact ⟨le_refl _, fun i hi => absurd hi (Nat.not_lt_zero i), Or.inl rfl⟩
  | succ n ih =>
    obtain ⟨h1, h2, h3⟩ := ih
    rw [findRayIntersectionLoop_succ]
    by_cases hhit : (rayIntersectsSphere origin direction (a._bodyBall (n : Int)).position
        (a._bodyBall (n : Int)).radius).1 = true
    · rw [if_pos hhit]
      refine ⟨le_trans (min_le_left _ _) h1, fun i hi hit => ?_, ?_⟩
      · rcases Nat.lt_succ_iff_lt_or_eq.1 hi with hlt | heq
        · exact le_trans (min_le_left _ _) (h2 i hlt hit)
        · rw [heq]
          exact min_le_right _ _
      · rcases le_total (findRayIntersectionLoop rayIntersectsSphere FLT_MAX a origin direction n)
            (rayIntersectsSphere origin direction (a._bodyBall (n : Int)).position
              (a._bodyBall (n : Int)).radius).2 with hle | hle
        · rw [min_eq_left hle]
          rcases h3 with h3 | ⟨i, hi, hit, hd⟩
          · exact Or.inl h3
          · exact Or.inr ⟨i, Nat.lt_succ_of_lt hi, hit, hd⟩
        · rw [min_eq_right hle]
          exact Or.inr ⟨n, Nat.lt_succ_self n, hhit, rfl⟩
    · rw [if_neg hhit]
      refine ⟨h1, fun i hi hit => ?_, ?_⟩
      · rcases Nat.lt_succ_iff_lt_or_eq.1 hi with hlt | heq
        · exact h2 i hlt hit
        · rw [heq] at hit
          exact absurd hit hhit
      · rcases h3 with h3 | ⟨i, hi, hit, hd⟩
        · exact Or.inl h3
        · exact Or.inr ⟨i, Nat.lt_succ_of_lt hi, hit, hd⟩

/-! ## The order of the per-ball pass -/

theorem updateBodyBallsInOrder_ballOrder (E : Ext K) (a : Avatar K) (deltaTime : K) :
    updateBodyBallsInOrder E ballOrder a deltaTime = updateBodyBalls E a deltaTime := by
  unfold updateBodyBallsInOrder updateBodyBalls integrateBodyBalls forEachBall ballOrder
  dsimp only
  rw [List.foldl_map]

theorem torsoFirstOrder_perm : torsoFirstOrder.Perm ballOrder := by
  have h : ballOrder = BODY_BALL_PELVIS :: BODY_BALL_TORSO :: ballOrder.drop 2 := by decide
  unfold torsoFirstOrder
  nth_rewrite 2 [h]
  exact List.Perm.swap _ _ _

/-- The loop body run over a list of balls that does not contain ball c leaves
the position of ball c as it is. -/
theorem foldl_updateBodyBall_position_of_not_mem (E : Ext K) (deltaTime : K)
    (orientation : Quat K) (c : Int) (l : List Int) (hc : c ∉ l) (a : Avatar K) :
    ((l.foldl (updateBodyBall E deltaTime orientation) a)._bodyBall c).position
      = (a._bodyBall c).position := by
  induction l generalizing a with
  | nil => rfl
  | cons b l ih =>
    rw [List.foldl_cons, ih (fun h => hc (List.mem_cons_of_mem _ h)),
      updateBodyBall_position_of_ne E deltaTime orientation a b c
        (fun h => hc (by rw [h]; exact List.mem_cons_self _ _))]

/-- The loop body for ball b writes the velocity of another ball in its spring
part only. -/
theorem updateBodyBall_velocity_of_ne (E : Ext K) (deltaTime : K) (orientation : Quat K)
    (a : Avatar K) (b c : Int) (hc : c ≠ b) :
    ((updateBodyBall E deltaTime orientation a b)._bodyBall c).velocity
      = (((applySpringForces E deltaTime a b).1)._bodyBall c).velocity := by
  unfold updateBodyBall
  generalize applySpringForces E deltaTime a b = r
  obtain ⟨a1, springVector, length⟩ := r
  dsimp only
  split_ifs <;> simp only [Avatar.modifyBall_bodyBall_ne _ _ hc]

/-- A ball whose turn has not come has the position it had before the loop. -/
theorem forFirstBalls_updateBodyBall_position_of_le (E : Ext K) (deltaTime : K)
    (orientation : Quat K) (a : Avatar K) (n m : Nat) (h : n ≤ m) :
    ((forFirstBalls n (updateBodyBall E deltaTime orientation) a)._bodyBall (m : Int)).position
      = (a._bodyBall (m : Int)).position := by
  induction n with
  | zero => rfl
  | succ n ih =>
    rw [forFirstBalls_succ, updateBodyBall_position_of_ne _ _ _ _ _ _ (by
      intro hmn
      have := Int.ofNat_inj.1 hmn
      omega), ih (Nat.le_of_succ_le h)]

/-- A ball whose turn has passed has the position that its own turn left. -/
theorem forFirstBalls_updateBodyBall_position_of_lt (E : Ext K) (deltaTime : K)
    (orientation : Quat K) (a : Avatar K) (n m : Nat) (h : m < n) :
    ((forFirstBalls n (updateBodyBall E deltaTime orientation) a)._bodyBall (m : Int)).position
      = ((forFirstBalls (m + 1) (updateBodyBall E deltaTime orientation) a)._bodyBall
          (m : Int)).position := by
  induction n with
  | zero => exact absurd h (Nat.not_lt_zero m)
  | succ n ih =>
    rcases Nat.lt_succ_iff_lt_or_eq.1 h with hlt | heq
    · rw [forFirstBalls_succ, updateBodyBall_position_of_ne _ _ _ _ _ _ (by
        intro hmn
        have := Int.ofNat_inj.1 hmn
        omega), ih hlt]
    · rw [heq]

theorem updateBodyBallsInOrder_eq (E : Ext K) (order : List Int) (a : Avatar K) (deltaTime : K) :
    updateBodyBallsInOrder E order a deltaTime
      = copyHeadRotation E (order.foldl
          (updateBodyBall E deltaTime
            ((if beyondBodySpringRange E a then resetBodyBalls a else a).getOrientation E))
          (if beyondBodySpringRange E a then resetBodyBalls a else a)) := rfl

theorem foldl_torsoFirstOrder (f : Avatar K → Int → Avatar K) (a : Avatar K) :
    torsoFirstOrder.foldl f a
      = (ballOrder.drop 2).foldl f (f (f a BODY_BALL_TORSO) BODY_BALL_PELVIS) := by
  unfold torsoFirstOrder
  rw [List.foldl_cons, List.foldl_cons]

theorem pelvis_not_mem_torsoFirstOrder_tail : BODY_BALL_PELVIS ∉ ballOrder.drop 2 := by
  decide

theorem springAvatar_not_beyond :
    ¬ beyondBodySpringRange (sampleExt Rat.sqrt) (springAvatar true : Avatar ℚ) := by
  unfold beyondBodySpringRange
  have h : (springAvatar true : Avatar ℚ)._position
      - ((springAvatar true : Avatar ℚ)._bodyBall BODY_BALL_PELVIS).position = ⟨0, 0, 0⟩ := by
    simp [springAvatar, sampleAvatar, ballAt, BODY_BALL_PELVIS, BODY_BALL_TORSO]
    ext <;> simp
  have hs : (springAvatar true : Avatar ℚ)._scale = 1 := rfl
  rw [h, Ext.length_zero_vec _ (by simp [sampleExt]), hs]
  norm_num

/-- The pelvis step on a state whose pelvis ball is on the avatar position and
on its target position: no spring force, and the pelvis ball moves by its
decayed velocity. -/
theorem updateBodyBall_pelvis_of_anchored (E : Ext K) (hsqrt : E.sqrt 0 = 0) (deltaTime : K)
    (orientation : Quat K) (s : Avatar K)
    (hpos : (s._bodyBall BODY_BALL_PELVIS).position = s._position)
    (htarget : s.targetPosition BODY_BALL_PELVIS = s._position)
    (hdecay : 1 - BODY_SPRING_DECAY * deltaTime > 0) :
    ((updateBodyBall E deltaTime orientation s BODY_BALL_PELVIS)._bodyBall
        BODY_BALL_PELVIS).position
      = s._position + (s._bodyBall BODY_BALL_PELVIS).velocity
          * (1 - BODY_SPRING_DECAY * deltaTime) * deltaTime := by
  have hidle : (applySpringForces E deltaTime s BODY_BALL_PELVIS).1 = s := by
    apply applySpringForces_of_slack
    right
    unfold Avatar.springVector
    rw [if_pos rfl, hpos, Vec3.sub_self_vec, Ext.length_zero_vec E hsqrt]
    exact lt_irrefl _
  rw [(updateBodyBall_of_spring_idle E deltaTime orientation s BODY_BALL_PELVIS hidle
    BODY_BALL_PELVIS).2, if_pos rfl, htarget, hpos]
  unfold tightnessDecay
  rw [if_pos hdecay, Vec3.sub_self_vec]
  ext <;> simp

/-! ## The scale and the radii through simulate -/

theorem sameRadii_refl (s : Avatar K) : s.SameRadii s := ⟨rfl, fun _ => rfl⟩

theorem sameRadii_trans {s t u : Avatar K} (h1 : s.SameRadii t) (h2 : t.SameRadii u) :
    s.SameRadii u :=
  ⟨h2.1.trans h1.1, fun c => (h2.2 c).trans (h1.2 c)⟩

theorem sameRadii_of_frame {s t : Avatar K} (h : s.Frame t) : s.SameRadii t :=
  ⟨h.2.2.2.2.1, fun c => (h.2.2.2.2.2.2.2.2.2 c).2.2.2.1⟩

/-- A state with the same ball array and the same stored scale has the same radii. -/
theorem sameRadii_of_balls {s t : Avatar K} (hb : t._bodyBall = s._bodyBall)
    (hs : t._scale = s._scale) : s.SameRadii t :=
  ⟨hs, fun c => by rw [hb]⟩

/-- An assignment to _newScale keeps the stored scale and the radii. -/
theorem sameRadii_setNewScale (a : Avatar K) (v : K) :
    a.SameRadii { a with _newScale := v } := ⟨rfl, fun _ => rfl⟩

theorem RadiusInvariant.of_sameRadii {E : Ext K} {s t : Avatar K} (h : s.SameRadii t)
    (hs : RadiusInvariant E s) : RadiusInvariant E t := by
  intro b hb
  rw [h.2 b, h.1]
  exact hs b hb

/-- The joint data loop of simulate keeps the stored scale. -/
theorem applyJointData_scale (joints : List (JointData K)) (a : Avatar K) :
    (applyJointData joints a).1._scale = a._scale := by
  have key : ∀ (l : List (JointData K)) (s : Avatar K × Bool),
      (l.foldl (fun (s : Avatar K × Bool) (it : JointData K) =>
        (s.1.modifyJoint it.jointID (fun J => { J with rotation := it.rotation }),
          s.2 && decide (it.jointID ≠ AVATAR_JOINT_RIGHT_WRIST))) s).1._scale = s.1._scale := by
    intro l
    induction l with
    | nil => intro s; rfl
    | cons it l ih =>
      intro s
      rw [List.foldl_cons]
      exact ih _
  exact key joints (a, true)

theorem simulateSkeleton_sameRadii (E : Ext K) (X : SimulateEnv K) (a : Avatar K)
    (deltaTime : K) : a.SameRadii (simulateSkeleton E X a deltaTime).1 := by
  unfold simulateSkeleton
  dsimp only
  have h := applyJointData_balls X._joints (a.modifyJoint AVATAR_JOINT_TORSO (fun J =>
    { J with rotation := E.quatOfEulerDegrees ⟨X.getLeanForward, 0, X.getLeanSideways⟩ }))
  have h2 := applyJointData_scale X._joints (a.modifyJoint AVATAR_JOINT_TORSO (fun J =>
    { J with rotation := E.quatOfEulerDegrees ⟨X.getLeanForward, 0, X.getLeanSideways⟩ }))
  generalize applyJointData X._joints (a.modifyJoint AVATAR_JOINT_TORSO (fun J =>
    { J with rotation := E.quatOfEulerDegrees ⟨X.getLeanForward, 0, X.getLeanSideways⟩ })) = r
    at h h2
  obtain ⟨a1, en⟩ := r
  dsimp only at h h2 ⊢
  exact sameRadii_of_balls h.1 h2

/-- The calibration pass of simulate writes spring lengths and the flag only. -/
theorem calibrateBallSprings_sameRadii (E : Ext K) (a : Avatar K) :
    a.SameRadii (calibrateBallSprings E a) := by
  by_cases h : a._ballSpringsInitialized = true
  · rw [calibrateBallSprings_of_calibrated E a h]
    exact sameRadii_refl a
  · have hf : a._ballSpringsInitialized = false := by
      cases hb : a._ballSpringsInitialized
      · rfl
      · exact absurd hb h
    rw [calibrateBallSprings_eq E a hf]
    refine ⟨rfl, fun c => ?_⟩
    dsimp only
    split_ifs <;> rfl

theorem updateArmIKAndConstraints_scale (E : Ext K) (a : Avatar K) :
    (updateArmIKAndConstraints E a)._scale = a._scale := by
  unfold updateArmIKAndConstraints
  dsimp only
  split_ifs <;> rfl

theorem updateHandMovementAndTouching_scale (E : Ext K) (X : SimulateEnv K) (a : Avatar K)
    (enableHandMovement : Bool) :
    (updateHandMovementAndTouching E X a enableHandMovement)._scale = a._scale := by
  unfold updateHandMovementAndTouching
  dsimp only
  split_ifs
  · exact updateArmIKAndConstraints_scale E _
  · rfl

theorem simulateBodyBalls_sameRadii (E : Ext K) (X : SimulateEnv K) (front right : Vec3 K)
    (a : Avatar K) (enableHandMovement : Bool) (deltaTime : K) :
    a.SameRadii (simulateBodyBalls E X front right a enableHandMovement deltaTime) := by
  have h1 := updateHandMovementAndTouching_balls E X
    (a.modifyJoint AVATAR_JOINT_RIGHT_FINGERTIPS (fun J => { J with position := X._handPosition }))
    enableHandMovement
  have h1s := updateHandMovementAndTouching_scale E X
    (a.modifyJoint AVATAR_JOINT_RIGHT_FINGERTIPS (fun J => { J with position := X._handPosition }))
    enableHandMovement
  unfold simulateBodyBalls
  dsimp only
  generalize updateHandMovementAndTouching E X
    (a.modifyJoint AVATAR_JOINT_RIGHT_FINGERTIPS (fun J => { J with position := X._handPosition }))
    enableHandMovement = a1 at h1 h1s
  have h2 : a.SameRadii a1 := sameRadii_of_balls h1.1 h1s
  have h3 : a1.SameRadii (updateBodyBalls E a1 deltaTime) :=
    sameRadii_of_frame (updateBodyBalls_frame E a1 deltaTime)
  generalize updateBodyBalls E a1 deltaTime = a2 at h3
  have h4 : a2.SameRadii (if (usingBigSphereCollisionTest && X._isCollisionsOn) = true then
      updateCollisionWithSphere E a2 X._TEST_bigSpherePosition X._TEST_bigSphereRadius deltaTime
      else a2) := by
    split_ifs
    · exact sameRadii_of_frame (updateCollisionWithSphere_frame E a2 _ _ _)
    · exact sameRadii_refl a2
  generalize (if (usingBigSphereCollisionTest && X._isCollisionsOn) = true then
      updateCollisionWithSphere E a2 X._TEST_bigSpherePosition X._TEST_bigSphereRadius deltaTime
      else a2) = a3 at h4
  simp only [USING_HEAD_LEAN, Bool.false_eq_true, if_false]
  exact sameRadii_trans (sameRadii_trans h2 (sameRadii_trans h3 h4))
    (sameRadii_of_balls rfl rfl)

/-- A call of simulate keeps the radius invariant: its rescale re-establishes
it and nothing after the rescale writes the stored scale or a radius. -/
theorem simulate_radiusInvariant (E : Ext K) (X : SimulateEnv K) (a : Avatar K) (deltaTime : K)
    (h : RadiusInvariant E a) : RadiusInvariant E (simulate E X a deltaTime) := by
  have h1 : RadiusInvariant E
      (if a._scale ≠ a._newScale then setScale E a a._newScale else a) := by
    split_ifs
    · exact RadiusInvariant.afterSetScale E a _ h
    · exact h
  unfold simulate
  dsimp only
  generalize (if a._scale ≠ a._newScale then setScale E a a._newScale else a) = a0 at h1
  have h2 := simulateSkeleton_sameRadii E X a0 deltaTime
  generalize simulateSkeleton E X a0 deltaTime = r at h2
  obtain ⟨a1, en⟩ := r
  dsimp only at h2 ⊢
  exact RadiusInvariant.of_sameRadii
    (sameRadii_trans h2 (sameRadii_trans (calibrateBallSprings_sameRadii E a1)
      (simulateBodyBalls_sameRadii E X _ _ _ en deltaTime))) h1

/-! ## A computed length that is not exact -/

/-- The scaling law of v / d * r: its square times d * d is the square of v
times r * r, whatever d is to the length of v. -/
theorem dot_div_mul_self (v : Vec3 K) (d r : K) (hd : d ≠ 0) :
    dot (v / d * r) (v / d * r) * (d * d) = dot v v * (r * r) := by
  unfold dot
  simp only [Vec3.mul_x, Vec3.mul_y, Vec3.mul_z, Vec3.div_x, Vec3.div_y, Vec3.div_z]
  field_simp
  ring

theorem roundSubnormal_of_near (x : ℚ) (n : Int) (h1 : (n : ℚ) - 1 / 2 < x * 2 ^ 149)
    (h2 : x * 2 ^ 149 < (n : ℚ) + 1 / 2) : roundSubnormal x = (n : ℚ) / 2 ^ 149 := by
  unfold roundSubnormal
  by_cases hy : (n : ℚ) ≤ x * 2 ^ 149
  · have hfloor : ⌊x * 2 ^ 149⌋ = n := Int.floor_eq_iff.2 ⟨hy, by linarith⟩
    rw [hfloor, if_pos (Or.inl (by linarith))]
  · have hfloor : ⌊x * 2 ^ 149⌋ = n - 1 :=
      Int.floor_eq_iff.2 ⟨by push_cast; linarith, by push_cast; linarith⟩
    rw [hfloor]
    have hnot : ¬ (x * 2 ^ 149 - ((n - 1 : Int) : ℚ) < 1 / 2
        ∨ (x * 2 ^ 149 - ((n - 1 : Int) : ℚ) = 1 / 2 ∧ (n - 1) % 2 = 0)) := by
      push_cast
      rintro (h | ⟨h, _⟩) <;> linarith
    rw [if_neg hnot]
    push_cast
    ring

theorem underflowSqrt_zero : underflowSqrt 0 = 0 := by
  unfold underflowSqrt
  rw [if_pos (by norm_num), roundSubnormal_of_near 0 0 (by norm_num) (by norm_num)]
  simp

/-- The square root of a square in the normal range of the float type. -/
theorem underflowSqrt_sq (q : ℚ) (hq : 0 ≤ q) (h : 1 / 2 ^ 126 ≤ q * q) :
    underflowSqrt (q * q) = q := by
  unfold underflowSqrt
  rw [if_neg (not_lt.2 h), Rat.sqrt_eq, abs_of_nonneg hq]

/-- The square root of an argument below the normal range that rounds to the
subnormal float n * 2^-149, the square of q. -/
theorem underflowSqrt_of_subnormal (x q : ℚ) (n : Int) (hx : x < 1 / 2 ^ 126)
    (h1 : (n : ℚ) - 1 / 2 < x * 2 ^ 149) (h2 : x * 2 ^ 149 < (n : ℚ) + 1 / 2)
    (hq : 0 ≤ q) (hsq : (n : ℚ) / 2 ^ 149 = q * q) : underflowSqrt x = q := by
  unfold underflowSqrt
  rw [if_pos hx, roundSubnormal_of_near x n h1 h2, hsq, Rat.sqrt_eq, abs_of_nonneg hq]

theorem underflowLength_eq (v : Vec3 ℚ) (r : ℚ) (hr : 0 ≤ r) (hn : 1 / 2 ^ 126 ≤ r * r)
    (h : dot v v = r * r) : (sampleExt underflowSqrt).length v = r := by
  show underflowSqrt (dot v v) = r
  rw [h, underflowSqrt_sq r hr hn]

theorem underflowLength_zero (v : Vec3 ℚ) (h : dot v v = 0) :
    (sampleExt underflowSqrt).length v = 0 := by
  show underflowSqrt (dot v v) = 0
  rw [h, underflowSqrt_zero]

theorem underflowLength_of_subnormal (v : Vec3 ℚ) (q : ℚ) (n : Int)
    (hx : dot v v < 1 / 2 ^ 126)
    (h1 : (n : ℚ) - 1 / 2 < dot v v * 2 ^ 149) (h2 : dot v v * 2 ^ 149 < (n : ℚ) + 1 / 2)
    (hq : 0 ≤ q) (hsq : (n : ℚ) / 2 ^ 149 = q * q) :
    (sampleExt underflowSqrt).length v = q :=
  underflowSqrt_of_subnormal (dot v v) q n hx h1 h2 hq hsq

/-- A call of updateCollisionWithSphere on a state in which the loop sees no
ball of the array inside the sphere at a positive distance changes nothing. -/
theorem updateCollisionWithSphere_of_settled (E : Ext K) (s : Avatar K) (position : Vec3 K)
    (radius deltaTime : K)
    (h : ∀ c : Int, 0 ≤ c ∧ c < (NUM_AVATAR_BODY_BALLS : Int) →
      ¬ (E.length ((s._bodyBall c).position - position) < (s._bodyBall c).radius + radius
        ∧ E.length ((s._bodyBall c).position - position) > 0)) :
    updateCollisionWithSphere E s position radius deltaTime = s := by
  by_cases hnear : E.length (s._position - position) < 1 + radius
  · rw [updateCollisionWithSphere_eq E s position radius deltaTime hnear]
    have hvel : (List.range NUM_AVATAR_BODY_BALLS).foldl
        (fun (v : Vec3 K) (b : Nat) =>
          v + sphereImpulse E position radius deltaTime (s._bodyBall (b : Int))) s._velocity
        = s._velocity :=
      foldl_add_zero_impulse
        (fun c => sphereImpulse E position radius deltaTime (s._bodyBall c))
        NUM_AVATAR_BODY_BALLS
        (fun b hb => by
          dsimp only
          unfold sphereImpulse
          rw [if_neg (h (b : Int) ⟨Int.natCast_nonneg b, by exact_mod_cast hb⟩)])
        _
    have hballs : (fun c : Int => if 0 ≤ c ∧ c < (NUM_AVATAR_BODY_BALLS : Int)
        then sphereSnap E position radius (s._bodyBall c) else s._bodyBall c)
        = s._bodyBall := by
      funext c
      by_cases hc : 0 ≤ c ∧ c < (NUM_AVATAR_BODY_BALLS : Int)
      · rw [if_pos hc]
        unfold sphereSnap
        rw [if_neg (h c hc)]
      · rw [if_neg hc]
    rw [hvel, hballs]
  · exact updateCollisionWithSphere_far E s position radius deltaTime hnear

/-- A sum of impulses that are all the same vector w. -/
theorem foldl_add_same_impulse (g : Int → Vec3 K) (w : Vec3 K) (n : Nat)
    (hg : ∀ b : Nat, b < n → g (b : Int) = w) (v : Vec3 K) :
    (List.range n).foldl (fun (u : Vec3 K) (b : Nat) => u + g (b : Int)) v
      = v + w * (n : K) := by
  induction n with
  | zero =>
    simp only [List.range_zero, List.foldl_nil]
    ext <;> simp
  | succ n ih =>
    rw [List.range_succ, List.foldl_append, ih (fun b hb => hg b (Nat.lt_succ_of_lt hb))]
    simp only [List.foldl_cons, List.foldl_nil]
    rw [hg n (Nat.lt_succ_self n)]
    ext <;> simp <;> ring

/-- The avatar position after updateCollisionWithSphere. -/
theorem updateCollisionWithSphere_avatar_position (E : Ext K) (a : Avatar K)
    (position : Vec3 K) (radius deltaTime : K) :
    (updateCollisionWithSphere E a position radius deltaTime)._position = a._position :=
  (updateCollisionWithSphere_frame E a position radius deltaTime).1

/-! ## The sample state with a subnormal square -/

theorem subnormalAvatar_near :
    (sampleExt underflowSqrt).length (subnormalAvatar._position - ⟨0, 0, 0⟩) < 1 + 1 / 2 := by
  rw [underflowLength_zero _ (by simp [dot, subnormalAvatar, sampleAvatar])]
  norm_num

theorem subnormalAvatar_length (c : Int) :
    (sampleExt underflowSqrt).length ((subnormalAvatar._bodyBall c).position - ⟨0, 0, 0⟩)
      = 1 / 2 ^ 74 := by
  refine underflowLength_of_subnormal _ (1 / 2 ^ 74) 2 ?_ ?_ ?_ (by positivity) (by norm_num)
  · simp [dot, subnormalAvatar, sampleAvatar, ballAt]
    norm_num
  · simp [dot, subnormalAvatar, sampleAvatar, ballAt]
    norm_num
  · simp [dot, subnormalAvatar, sampleAvatar, ballAt]
    norm_num

/-- The first call on the sample state: every ball of the array, seen at
distance 2^-74, lands at (15/16, 0, 0), inside the combined radius 1. -/
theorem subnormalAvatar_once (deltaTime : ℚ) (c : Int)
    (hc : 0 ≤ c ∧ c < (NUM_AVATAR_BODY_BALLS : Int)) :
    (updateCollisionWithSphere (sampleExt underflowSqrt) subnormalAvatar ⟨0, 0, 0⟩ (1 / 2)
        deltaTime)._bodyBall c
      = { subnormalAvatar._bodyBall c with position := ⟨15 / 16, 0, 0⟩ } := by
  rw [updateCollisionWithSphere_ball _ _ _ _ _ c hc subnormalAvatar_near]
  unfold sphereSnap
  rw [subnormalAvatar_length c]
  have hrad : (subnormalAvatar._bodyBall c).radius + 1 / 2 = 1 := by
    simp [subnormalAvatar, sampleAvatar, ballAt]
    norm_num
  rw [hrad, if_pos ⟨by norm_num, by positivity⟩]
  congr 1
  simp [subnormalAvatar, sampleAvatar, ballAt]
  ext <;> simp
  norm_num

theorem subnormalAvatar_once_length (deltaTime : ℚ) (c : Int)
    (hc : 0 ≤ c ∧ c < (NUM_AVATAR_BODY_BALLS : Int)) :
    (sampleExt underflowSqrt).length
        (((updateCollisionWithSphere (sampleExt underflowSqrt) subnormalAvatar ⟨0, 0, 0⟩ (1 / 2)
          deltaTime)._bodyBall c).position - ⟨0, 0, 0⟩) = 15 / 16 := by
  rw [subnormalAvatar_once deltaTime c hc]
  exact underflowLength_eq _ (15 / 16) (by norm_num) (by norm_num) (by simp [dot])

theorem subnormalAvatar_once_radius (deltaTime : ℚ) (c : Int)
    (hc : 0 ≤ c ∧ c < (NUM_AVATAR_BODY_BALLS : Int)) :
    ((updateCollisionWithSphere (sampleExt underflowSqrt) subnormalAvatar ⟨0, 0, 0⟩ (1 / 2)
        deltaTime)._bodyBall c).radius = 1 / 2 := by
  rw [subnormalAvatar_once deltaTime c hc]
  simp [subnormalAvatar, sampleAvatar, ballAt]

/-! ## Bounds from the scaling law of a rescaled vector -/

/-- From the scaling law N * D = V * RR with D > 0: when D is at most e times
V, RR is at most e times N. -/
theorem scaled_lower_bound (N D V RR e : K) (hD : 0 < D) (hlaw : N * D = V * RR)
    (h : D ≤ e * V) (hRR : 0 ≤ RR) : RR ≤ e * N := by
  have h1 : RR * D ≤ e * N * D := by
    rw [mul_assoc e N D, hlaw, ← mul_assoc, mul_comm RR D]
    exact mul_le_mul_of_nonneg_right h hRR
  exact le_of_mul_le_mul_right h1 hD

/-- From the scaling law N * D = V * RR with D > 0: when e times V is at most
D, e times N is at most RR. -/
theorem scaled_upper_bound (N D V RR e : K) (hD : 0 < D) (hlaw : N * D = V * RR)
    (h : e * V ≤ D) (hRR : 0 ≤ RR) : e * N ≤ RR := by
  have h1 : e * N * D ≤ RR * D := by
    rw [mul_assoc e N D, hlaw, ← mul_assoc, mul_comm RR D]
    exact mul_le_mul_of_nonneg_right h hRR
  exact le_of_mul_le_mul_right h1 hD

/-! ## The arm under a length in float arithmetic -/

theorem subnormalArm_armVector :
    (armAvatar (⟨17 / 2 ^ 78, 0, 0⟩ : Vec3 ℚ) (1 / 2 ^ 75)).armVector = ⟨17 / 2 ^ 78, 0, 0⟩ := by
  unfold Avatar.armVector
  simp [armAvatar, sampleAvatar, jointAt, Avatar.modifyJoint,
    AVATAR_JOINT_RIGHT_FINGERTIPS, AVATAR_JOINT_RIGHT_SHOULDER]
  ext <;> simp

theorem subnormalArm_length :
    (sampleExt underflowSqrt).length
        (armAvatar (⟨17 / 2 ^ 78, 0, 0⟩ : Vec3 ℚ) (1 / 2 ^ 75)).armVector = 1 / 2 ^ 74 := by
  rw [subnormalArm_armVector]
  refine underflowLength_of_subnormal _ (1 / 2 ^ 74) 2 ?_ ?_ ?_ (by positivity) (by norm_num)
  · simp [dot]
    norm_num
  · simp [dot]
    norm_num
  · simp [dot]
    norm_num

/-- The rational square root of the subnormal float 2^-149 is above 2^-75. -/
theorem ratSqrt_subnormal_gt : Rat.sqrt (1 / 2 ^ 149) > 1 / 2 ^ 75 := by
  have hq : (1 / 2 ^ 149 : ℚ) = ((2 ^ 149 : ℕ) : ℚ)⁻¹ := by norm_num
  have hnum : (1 / 2 ^ 149 : ℚ).num = 1 := by
    rw [hq, Rat.inv_natCast_num_of_pos (by positivity)]
  have hden : (1 / 2 ^ 149 : ℚ).den = 2 ^ 149 := by
    rw [hq, Rat.inv_natCast_den_of_pos (by positivity)]
  have hs : Nat.sqrt (2 ^ 149) < 2 ^ 75 := by
    rw [Nat.sqrt_lt']
    norm_num
  have hs0 : 0 < Nat.sqrt (2 ^ 149) := by
    rw [Nat.sqrt_pos]
    positivity
  have h1 : Int.sqrt 1 = 1 := by decide
  unfold Rat.sqrt
  rw [hnum, hden, h1, Rat.mkRat_eq_div]
  generalize Nat.sqrt (2 ^ 149) = s at hs hs0
  have hsq : (s : ℚ) < 2 ^ 75 := by exact_mod_cast hs
  have hsq0 : (0 : ℚ) < s := by exact_mod_cast hs0
  rw [gt_iff_lt, div_lt_div_iff₀ (by positivity) hsq0]
  push_cast
  linarith

/-- The length that the sample float length computes for the clamped arm
vector (17 * 2^-79, 0, 0): its square rounds to the subnormal float 2^-149. -/
theorem subnormalArm_length_after :
    (sampleExt underflowSqrt).length (⟨17 / 2 ^ 79, 0, 0⟩ : Vec3 ℚ) > 1 / 2 ^ 75 := by
  show underflowSqrt (dot (⟨17 / 2 ^ 79, 0, 0⟩ : Vec3 ℚ) ⟨17 / 2 ^ 79, 0, 0⟩) > 1 / 2 ^ 75
  have hdot : dot (⟨17 / 2 ^ 79, 0, 0⟩ : Vec3 ℚ) ⟨17 / 2 ^ 79, 0, 0⟩ = 289 / 2 ^ 158 := by
    simp [dot]
    norm_num
  unfold underflowSqrt
  rw [hdot, if_pos (by norm_num),
    roundSubnormal_of_near (289 / 2 ^ 158) 1 (by norm_num) (by norm_num)]
  have h1 : ((1 : Int) : ℚ) / 2 ^ 149 = 1 / 2 ^ 149 := by norm_num
  rw [h1]
  exact ratSqrt_subnormal_gt

theorem updateArmIKAndConstraints_maxArmLength (E : Ext K) (a : Avatar K) :
    (updateArmIKAndConstraints E a)._maxArmLength = a._maxArmLength := by
  unfold updateArmIKAndConstraints
  dsimp only
  split_ifs <;> rfl

/-- The avatar velocity after updateCollisionWithSphere within the broad-phase
range when every ball of the array gives the same impulse w. -/
theorem updateCollisionWithSphere_velocity_of_same_impulse (E : Ext K) (s : Avatar K)
    (position : Vec3 K) (radius deltaTime : K) (w : Vec3 K)
    (hnear : E.length (s._position - position) < 1 + radius)
    (h : ∀ c : Int, 0 ≤ c ∧ c < (NUM_AVATAR_BODY_BALLS : Int) →
      sphereImpulse E position radius deltaTime (s._bodyBall c) = w) :
    (updateCollisionWithSphere E s position radius deltaTime)._velocity
      = s._velocity + w * (24 : K) := by
  rw [updateCollisionWithSphere_velocity E s position radius deltaTime hnear]
  have h2 := foldl_add_same_impulse
    (fun c => sphereImpulse E position radius deltaTime (s._bodyBall c)) w
    NUM_AVATAR_BODY_BALLS
    (fun b hb => h (b : Int) ⟨Int.natCast_nonneg b, by exact_mod_cast hb⟩) s._velocity
  rw [h2]
  simp [NUM_AVATAR_BODY_BALLS]

/-- The second call on the sample state with a subnormal square: every ball of
the array, now seen at distance 15/16, is moved again, to (1, 0, 0). -/
theorem subnormalAvatar_twice (deltaTime deltaTime2 : ℚ) (c : Int)
    (hc : 0 ≤ c ∧ c < (NUM_AVATAR_BODY_BALLS : Int)) :
    ((updateCollisionWithSphere (sampleExt underflowSqrt)
        (updateCollisionWithSphere (sampleExt underflowSqrt) subnormalAvatar ⟨0, 0, 0⟩ (1 / 2)
          deltaTime) ⟨0, 0, 0⟩ (1 / 2) deltaTime2)._bodyBall c).position = ⟨1, 0, 0⟩ := by
  have hnear2 : (sampleExt underflowSqrt).length
      ((updateCollisionWithSphere (sampleExt underflowSqrt) subnormalAvatar ⟨0, 0, 0⟩ (1 / 2)
        deltaTime)._position - ⟨0, 0, 0⟩) < 1 + 1 / 2 := by
    rw [updateCollisionWithSphere_avatar_position]
    exact subnormalAvatar_near
  rw [updateCollisionWithSphere_ball _ _ _ _ _ c hc hnear2]
  unfold sphereSnap
  rw [subnormalAvatar_once_length deltaTime c hc, subnormalAvatar_once_radius deltaTime c hc,
    if_pos ⟨by norm_num, by norm_num⟩, subnormalAvatar_once deltaTime c hc]
  ext <;> simp
  norm_num

/-- The impulse of every ball of the array in the second call on the sample
state. -/
theorem subnormalAvatar_second_impulse (deltaTime : ℚ) (c : Int)
    (hc : 0 ≤ c ∧ c < (NUM_AVATAR_BODY_BALLS : Int)) :
    sphereImpulse (sampleExt underflowSqrt) ⟨0, 0, 0⟩ (1 / 2) (1 / 64)
        ((updateCollisionWithSphere (sampleExt underflowSqrt) subnormalAvatar ⟨0, 0, 0⟩ (1 / 2)
          deltaTime)._bodyBall c) = ⟨75 / 2048, 0, 0⟩ := by
  unfold sphereImpulse
  rw [subnormalAvatar_once_length deltaTime c hc, subnormalAvatar_once_radius deltaTime c hc,
    if_pos ⟨by norm_num, by norm_num⟩, subnormalAvatar_once deltaTime c hc]
  ext <;> simp
  norm_num

/-! ## A rest state off the target, and the rest pose -/

/-- The pelvis step of the loop of updateBodyBalls with calibrated springs, a
spring of positive length and no parent ball: the pelvis ball gets the spring
force, the tightness force and the decay and is integrated, the other balls
keep position and velocity. -/
theorem updateBodyBall_pelvis_of_stretched (E : Ext K) (deltaTime : K) (orientation : Quat K)
    (s : Avatar K) (hcal : s._ballSpringsInitialized = true)
    (hlen : E.length ((s._bodyBall BODY_BALL_PELVIS).position - s._position) > 0)
    (hroot : (s._bodyBall BODY_BALL_PELVIS).parentBall = BODY_BALL_NULL) (c : Int) :
    ((updateBodyBall E deltaTime orientation s BODY_BALL_PELVIS)._bodyBall c).velocity
        = (if c = BODY_BALL_PELVIS then
            tightnessDecay deltaTime
              ((s._bodyBall BODY_BALL_PELVIS).velocity
                - ((s._bodyBall BODY_BALL_PELVIS).position - s._position)
                  / E.length ((s._bodyBall BODY_BALL_PELVIS).position - s._position)
                  * ((E.length ((s._bodyBall BODY_BALL_PELVIS).position - s._position)
                      - (s._skeleton.joint BODY_BALL_PELVIS).length)
                    * BODY_SPRING_FORCE * deltaTime))
              (s._bodyBall BODY_BALL_PELVIS).position
              (s.targetPosition BODY_BALL_PELVIS)
              (s._bodyBall BODY_BALL_PELVIS).jointTightness
          else (s._bodyBall c).velocity)
      ∧ ((updateBodyBall E deltaTime orientation s BODY_BALL_PELVIS)._bodyBall c).position
        = (if c = BODY_BALL_PELVIS then
            (s._bodyBall BODY_BALL_PELVIS).position
            + tightnessDecay deltaTime
                ((s._bodyBall BODY_BALL_PELVIS).velocity
                  - ((s._bodyBall BODY_BALL_PELVIS).position - s._position)
                    / E.length ((s._bodyBall BODY_BALL_PELVIS).position - s._position)
                    * ((E.length ((s._bodyBall BODY_BALL_PELVIS).position - s._position)
                        - (s._skeleton.joint BODY_BALL_PELVIS).length)
                      * BODY_SPRING_FORCE * deltaTime))
                (s._bodyBall BODY_BALL_PELVIS).position
                (s.targetPosition BODY_BALL_PELVIS)
                (s._bodyBall BODY_BALL_PELVIS).jointTightness
              * deltaTime
          else (s._bodyBall c).position) := by
  unfold updateBodyBall applySpringForces
  simp only [hcal, if_true, hlen, Avatar.modifyBall_bodyBall_self, hroot, ne_eq,
    not_true_eq_false, if_false]
  unfold tightnessDecay Avatar.targetPosition
  by_cases hc : c = BODY_BALL_PELVIS
  · rw [hc]
    simp only [if_true]
    split_ifs <;>
      simp only [Avatar.modifyBall_bodyBall_self, Avatar.modifyBall_skeleton, and_self]
  · simp only [if_neg hc]
    split_ifs <;>
      simp only [Avatar.modifyBall_bodyBall_ne _ _ hc, and_self]

theorem offTargetAvatar_targetPosition (c : Int) :
    (offTargetAvatar : Avatar ℚ).targetPosition c
      = if c = BODY_BALL_PELVIS then ⟨13 / 8, 0, 0⟩ else ⟨5 / 4, 0, 0⟩ := by
  unfold Avatar.targetPosition offTargetAvatar
  simp only [Avatar.modifyJoint_joint, Avatar.modifyJoint_bodyBall]
  have hj : ((sampleAvatar (⟨5 / 4, 0, 0⟩ : Vec3 ℚ) ⟨5 / 4, 0, 0⟩ 0 sampleParentBall
      true)._bodyBall c).parentJoint = c := rfl
  have ho : ((sampleAvatar (⟨5 / 4, 0, 0⟩ : Vec3 ℚ) ⟨5 / 4, 0, 0⟩ 0 sampleParentBall
      true)._bodyBall c).parentOffset = ⟨0, 0, 0⟩ := rfl
  rw [hj, ho]
  unfold AVATAR_JOINT_PELVIS BODY_BALL_PELVIS
  split_ifs <;> simp [sampleAvatar, jointAt, Quat.rotate_zero, Vec3.add_zero_vec]

/-- One turn of the loop of updateBodyBalls on a state that differs from the
sample state off the target in rotations only: no ball moves or gains
velocity. -/
theorem offTargetAvatar_step (deltaTime : ℚ) (orientation : Quat ℚ) (s : Avatar ℚ) (b : Int)
    (hb : 0 ≤ b ∧ b < (NUM_AVATAR_BODY_BALLS : Int))
    (hs : (offTargetAvatar : Avatar ℚ).Frame s
      ∧ ∀ c : Int, 0 ≤ c ∧ c < (NUM_AVATAR_BODY_BALLS : Int) →
        (s._bodyBall c).position = ⟨5 / 4, 0, 0⟩ ∧ (s._bodyBall c).velocity = ⟨0, 0, 0⟩) :
    (offTargetAvatar : Avatar ℚ).Frame (updateBodyBall (sampleExt Rat.sqrt) deltaTime orientation
        s b)
      ∧ ∀ c : Int, 0 ≤ c ∧ c < (NUM_AVATAR_BODY_BALLS : Int) →
        ((updateBodyBall (sampleExt Rat.sqrt) deltaTime orientation s b)._bodyBall c).position
            = ⟨5 / 4, 0, 0⟩
          ∧ ((updateBodyBall (sampleExt Rat.sqrt) deltaTime orientation s b)._bodyBall
              c).velocity = ⟨0, 0, 0⟩ := by
  obtain ⟨hfr, hballs⟩ := hs
  refine ⟨hfr.andThen (updateBodyBall_frame _ deltaTime orientation s b), fun c hc => ?_⟩
  have hpos : s._position = ⟨0, 0, 0⟩ := hfr.1
  have hcal : s._ballSpringsInitialized = true := hfr.2.2.2.2.2.2.2.2.1
  have htarget := hfr.targetPosition_eq b
  by_cases hb0 : b = BODY_BALL_PELVIS
  · rw [hb0] at htarget ⊢
    have hp := (hballs BODY_BALL_PELVIS (by decide)).1
    have hv := (hballs BODY_BALL_PELVIS (by decide)).2
    have hlen : (sampleExt Rat.sqrt).length
        ((s._bodyBall BODY_BALL_PELVIS).position - s._position) = 5 / 4 := by
      rw [hp, hpos]
      exact ratLength_eq _ (5 / 4) (by norm_num) (by simp [dot])
    have hroot : (s._bodyBall BODY_BALL_PELVIS).parentBall = BODY_BALL_NULL :=
      (hfr.2.2.2.2.2.2.2.2.2 BODY_BALL_PELVIS).2.1
    have hk : (s._bodyBall BODY_BALL_PELVIS).jointTightness = 1000 :=
      (hfr.2.2.2.2.2.2.2.2.2 BODY_BALL_PELVIS).2.2.2.2.2.1
    have hjoint : (s._skeleton.joint BODY_BALL_PELVIS).length = 0 := by
      rw [hfr.2.2.2.2.2.2.2.1]
      simp [offTargetAvatar, Avatar.modifyJoint, sampleAvatar, jointAt, BODY_BALL_PELVIS,
        AVATAR_JOINT_PELVIS]
    have hstep := updateBodyBall_pelvis_of_stretched (sampleExt Rat.sqrt) deltaTime orientation s
      hcal (by rw [hlen]; norm_num) hroot c
    rw [hlen, hp, hv, hpos, htarget, offTargetAvatar_targetPosition, if_pos rfl, hk, hjoint]
      at hstep
    have hzero : tightnessDecay deltaTime
        ((⟨0, 0, 0⟩ : Vec3 ℚ) - ((⟨5 / 4, 0, 0⟩ : Vec3 ℚ) - ⟨0, 0, 0⟩) / (5 / 4 : ℚ)
          * ((5 / 4 - 0) * BODY_SPRING_FORCE * deltaTime))
        ⟨5 / 4, 0, 0⟩ ⟨13 / 8, 0, 0⟩ 1000 = ⟨0, 0, 0⟩ := by
      unfold tightnessDecay BODY_SPRING_FORCE
      split_ifs
      · ext <;> simp
        left
        ring
      · rfl
    rw [hzero] at hstep
    rw [hstep.1, hstep.2]
    by_cases hc0 : c = BODY_BALL_PELVIS
    · rw [if_pos hc0, if_pos hc0]
      refine ⟨?_, rfl⟩
      ext <;> simp
    · rw [if_neg hc0, if_neg hc0]
      exact hballs c hc
  · have hparent : (s._bodyBall b).parentBall = sampleParentBall b :=
      (hfr.2.2.2.2.2.2.2.2.2 b).2.1
    have hlt := sampleParentBall_lt b hb
    have hb0' : b ≠ 0 := hb0
    have hprange : 0 ≤ sampleParentBall b ∧ sampleParentBall b < (NUM_AVATAR_BODY_BALLS : Int) :=
      ⟨hlt.2.1 hb0', lt_trans hlt.1 hb.2⟩
    have hsv : s.springVector b = ⟨0, 0, 0⟩ := by
      unfold Avatar.springVector
      rw [if_neg hb0, hparent, (hballs b hb).1, (hballs _ hprange).1]
      ext <;> simp
    have hidle : (applySpringForces (sampleExt Rat.sqrt) deltaTime s b).1 = s := by
      apply applySpringForces_of_slack
      right
      rw [hsv, Ext.length_zero_vec _ (by simp [sampleExt])]
      exact lt_irrefl _
    have hstep := updateBodyBall_of_spring_idle (sampleExt Rat.sqrt) deltaTime orientation s b
      hidle c
    rw [(hballs b hb).1, (hballs b hb).2, htarget, offTargetAvatar_targetPosition, if_neg hb0,
      tightnessDecay_at_target] at hstep
    rw [hstep.1, hstep.2]
    by_cases hcb : c = b
    · rw [if_pos hcb, if_pos hcb]
      refine ⟨?_, rfl⟩
      ext <;> simp
    · rw [if_neg hcb, if_neg hcb]
      exact hballs c hc

/-- A call of updateBodyBalls on a state that differs from the sample state
off the target in rotations only: no ball moves or gains velocity. -/
theorem updateBodyBalls_offTargetAvatar (deltaTime : ℚ) (s : Avatar ℚ)
    (hs : (offTargetAvatar : Avatar ℚ).Frame s
      ∧ ∀ c : Int, 0 ≤ c ∧ c < (NUM_AVATAR_BODY_BALLS : Int) →
        (s._bodyBall c).position = ⟨5 / 4, 0, 0⟩ ∧ (s._bodyBall c).velocity = ⟨0, 0, 0⟩) :
    (offTargetAvatar : Avatar ℚ).Frame (updateBodyBalls (sampleExt Rat.sqrt) s deltaTime)
      ∧ ∀ c : Int, 0 ≤ c ∧ c < (NUM_AVATAR_BODY_BALLS : Int) →
        ((updateBodyBalls (sampleExt Rat.sqrt) s deltaTime)._bodyBall c).position
            = ⟨5 / 4, 0, 0⟩
          ∧ ((updateBodyBalls (sampleExt Rat.sqrt) s deltaTime)._bodyBall c).velocity
            = ⟨0, 0, 0⟩ := by
  have hfr := hs.1
  have hnear : ¬ beyondBodySpringRange (sampleExt Rat.sqrt) s := by
    unfold beyondBodySpringRange
    have hpos : s._position = ⟨0, 0, 0⟩ := hfr.1
    have hscale : s._scale = 1 := hfr.2.2.2.2.1
    rw [hpos, (hs.2 BODY_BALL_PELVIS (by decide)).1, hscale,
      ratLength_eq _ (5 / 4) (by norm_num) (by simp [dot])]
    norm_num
  have hloop := forFirstBalls_invariant
    (fun t => (offTargetAvatar : Avatar ℚ).Frame t
      ∧ ∀ c : Int, 0 ≤ c ∧ c < (NUM_AVATAR_BODY_BALLS : Int) →
        (t._bodyBall c).position = ⟨5 / 4, 0, 0⟩ ∧ (t._bodyBall c).velocity = ⟨0, 0, 0⟩)
    (updateBodyBall (sampleExt Rat.sqrt) deltaTime (s.getOrientation (sampleExt Rat.sqrt)))
    NUM_AVATAR_BODY_BALLS
    (fun t b hb ht => offTargetAvatar_step deltaTime _ t (b : Int)
      ⟨Int.natCast_nonneg b, by exact_mod_cast hb⟩ ht) s hs
  rw [← forEachBall_eq] at hloop
  refine ⟨hfr.andThen (updateBodyBalls_frame _ s deltaTime), fun c hc => ?_⟩
  unfold updateBodyBalls
  rw [if_neg hnear]
  unfold integrateBodyBalls
  dsimp only
  generalize forEachBall (updateBodyBall (sampleExt Rat.sqrt) deltaTime
    (s.getOrientation (sampleExt Rat.sqrt))) s = t at hloop
  obtain ⟨htfr, htballs⟩ := hloop
  refine ⟨?_, by rw [copyHeadRotation_velocity]; exact (htballs c hc).2⟩
  obtain ⟨_, _, hbase, htop⟩ := copyHeadRotation_head_balls (sampleExt Rat.sqrt) t
  have hbind : ∀ j : Int, (t._skeleton.joint j).bindPosePosition = ⟨0, 0, 0⟩ := by
    intro j
    rw [htfr.2.2.2.2.2.2.2.1]
    unfold offTargetAvatar
    rw [Avatar.modifyJoint_joint]
    split_ifs <;> rfl
  have hbase2 : ((copyHeadRotation (sampleExt Rat.sqrt) t)._bodyBall
      BODY_BALL_HEAD_BASE).position = ⟨5 / 4, 0, 0⟩ := by
    rw [hbase, hbind, Quat.rotate_zero, Vec3.add_zero_vec]
    exact (htballs BODY_BALL_NECK_BASE (by decide)).1
  by_cases h4 : c = BODY_BALL_HEAD_BASE
  · rw [h4]
    exact hbase2
  · by_cases h5 : c = BODY_BALL_HEAD_TOP
    · rw [h5, htop, hbase2, hbind, Quat.rotate_zero, Vec3.add_zero_vec]
    · rw [copyHeadRotation_bodyBall_of_ne _ _ c h4 h5]
      exact (htballs c hc).1

/-- No number of ticks moves a ball of the sample state off the target. -/
theorem ticks_offTargetAvatar (deltaTime : ℚ) (n : Nat) :
    (offTargetAvatar : Avatar ℚ).Frame
        (ticks (sampleExt Rat.sqrt) deltaTime n (offTargetAvatar : Avatar ℚ))
      ∧ ∀ c : Int, 0 ≤ c ∧ c < (NUM_AVATAR_BODY_BALLS : Int) →
        ((ticks (sampleExt Rat.sqrt) deltaTime n (offTargetAvatar : Avatar ℚ))._bodyBall
            c).position = ⟨5 / 4, 0, 0⟩
          ∧ ((ticks (sampleExt Rat.sqrt) deltaTime n (offTargetAvatar : Avatar ℚ))._bodyBall
            c).velocity = ⟨0, 0, 0⟩ := by
  induction n with
  | zero =>
    exact ⟨Avatar.Frame.same _, fun c _ => by
      simp [ticks, offTargetAvatar, sampleAvatar, ballAt]⟩
  | succ n ih => exact updateBodyBalls_offTargetAvatar deltaTime _ ih

/-- A call of updateBodyBalls on a state with every ball at rest on its target,
in a target pose without spring forces that agrees with the head placement:
every ball is again at rest on its target. -/
theorem updateBodyBalls_onTarget (E : Ext K) (a s : Avatar K) (deltaTime : K)
    (hs : OnTarget a s) (hrest : a._ballSpringsInitialized = false ∨ SpringsAtRest E a)
    (hhead : HeadOnTarget E a) : OnTarget a (updateBodyBalls E s deltaTime) := by
  have hs2 : OnTarget a (if beyondBodySpringRange E s then resetBodyBalls s else s) := by
    split_ifs
    · obtain ⟨hfr2, hb2⟩ := resetBodyBalls_onTarget s
      exact ⟨hs.1.andThen hfr2, fun c hc => by
        rw [← hs.1.targetPosition_eq c]
        exact hb2 c hc⟩
    · exact hs
  refine ⟨hs.1.andThen (updateBodyBalls_frame E s deltaTime), fun c hc => ?_⟩
  unfold updateBodyBalls
  dsimp only
  generalize (if beyondBodySpringRange E s then resetBodyBalls s else s) = s2 at hs2
  obtain ⟨hv, hp, hloop⟩ := integrateBodyBalls_onTarget E a s2 deltaTime hs2 hrest c hc
  refine ⟨?_, hv⟩
  by_cases h4 : c = BODY_BALL_HEAD_BASE
  · rw [h4]
    unfold integrateBodyBalls
    dsimp only
    obtain ⟨_, _, hbase, _⟩ := copyHeadRotation_head_balls E
      (forEachBall (updateBodyBall E deltaTime (s2.getOrientation E)) s2)
    rw [hbase, (hloop.2 BODY_BALL_NECK_BASE (by decide)).1, hloop.1.2.2.2.2.2.2.1,
      hloop.1.2.2.2.2.2.2.2.1]
    exact hhead.1.symm
  · by_cases h5 : c = BODY_BALL_HEAD_TOP
    · rw [h5]
      unfold integrateBodyBalls
      dsimp only
      obtain ⟨_, _, hbase, htop⟩ := copyHeadRotation_head_balls E
        (forEachBall (updateBodyBall E deltaTime (s2.getOrientation E)) s2)
      rw [htop, hbase, (hloop.2 BODY_BALL_NECK_BASE (by decide)).1, hloop.1.2.2.2.2.2.2.1,
        hloop.1.2.2.2.2.2.2.2.1, ← hhead.1]
      exact hhead.2.symm
    · exact hp h4 h5

theorem ticks_onTarget (E : Ext K) (a s : Avatar K) (deltaTime : K)
    (hs : OnTarget a s) (hrest : a._ballSpringsInitialized = false ∨ SpringsAtRest E a)
    (hhead : HeadOnTarget E a) (n : Nat) : OnTarget a (ticks E deltaTime n s) := by
  induction n with
  | zero => exact hs
  | succ n ih => exact updateBodyBalls_onTarget E a _ deltaTime ih hrest hhead

end Lemmas

/-! ## Reset, rescale and the radius invariant -/

section Claims

variable {K : Type} [LinearOrderedField K]

/-- C1 (counterexample): two avatars at the origin with scale 1, every ball at
rest at (0, 0, 10), so that the pelvis ball is 10 > 2 away and the tick resets;
every joint is at (3, 0, 0) with identity rotation, deltaTime is 1/100.
First, with calibrated springs and zero joint lengths the integration that
follows the reset pulls the pelvis ball, now 3 away from the avatar position,
along its spring: after the call it is at (7311/2500, 0, 0), not at its target
(3, 0, 0).  Second, with uncalibrated springs and the bind pose position
(0, 1, 0) of the head-base joint, the head-base ball is placed from the neck
ball: after the call it is at (3, 1, 0), not at its target (3, 0, 0). -/
theorem updateBodyBalls_teleport_off_target_counterexample :
    beyondBodySpringRange (sampleExt Rat.sqrt)
        (sampleAvatar (⟨3, 0, 0⟩ : Vec3 ℚ) ⟨0, 0, 10⟩ 0 sampleParentBall true)
      ∧ ((updateBodyBalls (sampleExt Rat.sqrt)
          (sampleAvatar (⟨3, 0, 0⟩ : Vec3 ℚ) ⟨0, 0, 10⟩ 0 sampleParentBall true)
          (1 / 100))._bodyBall BODY_BALL_PELVIS).position = ⟨7311 / 2500, 0, 0⟩
      ∧ (updateBodyBalls (sampleExt Rat.sqrt)
          (sampleAvatar (⟨3, 0, 0⟩ : Vec3 ℚ) ⟨0, 0, 10⟩ 0 sampleParentBall true)
          (1 / 100)).targetPosition BODY_BALL_PELVIS = ⟨3, 0, 0⟩
      ∧ ((updateBodyBalls (sampleExt Rat.sqrt)
          (sampleAvatar (⟨3, 0, 0⟩ : Vec3 ℚ) ⟨0, 0, 10⟩ 0 sampleParentBall true)
          (1 / 100))._bodyBall BODY_BALL_PELVIS).position
        ≠ (updateBodyBalls (sampleExt Rat.sqrt)
          (sampleAvatar (⟨3, 0, 0⟩ : Vec3 ℚ) ⟨0, 0, 10⟩ 0 sampleParentBall true)
          (1 / 100)).targetPosition BODY_BALL_PELVIS
      ∧ beyondBodySpringRange (sampleExt Rat.sqrt) (headOffsetAvatar : Avatar ℚ)
      ∧ ((updateBodyBalls (sampleExt Rat.sqrt) (headOffsetAvatar : Avatar ℚ)
          (1 / 100))._bodyBall BODY_BALL_HEAD_BASE).position = ⟨3, 1, 0⟩
      ∧ (updateBodyBalls (sampleExt Rat.sqrt) (headOffsetAvatar : Avatar ℚ)
          (1 / 100)).targetPosition BODY_BALL_HEAD_BASE = ⟨3, 0, 0⟩ := by
  have hfar : beyondBodySpringRange (sampleExt Rat.sqrt)
      (sampleAvatar (⟨3, 0, 0⟩ : Vec3 ℚ) ⟨0, 0, 10⟩ 0 sampleParentBall true) := by
    unfold beyondBodySpringRange
    rw [ratLength_eq _ 10 (by norm_num) (by simp [dot, sampleAvatar, ballAt])]
    simp [sampleAvatar]
    norm_num
  have hball : (resetBodyBalls
      (sampleAvatar (⟨3, 0, 0⟩ : Vec3 ℚ) ⟨0, 0, 10⟩ 0 sampleParentBall true))._bodyBall
        BODY_BALL_PELVIS
      = { ballAt (⟨0, 0, 10⟩ : Vec3 ℚ) 0 BODY_BALL_PELVIS BODY_BALL_NULL with
          position := ⟨3, 0, 0⟩ } := by
    rw [resetBodyBalls_eq]
    simp [sampleAvatar, ballAt, jointAt, Avatar.targetPosition, Quat.rotate_zero,
      BODY_BALL_PELVIS, NUM_AVATAR_BODY_BALLS, sampleParentBall, BODY_BALL_LEFT_COLLAR,
      BODY_BALL_RIGHT_COLLAR, BODY_BALL_LEFT_HIP, BODY_BALL_RIGHT_HIP, BODY_BALL_NULL]
    ext <;> simp
  have hfields : (resetBodyBalls
      (sampleAvatar (⟨3, 0, 0⟩ : Vec3 ℚ) ⟨0, 0, 10⟩ 0 sampleParentBall true))._position
        = ⟨0, 0, 0⟩
      ∧ (resetBodyBalls
      (sampleAvatar (⟨3, 0, 0⟩ : Vec3 ℚ) ⟨0, 0, 10⟩ 0 sampleParentBall true))._skeleton
        = ⟨fun _ => jointAt ⟨3, 0, 0⟩⟩
      ∧ (resetBodyBalls
      (sampleAvatar (⟨3, 0, 0⟩ : Vec3 ℚ) ⟨0, 0, 10⟩ 0 sampleParentBall
        true))._ballSpringsInitialized = true := by
    rw [resetBodyBalls_eq]
    exact ⟨rfl, rfl, rfl⟩
  obtain ⟨hpos0, hskel, hcal⟩ := hfields
  have hlen : (sampleExt Rat.sqrt).length
      (((resetBodyBalls
        (sampleAvatar (⟨3, 0, 0⟩ : Vec3 ℚ) ⟨0, 0, 10⟩ 0 sampleParentBall true))._bodyBall
          BODY_BALL_PELVIS).position
        - (resetBodyBalls
        (sampleAvatar (⟨3, 0, 0⟩ : Vec3 ℚ) ⟨0, 0, 10⟩ 0 sampleParentBall true))._position)
      = 3 := by
    rw [hball, hpos0]
    exact ratLength_eq _ 3 (by norm_num) (by simp [dot])
  have hposition : ((updateBodyBalls (sampleExt Rat.sqrt)
          (sampleAvatar (⟨3, 0, 0⟩ : Vec3 ℚ) ⟨0, 0, 10⟩ 0 sampleParentBall true)
          (1 / 100))._bodyBall BODY_BALL_PELVIS).position = ⟨7311 / 2500, 0, 0⟩ := by
    unfold updateBodyBalls
    dsimp only
    rw [if_pos hfar]
    unfold integrateBodyBalls
    dsimp only
    rw [copyHeadRotation_bodyBall_of_ne _ _ _ (by decide) (by decide),
      forEachBall_updateBodyBall_pelvis_position,
      updateBodyBall_pelvis_position _ _ _ _ hcal (by rw [hlen]; norm_num)
        (by rw [hball]; rfl), hlen]
    unfold Avatar.targetPosition
    rw [hball, hpos0, hskel]
    simp only [tightnessDecay, BODY_SPRING_DECAY, BODY_SPRING_FORCE, jointAt, ballAt,
      Quat.rotate_zero]
    norm_num
    ext <;> norm_num [BODY_SPRING_DEFAULT_TIGHTNESS]
  have htarget : (updateBodyBalls (sampleExt Rat.sqrt)
          (sampleAvatar (⟨3, 0, 0⟩ : Vec3 ℚ) ⟨0, 0, 10⟩ 0 sampleParentBall true)
          (1 / 100)).targetPosition BODY_BALL_PELVIS = ⟨3, 0, 0⟩ := by
    obtain ⟨_, _, _, _, _, _, _, hsk, _, hballs⟩ := updateBodyBalls_frame (sampleExt Rat.sqrt)
      (sampleAvatar (⟨3, 0, 0⟩ : Vec3 ℚ) ⟨0, 0, 10⟩ 0 sampleParentBall true) (1 / 100)
    obtain ⟨hj, _, ho, _⟩ := hballs BODY_BALL_PELVIS
    unfold Avatar.targetPosition
    rw [hsk, hj, ho]
    simp [sampleAvatar, ballAt, jointAt, Quat.rotate_zero, Vec3.add_zero_vec]
  have hfar2 : beyondBodySpringRange (sampleExt Rat.sqrt) (headOffsetAvatar : Avatar ℚ) := by
    unfold beyondBodySpringRange
    rw [ratLength_eq _ 10 (by norm_num)
      (by simp [dot, headOffsetAvatar, sampleAvatar, ballAt, Avatar.modifyJoint])]
    simp [headOffsetAvatar, sampleAvatar, Avatar.modifyJoint]
    norm_num
  have htarget2 : ∀ b : Int, (headOffsetAvatar : Avatar ℚ).targetPosition b = ⟨3, 0, 0⟩ := by
    intro b
    unfold Avatar.targetPosition headOffsetAvatar
    simp only [Avatar.modifyJoint_joint]
    split_ifs <;>
      simp [sampleAvatar, ballAt, jointAt, Quat.rotate_zero, Avatar.modifyJoint,
        Vec3.add_zero_vec]
  have hhead : ((updateBodyBalls (sampleExt Rat.sqrt) (headOffsetAvatar : Avatar ℚ)
      (1 / 100))._bodyBall BODY_BALL_HEAD_BASE).position = ⟨3, 1, 0⟩ := by
    unfold updateBodyBalls
    dsimp only
    rw [if_pos hfar2]
    obtain ⟨_, _, hloop⟩ := integrateBodyBalls_onTarget (sampleExt Rat.sqrt)
      (headOffsetAvatar : Avatar ℚ) (resetBodyBalls headOffsetAvatar) (1 / 100)
      (resetBodyBalls_onTarget _) (Or.inl rfl) BODY_BALL_NECK_BASE (by decide)
    unfold integrateBodyBalls
    dsimp only
    rw [copyHeadRotation_head_base_position, (hloop.2 BODY_BALL_NECK_BASE (by decide)).1,
      htarget2, hloop.1.2.2.2.2.2.2.1, hloop.1.2.2.2.2.2.2.2.1]
    simp [headOffsetAvatar, sampleAvatar, jointAt, Head.getOrientation, sampleExt,
      Quat.identity, BODY_BALL_HEAD_BASE, AVATAR_JOINT_HEAD_BASE]
    rw [Quat.mul_def, Quat.mul_vec_def]
    ext <;> simp [Quat.rotate, cross]
  refine ⟨hfar, hposition, htarget, ?_, hfar2, hhead, ?_⟩
  · rw [hposition, htarget]
    intro h
    have hx := congrArg Vec3.x h
    norm_num at hx
  · rw [(updateBodyBalls_frame _ _ _).targetPosition_eq]
    exact htarget2 _

/-- C1 (amended): when |avatar position - pelvis ball position| > 2 * scale at
the call of updateBodyBalls, the reset is performed before the tick is
integrated: the call equals the integration run from the reset state, and in
that reset state every ball of the array is at its skeleton target with zero
velocity.  After the whole call this is still so when no spring force acts on
the target pose (the springs are not calibrated, or every spring of the target
pose has length zero or its rest length): every ball has zero velocity and
every ball but the head base and the head top, which are placed from the neck
ball, is at its target. -/
theorem updateBodyBalls_teleport_reset_then_integrate (E : Ext K) (a : Avatar K)
    (deltaTime : K) (hfar : beyondBodySpringRange E a) :
    updateBodyBalls E a deltaTime = integrateBodyBalls E (resetBodyBalls a) deltaTime
      ∧ (∀ b : Int, 0 ≤ b ∧ b < (NUM_AVATAR_BODY_BALLS : Int) →
          ((resetBodyBalls a)._bodyBall b).position = (resetBodyBalls a).targetPosition b
            ∧ ((resetBodyBalls a)._bodyBall b).velocity = ⟨0, 0, 0⟩)
      ∧ ((a._ballSpringsInitialized = false ∨ SpringsAtRest E a) →
          ∀ b : Int, 0 ≤ b ∧ b < (NUM_AVATAR_BODY_BALLS : Int) →
            ((updateBodyBalls E a deltaTime)._bodyBall b).velocity = ⟨0, 0, 0⟩
              ∧ (b ≠ BODY_BALL_HEAD_BASE → b ≠ BODY_BALL_HEAD_TOP →
                ((updateBodyBalls E a deltaTime)._bodyBall b).position
                  = (updateBodyBalls E a deltaTime).targetPosition b)) := by
  have hupd : updateBodyBalls E a deltaTime
      = integrateBodyBalls E (resetBodyBalls a) deltaTime := by
    unfold updateBodyBalls
    dsimp only
    rw [if_pos hfar]
  have hon := resetBodyBalls_onTarget a
  refine ⟨hupd, fun b hb => ?_, fun hrest b hb => ?_⟩
  · rw [hon.1.targetPosition_eq b]
    exact hon.2 b hb
  · rw [(updateBodyBalls_frame E a deltaTime).targetPosition_eq b, hupd]
    obtain ⟨hv, hp, _⟩ := integrateBodyBalls_onTarget E a (resetBodyBalls a) deltaTime hon
      hrest b hb
    exact ⟨hv, hp⟩

/-- Witness of C1 (amended): a sample avatar with calibrated springs whose
joints are all at the avatar position, so that every spring of the target pose
has length zero, and whose pelvis ball is 10 > 2 away from the avatar. -/
theorem updateBodyBalls_teleport_reset_then_integrate_witness :
    beyondBodySpringRange (sampleExt Rat.sqrt)
        (sampleAvatar (⟨0, 0, 0⟩ : Vec3 ℚ) ⟨0, 0, 10⟩ 0 sampleParentBall true)
      ∧ SpringsAtRest (sampleExt Rat.sqrt)
        (sampleAvatar (⟨0, 0, 0⟩ : Vec3 ℚ) ⟨0, 0, 10⟩ 0 sampleParentBall true)
      ∧ ((updateBodyBalls (sampleExt Rat.sqrt)
          (sampleAvatar (⟨0, 0, 0⟩ : Vec3 ℚ) ⟨0, 0, 10⟩ 0 sampleParentBall true)
          (1 / 100))._bodyBall BODY_BALL_PELVIS).position
        = (updateBodyBalls (sampleExt Rat.sqrt)
          (sampleAvatar (⟨0, 0, 0⟩ : Vec3 ℚ) ⟨0, 0, 10⟩ 0 sampleParentBall true)
          (1 / 100)).targetPosition BODY_BALL_PELVIS := by
  have hfar : beyondBodySpringRange (sampleExt Rat.sqrt)
      (sampleAvatar (⟨0, 0, 0⟩ : Vec3 ℚ) ⟨0, 0, 10⟩ 0 sampleParentBall true) := by
    unfold beyondBodySpringRange
    rw [ratLength_eq _ 10 (by norm_num) (by simp [dot, sampleAvatar, ballAt])]
    simp [sampleAvatar]
    norm_num
  have hrest : SpringsAtRest (sampleExt Rat.sqrt)
      (sampleAvatar (⟨0, 0, 0⟩ : Vec3 ℚ) ⟨0, 0, 10⟩ 0 sampleParentBall true) := by
    intro b hb
    constructor
    · intro hne
      obtain ⟨h0, h1⟩ := hb
      simp only [NUM_AVATAR_BODY_BALLS] at h1 ⊢
      simp only [BODY_BALL_PELVIS] at hne
      have hp : (sampleAvatar (⟨0, 0, 0⟩ : Vec3 ℚ) ⟨0, 0, 10⟩ 0 sampleParentBall
          true)._bodyBall b = ballAt ⟨0, 0, 10⟩ 0 b (sampleParentBall b) := rfl
      rw [hp]
      simp only [ballAt, sampleParentBall, BODY_BALL_LEFT_COLLAR, BODY_BALL_RIGHT_COLLAR,
        BODY_BALL_LEFT_HIP, BODY_BALL_RIGHT_HIP, BODY_BALL_CHEST, BODY_BALL_PELVIS]
      split_ifs <;> constructor <;> push_cast <;> omega
    · intro hl
      exfalso
      have hzero : (sampleExt Rat.sqrt).length
          ((sampleAvatar (⟨0, 0, 0⟩ : Vec3 ℚ) ⟨0, 0, 10⟩ 0 sampleParentBall
            true).targetPosition b
          - (sampleAvatar (⟨0, 0, 0⟩ : Vec3 ℚ) ⟨0, 0, 10⟩ 0 sampleParentBall
            true).springAnchorTarget b) = 0 := by
        apply ratLength_eq _ 0 (le_refl 0)
        unfold Avatar.springAnchorTarget
        split_ifs <;>
          simp [dot, sampleAvatar, ballAt, jointAt, Avatar.targetPosition, Quat.rotate_zero]
      rw [hzero] at hl
      exact lt_irrefl _ hl
  exact ⟨hfar, hrest, ((updateBodyBalls_teleport_reset_then_integrate (sampleExt Rat.sqrt)
    (sampleAvatar (⟨0, 0, 0⟩ : Vec3 ℚ) ⟨0, 0, 10⟩ 0 sampleParentBall true) (1 / 100)
    hfar).2.2 (Or.inr hrest) BODY_BALL_PELVIS (by decide)).2 (by decide) (by decide)⟩

/-- C2: after resetBodyBalls every ball b of the array is at its skeleton
target (the position of joint parentJoint(b) plus the rotation of that joint
applied to parentOffset(b), the same before and after the call) with zero
velocity, while its jointTightness, springLength and radius and the flag
_ballSpringsInitialized are unchanged. -/
theorem resetBodyBalls_postcondition (a : Avatar K) (b : Int)
    (hb : 0 ≤ b ∧ b < (NUM_AVATAR_BODY_BALLS : Int)) :
    ((resetBodyBalls a)._bodyBall b).position
        = ((resetBodyBalls a)._skeleton.joint ((resetBodyBalls a)._bodyBall b).parentJoint).position
          + ((resetBodyBalls a)._skeleton.joint
              ((resetBodyBalls a)._bodyBall b).parentJoint).rotation
            * ((resetBodyBalls a)._bodyBall b).parentOffset
      ∧ (resetBodyBalls a).targetPosition b = a.targetPosition b
      ∧ ((resetBodyBalls a)._bodyBall b).velocity = ⟨0, 0, 0⟩
      ∧ ((resetBodyBalls a)._bodyBall b).jointTightness = (a._bodyBall b).jointTightness
      ∧ ((resetBodyBalls a)._bodyBall b).springLength = (a._bodyBall b).springLength
      ∧ ((resetBodyBalls a)._bodyBall b).radius = (a._bodyBall b).radius
      ∧ (resetBodyBalls a)._ballSpringsInitialized = a._ballSpringsInitialized := by
  rw [resetBodyBalls_eq]
  simp [Avatar.targetPosition, if_pos hb]

/-- Witness of C2: the pelvis ball of a sample avatar whose balls are at (1,2,3)
and whose joints are at (4,5,6). -/
theorem resetBodyBalls_postcondition_witness :
    ((0 : Int) ≤ BODY_BALL_PELVIS ∧ BODY_BALL_PELVIS < (NUM_AVATAR_BODY_BALLS : Int))
      ∧ ((resetBodyBalls (sampleAvatar (⟨4, 5, 6⟩ : Vec3 ℚ) ⟨1, 2, 3⟩ 0 sampleParentBall
            true))._bodyBall BODY_BALL_PELVIS).velocity = ⟨0, 0, 0⟩ :=
  ⟨by decide, (resetBodyBalls_postcondition
    (sampleAvatar (⟨4, 5, 6⟩ : Vec3 ℚ) ⟨1, 2, 3⟩ 0 sampleParentBall true) BODY_BALL_PELVIS
    (by decide)).2.2.1⟩

/-- C3 (counterexample): with _newScale = 1 and the rescaling tolerance 0.02,
setScale(1.01) stores the scale 1, so the pelvis radius is 0.07 * 1 and not
0.07 * 1.01.  And from a state in which every ball has radius 5, setScale(2)
leaves the head-top ball, for which there is no radius constant, at radius 5. -/
theorem setScale_radius_not_linear_counterexample :
    ((setScale (sampleExt Rat.sqrt)
        (sampleAvatar (⟨0, 0, 0⟩ : Vec3 ℚ) ⟨0, 0, 0⟩ 0 sampleParentBall false)
        (101 / 100))._bodyBall BODY_BALL_PELVIS).radius = 7 / 100
      ∧ ((setScale (sampleExt Rat.sqrt)
        (sampleAvatar (⟨0, 0, 0⟩ : Vec3 ℚ) ⟨0, 0, 0⟩ 0 sampleParentBall false)
        (101 / 100))._bodyBall BODY_BALL_PELVIS).radius
          ≠ (sampleExt Rat.sqrt).baseRadius BODY_BALL_PELVIS * (101 / 100)
      ∧ ((setScale (sampleExt Rat.sqrt)
        (sampleAvatar (⟨0, 0, 0⟩ : Vec3 ℚ) ⟨0, 0, 0⟩ 5 sampleParentBall false)
        2)._bodyBall BODY_BALL_HEAD_TOP).radius = 5 := by
  have hw : withinRescalingTolerance (sampleExt Rat.sqrt)
      (sampleAvatar (⟨0, 0, 0⟩ : Vec3 ℚ) ⟨0, 0, 0⟩ 0 sampleParentBall false)._newScale
      (101 / 100) := by
    simp only [withinRescalingTolerance, sampleExt, sampleAvatar]
    norm_num
  have hb : (0 : Int) ≤ BODY_BALL_PELVIS ∧ BODY_BALL_PELVIS < (NUM_AVATAR_BODY_BALLS : Int)
      ∧ BODY_BALL_PELVIS ≠ BODY_BALL_HEAD_TOP := by decide
  have htop : ((setScale (sampleExt Rat.sqrt)
        (sampleAvatar (⟨0, 0, 0⟩ : Vec3 ℚ) ⟨0, 0, 0⟩ 5 sampleParentBall false)
        2)._bodyBall BODY_BALL_HEAD_TOP).radius = 5 := by
    rw [setScale_radius, if_neg (fun h => h.2.2 rfl)]
    rfl
  rw [setScale_radius, setScale_scale, if_pos hb, if_pos hw]
  refine ⟨?_, ?_, htop⟩ <;>
    simp only [Ext.baseRadius, sampleExt, sampleAvatar, if_true] <;> norm_num

/-- C3 (amended): after setScale(s) the stored scale is _newScale when s lies
strictly within the rescaling tolerance of _newScale, and s otherwise; every
ball that has a BODY_BALL_RADIUS constant (every ball but the head top) has
radius equal to its base radius times the stored scale, hence base radius
times s whenever s is outside the tolerance window or equals _newScale; the
radius of the head-top ball is not written. -/
theorem setScale_radius_stored_scale (E : Ext K) (a : Avatar K) (scale : K) (b : Int)
    (hb : 0 ≤ b ∧ b < (NUM_AVATAR_BODY_BALLS : Int) ∧ b ≠ BODY_BALL_HEAD_TOP) :
    (setScale E a scale)._scale
        = (if withinRescalingTolerance E a._newScale scale then a._newScale else scale)
      ∧ ((setScale E a scale)._bodyBall b).radius = E.baseRadius b * (setScale E a scale)._scale
      ∧ ((¬ withinRescalingTolerance E a._newScale scale ∨ scale = a._newScale) →
          ((setScale E a scale)._bodyBall b).radius = E.baseRadius b * scale)
      ∧ ((setScale E a scale)._bodyBall BODY_BALL_HEAD_TOP).radius
          = (a._bodyBall BODY_BALL_HEAD_TOP).radius := by
  have hrad : ((setScale E a scale)._bodyBall b).radius
      = E.baseRadius b * (setScale E a scale)._scale := by
    rw [setScale_radius, if_pos hb, mul_comm]
  refine ⟨setScale_scale E a scale, hrad, ?_, ?_⟩
  · intro h
    rw [hrad, setScale_scale]
    rcases h with h | h
    · rw [if_neg h]
    · split_ifs
      · rw [h]
      · rfl
  · rw [setScale_radius, if_neg (fun h => h.2.2 rfl)]

/-- Witness of C3 (amended): setScale(2) on a sample avatar with _newScale = 1,
at the pelvis ball. -/
theorem setScale_radius_stored_scale_witness :
    ((0 : Int) ≤ BODY_BALL_PELVIS ∧ BODY_BALL_PELVIS < (NUM_AVATAR_BODY_BALLS : Int)
        ∧ BODY_BALL_PELVIS ≠ BODY_BALL_HEAD_TOP)
      ∧ ((setScale (sampleExt Rat.sqrt)
          (sampleAvatar (⟨0, 0, 0⟩ : Vec3 ℚ) ⟨0, 0, 0⟩ 0 sampleParentBall false)
          2)._bodyBall BODY_BALL_PELVIS).radius
        = (sampleExt Rat.sqrt).baseRadius BODY_BALL_PELVIS
          * (setScale (sampleExt Rat.sqrt)
              (sampleAvatar (⟨0, 0, 0⟩ : Vec3 ℚ) ⟨0, 0, 0⟩ 0 sampleParentBall false) 2)._scale :=
  ⟨by decide, (setScale_radius_stored_scale (sampleExt Rat.sqrt)
    (sampleAvatar (⟨0, 0, 0⟩ : Vec3 ℚ) ⟨0, 0, 0⟩ 0 sampleParentBall false) 2 BODY_BALL_PELVIS
    (by decide)).2.1⟩

/-- C4: calling setScale(s) twice in a row leaves the stored _scale and the
radius of every ball as the first call left them. -/
theorem setScale_idempotent (E : Ext K) (a : Avatar K) (scale : K) :
    (setScale E (setScale E a scale) scale)._scale = (setScale E a scale)._scale
      ∧ ∀ b : Int, ((setScale E (setScale E a scale) scale)._bodyBall b).radius
          = ((setScale E a scale)._bodyBall b).radius := by
  have hscale : (setScale E (setScale E a scale) scale)._scale = (setScale E a scale)._scale := by
    rw [setScale_scale E (setScale E a scale), setScale_newScale, setScale_scale]
  refine ⟨hscale, fun b => ?_⟩
  rw [setScale_radius E (setScale E a scale), hscale]
  split_ifs with h
  · rw [setScale_radius, if_pos h]
  · rfl

/-- C5: in every state reached from avatar construction (_scale = 1,
initializeBodyBalls) by calls of setScale, updateBodyBalls, resetBodyBalls,
updateCollisionWithSphere and simulate, in any order and number, and by
assignments to members other than _scale and the ball radii, every ball of the
array has its base radius times the stored scale _scale as radius (the base
radius of the head-top ball, which has no radius constant, being the 0.0 that
initializeBodyBalls leaves). -/
theorem radius_invariant_of_reachable (E : Ext K) (a : Avatar K) (h : Reachable E a) :
    ∀ b : Int, 0 ≤ b ∧ b < (NUM_AVATAR_BODY_BALLS : Int) →
      (a._bodyBall b).radius = E.baseRadius b * a._scale := by
  show RadiusInvariant E a
  induction h with
  | construct a0 =>
    intro b hb
    rw [constructAvatar_radius E a0 b hb, constructAvatar_scale, mul_one]
  | setScale a0 scale _ ih => exact RadiusInvariant.afterSetScale E a0 scale ih
  | updateBodyBalls a0 deltaTime _ ih =>
    exact RadiusInvariant.of_frame (updateBodyBalls_frame E a0 deltaTime) ih
  | resetBodyBalls a0 _ ih => exact RadiusInvariant.of_frame (resetBodyBalls_frame a0) ih
  | updateCollisionWithSphere a0 position radius deltaTime _ ih =>
    exact RadiusInvariant.of_frame
      (updateCollisionWithSphere_frame E a0 position radius deltaTime) ih
  | simulate X a0 deltaTime _ ih => exact simulate_radiusInvariant E X a0 deltaTime ih
  | assign a0 b0 _ hsame ih => exact RadiusInvariant.of_sameRadii hsame ih

/-- Witness of C5: a constructed avatar, asked to rescale to 2, after a call of
simulate (which rescales and calibrates the springs), a further call of
updateBodyBalls and a call of updateCollisionWithSphere. -/
theorem radius_invariant_of_reachable_witness :
    Reachable (sampleExt Rat.sqrt)
        (updateCollisionWithSphere (sampleExt Rat.sqrt)
          (updateBodyBalls (sampleExt Rat.sqrt)
            (simulate (sampleExt Rat.sqrt) sampleEnv
              { constructAvatar (sampleExt Rat.sqrt)
                  (sampleAvatar (⟨0, 0, 0⟩ : Vec3 ℚ) ⟨0, 0, 0⟩ 0 sampleParentBall false) with
                _newScale := 2 }
              (1 / 60))
            (1 / 60))
          ⟨0, 0, 0⟩ 1 (1 / 60))
      ∧ (simulate (sampleExt Rat.sqrt) sampleEnv
              { constructAvatar (sampleExt Rat.sqrt)
                  (sampleAvatar (⟨0, 0, 0⟩ : Vec3 ℚ) ⟨0, 0, 0⟩ 0 sampleParentBall false) with
                _newScale := 2 }
              (1 / 60))._ballSpringsInitialized = true
      ∧ ∀ b : Int, 0 ≤ b ∧ b < (NUM_AVATAR_BODY_BALLS : Int) →
        ((updateCollisionWithSphere (sampleExt Rat.sqrt)
          (updateBodyBalls (sampleExt Rat.sqrt)
            (simulate (sampleExt Rat.sqrt) sampleEnv
              { constructAvatar (sampleExt Rat.sqrt)
                  (sampleAvatar (⟨0, 0, 0⟩ : Vec3 ℚ) ⟨0, 0, 0⟩ 0 sampleParentBall false) with
                _newScale := 2 }
              (1 / 60))
            (1 / 60))
          ⟨0, 0, 0⟩ 1 (1 / 60))._bodyBall b).radius
        = (sampleExt Rat.sqrt).baseRadius b
          * (updateCollisionWithSphere (sampleExt Rat.sqrt)
          (updateBodyBalls (sampleExt Rat.sqrt)
            (simulate (sampleExt Rat.sqrt) sampleEnv
              { constructAvatar (sampleExt Rat.sqrt)
                  (sampleAvatar (⟨0, 0, 0⟩ : Vec3 ℚ) ⟨0, 0, 0⟩ 0 sampleParentBall false) with
                _newScale := 2 }
              (1 / 60))
            (1 / 60))
          ⟨0, 0, 0⟩ 1 (1 / 60))._scale :=
  have hreach : Reachable (sampleExt Rat.sqrt)
        (updateCollisionWithSphere (sampleExt Rat.sqrt)
          (updateBodyBalls (sampleExt Rat.sqrt)
            (simulate (sampleExt Rat.sqrt) sampleEnv
              { constructAvatar (sampleExt Rat.sqrt)
                  (sampleAvatar (⟨0, 0, 0⟩ : Vec3 ℚ) ⟨0, 0, 0⟩ 0 sampleParentBall false) with
                _newScale := 2 }
              (1 / 60))
            (1 / 60))
          ⟨0, 0, 0⟩ 1 (1 / 60)) :=
    Reachable.updateCollisionWithSphere _ _ _ _ (Reachable.updateBodyBalls _ _
      (Reachable.simulate _ _ _ (Reachable.assign
        (constructAvatar (sampleExt Rat.sqrt)
          (sampleAvatar (⟨0, 0, 0⟩ : Vec3 ℚ) ⟨0, 0, 0⟩ 0 sampleParentBall false)) _
        (Reachable.construct _) (sameRadii_setNewScale _ 2))))
  ⟨hreach, simulate_initialized _ _ _ _, radius_invariant_of_reachable _ _ hreach⟩

/-! ## Arm IK -/

/-- C9 (counterexample): the sphere of radius 1 at the origin, the pelvis ball
of radius 0.1 at rest at (0.5, 0, 0), deltaTime 1/60.  The ball penetrates
(0 < 0.5 < 1.1), yet after updateCollisionWithSphere its own velocity is still
zero, not the claimed (oldPosition - sphereCenter) * penetration * 40 *
deltaTime, whose x component is 2/11. -/
theorem updateCollisionWithSphere_ball_velocity_counterexample :
    (0 < (sampleExt Rat.sqrt).length
          (((sampleAvatar (⟨0, 0, 0⟩ : Vec3 ℚ) ⟨1 / 2, 0, 0⟩ (1 / 10) sampleParentBall
            true)._bodyBall BODY_BALL_PELVIS).position - ⟨0, 0, 0⟩)
      ∧ (sampleExt Rat.sqrt).length
          (((sampleAvatar (⟨0, 0, 0⟩ : Vec3 ℚ) ⟨1 / 2, 0, 0⟩ (1 / 10) sampleParentBall
            true)._bodyBall BODY_BALL_PELVIS).position - ⟨0, 0, 0⟩) < 1 / 10 + 1)
      ∧ ((updateCollisionWithSphere (sampleExt Rat.sqrt)
            (sampleAvatar (⟨0, 0, 0⟩ : Vec3 ℚ) ⟨1 / 2, 0, 0⟩ (1 / 10) sampleParentBall true)
            ⟨0, 0, 0⟩ 1 (1 / 60))._bodyBall BODY_BALL_PELVIS).velocity = ⟨0, 0, 0⟩
      ∧ ((updateCollisionWithSphere (sampleExt Rat.sqrt)
            (sampleAvatar (⟨0, 0, 0⟩ : Vec3 ℚ) ⟨1 / 2, 0, 0⟩ (1 / 10) sampleParentBall true)
            ⟨0, 0, 0⟩ 1 (1 / 60))._bodyBall BODY_BALL_PELVIS).velocity
        ≠ ((sampleAvatar (⟨0, 0, 0⟩ : Vec3 ℚ) ⟨1 / 2, 0, 0⟩ (1 / 10) sampleParentBall
            true)._bodyBall BODY_BALL_PELVIS).velocity
          + ((((⟨1 / 2, 0, 0⟩ : Vec3 ℚ) - (⟨0, 0, 0⟩ : Vec3 ℚ))
              * (1 - (1 / 2) / (1 / 10 + 1) : ℚ) : Vec3 ℚ) * (40 : ℚ) : Vec3 ℚ)
            * (1 / 60 : ℚ) := by
  have hlen : (sampleExt Rat.sqrt).length
      (((sampleAvatar (⟨0, 0, 0⟩ : Vec3 ℚ) ⟨1 / 2, 0, 0⟩ (1 / 10) sampleParentBall
        true)._bodyBall BODY_BALL_PELVIS).position - ⟨0, 0, 0⟩) = 1 / 2 :=
    ratLength_eq _ (1 / 2) (by norm_num) (by simp [dot, sampleAvatar, ballAt])
  rw [hlen, updateCollisionWithSphere_ball_velocity]
  refine ⟨⟨by norm_num, by norm_num⟩, by simp [sampleAvatar, ballAt], ?_⟩
  intro h
  have hx := congrArg Vec3.x h
  simp [sampleAvatar, ballAt] at hx
  norm_num at hx

/-- C9 (amended): for a penetrating ball b of the array (0 < d < ball.radius +
sphereRadius, deltaTime > 0, avatar within the broad-phase range),
updateCollisionWithSphere leaves the velocity of every ball unchanged and adds
the bounce impulse to the avatar velocity _velocity instead: _velocity grows by
the sum over the balls of their impulses, the impulse of ball b being
(oldPosition - sphereCenter) * penetration * 40 * deltaTime with penetration =
1 - d / (ball.radius + sphereRadius), a vector with a strictly positive
component along the direction from the sphere centre to the ball. -/
theorem updateCollisionWithSphere_impulse_on_avatar (E : Ext K) (hE : ExactSqrt E)
    (a : Avatar K) (position : Vec3 K) (radius deltaTime : K) (b : Int)
    (hb : 0 ≤ b ∧ b < (NUM_AVATAR_BODY_BALLS : Int))
    (hnear : E.length (a._position - position) < 1 + radius)
    (hd : 0 < E.length ((a._bodyBall b).position - position))
    (hpen : E.length ((a._bodyBall b).position - position) < (a._bodyBall b).radius + radius)
    (hdt : 0 < deltaTime) :
    (∀ c : Int, ((updateCollisionWithSphere E a position radius deltaTime)._bodyBall c).velocity
        = (a._bodyBall c).velocity)
      ∧ (updateCollisionWithSphere E a position radius deltaTime)._velocity
        = (List.range NUM_AVATAR_BODY_BALLS).foldl
            (fun (v : Vec3 K) (c : Nat) =>
              v + sphereImpulse E position radius deltaTime (a._bodyBall (c : Int)))
            a._velocity
      ∧ sphereImpulse E position radius deltaTime (a._bodyBall b)
        = ((a._bodyBall b).position - position)
            * (1 - E.length ((a._bodyBall b).position - position)
                / ((a._bodyBall b).radius + radius))
            * (40 : K) * deltaTime
      ∧ 0 < dot (sphereImpulse E position radius deltaTime (a._bodyBall b))
            (((a._bodyBall b).position - position)
              / E.length ((a._bodyBall b).position - position)) := by
  have himp : sphereImpulse E position radius deltaTime (a._bodyBall b)
        = ((a._bodyBall b).position - position)
            * (1 - E.length ((a._bodyBall b).position - position)
                / ((a._bodyBall b).radius + radius))
            * (40 : K) * deltaTime := by
    unfold sphereImpulse
    rw [if_pos ⟨hpen, hd⟩]
  refine ⟨fun c => updateCollisionWithSphere_ball_velocity E a position radius deltaTime c,
    updateCollisionWithSphere_velocity E a position radius deltaTime hnear, himp, ?_⟩
  rw [himp, dot_smul_left, dot_smul_left, dot_smul_left, dot_div_right]
  have hR : 0 < (a._bodyBall b).radius + radius := lt_trans hd hpen
  have hpenetration : 0 < 1 - E.length ((a._bodyBall b).position - position)
      / ((a._bodyBall b).radius + radius) := by
    rw [sub_pos, div_lt_one hR]
    exact hpen
  have hdot := hE.dot_self_pos _ hd
  exact mul_pos hdt (mul_pos (by norm_num) (mul_pos hpenetration (div_pos hdot hd)))

/-- Witness of C9 (amended): over the reals, the sphere of radius 1 at the
origin, the pelvis ball of radius 0.1 at (0.5, 0, 0), deltaTime 1/60. -/
theorem updateCollisionWithSphere_impulse_on_avatar_witness :
    ExactSqrt (sampleExt Real.sqrt)
      ∧ (sampleExt Real.sqrt).length
          (((sampleAvatar (⟨0, 0, 0⟩ : Vec3 ℝ) ⟨1 / 2, 0, 0⟩ (1 / 10) sampleParentBall
            true)._bodyBall BODY_BALL_PELVIS).position - ⟨0, 0, 0⟩) = 1 / 2
      ∧ 0 < dot (sphereImpulse (sampleExt Real.sqrt) ⟨0, 0, 0⟩ 1 (1 / 60)
            ((sampleAvatar (⟨0, 0, 0⟩ : Vec3 ℝ) ⟨1 / 2, 0, 0⟩ (1 / 10) sampleParentBall
              true)._bodyBall BODY_BALL_PELVIS))
          ((((sampleAvatar (⟨0, 0, 0⟩ : Vec3 ℝ) ⟨1 / 2, 0, 0⟩ (1 / 10) sampleParentBall
              true)._bodyBall BODY_BALL_PELVIS).position - ⟨0, 0, 0⟩)
            / (sampleExt Real.sqrt).length
                (((sampleAvatar (⟨0, 0, 0⟩ : Vec3 ℝ) ⟨1 / 2, 0, 0⟩ (1 / 10) sampleParentBall
                  true)._bodyBall BODY_BALL_PELVIS).position - ⟨0, 0, 0⟩)) := by
  have hnear : (sampleExt Real.sqrt).length
      ((sampleAvatar (⟨0, 0, 0⟩ : Vec3 ℝ) ⟨1 / 2, 0, 0⟩ (1 / 10) sampleParentBall
        true)._position - ⟨0, 0, 0⟩) < 1 + 1 := by
    rw [exactSqrt_real.length_eq_of_sq _ 0 (le_refl 0) (by simp [dot, sampleAvatar])]
    norm_num
  have hlen : (sampleExt Real.sqrt).length
      (((sampleAvatar (⟨0, 0, 0⟩ : Vec3 ℝ) ⟨1 / 2, 0, 0⟩ (1 / 10) sampleParentBall
        true)._bodyBall BODY_BALL_PELVIS).position - ⟨0, 0, 0⟩) = 1 / 2 :=
    exactSqrt_real.length_eq_of_sq _ (1 / 2) (by norm_num)
      (by simp [dot, sampleAvatar, ballAt])
  have hrad : ((sampleAvatar (⟨0, 0, 0⟩ : Vec3 ℝ) ⟨1 / 2, 0, 0⟩ (1 / 10) sampleParentBall
        true)._bodyBall BODY_BALL_PELVIS).radius + 1 = 11 / 10 := by
    simp [sampleAvatar, ballAt]; norm_num
  exact ⟨exactSqrt_real, hlen,
    (updateCollisionWithSphere_impulse_on_avatar (sampleExt Real.sqrt) exactSqrt_real _ _ _
      (1 / 60) BODY_BALL_PELVIS (by decide) hnear (by rw [hlen]; norm_num)
      (by rw [hlen, hrad]; norm_num) (by norm_num)).2.2.2⟩

/-! ## Convergence -/

/-- C11: in the spring term of the loop body of updateBodyBalls for ball b,
every division executed has a positive divisor; and for a ball whose position
coincides with the position of its parent ball (with the avatar position for
the pelvis), the square root of zero being zero, the term executes no division
and writes nothing: the velocity of the ball and the velocity of its parent
ball are unchanged, as is the whole state. -/
theorem applySpringForces_zero_length_guard (E : Ext K) (deltaTime : K) (a : Avatar K)
    (b : Int) :
    (∀ d ∈ springDivisors E a b, d > 0)
      ∧ (E.sqrt 0 = 0 → (a._bodyBall b).position = a.springAnchor b →
          springDivisors E a b = []
            ∧ (((applySpringForces E deltaTime a b).1)._bodyBall b).velocity
              = (a._bodyBall b).velocity
            ∧ (((applySpringForces E deltaTime a b).1)._bodyBall
                (a._bodyBall b).parentBall).velocity
              = (a._bodyBall (a._bodyBall b).parentBall).velocity
            ∧ (applySpringForces E deltaTime a b).1 = a) := by
  refine ⟨springDivisors_pos E a b, fun hsqrt hco => ?_⟩
  have hlen : ¬ (E.length (a.springVector b) > 0) := by
    rw [Avatar.springVector_eq_sub_anchor, hco, Vec3.sub_self_vec, Ext.length_zero_vec E hsqrt]
    exact lt_irrefl 0
  have hsame := applySpringForces_of_slack E deltaTime a b (Or.inr hlen)
  exact ⟨springDivisors_of_slack E a b hlen, by rw [hsame], by rw [hsame], hsame⟩

/-- Witness of C11: the torso ball of a calibrated sample avatar whose balls
are all at the origin, as is the avatar. -/
theorem applySpringForces_zero_length_guard_witness :
    (sampleExt Rat.sqrt).sqrt 0 = 0
      ∧ ((sampleAvatar (⟨1, 0, 0⟩ : Vec3 ℚ) ⟨0, 0, 0⟩ 0 sampleParentBall true)._bodyBall
          BODY_BALL_TORSO).position
        = (sampleAvatar (⟨1, 0, 0⟩ : Vec3 ℚ) ⟨0, 0, 0⟩ 0 sampleParentBall true).springAnchor
          BODY_BALL_TORSO
      ∧ (applySpringForces (sampleExt Rat.sqrt) (1 / 100)
          (sampleAvatar (⟨1, 0, 0⟩ : Vec3 ℚ) ⟨0, 0, 0⟩ 0 sampleParentBall true)
          BODY_BALL_TORSO).1
        = sampleAvatar (⟨1, 0, 0⟩ : Vec3 ℚ) ⟨0, 0, 0⟩ 0 sampleParentBall true :=
  ⟨by simp [sampleExt], by simp [Avatar.springAnchor, sampleAvatar, ballAt, BODY_BALL_TORSO, BODY_BALL_PELVIS],
    ((applySpringForces_zero_length_guard (sampleExt Rat.sqrt) (1 / 100)
      (sampleAvatar (⟨1, 0, 0⟩ : Vec3 ℚ) ⟨0, 0, 0⟩ 0 sampleParentBall true)
      BODY_BALL_TORSO).2 (by simp [sampleExt])
      (by simp [Avatar.springAnchor, sampleAvatar, ballAt, BODY_BALL_TORSO, BODY_BALL_PELVIS])).2.2.2⟩

/-- C12 (the code at the failing input): with the fingertip target on the
shoulder, both at the origin, and _maxArmLength = 1, the distance 0 is not
greater than _maxArmLength, the clamp is skipped, and the one division that
updateArmIKAndConstraints executes, _maxArmLength / distance, has the divisor
0. -/
theorem updateArmIKAndConstraints_divides_by_zero :
    ((armAvatar (⟨0, 0, 0⟩ : Vec3 ℚ) 1)._skeleton.joint AVATAR_JOINT_RIGHT_FINGERTIPS).position
        = ((armAvatar (⟨0, 0, 0⟩ : Vec3 ℚ) 1)._skeleton.joint
            AVATAR_JOINT_RIGHT_SHOULDER).position
      ∧ (armAvatar (⟨0, 0, 0⟩ : Vec3 ℚ) 1)._maxArmLength = 1
      ∧ updateArmIKAndConstraintsDivisors (sampleExt Rat.sqrt)
          (armAvatar (⟨0, 0, 0⟩ : Vec3 ℚ) 1) = [0] := by
  have hlen : (sampleExt Rat.sqrt).length
      (((armAvatar (⟨0, 0, 0⟩ : Vec3 ℚ) 1)._skeleton.joint
          AVATAR_JOINT_RIGHT_FINGERTIPS).position
        - ((armAvatar (⟨0, 0, 0⟩ : Vec3 ℚ) 1)._skeleton.joint
          AVATAR_JOINT_RIGHT_SHOULDER).position) = 0 :=
    ratLength_eq _ 0 (le_refl 0) (by
      simp [dot, armAvatar, sampleAvatar, jointAt, Avatar.modifyJoint,
        AVATAR_JOINT_RIGHT_FINGERTIPS, AVATAR_JOINT_RIGHT_SHOULDER])
  refine ⟨?_, rfl, ?_⟩
  · simp [armAvatar, sampleAvatar, jointAt, Avatar.modifyJoint,
      AVATAR_JOINT_RIGHT_FINGERTIPS, AVATAR_JOINT_RIGHT_SHOULDER]
  · unfold updateArmIKAndConstraintsDivisors
    dsimp only
    rw [hlen]
    have hmax : (armAvatar (⟨0, 0, 0⟩ : Vec3 ℚ) 1)._maxArmLength = 1 := rfl
    rw [hmax, if_neg (by norm_num)]

/-! ## Topology, calibration and the initial state -/

/-- C13: after initializeBodyBalls, for every ball b of the array: its
parentBall is BODY_BALL_NULL exactly when b is the pelvis; when b is not the
pelvis its parentBall is a ball of the array, of an index smaller than b (so
that no chain of parent balls returns to its start); and following parentBall
from b reaches the pelvis in fewer than NUM_AVATAR_BODY_BALLS steps. -/
theorem initializeBodyBalls_tree (E : Ext K) (a : Avatar K) (b : Int)
    (hb : 0 ≤ b ∧ b < (NUM_AVATAR_BODY_BALLS : Int)) :
    (((initializeBodyBalls E a)._bodyBall b).parentBall = BODY_BALL_NULL ↔ b = BODY_BALL_PELVIS)
      ∧ (b ≠ BODY_BALL_PELVIS →
          0 ≤ ((initializeBodyBalls E a)._bodyBall b).parentBall
            ∧ ((initializeBodyBalls E a)._bodyBall b).parentBall < (NUM_AVATAR_BODY_BALLS : Int)
            ∧ ((initializeBodyBalls E a)._bodyBall b).parentBall < b)
      ∧ ∃ n : Nat, n < NUM_AVATAR_BODY_BALLS
          ∧ (initializeBodyBalls E a).ancestorBall n b = BODY_BALL_PELVIS := by
  have hparent : ∀ c : Int, 0 ≤ c ∧ c < (NUM_AVATAR_BODY_BALLS : Int) →
      ((initializeBodyBalls E a)._bodyBall c).parentBall = sampleParentBall c :=
    fun c hc => (initializeBodyBalls_fields E a c hc).2.1
  obtain ⟨hlt, hnonneg, hnull⟩ := sampleParentBall_lt b hb
  refine ⟨?_, fun hne => ?_, ?_⟩
  · rw [hparent b hb]
    exact hnull
  · rw [hparent b hb]
    exact ⟨hnonneg hne, lt_trans hlt hb.2, hlt⟩
  · obtain ⟨n, hn, hanc⟩ := Avatar.ancestorBall_reaches_first (initializeBodyBalls E a)
      (fun c hc => by
        rw [hparent c ⟨le_of_lt hc.1, hc.2⟩]
        obtain ⟨h1, h2, _⟩ := sampleParentBall_lt c ⟨le_of_lt hc.1, hc.2⟩
        exact ⟨h2 (ne_of_gt hc.1), h1⟩) b hb
    refine ⟨n, ?_, hanc⟩
    have := hb.2
    omega

/-- Witness of C13: the right toes ball after the initialization of an avatar
in which every ball had the pelvis as parent ball; its chain of parent balls is
right heel, right knee, right hip, pelvis. -/
theorem initializeBodyBalls_tree_witness :
    ((0 : Int) ≤ BODY_BALL_RIGHT_TOES ∧ BODY_BALL_RIGHT_TOES < (NUM_AVATAR_BODY_BALLS : Int))
      ∧ BODY_BALL_RIGHT_TOES ≠ BODY_BALL_PELVIS
      ∧ 0 ≤ ((initializeBodyBalls (sampleExt Rat.sqrt)
            (sampleAvatar (⟨0, 0, 0⟩ : Vec3 ℚ) ⟨0, 0, 0⟩ 0 (fun _ => 0) true))._bodyBall
              BODY_BALL_RIGHT_TOES).parentBall
      ∧ ((initializeBodyBalls (sampleExt Rat.sqrt)
            (sampleAvatar (⟨0, 0, 0⟩ : Vec3 ℚ) ⟨0, 0, 0⟩ 0 (fun _ => 0) true))._bodyBall
              BODY_BALL_RIGHT_TOES).parentBall < (NUM_AVATAR_BODY_BALLS : Int)
      ∧ ((initializeBodyBalls (sampleExt Rat.sqrt)
            (sampleAvatar (⟨0, 0, 0⟩ : Vec3 ℚ) ⟨0, 0, 0⟩ 0 (fun _ => 0) true))._bodyBall
              BODY_BALL_RIGHT_TOES).parentBall < BODY_BALL_RIGHT_TOES :=
  ⟨by decide, by decide, (initializeBodyBalls_tree (sampleExt Rat.sqrt)
    (sampleAvatar (⟨0, 0, 0⟩ : Vec3 ℚ) ⟨0, 0, 0⟩ 0 (fun _ => 0) true) BODY_BALL_RIGHT_TOES
    (by decide)).2.1 (by decide)⟩

/-- C14: the calibration pass of simulate changes nothing when
_ballSpringsInitialized is true, and after it the flag is true.  Hence after
any call of simulate the flag is true; a call of simulate on calibrated springs
leaves the springLength of every ball as it is; and after a first call of
simulate, whatever calls of simulate follow (whatever their environment and
deltaTime, so also those in which updateBodyBalls resets the balls), the flag
is true and every springLength is the one that the first call left. -/
theorem simulate_calibrates_once (E : Ext K) (X : SimulateEnv K) (a : Avatar K)
    (deltaTime : K) (later : List (SimulateEnv K × K)) :
    (a._ballSpringsInitialized = true → calibrateBallSprings E a = a)
      ∧ (calibrateBallSprings E a)._ballSpringsInitialized = true
      ∧ (simulate E X a deltaTime)._ballSpringsInitialized = true
      ∧ (a._ballSpringsInitialized = true → ∀ c : Int,
          ((simulate E X a deltaTime)._bodyBall c).springLength = (a._bodyBall c).springLength)
      ∧ (simulateRun E later (simulate E X a deltaTime))._ballSpringsInitialized = true
      ∧ ∀ c : Int, ((simulateRun E later (simulate E X a deltaTime))._bodyBall c).springLength
          = ((simulate E X a deltaTime)._bodyBall c).springLength := by
  have hrun := simulateRun_sameSprings E later (simulate E X a deltaTime)
    (simulate_initialized E X a deltaTime)
  exact ⟨calibrateBallSprings_of_calibrated E a, calibrateBallSprings_initialized E a,
    simulate_initialized E X a deltaTime,
    fun h => (simulate_sameSprings E X a deltaTime h).2,
    hrun.1.trans (simulate_initialized E X a deltaTime), hrun.2⟩

/-- Witness of C14: a calibrated sample avatar whose pelvis ball is 10 away
from the avatar position, more than the 2 * scale beyond which updateBodyBalls
resets the balls. -/
theorem simulate_calibrates_once_witness :
    beyondBodySpringRange (sampleExt Rat.sqrt)
        (sampleAvatar (⟨3, 0, 0⟩ : Vec3 ℚ) ⟨0, 0, 10⟩ 0 sampleParentBall true)
      ∧ (sampleAvatar (⟨3, 0, 0⟩ : Vec3 ℚ) ⟨0, 0, 10⟩ 0 sampleParentBall
          true)._ballSpringsInitialized = true
      ∧ calibrateBallSprings (sampleExt Rat.sqrt)
          (sampleAvatar (⟨3, 0, 0⟩ : Vec3 ℚ) ⟨0, 0, 10⟩ 0 sampleParentBall true)
        = sampleAvatar (⟨3, 0, 0⟩ : Vec3 ℚ) ⟨0, 0, 10⟩ 0 sampleParentBall true
      ∧ ∀ c : Int, ((simulate (sampleExt Rat.sqrt) sampleEnv
          (sampleAvatar (⟨3, 0, 0⟩ : Vec3 ℚ) ⟨0, 0, 10⟩ 0 sampleParentBall true)
          (1 / 100))._bodyBall c).springLength
        = ((sampleAvatar (⟨3, 0, 0⟩ : Vec3 ℚ) ⟨0, 0, 10⟩ 0 sampleParentBall true)._bodyBall
            c).springLength := by
  have hfar : beyondBodySpringRange (sampleExt Rat.sqrt)
      (sampleAvatar (⟨3, 0, 0⟩ : Vec3 ℚ) ⟨0, 0, 10⟩ 0 sampleParentBall true) := by
    unfold beyondBodySpringRange
    rw [ratLength_eq _ 10 (by norm_num) (by simp [dot, sampleAvatar, ballAt])]
    simp [sampleAvatar]
    norm_num
  exact ⟨hfar, rfl, (simulate_calibrates_once (sampleExt Rat.sqrt) sampleEnv
      (sampleAvatar (⟨3, 0, 0⟩ : Vec3 ℚ) ⟨0, 0, 10⟩ 0 sampleParentBall true) (1 / 100) []).1 rfl,
    (simulate_calibrates_once (sampleExt Rat.sqrt) sampleEnv
      (sampleAvatar (⟨3, 0, 0⟩ : Vec3 ℚ) ⟨0, 0, 10⟩ 0 sampleParentBall true) (1 / 100)
      []).2.2.2.1 rfl⟩

/-- C15: for every state a with uncalibrated springs (every skeleton pose),
the calibration pass gives every ball b of the array the spring length
|targetPosition - parentTargetPosition| in which both positions are the target
position of ball b, computed from its own parentJoint; the square root of zero
being zero, this spring length is 0, after the pass and after the whole call
of simulate. -/
theorem calibrateBallSprings_spring_length_zero (E : Ext K) (X : SimulateEnv K) (a : Avatar K)
    (deltaTime : K) (b : Int) (hb : 0 ≤ b ∧ b < (NUM_AVATAR_BODY_BALLS : Int))
    (hcal : a._ballSpringsInitialized = false) :
    ((calibrateBallSprings E a)._bodyBall b).springLength
        = E.length (a.targetPosition b - a.targetPosition b)
      ∧ (E.sqrt 0 = 0 →
          ((calibrateBallSprings E a)._bodyBall b).springLength = 0
            ∧ ((simulate E X a deltaTime)._bodyBall b).springLength = 0) := by
  have hpass : ((calibrateBallSprings E a)._bodyBall b).springLength
      = E.length (a.targetPosition b - a.targetPosition b) := by
    rw [calibrateBallSprings_eq E a hcal]
    dsimp only
    rw [if_pos hb]
  refine ⟨hpass, fun hsqrt => ⟨?_, ?_⟩⟩
  · rw [hpass, Vec3.sub_self_vec, Ext.length_zero_vec E hsqrt]
  · rw [simulate_springLength_of_uncalibrated E X a deltaTime b hb hcal,
      Ext.length_zero_vec E hsqrt]

/-- Witness of C15: the pelvis ball of an uncalibrated sample avatar whose
joints are at (3, 0, 0). -/
theorem calibrateBallSprings_spring_length_zero_witness :
    ((0 : Int) ≤ BODY_BALL_PELVIS ∧ BODY_BALL_PELVIS < (NUM_AVATAR_BODY_BALLS : Int))
      ∧ (sampleAvatar (⟨3, 0, 0⟩ : Vec3 ℚ) ⟨0, 0, 1⟩ 0 sampleParentBall
          false)._ballSpringsInitialized = false
      ∧ (sampleExt Rat.sqrt).sqrt 0 = 0
      ∧ ((simulate (sampleExt Rat.sqrt) sampleEnv
          (sampleAvatar (⟨3, 0, 0⟩ : Vec3 ℚ) ⟨0, 0, 1⟩ 0 sampleParentBall false)
          (1 / 100))._bodyBall BODY_BALL_PELVIS).springLength = 0 :=
  ⟨by decide, rfl, by simp [sampleExt],
    ((calibrateBallSprings_spring_length_zero (sampleExt Rat.sqrt) sampleEnv
      (sampleAvatar (⟨3, 0, 0⟩ : Vec3 ℚ) ⟨0, 0, 1⟩ 0 sampleParentBall false) (1 / 100)
      BODY_BALL_PELVIS (by decide) rfl).2 (by simp [sampleExt])).2⟩

/-- C16: after initializeBodyBalls every ball of the array has position
(0, 0, 0), velocity (0, 0, 0), touchForce 0, isCollidable true, jointTightness
BODY_SPRING_DEFAULT_TIGHTNESS, which is 1000, parentOffset (0, 0, 0) and a
parentJoint other than AVATAR_JOINT_NULL, and _ballSpringsInitialized is
false. -/
theorem initializeBodyBalls_initial_state (E : Ext K) (a : Avatar K) (b : Int)
    (hb : 0 ≤ b ∧ b < (NUM_AVATAR_BODY_BALLS : Int)) :
    ((initializeBodyBalls E a)._bodyBall b).position = ⟨0, 0, 0⟩
      ∧ ((initializeBodyBalls E a)._bodyBall b).velocity = ⟨0, 0, 0⟩
      ∧ ((initializeBodyBalls E a)._bodyBall b).touchForce = 0
      ∧ ((initializeBodyBalls E a)._bodyBall b).isCollidable = true
      ∧ ((initializeBodyBalls E a)._bodyBall b).jointTightness = BODY_SPRING_DEFAULT_TIGHTNESS
      ∧ (BODY_SPRING_DEFAULT_TIGHTNESS : K) = 1000
      ∧ ((initializeBodyBalls E a)._bodyBall b).parentOffset = ⟨0, 0, 0⟩
      ∧ ((initializeBodyBalls E a)._bodyBall b).parentJoint ≠ AVATAR_JOINT_NULL
      ∧ (initializeBodyBalls E a)._ballSpringsInitialized = false := by
  obtain ⟨h1, h2, h3, h4, h5, h6, h7, h8⟩ := initializeBodyBalls_fields E a b hb
  refine ⟨h4, h5, h7, h8, h6, rfl, h3, ?_, initializeBodyBalls_initialized E a⟩
  rw [h1]
  unfold AVATAR_JOINT_NULL
  have := hb.1
  omega

/-- Witness of C16: the left heel ball after the initialization of an avatar
whose balls were moving at (1, 2, 3) with calibrated springs. -/
theorem initializeBodyBalls_initial_state_witness :
    ((0 : Int) ≤ BODY_BALL_LEFT_HEEL ∧ BODY_BALL_LEFT_HEEL < (NUM_AVATAR_BODY_BALLS : Int))
      ∧ ((initializeBodyBalls (sampleExt Rat.sqrt)
          (sampleAvatar (⟨0, 0, 0⟩ : Vec3 ℚ) ⟨1, 2, 3⟩ 0 sampleParentBall true))._bodyBall
            BODY_BALL_LEFT_HEEL).position = ⟨0, 0, 0⟩
      ∧ (initializeBodyBalls (sampleExt Rat.sqrt)
          (sampleAvatar (⟨0, 0, 0⟩ : Vec3 ℚ) ⟨1, 2, 3⟩ 0 sampleParentBall
            true))._ballSpringsInitialized = false :=
  ⟨by decide, (initializeBodyBalls_initial_state (sampleExt Rat.sqrt)
      (sampleAvatar (⟨0, 0, 0⟩ : Vec3 ℚ) ⟨1, 2, 3⟩ 0 sampleParentBall true) BODY_BALL_LEFT_HEEL
      (by decide)).1,
    (initializeBodyBalls_initial_state (sampleExt Rat.sqrt)
      (sampleAvatar (⟨0, 0, 0⟩ : Vec3 ℚ) ⟨1, 2, 3⟩ 0 sampleParentBall true) BODY_BALL_LEFT_HEEL
      (by decide)).2.2.2.2.2.2.2.2⟩

/-- C17: updateBodyBalls, resetBodyBalls, updateCollisionWithSphere and
setScale leave parentJoint, parentBall, parentOffset, touchForce, isCollidable
and jointTightness of every cell of the ball array as they are. -/
theorem topology_and_touch_state_unchanged (E : Ext K) (a : Avatar K)
    (deltaTime scale radius : K) (position : Vec3 K) (c : Int) :
    (a._bodyBall c).SameTopology ((updateBodyBalls E a deltaTime)._bodyBall c)
      ∧ (a._bodyBall c).SameTopology ((resetBodyBalls a)._bodyBall c)
      ∧ (a._bodyBall c).SameTopology
          ((updateCollisionWithSphere E a position radius deltaTime)._bodyBall c)
      ∧ (a._bodyBall c).SameTopology ((setScale E a scale)._bodyBall c) :=
  ⟨sameTopology_of_sameStatics ((updateBodyBalls_frame E a deltaTime).2.2.2.2.2.2.2.2.2 c),
    sameTopology_of_sameStatics ((resetBodyBalls_frame a).2.2.2.2.2.2.2.2.2 c),
    sameTopology_of_sameStatics
      ((updateCollisionWithSphere_frame E a position radius deltaTime).2.2.2.2.2.2.2.2.2 c),
    sameTopology_of_sameButRadius (setScale_sameButRadius E a scale c)⟩

/-! ## The spring term and the integration step -/

/-- C18 (counterexample): a sample avatar at the origin whose torso ball is at
(0, 2, 0), 2 away from the pelvis ball at the origin, whose torso joint has
length 1/2, after the calibration pass, which leaves the spring length 0 in
every ball; deltaTime is 1/100.  The spring term takes (2 - 1/2) * 300 / 100
= 9/2 along (0, 1, 0) from the velocity of the torso ball, not the
(2 - 0) * 300 / 100 = 6 of the rest length springLength. -/
theorem applySpringForces_rest_length_counterexample :
    ((calibrateBallSprings (sampleExt Rat.sqrt) (springAvatar false : Avatar ℚ))._bodyBall
        BODY_BALL_TORSO).springLength = 0
      ∧ (calibrateBallSprings (sampleExt Rat.sqrt)
          (springAvatar false : Avatar ℚ))._ballSpringsInitialized = true
      ∧ (applySpringForces (sampleExt Rat.sqrt) (1 / 100)
          (calibrateBallSprings (sampleExt Rat.sqrt) (springAvatar false : Avatar ℚ))
          BODY_BALL_TORSO).2.2 = 2
      ∧ (((applySpringForces (sampleExt Rat.sqrt) (1 / 100)
          (calibrateBallSprings (sampleExt Rat.sqrt) (springAvatar false : Avatar ℚ))
          BODY_BALL_TORSO).1)._bodyBall BODY_BALL_TORSO).velocity = ⟨0, -(9 / 2), 0⟩
      ∧ (((applySpringForces (sampleExt Rat.sqrt) (1 / 100)
          (calibrateBallSprings (sampleExt Rat.sqrt) (springAvatar false : Avatar ℚ))
          BODY_BALL_TORSO).1)._bodyBall BODY_BALL_TORSO).velocity
        ≠ ((calibrateBallSprings (sampleExt Rat.sqrt) (springAvatar false : Avatar ℚ))._bodyBall
            BODY_BALL_TORSO).velocity
          - springDirection (sampleExt Rat.sqrt)
              (calibrateBallSprings (sampleExt Rat.sqrt) (springAvatar false : Avatar ℚ))
              BODY_BALL_TORSO
            * (((applySpringForces (sampleExt Rat.sqrt) (1 / 100)
                  (calibrateBallSprings (sampleExt Rat.sqrt) (springAvatar false : Avatar ℚ))
                  BODY_BALL_TORSO).2.2
                - ((calibrateBallSprings (sampleExt Rat.sqrt)
                    (springAvatar false : Avatar ℚ))._bodyBall BODY_BALL_TORSO).springLength)
              * BODY_SPRING_FORCE * (1 / 100)) := by
  rw [springAvatar_calibrated]
  refine ⟨rfl, rfl, springAvatar_local_length_torso, springAvatar_torso_velocity, ?_⟩
  rw [springAvatar_torso_velocity, springAvatar_local_length_torso]
  unfold springDirection
  rw [springAvatar_length_torso, springAvatar_springVector_torso]
  intro h
  have hy := congrArg Vec3.y h
  simp [springAvatar, sampleAvatar, ballAt, BODY_BALL_TORSO, BODY_SPRING_FORCE] at hy
  norm_num at hy

/-- C18 (amended): in the spring term of the loop body of updateBodyBalls for a
ball b whose spring length (the local length) is > 0, b not being its own
parent ball, the velocity of the ball changes by - springDirection * force with
the scalar force (length - _skeleton.joint[b].length) * BODY_SPRING_FORCE
* deltaTime: the rest length is the length of the skeleton joint of index b. -/
theorem applySpringForces_rest_length_of_joint (E : Ext K) (deltaTime : K) (a : Avatar K)
    (b : Int) (hlength : (applySpringForces E deltaTime a b).2.2 > 0)
    (hself : (a._bodyBall b).parentBall ≠ b) :
    (applySpringForces E deltaTime a b).2.2 = E.length (a.springVector b)
      ∧ (((applySpringForces E deltaTime a b).1)._bodyBall b).velocity
        = (a._bodyBall b).velocity
          - a.springVector b / E.length (a.springVector b)
            * ((E.length (a.springVector b) - (a._skeleton.joint b).length) * BODY_SPRING_FORCE
              * deltaTime) := by
  obtain ⟨hcal, hlen⟩ := applySpringForces_length_pos E deltaTime a b hlength
  refine ⟨?_, applySpringForces_velocity_of_stretched E deltaTime a b hcal hlen hself⟩
  rw [applySpringForces_length, if_pos hcal]

/-- Witness of C18 (amended): the torso ball of the calibrated sample avatar of
the counterexample, whose spring has length 2. -/
theorem applySpringForces_rest_length_of_joint_witness :
    (applySpringForces (sampleExt Rat.sqrt) (1 / 100) (springAvatar true : Avatar ℚ)
        BODY_BALL_TORSO).2.2 > 0
      ∧ ((springAvatar true : Avatar ℚ)._bodyBall BODY_BALL_TORSO).parentBall ≠ BODY_BALL_TORSO
      ∧ (((applySpringForces (sampleExt Rat.sqrt) (1 / 100) (springAvatar true : Avatar ℚ)
          BODY_BALL_TORSO).1)._bodyBall BODY_BALL_TORSO).velocity
        = ((springAvatar true : Avatar ℚ)._bodyBall BODY_BALL_TORSO).velocity
          - (springAvatar true : Avatar ℚ).springVector BODY_BALL_TORSO
              / (sampleExt Rat.sqrt).length
                ((springAvatar true : Avatar ℚ).springVector BODY_BALL_TORSO)
            * (((sampleExt Rat.sqrt).length
                  ((springAvatar true : Avatar ℚ).springVector BODY_BALL_TORSO)
                - ((springAvatar true : Avatar ℚ)._skeleton.joint BODY_BALL_TORSO).length)
              * BODY_SPRING_FORCE * (1 / 100)) :=
  ⟨by rw [springAvatar_local_length_torso]; norm_num, by decide,
    (applySpringForces_rest_length_of_joint (sampleExt Rat.sqrt) (1 / 100)
      (springAvatar true : Avatar ℚ) BODY_BALL_TORSO
      (by rw [springAvatar_local_length_torso]; norm_num) (by decide)).2⟩

/-- C19: in the spring term of the loop body of updateBodyBalls for a ball b
whose spring length (the local length) is > 0.  When the ball has a parent ball
(parentBall is not BODY_BALL_NULL: after initializeBodyBalls these are the
non-root balls) other than itself, its velocity changes by
- springDirection * force and the velocity of the parent ball by
+ springDirection * force, so that the sum of the two velocities is unchanged,
and no other ball is written.  When it has none (the pelvis), only its own
velocity changes, by - springDirection * force, and no other ball is written. -/
theorem applySpringForces_reaction_pairing (E : Ext K) (deltaTime : K) (a : Avatar K)
    (b : Int) (hlength : (applySpringForces E deltaTime a b).2.2 > 0) :
    ((a._bodyBall b).parentBall ≠ BODY_BALL_NULL → (a._bodyBall b).parentBall ≠ b →
        (((applySpringForces E deltaTime a b).1)._bodyBall b).velocity
            = (a._bodyBall b).velocity - springDirection E a b * springForce E deltaTime a b
          ∧ (((applySpringForces E deltaTime a b).1)._bodyBall
                (a._bodyBall b).parentBall).velocity
            = (a._bodyBall (a._bodyBall b).parentBall).velocity
              + springDirection E a b * springForce E deltaTime a b
          ∧ (((applySpringForces E deltaTime a b).1)._bodyBall b).velocity
              + (((applySpringForces E deltaTime a b).1)._bodyBall
                  (a._bodyBall b).parentBall).velocity
            = (a._bodyBall b).velocity + (a._bodyBall (a._bodyBall b).parentBall).velocity
          ∧ ∀ c : Int, c ≠ b → c ≠ (a._bodyBall b).parentBall →
              ((applySpringForces E deltaTime a b).1)._bodyBall c = a._bodyBall c)
      ∧ ((a._bodyBall b).parentBall = BODY_BALL_NULL →
          (((applySpringForces E deltaTime a b).1)._bodyBall b).velocity
              = (a._bodyBall b).velocity - springDirection E a b * springForce E deltaTime a b
            ∧ ∀ c : Int, c ≠ b →
                ((applySpringForces E deltaTime a b).1)._bodyBall c = a._bodyBall c) := by
  obtain ⟨hcal, hlen⟩ := applySpringForces_length_pos E deltaTime a b hlength
  rw [applySpringForces_of_stretched E deltaTime a b hcal hlen]
  refine ⟨fun hp hne => ?_, fun hp => ?_⟩
  · rw [if_pos hp]
    have hb : (((a.modifyBall b (fun B => { B with
          velocity := B.velocity - springDirection E a b * springForce E deltaTime a b })).modifyBall
          (a._bodyBall b).parentBall (fun B => { B with
            velocity := B.velocity + springDirection E a b * springForce E deltaTime a b
            }))._bodyBall b).velocity
        = (a._bodyBall b).velocity - springDirection E a b * springForce E deltaTime a b := by
      rw [Avatar.modifyBall_bodyBall_ne _ _ (Ne.symm hne), Avatar.modifyBall_bodyBall_self]
    have hparent : (((a.modifyBall b (fun B => { B with
          velocity := B.velocity - springDirection E a b * springForce E deltaTime a b })).modifyBall
          (a._bodyBall b).parentBall (fun B => { B with
            velocity := B.velocity + springDirection E a b * springForce E deltaTime a b
            }))._bodyBall (a._bodyBall b).parentBall).velocity
        = (a._bodyBall (a._bodyBall b).parentBall).velocity
          + springDirection E a b * springForce E deltaTime a b := by
      rw [Avatar.modifyBall_bodyBall_self, Avatar.modifyBall_bodyBall_ne _ _ hne]
    refine ⟨hb, hparent, ?_, fun c hcb hcp => ?_⟩
    · rw [hb, hparent]
      ext <;> simp
    · rw [Avatar.modifyBall_bodyBall_ne _ _ hcp, Avatar.modifyBall_bodyBall_ne _ _ hcb]
  · rw [if_neg (not_not.2 hp)]
    refine ⟨by rw [Avatar.modifyBall_bodyBall_self], fun c hcb => ?_⟩
    rw [Avatar.modifyBall_bodyBall_ne _ _ hcb]

/-- Witness of C19: the torso ball of a calibrated sample avatar, 2 above its
parent ball, the pelvis ball; the sum of the velocities of the two balls is
unchanged by the spring term. -/
theorem applySpringForces_reaction_pairing_witness :
    (applySpringForces (sampleExt Rat.sqrt) (1 / 100) (springAvatar true : Avatar ℚ)
        BODY_BALL_TORSO).2.2 > 0
      ∧ ((springAvatar true : Avatar ℚ)._bodyBall BODY_BALL_TORSO).parentBall ≠ BODY_BALL_NULL
      ∧ ((springAvatar true : Avatar ℚ)._bodyBall BODY_BALL_TORSO).parentBall ≠ BODY_BALL_TORSO
      ∧ (((applySpringForces (sampleExt Rat.sqrt) (1 / 100) (springAvatar true : Avatar ℚ)
            BODY_BALL_TORSO).1)._bodyBall BODY_BALL_TORSO).velocity
          + (((applySpringForces (sampleExt Rat.sqrt) (1 / 100) (springAvatar true : Avatar ℚ)
            BODY_BALL_TORSO).1)._bodyBall
              ((springAvatar true : Avatar ℚ)._bodyBall BODY_BALL_TORSO).parentBall).velocity
        = ((springAvatar true : Avatar ℚ)._bodyBall BODY_BALL_TORSO).velocity
          + ((springAvatar true : Avatar ℚ)._bodyBall
              ((springAvatar true : Avatar ℚ)._bodyBall BODY_BALL_TORSO).parentBall).velocity :=
  ⟨by rw [springAvatar_local_length_torso]; norm_num, by decide, by decide,
    ((applySpringForces_reaction_pairing (sampleExt Rat.sqrt) (1 / 100)
      (springAvatar true : Avatar ℚ) BODY_BALL_TORSO
      (by rw [springAvatar_local_length_torso]; norm_num)).1 (by decide) (by decide)).2.2.1⟩

/-- C20: the loop body of updateBodyBalls for ball b, with v1 the velocity of
the ball after the spring term, gives the ball the velocity
(v1 + (target - position) * jointTightness * deltaTime)
* max(0, 1 - BODY_SPRING_DECAY * deltaTime), target being
joint[parentJoint].position + joint[parentJoint].rotation * parentOffset, and
then the position position + velocity * deltaTime with that new velocity; the
new velocity is zero whenever 1 - BODY_SPRING_DECAY * deltaTime <= 0. -/
theorem updateBodyBall_integration_step (E : Ext K) (deltaTime : K) (orientation : Quat K)
    (a : Avatar K) (b : Int) :
    ((updateBodyBall E deltaTime orientation a b)._bodyBall b).velocity
        = ((((applySpringForces E deltaTime a b).1)._bodyBall b).velocity
            + (((a._skeleton.joint (a._bodyBall b).parentJoint).position
                  + (a._skeleton.joint (a._bodyBall b).parentJoint).rotation
                    * (a._bodyBall b).parentOffset)
                - (a._bodyBall b).position) * (a._bodyBall b).jointTightness * deltaTime)
          * max 0 (1 - BODY_SPRING_DECAY * deltaTime)
      ∧ ((updateBodyBall E deltaTime orientation a b)._bodyBall b).position
        = (a._bodyBall b).position
          + ((updateBodyBall E deltaTime orientation a b)._bodyBall b).velocity * deltaTime
      ∧ (1 - BODY_SPRING_DECAY * deltaTime ≤ 0 →
          ((updateBodyBall E deltaTime orientation a b)._bodyBall b).velocity = ⟨0, 0, 0⟩) := by
  have hframe := applySpringForces_frame E deltaTime a b
  have hpos := applySpringForces_position E deltaTime a b b
  have htarget := hframe.targetPosition_eq b
  have htight := (hframe.2.2.2.2.2.2.2.2.2 b).2.2.2.2.2.1
  have hvel : ((updateBodyBall E deltaTime orientation a b)._bodyBall b).velocity
        = ((((applySpringForces E deltaTime a b).1)._bodyBall b).velocity
            + (a.targetPosition b - (a._bodyBall b).position) * (a._bodyBall b).jointTightness
              * deltaTime)
          * max 0 (1 - BODY_SPRING_DECAY * deltaTime)
      ∧ ((updateBodyBall E deltaTime orientation a b)._bodyBall b).position
        = (a._bodyBall b).position
          + ((updateBodyBall E deltaTime orientation a b)._bodyBall b).velocity * deltaTime := by
    unfold updateBodyBall
    generalize applySpringForces E deltaTime a b = r at hframe hpos htarget htight
    obtain ⟨a1, springVector, length⟩ := r
    dsimp only at hframe hpos htarget htight ⊢
    by_cases hd : 1 - BODY_SPRING_DECAY * deltaTime > 0
    · rw [if_pos hd, max_eq_right (le_of_lt hd)]
      split_ifs <;>
        simp only [Avatar.modifyBall_bodyBall_self, htarget, htight, hpos, and_self]
    · rw [if_neg hd, max_eq_left (le_of_not_lt hd), Vec3.mul_zero_vec]
      split_ifs <;>
        simp only [Avatar.modifyBall_bodyBall_self, htarget, htight, hpos, and_self]
  refine ⟨hvel.1, hvel.2, fun hd => ?_⟩
  rw [hvel.1, max_eq_left hd, Vec3.mul_zero_vec]

/-- Witness of C20: deltaTime 1/10, for which 1 - BODY_SPRING_DECAY * deltaTime
= - 3/5; the pelvis ball of a sample avatar away from its target gets velocity
zero. -/
theorem updateBodyBall_integration_step_witness :
    (1 : ℚ) - BODY_SPRING_DECAY * (1 / 10) ≤ 0
      ∧ ((updateBodyBall (sampleExt Rat.sqrt) (1 / 10) Quat.identity
          (sampleAvatar (⟨3, 0, 0⟩ : Vec3 ℚ) ⟨0, 0, 1⟩ 0 sampleParentBall true)
          BODY_BALL_PELVIS)._bodyBall BODY_BALL_PELVIS).velocity = ⟨0, 0, 0⟩ :=
  ⟨by norm_num [BODY_SPRING_DECAY],
    (updateBodyBall_integration_step (sampleExt Rat.sqrt) (1 / 10) Quat.identity
      (sampleAvatar (⟨3, 0, 0⟩ : Vec3 ℚ) ⟨0, 0, 1⟩ 0 sampleParentBall true)
      BODY_BALL_PELVIS).2.2 (by norm_num [BODY_SPRING_DECAY])⟩

/-! ## The per-ball pass: order, orientation, head balls and parent indices -/

/-- C21 (counterexample): the springs calibrated, the torso ball two metres
above the pelvis ball and everything at rest. The loop of updateBodyBalls run
in its own order leaves the pelvis ball at the origin; run with the torso
taken before the pelvis, a permutation of that order, it moves the pelvis ball
to (0, 0.0378, 0): the reaction of the torso spring reaches the pelvis velocity
before the turn of the pelvis integrates it. The two orders give different
pelvis positions. -/
theorem updateBodyBalls_order_dependence_counterexample :
    torsoFirstOrder.Perm ballOrder
      ∧ updateBodyBallsInOrder (sampleExt Rat.sqrt) ballOrder (springAvatar true : Avatar ℚ)
          (1 / 100)
        = updateBodyBalls (sampleExt Rat.sqrt) (springAvatar true) (1 / 100)
      ∧ ((updateBodyBalls (sampleExt Rat.sqrt) (springAvatar true : Avatar ℚ)
          (1 / 100))._bodyBall BODY_BALL_PELVIS).position = ⟨0, 0, 0⟩
      ∧ ((updateBodyBallsInOrder (sampleExt Rat.sqrt) torsoFirstOrder
          (springAvatar true : Avatar ℚ) (1 / 100))._bodyBall BODY_BALL_PELVIS).position
        = ⟨0, 189 / 5000, 0⟩
      ∧ ((updateBodyBallsInOrder (sampleExt Rat.sqrt) torsoFirstOrder
          (springAvatar true : Avatar ℚ) (1 / 100))._bodyBall BODY_BALL_PELVIS).position
        ≠ ((updateBodyBallsInOrder (sampleExt Rat.sqrt) ballOrder
          (springAvatar true : Avatar ℚ) (1 / 100))._bodyBall BODY_BALL_PELVIS).position := by
  have hsqrt : (sampleExt Rat.sqrt : Ext ℚ).sqrt 0 = 0 := by simp [sampleExt]
  have hdecay : 1 - (BODY_SPRING_DECAY : ℚ) * (1 / 100) > 0 := by
    unfold BODY_SPRING_DECAY; norm_num
  have hcal : (springAvatar true : Avatar ℚ)._ballSpringsInitialized = true := rfl
  have hpelvis : ((springAvatar true : Avatar ℚ)._bodyBall BODY_BALL_PELVIS).position
      = (springAvatar true : Avatar ℚ)._position := by
    simp [springAvatar, sampleAvatar, ballAt, BODY_BALL_PELVIS, BODY_BALL_TORSO]
  have htarget : (springAvatar true : Avatar ℚ).targetPosition BODY_BALL_PELVIS
      = (springAvatar true : Avatar ℚ)._position := by
    simp [Avatar.targetPosition, springAvatar, sampleAvatar, ballAt, jointAt,
      Avatar.modifyJoint, BODY_BALL_PELVIS, BODY_BALL_TORSO, AVATAR_JOINT_TORSO,
      Quat.rotate_zero]
    ext <;> simp
  have hsource : ((updateBodyBalls (sampleExt Rat.sqrt) (springAvatar true : Avatar ℚ)
      (1 / 100))._bodyBall BODY_BALL_PELVIS).position = ⟨0, 0, 0⟩ := by
    unfold updateBodyBalls
    rw [if_neg springAvatar_not_beyond]
    unfold integrateBodyBalls
    dsimp only
    rw [copyHeadRotation_bodyBall_of_ne _ _ _ (by decide) (by decide),
      forEachBall_updateBodyBall_pelvis_position,
      updateBodyBall_pelvis_of_anchored _ hsqrt _ _ _ hpelvis htarget hdecay]
    simp [springAvatar, sampleAvatar, ballAt, BODY_BALL_PELVIS, BODY_BALL_TORSO]
    ext <;> simp
  have hswapped : ((updateBodyBallsInOrder (sampleExt Rat.sqrt) torsoFirstOrder
      (springAvatar true : Avatar ℚ) (1 / 100))._bodyBall BODY_BALL_PELVIS).position
      = ⟨0, 189 / 5000, 0⟩ := by
    rw [updateBodyBallsInOrder_eq, if_neg springAvatar_not_beyond,
      copyHeadRotation_bodyBall_of_ne _ _ _ (by decide) (by decide), foldl_torsoFirstOrder,
      foldl_updateBodyBall_position_of_not_mem _ _ _ _ _ pelvis_not_mem_torsoFirstOrder_tail]
    have hfr := updateBodyBall_frame (sampleExt Rat.sqrt) (1 / 100)
      ((springAvatar true : Avatar ℚ).getOrientation (sampleExt Rat.sqrt))
      (springAvatar true : Avatar ℚ) BODY_BALL_TORSO
    rw [updateBodyBall_pelvis_of_anchored _ hsqrt _ _ _
      (by rw [updateBodyBall_position_of_ne _ _ _ _ _ _ (by decide), hpelvis, hfr.1])
      (by rw [hfr.targetPosition_eq, htarget, hfr.1]) hdecay,
      updateBodyBall_velocity_of_ne _ _ _ _ _ _ (by decide),
      applySpringForces_of_stretched _ _ _ _ hcal
        (by rw [springAvatar_length_torso]; norm_num), hfr.1]
    unfold springDirection springForce
    rw [springAvatar_length_torso, springAvatar_springVector_torso]
    simp [springAvatar, sampleAvatar, ballAt, jointAt, BODY_BALL_TORSO, AVATAR_JOINT_TORSO,
      BODY_SPRING_FORCE, BODY_SPRING_DECAY, BODY_BALL_PELVIS, sampleParentBall,
      BODY_BALL_LEFT_COLLAR, BODY_BALL_RIGHT_COLLAR, BODY_BALL_LEFT_HIP, BODY_BALL_RIGHT_HIP,
      BODY_BALL_NULL, Avatar.modifyJoint]
    ext <;> norm_num
  refine ⟨torsoFirstOrder_perm, updateBodyBallsInOrder_ballOrder _ _ _, hsource, hswapped, ?_⟩
  rw [hswapped, updateBodyBallsInOrder_ballOrder, hsource]
  intro h
  have hy := congrArg Vec3.y h
  norm_num at hy

/-- C21 (amended): the loop of updateBodyBalls works in place, in ascending
ball order. With calibrated springs, on the turn of a ball n whose parent ball
m has a smaller index, the spring vector is the position ball n had before the
loop minus the position ball m has after the loop, which is the position that
the turn of ball m, earlier in the same pass, integrated. -/
theorem updateBodyBalls_pass_in_place (E : Ext K) (deltaTime : K) (orientation : Quat K)
    (a : Avatar K) (n m : Nat) (hcal : a._ballSpringsInitialized = true)
    (hn : n < NUM_AVATAR_BODY_BALLS)
    (hparent : (a._bodyBall (n : Int)).parentBall = (m : Int)) (hm : m < n) :
    (applySpringForces E deltaTime
        (forFirstBalls n (updateBodyBall E deltaTime orientation) a) (n : Int)).2.1
        = (a._bodyBall (n : Int)).position
          - ((forEachBall (updateBodyBall E deltaTime orientation) a)._bodyBall
              (m : Int)).position
      ∧ ((forEachBall (updateBodyBall E deltaTime orientation) a)._bodyBall (m : Int)).position
        = ((updateBodyBall E deltaTime orientation
            (forFirstBalls m (updateBodyBall E deltaTime orientation) a) (m : Int))._bodyBall
              (m : Int)).position := by
  have hfr := forFirstBalls_frame (updateBodyBall E deltaTime orientation)
    (updateBodyBall_frame E deltaTime orientation) n a
  obtain ⟨_, _, _, _, _, _, _, _, hinit, hballs⟩ := hfr
  have hlast : ((forEachBall (updateBodyBall E deltaTime orientation) a)._bodyBall
        (m : Int)).position
      = ((forFirstBalls (m + 1) (updateBodyBall E deltaTime orientation) a)._bodyBall
          (m : Int)).position := by
    rw [forEachBall_eq]
    exact forFirstBalls_updateBodyBall_position_of_lt E deltaTime orientation a _ m
      (lt_trans hm hn)
  refine ⟨?_, ?_⟩
  · rw [applySpringForces_springVector E deltaTime _ _ (hinit.trans hcal)]
    unfold Avatar.springVector
    have hne : ¬ ((n : Int) = BODY_BALL_PELVIS) := by
      unfold BODY_BALL_PELVIS
      omega
    rw [if_neg hne, (hballs (n : Int)).2.1, hparent,
      forFirstBalls_updateBodyBall_position_of_le E deltaTime orientation a n n (le_refl n),
      hlast, forFirstBalls_updateBodyBall_position_of_lt E deltaTime orientation a n m hm]
  · rw [hlast, forFirstBalls_succ]

/-- Witness of C21 (amended): the torso ball, whose parent ball is the pelvis
ball, in the sample state of the counterexample. -/
theorem updateBodyBalls_pass_in_place_witness :
    (springAvatar true : Avatar ℚ)._ballSpringsInitialized = true
      ∧ ((springAvatar true : Avatar ℚ)._bodyBall ((1 : Nat) : Int)).parentBall = ((0 : Nat) : Int)
      ∧ (applySpringForces (sampleExt Rat.sqrt) (1 / 100)
          (forFirstBalls 1 (updateBodyBall (sampleExt Rat.sqrt) (1 / 100) Quat.identity)
            (springAvatar true : Avatar ℚ)) ((1 : Nat) : Int)).2.1
        = ((springAvatar true : Avatar ℚ)._bodyBall ((1 : Nat) : Int)).position
          - ((forEachBall (updateBodyBall (sampleExt Rat.sqrt) (1 / 100) Quat.identity)
              (springAvatar true : Avatar ℚ))._bodyBall ((0 : Nat) : Int)).position :=
  have hparent : ((springAvatar true : Avatar ℚ)._bodyBall ((1 : Nat) : Int)).parentBall
      = ((0 : Nat) : Int) := by
    simp [springAvatar, sampleAvatar, ballAt, BODY_BALL_TORSO, sampleParentBall,
      BODY_BALL_LEFT_COLLAR, BODY_BALL_RIGHT_COLLAR, BODY_BALL_LEFT_HIP, BODY_BALL_RIGHT_HIP]
  ⟨rfl, hparent, (updateBodyBalls_pass_in_place (sampleExt Rat.sqrt) (1 / 100) Quat.identity
    (springAvatar true : Avatar ℚ) 1 0 rfl (by decide) hparent (by decide)).1⟩

/-- C24: the loop body of updateBodyBalls for a ball b that is driven by the
joint of index b (as initializeBodyBalls sets it), at a state s of the loop:
if the driving joint has no parent joint or the spring length of this tick (the
local length) is below 0.001, the rotation of the ball becomes
avatarOrientation * absoluteBindPoseRotation(parentJoint(b)); otherwise it
becomes rotationBetween(parentBall.rotation * JOINT_DIRECTION, springVector)
* parentBall.rotation. -/
theorem updateBodyBall_orientation_rule (E : Ext K) (deltaTime : K) (s : Avatar K) (b : Int)
    (hjoint : (s._bodyBall b).parentJoint = b) :
    (((s._skeleton.joint (s._bodyBall b).parentJoint).parent = AVATAR_JOINT_NULL
          ∨ (applySpringForces E deltaTime s b).2.2 < 1 / 1000) →
        ((updateBodyBall E deltaTime (s.getOrientation E) s b)._bodyBall b).rotation
          = s.getOrientation E
            * (s._skeleton.joint (s._bodyBall b).parentJoint).absoluteBindPoseRotation)
      ∧ (¬ ((s._skeleton.joint (s._bodyBall b).parentJoint).parent = AVATAR_JOINT_NULL
          ∨ (applySpringForces E deltaTime s b).2.2 < 1 / 1000) →
        ((updateBodyBall E deltaTime (s.getOrientation E) s b)._bodyBall b).rotation
          = E.rotationBetween
              ((s._bodyBall (s._bodyBall b).parentBall).rotation * E.JOINT_DIRECTION)
              (s.springVector b)
            * (s._bodyBall (s._bodyBall b).parentBall).rotation) := by
  rw [updateBodyBall_rotation, hjoint]
  refine ⟨fun h => by rw [if_pos h], fun h => ?_⟩
  rw [if_neg h]
  have hlen : (applySpringForces E deltaTime s b).2.2 > 0 := by
    have h2 : ¬ ((applySpringForces E deltaTime s b).2.2 < 1 / 1000) := fun h3 => h (Or.inr h3)
    have h3 : (0 : K) < 1 / 1000 := by norm_num
    exact lt_of_lt_of_le h3 (le_of_not_lt h2)
  rw [applySpringForces_springVector E deltaTime s b
    (applySpringForces_length_pos E deltaTime s b hlen).1]

/-- Witness of C24: the torso ball of a sample avatar, driven by the torso
joint, which has no parent joint. -/
theorem updateBodyBall_orientation_rule_witness :
    ((sampleAvatar (⟨3, 0, 0⟩ : Vec3 ℚ) ⟨0, 0, 1⟩ 0 sampleParentBall true)._bodyBall
        BODY_BALL_TORSO).parentJoint = BODY_BALL_TORSO
      ∧ ((sampleAvatar (⟨3, 0, 0⟩ : Vec3 ℚ) ⟨0, 0, 1⟩ 0 sampleParentBall true)._skeleton.joint
          ((sampleAvatar (⟨3, 0, 0⟩ : Vec3 ℚ) ⟨0, 0, 1⟩ 0 sampleParentBall true)._bodyBall
            BODY_BALL_TORSO).parentJoint).parent = AVATAR_JOINT_NULL
      ∧ ((updateBodyBall (sampleExt Rat.sqrt) (1 / 100)
          ((sampleAvatar (⟨3, 0, 0⟩ : Vec3 ℚ) ⟨0, 0, 1⟩ 0 sampleParentBall true).getOrientation
            (sampleExt Rat.sqrt))
          (sampleAvatar (⟨3, 0, 0⟩ : Vec3 ℚ) ⟨0, 0, 1⟩ 0 sampleParentBall true)
          BODY_BALL_TORSO)._bodyBall BODY_BALL_TORSO).rotation
        = (sampleAvatar (⟨3, 0, 0⟩ : Vec3 ℚ) ⟨0, 0, 1⟩ 0 sampleParentBall true).getOrientation
            (sampleExt Rat.sqrt)
          * ((sampleAvatar (⟨3, 0, 0⟩ : Vec3 ℚ) ⟨0, 0, 1⟩ 0 sampleParentBall
              true)._skeleton.joint
              ((sampleAvatar (⟨3, 0, 0⟩ : Vec3 ℚ) ⟨0, 0, 1⟩ 0 sampleParentBall true)._bodyBall
                BODY_BALL_TORSO).parentJoint).absoluteBindPoseRotation :=
  ⟨rfl, rfl, (updateBodyBall_orientation_rule (sampleExt Rat.sqrt) (1 / 100)
    (sampleAvatar (⟨3, 0, 0⟩ : Vec3 ℚ) ⟨0, 0, 1⟩ 0 sampleParentBall true) BODY_BALL_TORSO
    rfl).1 (Or.inl rfl)⟩

/-- C25: after every call of updateBodyBalls the head-base and the head-top
ball have the head orientation as rotation, the head-base ball is at the
neck-base ball position plus the head orientation applied to the bind pose
position of the head-base joint, and the head-top ball is at the head-base ball
position plus the head orientation applied to the bind pose position of the
head-top joint: nothing of what the loop left in the two balls enters. -/
theorem updateBodyBalls_head_balls_driven (E : Ext K) (a : Avatar K) (deltaTime : K) :
    ((updateBodyBalls E a deltaTime)._bodyBall BODY_BALL_HEAD_BASE).rotation
        = (updateBodyBalls E a deltaTime)._head.getOrientation E
      ∧ ((updateBodyBalls E a deltaTime)._bodyBall BODY_BALL_HEAD_TOP).rotation
        = (updateBodyBalls E a deltaTime)._head.getOrientation E
      ∧ ((updateBodyBalls E a deltaTime)._bodyBall BODY_BALL_HEAD_BASE).position
        = ((updateBodyBalls E a deltaTime)._bodyBall BODY_BALL_NECK_BASE).position
          + (updateBodyBalls E a deltaTime)._head.getOrientation E
            * ((updateBodyBalls E a deltaTime)._skeleton.joint
                BODY_BALL_HEAD_BASE).bindPosePosition
      ∧ ((updateBodyBalls E a deltaTime)._bodyBall BODY_BALL_HEAD_TOP).position
        = ((updateBodyBalls E a deltaTime)._bodyBall BODY_BALL_HEAD_BASE).position
          + (updateBodyBalls E a deltaTime)._head.getOrientation E
            * ((updateBodyBalls E a deltaTime)._skeleton.joint
                BODY_BALL_HEAD_TOP).bindPosePosition
      ∧ (updateBodyBalls E a deltaTime)._head = a._head
      ∧ (updateBodyBalls E a deltaTime)._skeleton = a._skeleton := by
  obtain ⟨s, hs, hhead, hskel, hneck⟩ := updateBodyBalls_eq_copyHeadRotation E a deltaTime
  obtain ⟨h1, h2, h3, h4⟩ := copyHeadRotation_head_balls E s
  have hfr := updateBodyBalls_frame E a deltaTime
  rw [← hhead, ← hskel, ← hneck, hs]
  exact ⟨h1, h2, h3, h4, hhead.trans hfr.2.2.2.2.2.2.1, hskel.trans hfr.2.2.2.2.2.2.2.1⟩

/-- C26: in a state a whose balls have the parent balls that
initializeBodyBalls sets and whose pelvis joint has no parent joint, at every
turn of the loop of updateBodyBalls (the turn of ball n in the state that the
turns of the balls before it left, after the reset if there is one) every
access of _bodyBall[_bodyBall[n].parentBall] uses an index in
[0, NUM_AVATAR_BODY_BALLS), and the turn of the pelvis makes no such access. -/
theorem updateBodyBalls_parent_index_valid (E : Ext K) (a a0 : Avatar K) (deltaTime : K)
    (htopo : ∀ c : Int, 0 ≤ c ∧ c < (NUM_AVATAR_BODY_BALLS : Int) →
      (a._bodyBall c).parentBall = ((initializeBodyBalls E a0)._bodyBall c).parentBall)
    (hroot : (a._skeleton.joint AVATAR_JOINT_PELVIS).parent = AVATAR_JOINT_NULL)
    (n : Nat) (hn : n < NUM_AVATAR_BODY_BALLS) :
    (∀ i ∈ parentBallIndices E deltaTime
        (forFirstBalls n (updateBodyBall E deltaTime
            ((if beyondBodySpringRange E a then resetBodyBalls a else a).getOrientation E))
          (if beyondBodySpringRange E a then resetBodyBalls a else a)) (n : Int),
        0 ≤ i ∧ i < (NUM_AVATAR_BODY_BALLS : Int))
      ∧ ((n : Int) = BODY_BALL_PELVIS →
          parentBallIndices E deltaTime
            (forFirstBalls n (updateBodyBall E deltaTime
                ((if beyondBodySpringRange E a then resetBodyBalls a else a).getOrientation E))
              (if beyondBodySpringRange E a then resetBodyBalls a else a)) (n : Int) = []) := by
  have hx : a.Frame (if beyondBodySpringRange E a then resetBodyBalls a else a) := by
    split_ifs
    · exact resetBodyBalls_frame a
    · exact Avatar.Frame.same a
  have hs := hx.andThen (forFirstBalls_frame (updateBodyBall E deltaTime
    ((if beyondBodySpringRange E a then resetBodyBalls a else a).getOrientation E))
    (fun t b => updateBodyBall_frame E deltaTime _ t b) n
    (if beyondBodySpringRange E a then resetBodyBalls a else a))
  generalize forFirstBalls n (updateBodyBall E deltaTime
    ((if beyondBodySpringRange E a then resetBodyBalls a else a).getOrientation E))
    (if beyondBodySpringRange E a then resetBodyBalls a else a) = s at hs
  have hnb : (0 : Int) ≤ (n : Int) ∧ (n : Int) < (NUM_AVATAR_BODY_BALLS : Int) :=
    ⟨Int.natCast_nonneg n, by exact_mod_cast hn⟩
  have hparent : (s._bodyBall (n : Int)).parentBall = sampleParentBall (n : Int) := by
    rw [(hs.2.2.2.2.2.2.2.2.2 (n : Int)).2.1, htopo _ hnb]
    exact (initializeBodyBalls_fields E a0 _ hnb).2.1
  have hjoint : (s._skeleton.joint AVATAR_JOINT_PELVIS).parent = AVATAR_JOINT_NULL := by
    rw [hs.2.2.2.2.2.2.2.1]
    exact hroot
  obtain ⟨hlt, hnonneg, hnull⟩ := sampleParentBall_lt (n : Int) hnb
  have hvalid : ∀ i ∈ parentBallIndices E deltaTime s (n : Int),
      0 ≤ i ∧ i < (NUM_AVATAR_BODY_BALLS : Int) := by
    intro i hi
    obtain ⟨hi1, hi2⟩ := parentBallIndices_guarded E deltaTime s (n : Int) i hi
    have hne : (n : Int) ≠ 0 := by
      intro h0
      rcases hi2 with h | h | h
      · exact h h0
      · rw [hparent] at h
        exact h (hnull.2 h0)
      · rw [h0] at h
        exact h hjoint
    rw [hi1, hparent]
    exact ⟨hnonneg hne, lt_trans hlt hnb.2⟩
  refine ⟨hvalid, fun h0 => ?_⟩
  refine List.eq_nil_iff_forall_not_mem.2 (fun i hi => ?_)
  obtain ⟨_, hi2⟩ := parentBallIndices_guarded E deltaTime s (n : Int) i hi
  rcases hi2 with h | h | h
  · exact h h0
  · rw [hparent] at h
    exact h (hnull.2 h0)
  · rw [h0] at h
    exact h hjoint

/-- Witness of C26: the turn of the torso ball in a sample avatar whose balls
have the parent balls of initializeBodyBalls and whose joints have no parent
joint. -/
theorem updateBodyBalls_parent_index_valid_witness :
    (∀ c : Int, 0 ≤ c ∧ c < (NUM_AVATAR_BODY_BALLS : Int) →
        ((sampleAvatar (⟨3, 0, 0⟩ : Vec3 ℚ) ⟨0, 0, 1⟩ 0 sampleParentBall true)._bodyBall
          c).parentBall
        = ((initializeBodyBalls (sampleExt Rat.sqrt)
            (sampleAvatar (⟨0, 0, 0⟩ : Vec3 ℚ) ⟨0, 0, 0⟩ 0 (fun _ => 0) false))._bodyBall
              c).parentBall)
      ∧ ((sampleAvatar (⟨3, 0, 0⟩ : Vec3 ℚ) ⟨0, 0, 1⟩ 0 sampleParentBall true)._skeleton.joint
          AVATAR_JOINT_PELVIS).parent = AVATAR_JOINT_NULL
      ∧ 1 < NUM_AVATAR_BODY_BALLS
      ∧ ∀ i ∈ parentBallIndices (sampleExt Rat.sqrt) (1 / 100)
          (forFirstBalls 1 (updateBodyBall (sampleExt Rat.sqrt) (1 / 100)
              ((if beyondBodySpringRange (sampleExt Rat.sqrt)
                    (sampleAvatar (⟨3, 0, 0⟩ : Vec3 ℚ) ⟨0, 0, 1⟩ 0 sampleParentBall true)
                then resetBodyBalls
                  (sampleAvatar (⟨3, 0, 0⟩ : Vec3 ℚ) ⟨0, 0, 1⟩ 0 sampleParentBall true)
                else sampleAvatar (⟨3, 0, 0⟩ : Vec3 ℚ) ⟨0, 0, 1⟩ 0 sampleParentBall
                  true).getOrientation (sampleExt Rat.sqrt)))
            (if beyondBodySpringRange (sampleExt Rat.sqrt)
                  (sampleAvatar (⟨3, 0, 0⟩ : Vec3 ℚ) ⟨0, 0, 1⟩ 0 sampleParentBall true)
              then resetBodyBalls
                (sampleAvatar (⟨3, 0, 0⟩ : Vec3 ℚ) ⟨0, 0, 1⟩ 0 sampleParentBall true)
              else sampleAvatar (⟨3, 0, 0⟩ : Vec3 ℚ) ⟨0, 0, 1⟩ 0 sampleParentBall true))
          ((1 : Nat) : Int),
        0 ≤ i ∧ i < (NUM_AVATAR_BODY_BALLS : Int) := by
  have htopo : ∀ c : Int, 0 ≤ c ∧ c < (NUM_AVATAR_BODY_BALLS : Int) →
      ((sampleAvatar (⟨3, 0, 0⟩ : Vec3 ℚ) ⟨0, 0, 1⟩ 0 sampleParentBall true)._bodyBall
        c).parentBall
      = ((initializeBodyBalls (sampleExt Rat.sqrt)
          (sampleAvatar (⟨0, 0, 0⟩ : Vec3 ℚ) ⟨0, 0, 0⟩ 0 (fun _ => 0) false))._bodyBall
            c).parentBall :=
    fun c hc => (initializeBodyBalls_fields _ _ c hc).2.1.symm
  exact ⟨htopo, rfl, by decide,
    (updateBodyBalls_parent_index_valid (sampleExt Rat.sqrt)
      (sampleAvatar (⟨3, 0, 0⟩ : Vec3 ℚ) ⟨0, 0, 1⟩ 0 sampleParentBall true)
      (sampleAvatar (⟨0, 0, 0⟩ : Vec3 ℚ) ⟨0, 0, 0⟩ 0 (fun _ => 0) false) (1 / 100)
      htopo rfl 1 (by decide)).1⟩

/-! ## The sphere broad phase and a second collision pass -/

/-- C22: when the distance from the avatar position to the sphere centre
exceeds the bounding radius 1.0 plus the sphere radius,
updateCollisionWithSphere changes nothing: no ball position, no ball velocity,
not the avatar velocity, and nothing else of the state. -/
theorem updateCollisionWithSphere_broad_phase_skip (E : Ext K) (a : Avatar K)
    (position : Vec3 K) (radius deltaTime : K)
    (hfar : E.length (a._position - position) > 1 + radius) :
    (∀ c : Int,
        ((updateCollisionWithSphere E a position radius deltaTime)._bodyBall c).position
            = (a._bodyBall c).position
          ∧ ((updateCollisionWithSphere E a position radius deltaTime)._bodyBall c).velocity
            = (a._bodyBall c).velocity)
      ∧ (updateCollisionWithSphere E a position radius deltaTime)._velocity = a._velocity
      ∧ updateCollisionWithSphere E a position radius deltaTime = a := by
  have h := updateCollisionWithSphere_far E a position radius deltaTime (not_lt_of_gt hfar)
  rw [h]
  exact ⟨fun c => ⟨rfl, rfl⟩, rfl, rfl⟩

/-- Witness of C22: the avatar at the origin, the sphere of radius 1/2 at
(5, 0, 0), at distance 5 > 1 + 1/2. -/
theorem updateCollisionWithSphere_broad_phase_skip_witness :
    (sampleExt Rat.sqrt).length
        ((sampleAvatar (⟨0, 0, 0⟩ : Vec3 ℚ) ⟨1, 0, 0⟩ (1 / 10) sampleParentBall true)._position
          - ⟨5, 0, 0⟩) > 1 + 1 / 2
      ∧ updateCollisionWithSphere (sampleExt Rat.sqrt)
          (sampleAvatar (⟨0, 0, 0⟩ : Vec3 ℚ) ⟨1, 0, 0⟩ (1 / 10) sampleParentBall true)
          ⟨5, 0, 0⟩ (1 / 2) (1 / 60)
        = sampleAvatar (⟨0, 0, 0⟩ : Vec3 ℚ) ⟨1, 0, 0⟩ (1 / 10) sampleParentBall true := by
  have hfar : (sampleExt Rat.sqrt).length
      ((sampleAvatar (⟨0, 0, 0⟩ : Vec3 ℚ) ⟨1, 0, 0⟩ (1 / 10) sampleParentBall true)._position
        - ⟨5, 0, 0⟩) > 1 + 1 / 2 := by
    rw [ratLength_eq _ 5 (by norm_num) (by simp [dot, sampleAvatar])]
    norm_num
  exact ⟨hfar, (updateCollisionWithSphere_broad_phase_skip (sampleExt Rat.sqrt)
    (sampleAvatar (⟨0, 0, 0⟩ : Vec3 ℚ) ⟨1, 0, 0⟩ (1 / 10) sampleParentBall true)
    ⟨5, 0, 0⟩ (1 / 2) (1 / 60) hfar).2.2⟩

/-- C29 (counterexample): with a length in float arithmetic (gradual
underflow), the avatar and the sphere of radius 1/2 at the origin, every ball
of radius 1/2 at (15 * 2^-78, 0, 0), deltaTime 1/64.  The first call computes
the distance 2^-74 and puts the pelvis ball at (15/16, 0, 0), inside the
combined radius 1; the second call with the same sphere sees it at distance
15/16 < 1, moves it to (1, 0, 0) and adds the impulse (75/2048, 0, 0) of each
of the 24 balls to the avatar velocity: two calls give another ball position
and another avatar velocity than one call. -/
theorem updateCollisionWithSphere_not_idempotent_counterexample :
    ((updateCollisionWithSphere (sampleExt underflowSqrt) subnormalAvatar ⟨0, 0, 0⟩ (1 / 2)
        (1 / 64))._bodyBall BODY_BALL_PELVIS).position = ⟨15 / 16, 0, 0⟩
      ∧ ((updateCollisionWithSphere (sampleExt underflowSqrt)
          (updateCollisionWithSphere (sampleExt underflowSqrt) subnormalAvatar ⟨0, 0, 0⟩ (1 / 2)
            (1 / 64)) ⟨0, 0, 0⟩ (1 / 2) (1 / 64))._bodyBall BODY_BALL_PELVIS).position
        = ⟨1, 0, 0⟩
      ∧ ((updateCollisionWithSphere (sampleExt underflowSqrt)
          (updateCollisionWithSphere (sampleExt underflowSqrt) subnormalAvatar ⟨0, 0, 0⟩ (1 / 2)
            (1 / 64)) ⟨0, 0, 0⟩ (1 / 2) (1 / 64))._bodyBall BODY_BALL_PELVIS).position
        ≠ ((updateCollisionWithSphere (sampleExt underflowSqrt) subnormalAvatar ⟨0, 0, 0⟩ (1 / 2)
            (1 / 64))._bodyBall BODY_BALL_PELVIS).position
      ∧ (updateCollisionWithSphere (sampleExt underflowSqrt)
          (updateCollisionWithSphere (sampleExt underflowSqrt) subnormalAvatar ⟨0, 0, 0⟩ (1 / 2)
            (1 / 64)) ⟨0, 0, 0⟩ (1 / 2) (1 / 64))._velocity
        = (updateCollisionWithSphere (sampleExt underflowSqrt) subnormalAvatar ⟨0, 0, 0⟩ (1 / 2)
            (1 / 64))._velocity + (⟨75 / 2048, 0, 0⟩ : Vec3 ℚ) * (24 : ℚ)
      ∧ (updateCollisionWithSphere (sampleExt underflowSqrt)
          (updateCollisionWithSphere (sampleExt underflowSqrt) subnormalAvatar ⟨0, 0, 0⟩ (1 / 2)
            (1 / 64)) ⟨0, 0, 0⟩ (1 / 2) (1 / 64))._velocity
        ≠ (updateCollisionWithSphere (sampleExt underflowSqrt) subnormalAvatar ⟨0, 0, 0⟩ (1 / 2)
            (1 / 64))._velocity := by
  have hnear2 : (sampleExt underflowSqrt).length
      ((updateCollisionWithSphere (sampleExt underflowSqrt) subnormalAvatar ⟨0, 0, 0⟩ (1 / 2)
        (1 / 64))._position - ⟨0, 0, 0⟩) < 1 + 1 / 2 := by
    rw [updateCollisionWithSphere_avatar_position]
    exact subnormalAvatar_near
  have hvel : (updateCollisionWithSphere (sampleExt underflowSqrt)
      (updateCollisionWithSphere (sampleExt underflowSqrt) subnormalAvatar ⟨0, 0, 0⟩ (1 / 2)
        (1 / 64)) ⟨0, 0, 0⟩ (1 / 2) (1 / 64))._velocity
      = (updateCollisionWithSphere (sampleExt underflowSqrt) subnormalAvatar ⟨0, 0, 0⟩ (1 / 2)
          (1 / 64))._velocity + (⟨75 / 2048, 0, 0⟩ : Vec3 ℚ) * (24 : ℚ) := by
    exact updateCollisionWithSphere_velocity_of_same_impulse _ _ _ _ _ _ hnear2
      (fun c hc => subnormalAvatar_second_impulse (1 / 64) c hc)
  refine ⟨?_, subnormalAvatar_twice (1 / 64) (1 / 64) BODY_BALL_PELVIS (by decide), ?_, hvel, ?_⟩
  · rw [subnormalAvatar_once (1 / 64) BODY_BALL_PELVIS (by decide)]
  · rw [subnormalAvatar_twice (1 / 64) (1 / 64) BODY_BALL_PELVIS (by decide),
      subnormalAvatar_once (1 / 64) BODY_BALL_PELVIS (by decide)]
    intro h
    have hx := congrArg Vec3.x h
    norm_num at hx
  · rw [hvel]
    intro h
    have hx := congrArg Vec3.x h
    simp at hx

/-- C29 (amended): a second call of updateCollisionWithSphere with the same
sphere examines every ball at the position the first call left.  If the loop
then sees no ball of the array inside the sphere at a positive distance (no
ball with 0 < d < ball.radius + sphereRadius for the computed distance d), the
second call changes nothing: ball positions and avatar velocity are those
after the first call.  Within the broad-phase range, a ball that is still seen
inside at a positive distance is moved again, to sphereCenter + (position -
sphereCenter) / d * (ball.radius + sphereRadius), and the avatar velocity gets
the impulses of the second call added. -/
theorem updateCollisionWithSphere_second_call (E : Ext K) (a : Avatar K)
    (position : Vec3 K) (radius deltaTime deltaTime2 : K) :
    ((∀ c : Int, 0 ≤ c ∧ c < (NUM_AVATAR_BODY_BALLS : Int) →
        ¬ (E.length
              (((updateCollisionWithSphere E a position radius deltaTime)._bodyBall c).position
                - position)
            < ((updateCollisionWithSphere E a position radius deltaTime)._bodyBall c).radius
              + radius
          ∧ E.length
              (((updateCollisionWithSphere E a position radius deltaTime)._bodyBall c).position
                - position) > 0)) →
        updateCollisionWithSphere E (updateCollisionWithSphere E a position radius deltaTime)
            position radius deltaTime2
          = updateCollisionWithSphere E a position radius deltaTime)
      ∧ (E.length (a._position - position) < 1 + radius →
        (∀ c : Int, 0 ≤ c ∧ c < (NUM_AVATAR_BODY_BALLS : Int) →
          E.length
              (((updateCollisionWithSphere E a position radius deltaTime)._bodyBall c).position
                - position)
            < ((updateCollisionWithSphere E a position radius deltaTime)._bodyBall c).radius
              + radius →
          E.length
              (((updateCollisionWithSphere E a position radius deltaTime)._bodyBall c).position
                - position) > 0 →
          ((updateCollisionWithSphere E
              (updateCollisionWithSphere E a position radius deltaTime)
              position radius deltaTime2)._bodyBall c).position
            = position
              + (((updateCollisionWithSphere E a position radius deltaTime)._bodyBall
                  c).position - position)
                / E.length
                  (((updateCollisionWithSphere E a position radius deltaTime)._bodyBall
                    c).position - position)
                * (((updateCollisionWithSphere E a position radius deltaTime)._bodyBall
                  c).radius + radius))
        ∧ (updateCollisionWithSphere E (updateCollisionWithSphere E a position radius deltaTime)
              position radius deltaTime2)._velocity
          = (List.range NUM_AVATAR_BODY_BALLS).foldl
              (fun (v : Vec3 K) (c : Nat) =>
                v + sphereImpulse E position radius deltaTime2
                  ((updateCollisionWithSphere E a position radius deltaTime)._bodyBall (c : Int)))
              (updateCollisionWithSphere E a position radius deltaTime)._velocity) := by
  refine ⟨fun hsettled => updateCollisionWithSphere_of_settled E _ position radius deltaTime2
    hsettled, fun hnear => ?_⟩
  have hnear2 : E.length ((updateCollisionWithSphere E a position radius deltaTime)._position
      - position) < 1 + radius := by
    rw [updateCollisionWithSphere_avatar_position]
    exact hnear
  refine ⟨fun c hc hpen hd => ?_, updateCollisionWithSphere_velocity E _ position radius
    deltaTime2 hnear2⟩
  rw [updateCollisionWithSphere_ball E _ position radius deltaTime2 c hc hnear2]
  unfold sphereSnap
  rw [if_pos ⟨hpen, hd⟩]

/-- Witness of C29 (amended).  The sphere of radius 1 at the origin and a
sample avatar whose balls, of radius 0.1, are at (0.5, 0, 0): the first call
puts them at (1.1, 0, 0), where they are seen at the distance 1.1 = 0.1 + 1,
and the second call changes nothing.  With a float length, the sphere of radius
1/2 and the balls of radius 1/2 at (15 * 2^-78, 0, 0): after the first call the
pelvis ball is seen at the distance 15/16, inside the combined radius 1, and
the second call moves it by the formula. -/
theorem updateCollisionWithSphere_second_call_witness :
    (∀ c : Int, 0 ≤ c ∧ c < (NUM_AVATAR_BODY_BALLS : Int) →
        (sampleExt Rat.sqrt).length
            (((updateCollisionWithSphere (sampleExt Rat.sqrt)
              (sampleAvatar (⟨0, 0, 0⟩ : Vec3 ℚ) ⟨1 / 2, 0, 0⟩ (1 / 10) sampleParentBall true)
              ⟨0, 0, 0⟩ 1 (1 / 60))._bodyBall c).position - ⟨0, 0, 0⟩) = 11 / 10)
      ∧ updateCollisionWithSphere (sampleExt Rat.sqrt)
          (updateCollisionWithSphere (sampleExt Rat.sqrt)
            (sampleAvatar (⟨0, 0, 0⟩ : Vec3 ℚ) ⟨1 / 2, 0, 0⟩ (1 / 10) sampleParentBall true)
            ⟨0, 0, 0⟩ 1 (1 / 60))
          ⟨0, 0, 0⟩ 1 (1 / 60)
        = updateCollisionWithSphere (sampleExt Rat.sqrt)
            (sampleAvatar (⟨0, 0, 0⟩ : Vec3 ℚ) ⟨1 / 2, 0, 0⟩ (1 / 10) sampleParentBall true)
            ⟨0, 0, 0⟩ 1 (1 / 60)
      ∧ (sampleExt underflowSqrt).length (subnormalAvatar._position - ⟨0, 0, 0⟩) < 1 + 1 / 2
      ∧ (sampleExt underflowSqrt).length
          (((updateCollisionWithSphere (sampleExt underflowSqrt) subnormalAvatar ⟨0, 0, 0⟩
            (1 / 2) (1 / 64))._bodyBall BODY_BALL_PELVIS).position - ⟨0, 0, 0⟩) = 15 / 16
      ∧ ((updateCollisionWithSphere (sampleExt underflowSqrt) subnormalAvatar ⟨0, 0, 0⟩
            (1 / 2) (1 / 64))._bodyBall BODY_BALL_PELVIS).radius + 1 / 2 = 1
      ∧ ((updateCollisionWithSphere (sampleExt underflowSqrt)
            (updateCollisionWithSphere (sampleExt underflowSqrt) subnormalAvatar ⟨0, 0, 0⟩
              (1 / 2) (1 / 64))
            ⟨0, 0, 0⟩ (1 / 2) (1 / 64))._bodyBall BODY_BALL_PELVIS).position
        = (⟨0, 0, 0⟩ : Vec3 ℚ)
          + (((updateCollisionWithSphere (sampleExt underflowSqrt) subnormalAvatar ⟨0, 0, 0⟩
              (1 / 2) (1 / 64))._bodyBall BODY_BALL_PELVIS).position - ⟨0, 0, 0⟩)
            / (sampleExt underflowSqrt).length
              (((updateCollisionWithSphere (sampleExt underflowSqrt) subnormalAvatar ⟨0, 0, 0⟩
                (1 / 2) (1 / 64))._bodyBall BODY_BALL_PELVIS).position - ⟨0, 0, 0⟩)
            * (((updateCollisionWithSphere (sampleExt underflowSqrt) subnormalAvatar ⟨0, 0, 0⟩
              (1 / 2) (1 / 64))._bodyBall BODY_BALL_PELVIS).radius + 1 / 2) := by
  have hnear : (sampleExt Rat.sqrt).length
      ((sampleAvatar (⟨0, 0, 0⟩ : Vec3 ℚ) ⟨1 / 2, 0, 0⟩ (1 / 10) sampleParentBall
        true)._position - ⟨0, 0, 0⟩) < 1 + 1 := by
    rw [ratLength_eq _ 0 (le_refl 0) (by simp [dot, sampleAvatar])]
    norm_num
  have hlen : ∀ c : Int, (sampleExt Rat.sqrt).length
      (((sampleAvatar (⟨0, 0, 0⟩ : Vec3 ℚ) ⟨1 / 2, 0, 0⟩ (1 / 10) sampleParentBall
        true)._bodyBall c).position - ⟨0, 0, 0⟩) = 1 / 2 := fun c =>
    ratLength_eq _ (1 / 2) (by norm_num) (by simp [dot, sampleAvatar, ballAt])
  have hrad : ∀ c : Int, ((sampleAvatar (⟨0, 0, 0⟩ : Vec3 ℚ) ⟨1 / 2, 0, 0⟩ (1 / 10)
      sampleParentBall true)._bodyBall c).radius + 1 = 11 / 10 := by
    intro c
    simp [sampleAvatar, ballAt]; norm_num
  have hpos : ∀ c : Int, 0 ≤ c ∧ c < (NUM_AVATAR_BODY_BALLS : Int) →
      ((updateCollisionWithSphere (sampleExt Rat.sqrt)
        (sampleAvatar (⟨0, 0, 0⟩ : Vec3 ℚ) ⟨1 / 2, 0, 0⟩ (1 / 10) sampleParentBall true)
        ⟨0, 0, 0⟩ 1 (1 / 60))._bodyBall c).position = ⟨11 / 10, 0, 0⟩ := by
    intro c hc
    rw [updateCollisionWithSphere_ball _ _ _ _ _ c hc hnear]
    unfold sphereSnap
    rw [hlen c, hrad c, if_pos ⟨by norm_num, by norm_num⟩]
    simp [sampleAvatar, ballAt]
    ext <;> simp
  have hafter : ∀ c : Int, 0 ≤ c ∧ c < (NUM_AVATAR_BODY_BALLS : Int) →
      (sampleExt Rat.sqrt).length
        (((updateCollisionWithSphere (sampleExt Rat.sqrt)
          (sampleAvatar (⟨0, 0, 0⟩ : Vec3 ℚ) ⟨1 / 2, 0, 0⟩ (1 / 10) sampleParentBall true)
          ⟨0, 0, 0⟩ 1 (1 / 60))._bodyBall c).position - ⟨0, 0, 0⟩) = 11 / 10 := by
    intro c hc
    rw [hpos c hc]
    exact ratLength_eq _ (11 / 10) (by norm_num) (by simp [dot])
  have hl2 := subnormalAvatar_once_length (1 / 64) BODY_BALL_PELVIS (by decide)
  have hr2 : ((updateCollisionWithSphere (sampleExt underflowSqrt) subnormalAvatar ⟨0, 0, 0⟩
      (1 / 2) (1 / 64))._bodyBall BODY_BALL_PELVIS).radius + 1 / 2 = 1 := by
    rw [subnormalAvatar_once_radius (1 / 64) BODY_BALL_PELVIS (by decide)]
    norm_num
  refine ⟨hafter, (updateCollisionWithSphere_second_call (sampleExt Rat.sqrt) _ _ _ (1 / 60)
    (1 / 60)).1 (fun c hc h => ?_), subnormalAvatar_near, hl2, hr2,
    ((updateCollisionWithSphere_second_call (sampleExt underflowSqrt) subnormalAvatar ⟨0, 0, 0⟩
      (1 / 2) (1 / 64) (1 / 64)).2 subnormalAvatar_near).1 BODY_BALL_PELVIS (by decide)
      (by rw [hl2, hr2]; norm_num) (by rw [hl2]; norm_num)⟩
  rw [hafter c hc, updateCollisionWithSphere_ball _ _ _ _ _ c hc hnear, sphereSnap_radius,
    hrad c] at h
  exact lt_irrefl _ h.1

/-! ## The arm pose -/

/-- C23: after updateArmIKAndConstraints, when no division that it executes
has the divisor 0 (armVector / distance inside the clamp, _maxArmLength /
distance after it), with armVector and distance the locals after the test of
the maximum arm length (armVector is then the fingertip position minus the
shoulder position of the result), the elbow is at shoulder + armVector / 2
+ cross(bodyRightDirection, armVector) * (1 - maxArmLength / distance) / 2 and
the wrist at elbow + (fingertip - elbow) * 0.7, elbow and fingertip being those
of the result. -/
theorem updateArmIKAndConstraints_pose (E : Ext K) (a : Avatar K)
    (hdiv : ∀ d ∈ updateArmIKAndConstraintsDivisors E a, d ≠ 0) :
    clampedArmDistance E a ≠ 0
      ∧ clampedArmVector E a
        = ((updateArmIKAndConstraints E a)._skeleton.joint
            AVATAR_JOINT_RIGHT_FINGERTIPS).position
          - ((updateArmIKAndConstraints E a)._skeleton.joint
            AVATAR_JOINT_RIGHT_SHOULDER).position
      ∧ ((updateArmIKAndConstraints E a)._skeleton.joint AVATAR_JOINT_RIGHT_ELBOW).position
        = ((updateArmIKAndConstraints E a)._skeleton.joint AVATAR_JOINT_RIGHT_SHOULDER).position
          + clampedArmVector E a / (2 : K)
          + cross (a.getBodyRightDirection E) (clampedArmVector E a)
            * (1 - a._maxArmLength / clampedArmDistance E a) / (2 : K)
      ∧ ((updateArmIKAndConstraints E a)._skeleton.joint AVATAR_JOINT_RIGHT_WRIST).position
        = ((updateArmIKAndConstraints E a)._skeleton.joint AVATAR_JOINT_RIGHT_ELBOW).position
          + (((updateArmIKAndConstraints E a)._skeleton.joint
                AVATAR_JOINT_RIGHT_FINGERTIPS).position
              - ((updateArmIKAndConstraints E a)._skeleton.joint
                AVATAR_JOINT_RIGHT_ELBOW).position) * (7 / 10 : K) := by
  obtain ⟨hf, hs, he, hw⟩ := updateArmIKAndConstraints_joints E a
  refine ⟨?_, ?_, ?_, hw⟩
  · unfold updateArmIKAndConstraintsDivisors at hdiv
    unfold clampedArmDistance Avatar.armVector
    dsimp only at hdiv
    split_ifs with h
    · rw [if_pos h] at hdiv
      exact hdiv _ (by simp)
    · rw [if_neg h] at hdiv
      exact hdiv _ (by simp)
  · rw [hf, hs, Vec3.add_sub_cancel_left]
  · rw [he, hs, Vec3.mul_one_half, Vec3.mul_one_half]

/-- Witness of C23: shoulder at the origin, fingertip target at (3, 4, 0), at
distance 5, maximum arm length 10: the one division, 10 / 5, has a divisor
other than 0. -/
theorem updateArmIKAndConstraints_pose_witness :
    updateArmIKAndConstraintsDivisors (sampleExt Rat.sqrt) (armAvatar (⟨3, 4, 0⟩ : Vec3 ℚ) 10)
        = [5]
      ∧ ((updateArmIKAndConstraints (sampleExt Rat.sqrt)
          (armAvatar (⟨3, 4, 0⟩ : Vec3 ℚ) 10))._skeleton.joint AVATAR_JOINT_RIGHT_ELBOW).position
        = ((updateArmIKAndConstraints (sampleExt Rat.sqrt)
            (armAvatar (⟨3, 4, 0⟩ : Vec3 ℚ) 10))._skeleton.joint
              AVATAR_JOINT_RIGHT_SHOULDER).position
          + clampedArmVector (sampleExt Rat.sqrt) (armAvatar (⟨3, 4, 0⟩ : Vec3 ℚ) 10) / (2 : ℚ)
          + cross ((armAvatar (⟨3, 4, 0⟩ : Vec3 ℚ) 10).getBodyRightDirection (sampleExt Rat.sqrt))
              (clampedArmVector (sampleExt Rat.sqrt) (armAvatar (⟨3, 4, 0⟩ : Vec3 ℚ) 10))
            * (1 - (armAvatar (⟨3, 4, 0⟩ : Vec3 ℚ) 10)._maxArmLength
                / clampedArmDistance (sampleExt Rat.sqrt) (armAvatar (⟨3, 4, 0⟩ : Vec3 ℚ) 10))
            / (2 : ℚ) := by
  have hlen : (sampleExt Rat.sqrt).length
      (((armAvatar (⟨3, 4, 0⟩ : Vec3 ℚ) 10)._skeleton.joint
          AVATAR_JOINT_RIGHT_FINGERTIPS).position
        - ((armAvatar (⟨3, 4, 0⟩ : Vec3 ℚ) 10)._skeleton.joint
          AVATAR_JOINT_RIGHT_SHOULDER).position) = 5 :=
    ratLength_eq _ 5 (by norm_num) (by
      simp [dot, armAvatar, sampleAvatar, jointAt, Avatar.modifyJoint,
        AVATAR_JOINT_RIGHT_FINGERTIPS, AVATAR_JOINT_RIGHT_SHOULDER]
      norm_num)
  have hdivs : updateArmIKAndConstraintsDivisors (sampleExt Rat.sqrt)
      (armAvatar (⟨3, 4, 0⟩ : Vec3 ℚ) 10) = [5] := by
    unfold updateArmIKAndConstraintsDivisors
    dsimp only
    rw [hlen]
    have hmax : (armAvatar (⟨3, 4, 0⟩ : Vec3 ℚ) 10)._maxArmLength = 10 := rfl
    rw [hmax, if_neg (by norm_num)]
  exact ⟨hdivs, (updateArmIKAndConstraints_pose (sampleExt Rat.sqrt)
    (armAvatar (⟨3, 4, 0⟩ : Vec3 ℚ) 10) (by rw [hdivs]; simp)).2.2.1⟩

/-- C27: when the distance from the shoulder to the fingertip target is at
most the maximum arm length, updateArmIKAndConstraints leaves the
right-fingertip and the right-shoulder joint position as they are, as it
leaves every joint other than the right elbow and the right wrist. -/
theorem updateArmIKAndConstraints_reachable_target (E : Ext K) (a : Avatar K)
    (hreach : E.length ((a._skeleton.joint AVATAR_JOINT_RIGHT_FINGERTIPS).position
      - (a._skeleton.joint AVATAR_JOINT_RIGHT_SHOULDER).position) ≤ a._maxArmLength) :
    ((updateArmIKAndConstraints E a)._skeleton.joint AVATAR_JOINT_RIGHT_FINGERTIPS).position
        = (a._skeleton.joint AVATAR_JOINT_RIGHT_FINGERTIPS).position
      ∧ ((updateArmIKAndConstraints E a)._skeleton.joint AVATAR_JOINT_RIGHT_SHOULDER).position
        = (a._skeleton.joint AVATAR_JOINT_RIGHT_SHOULDER).position
      ∧ ∀ j : Int, j ≠ AVATAR_JOINT_RIGHT_ELBOW → j ≠ AVATAR_JOINT_RIGHT_WRIST →
          (updateArmIKAndConstraints E a)._skeleton.joint j = a._skeleton.joint j := by
  have h : ¬ (E.length a.armVector > a._maxArmLength) := not_lt_of_ge hreach
  exact ⟨by rw [updateArmIKAndConstraints_joint_of_reachable E a h _ (by decide) (by decide)],
    by rw [updateArmIKAndConstraints_joint_of_reachable E a h _ (by decide) (by decide)],
    fun j he hw => updateArmIKAndConstraints_joint_of_reachable E a h j he hw⟩

/-- Witness of C27: shoulder at the origin, fingertip target at (3, 4, 0), at
distance 5, maximum arm length 10. -/
theorem updateArmIKAndConstraints_reachable_target_witness :
    (sampleExt Rat.sqrt).length
        (((armAvatar (⟨3, 4, 0⟩ : Vec3 ℚ) 10)._skeleton.joint
            AVATAR_JOINT_RIGHT_FINGERTIPS).position
          - ((armAvatar (⟨3, 4, 0⟩ : Vec3 ℚ) 10)._skeleton.joint
            AVATAR_JOINT_RIGHT_SHOULDER).position) ≤ (armAvatar (⟨3, 4, 0⟩ : Vec3 ℚ) 10)._maxArmLength
      ∧ ((updateArmIKAndConstraints (sampleExt Rat.sqrt)
          (armAvatar (⟨3, 4, 0⟩ : Vec3 ℚ) 10))._skeleton.joint
            AVATAR_JOINT_RIGHT_FINGERTIPS).position
        = ((armAvatar (⟨3, 4, 0⟩ : Vec3 ℚ) 10)._skeleton.joint
            AVATAR_JOINT_RIGHT_FINGERTIPS).position := by
  have hreach : (sampleExt Rat.sqrt).length
      (((armAvatar (⟨3, 4, 0⟩ : Vec3 ℚ) 10)._skeleton.joint
          AVATAR_JOINT_RIGHT_FINGERTIPS).position
        - ((armAvatar (⟨3, 4, 0⟩ : Vec3 ℚ) 10)._skeleton.joint
          AVATAR_JOINT_RIGHT_SHOULDER).position)
      ≤ (armAvatar (⟨3, 4, 0⟩ : Vec3 ℚ) 10)._maxArmLength := by
    rw [ratLength_eq _ 5 (by norm_num) (by
      simp [dot, armAvatar, sampleAvatar, jointAt, Avatar.modifyJoint,
        AVATAR_JOINT_RIGHT_FINGERTIPS, AVATAR_JOINT_RIGHT_SHOULDER]
      norm_num)]
    simp [armAvatar]
    norm_num
  exact ⟨hreach, (updateArmIKAndConstraints_reachable_target (sampleExt Rat.sqrt)
    (armAvatar (⟨3, 4, 0⟩ : Vec3 ℚ) 10) hreach).1⟩

/-- C28: when the distance from the shoulder to the fingertip target exceeds
the maximum arm length and that is positive, after updateArmIKAndConstraints
the elbow is the midpoint of the shoulder and the fingertip of the result (the
pole offset vanishes), the wrist is at shoulder + (fingertip - shoulder) * 0.85,
and, the square root being exact, the wrist is at distance 0.85 * maxArmLength
from the shoulder. -/
theorem updateArmIKAndConstraints_extended_arm (E : Ext K) (a : Avatar K)
    (hlen : E.length ((a._skeleton.joint AVATAR_JOINT_RIGHT_FINGERTIPS).position
      - (a._skeleton.joint AVATAR_JOINT_RIGHT_SHOULDER).position) > a._maxArmLength)
    (hmax : a._maxArmLength > 0) :
    ((updateArmIKAndConstraints E a)._skeleton.joint AVATAR_JOINT_RIGHT_ELBOW).position
        = (((updateArmIKAndConstraints E a)._skeleton.joint
              AVATAR_JOINT_RIGHT_SHOULDER).position
            + ((updateArmIKAndConstraints E a)._skeleton.joint
              AVATAR_JOINT_RIGHT_FINGERTIPS).position) / (2 : K)
      ∧ cross (a.getBodyRightDirection E) (clampedArmVector E a)
          * (1 - a._maxArmLength / clampedArmDistance E a) = ⟨0, 0, 0⟩
      ∧ ((updateArmIKAndConstraints E a)._skeleton.joint AVATAR_JOINT_RIGHT_WRIST).position
        = ((updateArmIKAndConstraints E a)._skeleton.joint AVATAR_JOINT_RIGHT_SHOULDER).position
          + (((updateArmIKAndConstraints E a)._skeleton.joint
                AVATAR_JOINT_RIGHT_FINGERTIPS).position
              - ((updateArmIKAndConstraints E a)._skeleton.joint
                AVATAR_JOINT_RIGHT_SHOULDER).position) * (85 / 100 : K)
      ∧ (ExactSqrt E →
          E.length
              (((updateArmIKAndConstraints E a)._skeleton.joint
                  AVATAR_JOINT_RIGHT_WRIST).position
                - ((updateArmIKAndConstraints E a)._skeleton.joint
                  AVATAR_JOINT_RIGHT_SHOULDER).position)
            = 85 / 100 * a._maxArmLength) := by
  obtain ⟨hf, hs, he, hw⟩ := updateArmIKAndConstraints_joints E a
  have hdist : clampedArmDistance E a = a._maxArmLength := by
    unfold clampedArmDistance Avatar.armVector
    rw [if_pos hlen]
  have hpole : cross (a.getBodyRightDirection E) (clampedArmVector E a)
      * (1 - a._maxArmLength / clampedArmDistance E a) = ⟨0, 0, 0⟩ := by
    rw [hdist, div_self (ne_of_gt hmax), sub_self, Vec3.mul_zero_vec]
  have helbow : ((updateArmIKAndConstraints E a)._skeleton.joint
      AVATAR_JOINT_RIGHT_ELBOW).position
      = (a._skeleton.joint AVATAR_JOINT_RIGHT_SHOULDER).position
        + clampedArmVector E a * (ONE_HALF : K) := by
    rw [he, hpole]
    unfold ONE_HALF
    ext <;> simp
  have hwrist : ((updateArmIKAndConstraints E a)._skeleton.joint
      AVATAR_JOINT_RIGHT_WRIST).position
      = (a._skeleton.joint AVATAR_JOINT_RIGHT_SHOULDER).position
        + clampedArmVector E a * (85 / 100 : K) := by
    rw [hw, helbow, hf]
    unfold ONE_HALF
    ext <;> simp <;> ring
  refine ⟨?_, hpole, ?_, fun hE => ?_⟩
  · rw [helbow, hs, hf]
    unfold ONE_HALF
    ext <;> simp <;> ring
  · rw [hwrist, hs, hf, Vec3.add_sub_cancel_left]
  · rw [hwrist, hs, Vec3.add_sub_cancel_left]
    have hv : clampedArmVector E a * (85 / 100 : K)
        = ((a._skeleton.joint AVATAR_JOINT_RIGHT_FINGERTIPS).position
            - (a._skeleton.joint AVATAR_JOINT_RIGHT_SHOULDER).position)
          / E.length ((a._skeleton.joint AVATAR_JOINT_RIGHT_FINGERTIPS).position
            - (a._skeleton.joint AVATAR_JOINT_RIGHT_SHOULDER).position)
          * (85 / 100 * a._maxArmLength) := by
      unfold clampedArmVector Avatar.armVector
      rw [if_pos hlen]
      ext <;> simp <;> ring
    rw [hv]
    exact hE.length_scaled_direction _ _ (by positivity) (lt_trans hmax hlen)

/-- Witness of C28: over the reals, shoulder at the origin, fingertip target at
(3, 4, 0), at distance 5, maximum arm length 1. -/
theorem updateArmIKAndConstraints_extended_arm_witness :
    (sampleExt Real.sqrt).length
        (((armAvatar (⟨3, 4, 0⟩ : Vec3 ℝ) 1)._skeleton.joint
            AVATAR_JOINT_RIGHT_FINGERTIPS).position
          - ((armAvatar (⟨3, 4, 0⟩ : Vec3 ℝ) 1)._skeleton.joint
            AVATAR_JOINT_RIGHT_SHOULDER).position) > (armAvatar (⟨3, 4, 0⟩ : Vec3 ℝ) 1)._maxArmLength
      ∧ (armAvatar (⟨3, 4, 0⟩ : Vec3 ℝ) 1)._maxArmLength > 0
      ∧ ExactSqrt (sampleExt Real.sqrt)
      ∧ (sampleExt Real.sqrt).length
          (((updateArmIKAndConstraints (sampleExt Real.sqrt)
              (armAvatar (⟨3, 4, 0⟩ : Vec3 ℝ) 1))._skeleton.joint
                AVATAR_JOINT_RIGHT_WRIST).position
            - ((updateArmIKAndConstraints (sampleExt Real.sqrt)
              (armAvatar (⟨3, 4, 0⟩ : Vec3 ℝ) 1))._skeleton.joint
                AVATAR_JOINT_RIGHT_SHOULDER).position)
        = 85 / 100 * (armAvatar (⟨3, 4, 0⟩ : Vec3 ℝ) 1)._maxArmLength := by
  have hmax : (armAvatar (⟨3, 4, 0⟩ : Vec3 ℝ) 1)._maxArmLength = 1 := rfl
  have hlen : (sampleExt Real.sqrt).length
      (((armAvatar (⟨3, 4, 0⟩ : Vec3 ℝ) 1)._skeleton.joint
          AVATAR_JOINT_RIGHT_FINGERTIPS).position
        - ((armAvatar (⟨3, 4, 0⟩ : Vec3 ℝ) 1)._skeleton.joint
          AVATAR_JOINT_RIGHT_SHOULDER).position)
      > (armAvatar (⟨3, 4, 0⟩ : Vec3 ℝ) 1)._maxArmLength := by
    rw [exactSqrt_real.length_eq_of_sq _ 5 (by norm_num) (by
      simp [dot, armAvatar, sampleAvatar, jointAt, Avatar.modifyJoint,
        AVATAR_JOINT_RIGHT_FINGERTIPS, AVATAR_JOINT_RIGHT_SHOULDER]
      norm_num), hmax]
    norm_num
  exact ⟨hlen, by rw [hmax]; norm_num, exactSqrt_real,
    (updateArmIKAndConstraints_extended_arm (sampleExt Real.sqrt)
      (armAvatar (⟨3, 4, 0⟩ : Vec3 ℝ) 1) hlen (by rw [hmax]; norm_num)).2.2.2 exactSqrt_real⟩

/-! ## The ray test -/

/-- C30: findRayIntersection returns true exactly when rayIntersectsSphere
succeeds for a ball of the array with a distance below FLT_MAX; the distance it
then leaves is the distance of a ball hit and is at most the distance of every
ball hit; when it returns false, as it does when no ball is hit, the distance
of the caller is as it was. -/
theorem findRayIntersection_nearest_hit
    (rayIntersectsSphere : Vec3 K → Vec3 K → Vec3 K → K → Bool × K) (FLT_MAX : K)
    (a : Avatar K) (origin direction : Vec3 K) (distance : K) :
    ((findRayIntersection rayIntersectsSphere FLT_MAX a origin direction distance).1 = true
        ↔ ∃ i : Nat, i < NUM_AVATAR_BODY_BALLS
          ∧ (rayIntersectsSphere origin direction (a._bodyBall (i : Int)).position
            (a._bodyBall (i : Int)).radius).1 = true
          ∧ (rayIntersectsSphere origin direction (a._bodyBall (i : Int)).position
            (a._bodyBall (i : Int)).radius).2 < FLT_MAX)
      ∧ ((findRayIntersection rayIntersectsSphere FLT_MAX a origin direction distance).1 = true →
          (∃ i : Nat, i < NUM_AVATAR_BODY_BALLS
            ∧ (rayIntersectsSphere origin direction (a._bodyBall (i : Int)).position
              (a._bodyBall (i : Int)).radius).1 = true
            ∧ (rayIntersectsSphere origin direction (a._bodyBall (i : Int)).position
              (a._bodyBall (i : Int)).radius).2
              = (findRayIntersection rayIntersectsSphere FLT_MAX a origin direction distance).2)
          ∧ ∀ j : Nat, j < NUM_AVATAR_BODY_BALLS →
              (rayIntersectsSphere origin direction (a._bodyBall (j : Int)).position
                (a._bodyBall (j : Int)).radius).1 = true →
              (findRayIntersection rayIntersectsSphere FLT_MAX a origin direction distance).2
                ≤ (rayIntersectsSphere origin direction (a._bodyBall (j : Int)).position
                  (a._bodyBall (j : Int)).radius).2)
      ∧ ((findRayIntersection rayIntersectsSphere FLT_MAX a origin direction distance).1 = false →
          (findRayIntersection rayIntersectsSphere FLT_MAX a origin direction distance).2
            = distance)
      ∧ ((∀ i : Nat, i < NUM_AVATAR_BODY_BALLS →
            (rayIntersectsSphere origin direction (a._bodyBall (i : Int)).position
              (a._bodyBall (i : Int)).radius).1 = false) →
          findRayIntersection rayIntersectsSphere FLT_MAX a origin direction distance
            = (false, distance)) := by
  obtain ⟨h1, h2, h3⟩ := findRayIntersectionLoop_spec rayIntersectsSphere FLT_MAX a origin
    direction NUM_AVATAR_BODY_BALLS
  unfold findRayIntersection
  dsimp only
  by_cases hm : findRayIntersectionLoop rayIntersectsSphere FLT_MAX a origin direction
      NUM_AVATAR_BODY_BALLS = FLT_MAX
  · rw [if_pos hm]
    refine ⟨⟨fun h => absurd h (by simp), fun ⟨i, hi, hit, hd⟩ => ?_⟩,
      fun h => absurd h (by simp), fun _ => rfl, fun _ => rfl⟩
    exact absurd (lt_of_le_of_lt (h2 i hi hit) hd) (by rw [hm]; exact lt_irrefl _)
  · rw [if_neg hm]
    have hex : ∃ i : Nat, i < NUM_AVATAR_BODY_BALLS
        ∧ (rayIntersectsSphere origin direction (a._bodyBall (i : Int)).position
          (a._bodyBall (i : Int)).radius).1 = true
        ∧ (rayIntersectsSphere origin direction (a._bodyBall (i : Int)).position
          (a._bodyBall (i : Int)).radius).2
          = findRayIntersectionLoop rayIntersectsSphere FLT_MAX a origin direction
            NUM_AVATAR_BODY_BALLS := by
      rcases h3 with h3 | h3
      · exact absurd h3 hm
      · exact h3
    refine ⟨⟨fun _ => ?_, fun _ => rfl⟩, fun _ => ⟨hex, h2⟩, fun h => absurd h (by simp),
      fun hno => ?_⟩
    · obtain ⟨i, hi, hit, hd⟩ := hex
      exact ⟨i, hi, hit, by rw [hd]; exact lt_of_le_of_ne h1 hm⟩
    · obtain ⟨i, hi, hit, _⟩ := hex
      rw [hno i hi] at hit
      exact absurd hit (by simp)

/-- Witness of C30: a sample ray test that hits a ball when the ball centre is
ahead on the x axis and within the radius on the two other axes, the balls of
the sample avatar at (5, 0, 0) with radius 1, and the ray from the origin. -/
theorem findRayIntersection_nearest_hit_witness :
    (∃ i : Nat, i < NUM_AVATAR_BODY_BALLS
        ∧ (sampleRayIntersectsSphere (⟨0, 0, 0⟩ : Vec3 ℚ) ⟨1, 0, 0⟩
          (((sampleAvatar (⟨0, 0, 0⟩ : Vec3 ℚ) ⟨5, 0, 0⟩ 1 sampleParentBall true)._bodyBall
            (i : Int)).position)
          (((sampleAvatar (⟨0, 0, 0⟩ : Vec3 ℚ) ⟨5, 0, 0⟩ 1 sampleParentBall true)._bodyBall
            (i : Int)).radius)).1 = true
        ∧ (sampleRayIntersectsSphere (⟨0, 0, 0⟩ : Vec3 ℚ) ⟨1, 0, 0⟩
          (((sampleAvatar (⟨0, 0, 0⟩ : Vec3 ℚ) ⟨5, 0, 0⟩ 1 sampleParentBall true)._bodyBall
            (i : Int)).position)
          (((sampleAvatar (⟨0, 0, 0⟩ : Vec3 ℚ) ⟨5, 0, 0⟩ 1 sampleParentBall true)._bodyBall
            (i : Int)).radius)).2 < 1000)
      ∧ (findRayIntersection sampleRayIntersectsSphere 1000
          (sampleAvatar (⟨0, 0, 0⟩ : Vec3 ℚ) ⟨5, 0, 0⟩ 1 sampleParentBall true)
          ⟨0, 0, 0⟩ ⟨1, 0, 0⟩ 7).1 = true :=
  have h : ∃ i : Nat, i < NUM_AVATAR_BODY_BALLS
        ∧ (sampleRayIntersectsSphere (⟨0, 0, 0⟩ : Vec3 ℚ) ⟨1, 0, 0⟩
          (((sampleAvatar (⟨0, 0, 0⟩ : Vec3 ℚ) ⟨5, 0, 0⟩ 1 sampleParentBall true)._bodyBall
            (i : Int)).position)
          (((sampleAvatar (⟨0, 0, 0⟩ : Vec3 ℚ) ⟨5, 0, 0⟩ 1 sampleParentBall true)._bodyBall
            (i : Int)).radius)).1 = true
        ∧ (sampleRayIntersectsSphere (⟨0, 0, 0⟩ : Vec3 ℚ) ⟨1, 0, 0⟩
          (((sampleAvatar (⟨0, 0, 0⟩ : Vec3 ℚ) ⟨5, 0, 0⟩ 1 sampleParentBall true)._bodyBall
            (i : Int)).position)
          (((sampleAvatar (⟨0, 0, 0⟩ : Vec3 ℚ) ⟨5, 0, 0⟩ 1 sampleParentBall true)._bodyBall
            (i : Int)).radius)).2 < 1000 :=
    ⟨0, by decide, by simp [sampleRayIntersectsSphere, sampleAvatar, ballAt],
      by simp [sampleRayIntersectsSphere, sampleAvatar, ballAt]; norm_num⟩
  ⟨h, (findRayIntersection_nearest_hit sampleRayIntersectsSphere 1000
    (sampleAvatar (⟨0, 0, 0⟩ : Vec3 ℚ) ⟨5, 0, 0⟩ 1 sampleParentBall true)
    ⟨0, 0, 0⟩ ⟨1, 0, 0⟩ 7).1.2 h⟩

end Claims

end Hifi
